import Mathlib

/-!
Verification of the gumbo-parser core support components against their C
sources: the arena allocator (arena.c), the UTF-8 input cursor (utf8.c),
the diagnostic machinery (error.c), the string buffer (string_buffer.c),
the tag-name lookup (tag.c) and the character-reference resolver
(char_ref.rl).  Machine integers are modelled as Nat/Int; C pointers into
the input buffer are modelled as byte indices into a `List Nat` of bytes.
-/

set_option maxRecDepth 20000

/-- ASCII tolower, as C `tolower` behaves in the C locale on the byte
values the parser feeds it: uppercase letters gain 32, everything else is
returned unchanged. -/
def tolower (c : Nat) : Nat :=
  if 65 ≤ c ∧ c ≤ 90 then c + 32 else c

/-- C `isalnum` in the C locale, on non-negative character values
(the cursor also produces -1 for EOF, hence the Int argument). -/
def isalnum (c : Int) : Bool :=
  decide ((48 ≤ c ∧ c ≤ 57) ∨ (65 ≤ c ∧ c ≤ 90) ∨ (97 ≤ c ∧ c ≤ 122))

/-- Strict byte-wise lexicographic comparison on byte strings, the order
`strcmp` induces (a proper prefix compares smaller than its extensions). -/
def lexLt : List Nat → List Nat → Bool
  | [], [] => false
  | [], _ :: _ => true
  | _ :: _, [] => false
  | a :: as, b :: bs => if a < b then true else if b < a then false else lexLt as bs

/-- Proper-prefix test on byte strings. -/
def properPrefixOf (a b : List Nat) : Bool :=
  a.isPrefixOf b && a.length < b.length

/-! ## Options and diagnostics (gumbo.h / error.c)

The `GumboOptions` fields used by the components under `src/` are
`tab_stop` and `max_errors`. -/

structure GumboOptions where
  tab_stop : Nat
  max_errors : Int
deriving Repr, DecidableEq

/-- Modelled from the spec: the default options object
(`kGumboDefaultOptions`) is declared in parser.c, which is not part of the
sources at hand; the spec states `tab_stop` defaults to 8 and `max_errors`
defaults to -1 (unlimited). -/
def kGumboDefaultOptions : GumboOptions :=
  { tab_stop := 8, max_errors := -1 }

/-- Diagnostic kinds of error.h that the components under `src/` emit. -/
inductive GumboErrorType where
  | UTF8_INVALID
  | UTF8_TRUNCATED
  | NUMERIC_CHAR_REF_NO_DIGITS
  | NUMERIC_CHAR_REF_WITHOUT_SEMICOLON
  | NUMERIC_CHAR_REF_INVALID
  | NAMED_CHAR_REF_WITHOUT_SEMICOLON
  | NAMED_CHAR_REF_INVALID
deriving Repr, DecidableEq

/-- The type-tagged payload union `v` of GumboError: a codepoint value
(built as a uint64 in C) or a borrowed text slice (modelled by its bytes). -/
inductive GumboErrorPayload where
  | codepoint (v : Nat)
  | text (bytes : List Nat)
deriving Repr, DecidableEq

/-- One diagnostic record: type, source position (line, column, offset),
the `original_text` pointer (as a byte index into the input), payload. -/
structure GumboError where
  type : GumboErrorType
  line : Nat
  column : Nat
  offset : Nat
  original_text : Nat
  payload : GumboErrorPayload
deriving Repr, DecidableEq

/-- Guard of `gumbo_add_error` (error.c): a fresh error record is handed
out unless `max_errors` is non-negative and the number of recorded errors
has already reached it (in which case C returns NULL). -/
def gumbo_add_error_ok (max_errors : Int) (numErrors : Nat) : Bool :=
  !(decide (max_errors ≥ 0) && decide ((numErrors : Int) ≥ max_errors))

/-- Effect of `gumbo_add_error` followed by the caller filling in the
record: append the record when the cap allows it, do nothing otherwise. -/
def gumbo_add_error (max_errors : Int) (errors : List GumboError)
    (e : GumboError) : List GumboError :=
  if gumbo_add_error_ok max_errors errors.length then errors ++ [e] else errors

/-! ## Arena allocator (arena.c, constants from the arena.h snapshot)

The header declares `data[CHUNK_SIZE]` with CHUNK_SIZE = 400000 and
ALIGNMENT = 8; arena.c spells the same constants ARENA_CHUNK_SIZE and
ARENA_ALIGNMENT.  A chunk is identified by its birth index (1 = the chunk
made by `arena_init`); the head of the list is the chunk with the highest
index, and `allocation_ptr` is the byte offset of the bump cursor inside
the head chunk's `data` array. -/

def ARENA_CHUNK_SIZE : Nat := 400000

def ARENA_ALIGNMENT : Nat := 8

structure GumboArena where
  chunks : Nat
  allocation_ptr : Nat
deriving Repr, DecidableEq

/-- The `arena_init` state: one chunk, cursor at the start of its data. -/
def arena_init : GumboArena :=
  { chunks := 1, allocation_ptr := 0 }

/-- Rounding of `gumbo_arena_malloc`: the C source computes
`(size + ARENA_ALIGNMENT - 1) & ~(ARENA_ALIGNMENT - 1)`, which for any
size_t value below 2^64 - 7 equals rounding up to the next multiple of 8. -/
def aligned_size (size : Nat) : Nat :=
  ((size + ARENA_ALIGNMENT - 1) / ARENA_ALIGNMENT) * ARENA_ALIGNMENT

/-- Translation of `gumbo_arena_malloc` (arena.c lines 45-61).  The C test
`arena->allocation_ptr >= current_chunk->data + ARENA_CHUNK_SIZE - aligned_size`
compares addresses; subtracting the base address `current_chunk->data`
turns it into the integer comparison used here (the right-hand side is
negative when `aligned_size` exceeds the chunk size, so the test is then
always true).  Returns the new arena state together with the returned
block's (chunk index, byte offset inside that chunk's data). -/
def gumbo_arena_malloc (arena : GumboArena) (size : Nat) :
    GumboArena × Nat × Nat :=
  let asz := aligned_size size
  if (arena.allocation_ptr : Int) ≥ (ARENA_CHUNK_SIZE : Int) - (asz : Int) then
    let newChunks := arena.chunks + 1
    ({ chunks := newChunks, allocation_ptr := asz }, newChunks, 0)
  else
    ({ arena with allocation_ptr := arena.allocation_ptr + asz },
      arena.chunks, arena.allocation_ptr)

/-! ## UTF-8 cursor (utf8.c) -/

def kUtf8ReplacementChar : Nat := 0xFFFD

def UTF8_ACCEPT : Nat := 0

def UTF8_REJECT : Nat := 12

/-- The combined character-class / transition table `utf8d` of the
Hoehrmann DFA decoder (utf8.c lines 61-80): 256 class entries followed by
108 transition entries. -/
def utf8d : List Nat := [
  0, 0, 0, 0, 0, 0, 0, 0, 0, 0, 0, 0, 0, 0, 0, 0, 0, 0, 0, 0, 0, 0, 0, 0,
  0, 0, 0, 0, 0, 0, 0, 0, 0, 0, 0, 0, 0, 0, 0, 0, 0, 0, 0, 0, 0, 0, 0, 0,
  0, 0, 0, 0, 0, 0, 0, 0, 0, 0, 0, 0, 0, 0, 0, 0, 0, 0, 0, 0, 0, 0, 0, 0,
  0, 0, 0, 0, 0, 0, 0, 0, 0, 0, 0, 0, 0, 0, 0, 0, 0, 0, 0, 0, 0, 0, 0, 0,
  0, 0, 0, 0, 0, 0, 0, 0, 0, 0, 0, 0, 0, 0, 0, 0, 0, 0, 0, 0, 0, 0, 0, 0,
  0, 0, 0, 0, 0, 0, 0, 0, 1, 1, 1, 1, 1, 1, 1, 1, 1, 1, 1, 1, 1, 1, 1, 1,
  9, 9, 9, 9, 9, 9, 9, 9, 9, 9, 9, 9, 9, 9, 9, 9, 7, 7, 7, 7, 7, 7, 7, 7,
  7, 7, 7, 7, 7, 7, 7, 7, 7, 7, 7, 7, 7, 7, 7, 7, 7, 7, 7, 7, 7, 7, 7, 7,
  8, 8, 2, 2, 2, 2, 2, 2, 2, 2, 2, 2, 2, 2, 2, 2, 2, 2, 2, 2, 2, 2, 2, 2,
  2, 2, 2, 2, 2, 2, 2, 2, 10, 3, 3, 3, 3, 3, 3, 3, 3, 3, 3, 3, 3, 4, 3, 3,
  11, 6, 6, 6, 5, 8, 8, 8, 8, 8, 8, 8, 8, 8, 8, 8, 0, 12, 24, 36, 60, 96, 84, 12,
  12, 12, 48, 72, 12, 12, 12, 12, 12, 12, 12, 12, 12, 12, 12, 12, 12, 0, 12, 12, 12, 12, 12, 0,
  12, 0, 12, 12, 12, 24, 12, 12, 12, 12, 12, 24, 12, 24, 12, 12, 12, 12, 12, 12, 12, 12, 12, 24,
  12, 12, 12, 12, 12, 24, 12, 12, 12, 12, 12, 12, 12, 24, 12, 12, 12, 12, 12, 12, 12, 12, 12, 36,
  12, 36, 12, 12, 12, 36, 12, 12, 12, 12, 12, 36, 12, 36, 12, 12, 12, 36, 12, 12, 12, 12, 12, 12,
  12, 12, 12, 12 ]

/-- One step of the Hoehrmann decoder (`decode`, utf8.c lines 82-91),
returning the new state and the new partial codepoint. -/
def decode (state codep byte : Nat) : Nat × Nat :=
  let type := utf8d.getD byte 0
  let codep' :=
    if state ≠ UTF8_ACCEPT then (byte &&& 0x3f) ||| (codep <<< 6)
    else (0xff >>> type) &&& byte
  (utf8d.getD (256 + state + type) 0, codep')

/-- Outcome of the scanning loop inside `read_char`: either some byte
produced UTF8_ACCEPT (with the final codepoint and the width
`c - iter->_start + 1`), or some byte produced UTF8_REJECT (with the width
`c - iter->_start + (c == iter->_start)`), or the input ran out
mid-sequence. -/
inductive ReadOutcome where
  | accepted (codepoint width : Nat)
  | rejected (width : Nat)
  | truncated
deriving Repr, DecidableEq

/-- The `for (const char* c = iter->_start; c < iter->_end; ++c)` loop of
`read_char` (utf8.c lines 132-178), with `idx` the distance `c - _start`. -/
def readLoop : List Nat → Nat → Nat → Nat → ReadOutcome
  | [], _, _, _ => .truncated
  | b :: rest, state, codep, idx =>
    let (state', codep') := decode state codep b
    if state' = UTF8_ACCEPT then .accepted codep' (idx + 1)
    else if state' = UTF8_REJECT then
      .rejected (idx + (if idx = 0 then 1 else 0))
    else readLoop rest state' codep' (idx + 1)

/-- Characters forbidden by the HTML5 spec
(`utf8_is_invalid_code_point`, utf8.c lines 312-316). -/
def utf8_is_invalid_code_point (c : Nat) : Bool :=
  decide ((c ≥ 0x1 ∧ c ≤ 0x8) ∨ c = 0xB ∨ (c ≥ 0xE ∧ c ≤ 0x1F) ∨
    (c ≥ 0x7F ∧ c ≤ 0x9F) ∨ (c ≥ 0xFDD0 ∧ c ≤ 0xFDEF) ∨
    (c &&& 0xFFFF) = 0xFFFE ∨ (c &&& 0xFFFF) = 0xFFFF)

/-- The Utf8Iterator of utf8.h: the input buffer (`_start`/`_end` become a
byte list plus the index `start` of the current character), the current
decoded character and its byte width, the source position, the single
mark slot, and the parser pieces `read_char` touches (the error list and
the options). -/
structure Utf8Iterator where
  input : List Nat
  start : Nat
  current : Int
  width : Nat
  line : Nat
  column : Nat
  offset : Nat
  mark_start : Nat
  mark_line : Nat
  mark_column : Nat
  mark_offset : Nat
  errors : List GumboError
  tab_stop : Nat
  max_errors : Int
deriving Repr, DecidableEq

/-- The raw hex payload that `add_error` (utf8.c lines 108-115) builds
from the `_width` bytes under the cursor:
`code_point = (code_point << 8) | (unsigned char) iter->_start[i]`. -/
def rawBytesPayload (iter : Utf8Iterator) : Nat :=
  (List.range iter.width).foldl
    (fun acc i => (acc <<< 8) ||| iter.input.getD (iter.start + i) 0) 0

/-- Translation of the utf8.c `add_error` helper (lines 97-116): record a
diagnostic at the current position whose codepoint payload is the raw hex
value of the bytes under the cursor, subject to the max_errors cap. -/
def utf8_add_error (iter : Utf8Iterator) (type : GumboErrorType) : Utf8Iterator :=
  let e : GumboError :=
    { type := type, line := iter.line, column := iter.column,
      offset := iter.offset, original_text := iter.start,
      payload := .codepoint (rawBytesPayload iter) }
  { iter with errors := gumbo_add_error iter.max_errors iter.errors e }

/-- Translation of `read_char` (utf8.c lines 122-186): EOF handling, the
decoding loop, CR/LF normalization, the invalid-codepoint replacement, and
the reject/truncation recovery paths. -/
def read_char (iter : Utf8Iterator) : Utf8Iterator :=
  if iter.start ≥ iter.input.length then
    { iter with current := -1, width := 0 }
  else
    match readLoop (iter.input.drop iter.start) UTF8_ACCEPT 0 0 with
    | .accepted cp w =>
      let iter := { iter with width := w }
      let (iter, cp) :=
        if cp = 13 then
          let next := iter.start + 1
          if next < iter.input.length ∧ iter.input.getD next 0 = 10 then
            ({ iter with start := iter.start + 1, offset := iter.offset + 1 }, 10)
          else (iter, 10)
        else (iter, cp)
      if utf8_is_invalid_code_point cp then
        let iter := utf8_add_error iter .UTF8_INVALID
        { iter with current := (kUtf8ReplacementChar : Int) }
      else
        { iter with current := (cp : Int) }
    | .rejected w =>
      let iter := { iter with width := w, current := (kUtf8ReplacementChar : Int) }
      utf8_add_error iter .UTF8_INVALID
    | .truncated =>
      let iter := { iter with current := (kUtf8ReplacementChar : Int),
                              width := iter.input.length - iter.start }
      utf8_add_error iter .UTF8_TRUNCATED

/-- Translation of `update_position` (utf8.c lines 297-308). -/
def update_position (iter : Utf8Iterator) : Utf8Iterator :=
  let iter := { iter with offset := iter.offset + iter.width }
  if iter.current = 10 then
    { iter with line := iter.line + 1, column := 1 }
  else if iter.current = 9 then
    { iter with column := ((iter.column / iter.tab_stop) + 1) * iter.tab_stop }
  else if iter.current ≠ -1 then
    { iter with column := iter.column + 1 }
  else iter

/-- Translation of `utf8iterator_init` (utf8.c lines 318-328). -/
def utf8iterator_init (options : GumboOptions) (input : List Nat) : Utf8Iterator :=
  read_char
    { input := input, start := 0, current := 0, width := 0,
      line := 1, column := 1, offset := 0,
      mark_start := 0, mark_line := 1, mark_column := 1, mark_offset := 0,
      errors := [], tab_stop := options.tab_stop, max_errors := options.max_errors }

/-- Translation of `utf8iterator_next` (utf8.c lines 330-336). -/
def utf8iterator_next (iter : Utf8Iterator) : Utf8Iterator :=
  let iter := update_position iter
  let iter := { iter with start := iter.start + iter.width }
  read_char iter

/-- Translation of `utf8iterator_mark` (utf8.c lines 367-370). -/
def utf8iterator_mark (iter : Utf8Iterator) : Utf8Iterator :=
  { iter with mark_start := iter.start, mark_line := iter.line,
              mark_column := iter.column, mark_offset := iter.offset }

/-- Translation of `utf8iterator_reset` (utf8.c lines 373-377). -/
def utf8iterator_reset (iter : Utf8Iterator) : Utf8Iterator :=
  read_char
    { iter with start := iter.mark_start, line := iter.mark_line,
                column := iter.mark_column, offset := iter.mark_offset }

/-- Translation of `utf8iterator_maybe_consume_match` (utf8.c lines
351-365); `strncmp`/`strncasecmp` become (case-folded) equality of the
`length` bytes at the cursor with the pattern. -/
def utf8iterator_maybe_consume_match (iter : Utf8Iterator)
    (pat : List Nat) (case_sensitive : Bool) : Utf8Iterator × Bool :=
  let window := (iter.input.drop iter.start).take pat.length
  let matched := iter.start + pat.length ≤ iter.input.length ∧
    (if case_sensitive then window = pat
     else window.map tolower = pat.map tolower)
  if matched then
    ((List.range pat.length).foldl (fun it _ => utf8iterator_next it) iter, true)
  else (iter, false)

/-! ## String buffer codepoint append (string_buffer.c) -/

/-- Byte sequence that `gumbo_string_buffer_append_codepoint`
(string_buffer.c lines 83-107) writes for codepoint `c`: the prefix byte
`prefix | (c >> (num_bytes * 6))` followed by `num_bytes` continuation
bytes `0x80 | (0x3f & (c >> (i * 6)))` for i = num_bytes-1 down to 0
(`num_bytes` counts continuation bytes only).  The capacity handling of
the C function only grows the buffer and is dropped here; appending to a
buffer is list concatenation with these bytes. -/
def append_codepoint_bytes (c : Nat) : List Nat :=
  let nbp : Nat × Nat :=
    if c ≤ 0x7f then (0, 0)
    else if c ≤ 0x7ff then (1, 0xc0)
    else if c ≤ 0xffff then (2, 0xe0)
    else (3, 0xf0)
  let num_bytes := nbp.1
  let pfx := nbp.2
  (pfx ||| (c >>> (num_bytes * 6))) ::
    (List.range num_bytes).reverse.map (fun i => 0x80 ||| (0x3f &&& (c >>> (i * 6))))

/-- Translation of `gumbo_string_buffer_append_codepoint` on the byte
content of the buffer. -/
def gumbo_string_buffer_append_codepoint (c : Nat) (buffer : List Nat) : List Nat :=
  buffer ++ append_codepoint_bytes c

/-! ## Tag lookup (tag.c)

`kGumboTagNames` in this snapshot has 152 entries: the 149 names at
indices 0-148, the empty string at index 149 (GUMBO_TAG_UNKNOWN), "rtc"
at index 150, and the empty string at index 151 (GUMBO_TAG_LAST).  Names
are modelled as byte lists. -/

def kGumboTagNames : List (List Nat) := [
  [104, 116, 109, 108],
  [104, 101, 97, 100],
  [116, 105, 116, 108, 101],
  [98, 97, 115, 101],
  [108, 105, 110, 107],
  [109, 101, 116, 97],
  [115, 116, 121, 108, 101],
  [115, 99, 114, 105, 112, 116],
  [110, 111, 115, 99, 114, 105, 112, 116],
  [116, 101, 109, 112, 108, 97, 116, 101],
  [98, 111, 100, 121],
  [97, 114, 116, 105, 99, 108, 101],
  [115, 101, 99, 116, 105, 111, 110],
  [110, 97, 118],
  [97, 115, 105, 100, 101],
  [104, 49],
  [104, 50],
  [104, 51],
  [104, 52],
  [104, 53],
  [104, 54],
  [104, 103, 114, 111, 117, 112],
  [104, 101, 97, 100, 101, 114],
  [102, 111, 111, 116, 101, 114],
  [97, 100, 100, 114, 101, 115, 115],
  [112],
  [104, 114],
  [112, 114, 101],
  [98, 108, 111, 99, 107, 113, 117, 111, 116, 101],
  [111, 108],
  [117, 108],
  [108, 105],
  [100, 108],
  [100, 116],
  [100, 100],
  [102, 105, 103, 117, 114, 101],
  [102, 105, 103, 99, 97, 112, 116, 105, 111, 110],
  [109, 97, 105, 110],
  [100, 105, 118],
  [97],
  [101, 109],
  [115, 116, 114, 111, 110, 103],
  [115, 109, 97, 108, 108],
  [115],
  [99, 105, 116, 101],
  [113],
  [100, 102, 110],
  [97, 98, 98, 114],
  [100, 97, 116, 97],
  [116, 105, 109, 101],
  [99, 111, 100, 101],
  [118, 97, 114],
  [115, 97, 109, 112],
  [107, 98, 100],
  [115, 117, 98],
  [115, 117, 112],
  [105],
  [98],
  [117],
  [109, 97, 114, 107],
  [114, 117, 98, 121],
  [114, 116],
  [114, 112],
  [98, 100, 105],
  [98, 100, 111],
  [115, 112, 97, 110],
  [98, 114],
  [119, 98, 114],
  [105, 110, 115],
  [100, 101, 108],
  [105, 109, 97, 103, 101],
  [105, 109, 103],
  [105, 102, 114, 97, 109, 101],
  [101, 109, 98, 101, 100],
  [111, 98, 106, 101, 99, 116],
  [112, 97, 114, 97, 109],
  [118, 105, 100, 101, 111],
  [97, 117, 100, 105, 111],
  [115, 111, 117, 114, 99, 101],
  [116, 114, 97, 99, 107],
  [99, 97, 110, 118, 97, 115],
  [109, 97, 112],
  [97, 114, 101, 97],
  [109, 97, 116, 104],
  [109, 105],
  [109, 111],
  [109, 110],
  [109, 115],
  [109, 116, 101, 120, 116],
  [109, 103, 108, 121, 112, 104],
  [109, 97, 108, 105, 103, 110, 109, 97, 114, 107],
  [97, 110, 110, 111, 116, 97, 116, 105, 111, 110, 45, 120, 109, 108],
  [115, 118, 103],
  [102, 111, 114, 101, 105, 103, 110, 111, 98, 106, 101, 99, 116],
  [100, 101, 115, 99],
  [116, 97, 98, 108, 101],
  [99, 97, 112, 116, 105, 111, 110],
  [99, 111, 108, 103, 114, 111, 117, 112],
  [99, 111, 108],
  [116, 98, 111, 100, 121],
  [116, 104, 101, 97, 100],
  [116, 102, 111, 111, 116],
  [116, 114],
  [116, 100],
  [116, 104],
  [102, 111, 114, 109],
  [102, 105, 101, 108, 100, 115, 101, 116],
  [108, 101, 103, 101, 110, 100],
  [108, 97, 98, 101, 108],
  [105, 110, 112, 117, 116],
  [98, 117, 116, 116, 111, 110],
  [115, 101, 108, 101, 99, 116],
  [100, 97, 116, 97, 108, 105, 115, 116],
  [111, 112, 116, 103, 114, 111, 117, 112],
  [111, 112, 116, 105, 111, 110],
  [116, 101, 120, 116, 97, 114, 101, 97],
  [107, 101, 121, 103, 101, 110],
  [111, 117, 116, 112, 117, 116],
  [112, 114, 111, 103, 114, 101, 115, 115],
  [109, 101, 116, 101, 114],
  [100, 101, 116, 97, 105, 108, 115],
  [115, 117, 109, 109, 97, 114, 121],
  [109, 101, 110, 117],
  [109, 101, 110, 117, 105, 116, 101, 109],
  [97, 112, 112, 108, 101, 116],
  [97, 99, 114, 111, 110, 121, 109],
  [98, 103, 115, 111, 117, 110, 100],
  [100, 105, 114],
  [102, 114, 97, 109, 101],
  [102, 114, 97, 109, 101, 115, 101, 116],
  [110, 111, 102, 114, 97, 109, 101, 115],
  [105, 115, 105, 110, 100, 101, 120],
  [108, 105, 115, 116, 105, 110, 103],
  [120, 109, 112],
  [110, 101, 120, 116, 105, 100],
  [110, 111, 101, 109, 98, 101, 100],
  [112, 108, 97, 105, 110, 116, 101, 120, 116],
  [114, 98],
  [115, 116, 114, 105, 107, 101],
  [98, 97, 115, 101, 102, 111, 110, 116],
  [98, 105, 103],
  [98, 108, 105, 110, 107],
  [99, 101, 110, 116, 101, 114],
  [102, 111, 110, 116],
  [109, 97, 114, 113, 117, 101, 101],
  [109, 117, 108, 116, 105, 99, 111, 108],
  [110, 111, 98, 114],
  [115, 112, 97, 99, 101, 114],
  [116, 116],
  [],
  [114, 116, 99],
  [] ]

def GUMBO_TAG_UNKNOWN : Nat := 149

def GUMBO_TAG_LAST : Nat := 151

/-- Translation of `gumbo_normalized_tagname` (tag.c lines 183-186). -/
def gumbo_normalized_tagname (tag : Nat) : List Nat :=
  kGumboTagNames.getD tag []

/-- The `g` table of the generated perfect hash `hash_tag` (tag.c);
entries are C shorts and include -1. -/
def hashG : List Int := [
  87, -1, -1, 54, 37, -1, 0, 63, -1, 4, 87, 132, 149, -1, 43, 103, 78, 89, 126, 74, 9, -1, 32, 68,
  46, 132, 14, -1, -1, 147, 77, 120, 101, 138, 38, -1, 135, 24, 94, -1, 36, 88, 101, 29, -1, 83, 122, -1,
  126, 148, 145, 46, 90, 94, 83, 140, -1, 4, -1, 103, 25, 0, 0, 129, 138, 0, 138, 53, -1, 0, 77, 43,
  0, -1, 90, 22, 30, 109, 71, 1, -1, 94, 20, -1, 27, 56, 0, 21, 72, 122, -1, -1, 0, 142, 72, 5,
  11, 7, 43, 111, 89, 96, 81, 48, 65, 27, 5, 73, -1, 57, 137, 52, 0, 60, -1, 3, -1, 100, 149, 41,
  98, 118, 81, 0, 50, 30, -1, -1, 83, 10, 20, 25, 2, 0, 118, 9, 39, 94, 35, 42, 23, 75, 89, 31,
  0, 148, 86, 6, 115, -1, 49, 107, 5, 90, 4, 12, -1, 21, 16, -1, 29, 39, -1, 96, 111, 96, 43, 43,
  120, -1, 46, 84, -1, 0, 146, 126, 24, -1, 28, 110, 82, 42, 12, 84, -1, -1, -1, 0, 33, 12, 86, 93,
  -1, 147, 95, 58, 90, 145, -1, -1 ]

/-- The `T0` table of `hash_tag`. -/
def hashT0 : List Nat := [
  196, 103, 27, 185, 60, 0, 58, 36, 180, 118, 101, 180, 61, 125, 144, 167, 140, 104, 131, 195, 176, 62, 79, 175,
  195, 103, 116, 194, 122, 73, 44, 119, 128, 23, 56, 188, 23, 114, 24, 156, 32, 78, 136, 46, 3, 32, 165, 95,
  136, 97, 90, 65, 111, 121, 40, 106, 25, 108, 53, 99, 181, 49, 18, 110, 72, 74, 50, 48, 141, 27, 4, 125,
  105, 92, 171, 60, 124, 1, 72, 96, 178, 59, 58, 61, 0, 185, 12, 176, 111, 121, 49, 170, 70, 48, 43, 82,
  178, 157, 34, 62, 137, 148, 110, 160, 96, 11, 50, 22, 12, 74, 71, 143, 133, 129, 4, 86, 67, 168, 62, 130,
  41, 63, 101, 63, 112, 96, 146, 90, 5, 132, 153, 95, 32, 15, 7, 80, 26, 57, 103, 191, 83, 126, 134, 169,
  55, 90, 55, 74, 58, 69, 5, 99, 132, 58 ]

/-- The `T1` table of `hash_tag`. -/
def hashT1 : List Nat := [
  87, 14, 91, 162, 194, 198, 131, 1, 89, 2, 154, 17, 98, 25, 7, 121, 145, 178, 28, 70, 94, 135, 77, 129,
  134, 137, 69, 128, 88, 126, 114, 175, 92, 5, 89, 87, 3, 20, 88, 44, 174, 194, 14, 73, 171, 21, 194, 117,
  151, 175, 139, 45, 110, 17, 127, 196, 106, 148, 124, 194, 26, 190, 169, 118, 195, 59, 157, 150, 31, 197, 147, 6,
  143, 161, 79, 67, 134, 68, 163, 61, 104, 124, 56, 39, 115, 99, 140, 101, 63, 91, 124, 4, 134, 110, 132, 61,
  150, 96, 116, 167, 80, 174, 115, 169, 14, 184, 24, 47, 4, 188, 60, 109, 64, 68, 148, 179, 168, 41, 80, 183,
  84, 156, 187, 18, 18, 119, 79, 169, 168, 148, 88, 0, 122, 3, 169, 88, 139, 146, 88, 144, 86, 148, 5, 150,
  17, 105, 81, 137, 98, 113, 120, 182, 69, 107 ]

/-- The loop of `hash_tag` (tag.c lines 304-313): accumulate
`f0 += T0[i + c]` and `f1 += T1[i + c]` over the `tolower`ed bytes, with
the window base `i` alternating between -45 and 32 (it starts at -45,
gains 77 per step and wraps back at 109); bytes outside [45, 121] abort
with -1.  `i + c` is therefore in [0, 153] and is modelled as the Nat
index `c - 45` or `c - 45 + 77`. -/
def hashTagLoop : List Nat → Nat → Nat → Nat → Option (Nat × Nat)
  | [], _, f0, f1 => some (f0, f1)
  | b :: rest, i, f0, f1 =>
    let c := tolower b
    if c < 45 ∨ c > 121 then none
    else hashTagLoop rest (if i = 0 then 77 else 0)
      (f0 + hashT0.getD (i + (c - 45)) 0) (f1 + hashT1.getD (i + (c - 45)) 0)

/-- Translation of `hash_tag` (tag.c lines 235-315).  The final line is
`(g[f0 % 200] + g[f1 % 200]) % 150` on C ints, whose `%` truncates toward
zero; `Int.tmod` has the same convention. -/
def hash_tag (kp : List Nat) (len : Nat) : Int :=
  if len < 1 ∨ len > 14 then -1
  else match hashTagLoop (kp.take len) 0 0 0 with
    | none => -1
    | some (f0, f1) =>
      Int.tmod (hashG.getD (f0 % 200) 0 + hashG.getD (f1 % 200) 0) 150

/-- Translation of `case_memcmp` (tag.c lines 317-327); reading past the
end of a byte string yields the NUL terminator, modelled by `getD _ 0`. -/
def case_memcmp (s1 s2 : List Nat) : Nat → Int
  | 0 => 0
  | n + 1 =>
    let c1 := tolower (s1.headD 0)
    let c2 := tolower (s2.headD 0)
    if c1 ≠ c2 then (c1 : Int) - (c2 : Int)
    else case_memcmp (s1.tail) (s2.tail) n

/-- Translation of `gumbo_tagn_enum` (tag.c lines 329-334); the result is
the tag enum value as a Nat (GUMBO_TAG_UNKNOWN = 149). -/
def gumbo_tagn_enum (tagname : List Nat) (length : Nat) : Nat :=
  let position := hash_tag tagname length
  if position ≥ 0 ∧
      case_memcmp tagname (kGumboTagNames.getD position.toNat []) length = 0 then
    position.toNat
  else GUMBO_TAG_UNKNOWN

/-- Translation of `gumbo_tag_enum` (tag.c lines 336-338): `strlen` of a
NUL-free byte string is its length. -/
def gumbo_tag_enum (tagname : List Nat) : Nat :=
  gumbo_tagn_enum tagname tagname.length

/-! ## Character references (char_ref.rl)

`kNamedEntities` (char_ref lines 137-2370) lists every named character
entity with its one or two codepoints (second = -1 = kGumboNoChar when
absent).  The Ragel literal list further down the same file (the
`valid_named_ref` scanner) contains exactly the same 2230 name/codepoint
pairs in the same order; the table below therefore serves as the single
authoritative entity set for both.  Names are byte lists; the C table
also stores each name's length, which here is `name.length`. -/

def kGumboNoChar : Int := -1

structure NamedCharRef where
  name : List Nat
  first : Int
  second : Int
deriving Repr, DecidableEq

/-- CHAR_REF entry: one codepoint, no second. -/
def mkRef1 (name : List Nat) (c : Int) : NamedCharRef :=
  { name := name, first := c, second := -1 }

/-- MULTI_CHAR_REF entry: two codepoints. -/
def mkRef (name : List Nat) (c c2 : Int) : NamedCharRef :=
  { name := name, first := c, second := c2 }

def kNamedEntities0 : List NamedCharRef := [
  mkRef1 [65, 69, 108, 105, 103] 198,
  mkRef1 [65, 77, 80, 59] 38,
  mkRef1 [65, 77, 80] 38,
  mkRef1 [65, 97, 99, 117, 116, 101, 59] 193,
  mkRef1 [65, 97, 99, 117, 116, 101] 193,
  mkRef1 [65, 98, 114, 101, 118, 101, 59] 258,
  mkRef1 [65, 99, 105, 114, 99, 59] 194,
  mkRef1 [65, 99, 105, 114, 99] 194,
  mkRef1 [65, 99, 121, 59] 1040,
  mkRef1 [65, 102, 114, 59] 120068,
  mkRef1 [65, 103, 114, 97, 118, 101, 59] 192,
  mkRef1 [65, 103, 114, 97, 118, 101] 192,
  mkRef1 [65, 108, 112, 104, 97, 59] 913,
  mkRef1 [65, 109, 97, 99, 114, 59] 256,
  mkRef1 [65, 110, 100, 59] 10835,
  mkRef1 [65, 111, 103, 111, 110, 59] 260,
  mkRef1 [65, 111, 112, 102, 59] 120120,
  mkRef1 [65, 112, 112, 108, 121, 70, 117, 110, 99, 116, 105, 111, 110, 59] 8289,
  mkRef1 [65, 114, 105, 110, 103, 59] 197,
  mkRef1 [65, 114, 105, 110, 103] 197,
  mkRef1 [65, 115, 99, 114, 59] 119964,
  mkRef1 [65, 115, 115, 105, 103, 110, 59] 8788,
  mkRef1 [65, 116, 105, 108, 100, 101, 59] 195,
  mkRef1 [65, 116, 105, 108, 100, 101] 195,
  mkRef1 [65, 117, 109, 108, 59] 196,
  mkRef1 [65, 117, 109, 108] 196,
  mkRef1 [66, 97, 99, 107, 115, 108, 97, 115, 104, 59] 8726,
  mkRef1 [66, 97, 114, 118, 59] 10983,
  mkRef1 [66, 97, 114, 119, 101, 100, 59] 8966,
  mkRef1 [66, 99, 121, 59] 1041,
  mkRef1 [66, 101, 99, 97, 117, 115, 101, 59] 8757,
  mkRef1 [66, 101, 114, 110, 111, 117, 108, 108, 105, 115, 59] 8492,
  mkRef1 [66, 101, 116, 97, 59] 914,
  mkRef1 [66, 102, 114, 59] 120069,
  mkRef1 [66, 111, 112, 102, 59] 120121,
  mkRef1 [66, 114, 101, 118, 101, 59] 728,
  mkRef1 [66, 115, 99, 114, 59] 8492,
  mkRef1 [66, 117, 109, 112, 101, 113, 59] 8782,
  mkRef1 [67, 72, 99, 121, 59] 1063,
  mkRef1 [67, 79, 80, 89, 59] 169,
  mkRef1 [67, 79, 80, 89] 169,
  mkRef1 [67, 97, 99, 117, 116, 101, 59] 262,
  mkRef1 [67, 97, 112, 59] 8914,
  mkRef1 [67, 97, 112, 105, 116, 97, 108, 68, 105, 102, 102, 101, 114, 101, 110, 116, 105, 97, 108, 68, 59] 8517,
  mkRef1 [67, 97, 121, 108, 101, 121, 115, 59] 8493,
  mkRef1 [67, 99, 97, 114, 111, 110, 59] 268,
  mkRef1 [67, 99, 101, 100, 105, 108, 59] 199,
  mkRef1 [67, 99, 101, 100, 105, 108] 199,
  mkRef1 [67, 99, 105, 114, 99, 59] 264,
  mkRef1 [67, 99, 111, 110, 105, 110, 116, 59] 8752,
  mkRef1 [67, 100, 111, 116, 59] 266,
  mkRef1 [67, 101, 100, 105, 108, 108, 97, 59] 184,
  mkRef1 [67, 101, 110, 116, 101, 114, 68, 111, 116, 59] 183,
  mkRef1 [67, 102, 114, 59] 8493,
  mkRef1 [67, 104, 105, 59] 935,
  mkRef1 [67, 105, 114, 99, 108, 101, 68, 111, 116, 59] 8857,
  mkRef1 [67, 105, 114, 99, 108, 101, 77, 105, 110, 117, 115, 59] 8854,
  mkRef1 [67, 105, 114, 99, 108, 101, 80, 108, 117, 115, 59] 8853,
  mkRef1 [67, 105, 114, 99, 108, 101, 84, 105, 109, 101, 115, 59] 8855,
  mkRef1 [67, 108, 111, 99, 107, 119, 105, 115, 101, 67, 111, 110, 116, 111, 117, 114, 73, 110, 116, 101, 103, 114, 97, 108, 59] 8754,
  mkRef1 [67, 108, 111, 115, 101, 67, 117, 114, 108, 121, 68, 111, 117, 98, 108, 101, 81, 117, 111, 116, 101, 59] 8221,
  mkRef1 [67, 108, 111, 115, 101, 67, 117, 114, 108, 121, 81, 117, 111, 116, 101, 59] 8217,
  mkRef1 [67, 111, 108, 111, 110, 59] 8759,
  mkRef1 [67, 111, 108, 111, 110, 101, 59] 10868,
  mkRef1 [67, 111, 110, 103, 114, 117, 101, 110, 116, 59] 8801,
  mkRef1 [67, 111, 110, 105, 110, 116, 59] 8751,
  mkRef1 [67, 111, 110, 116, 111, 117, 114, 73, 110, 116, 101, 103, 114, 97, 108, 59] 8750,
  mkRef1 [67, 111, 112, 102, 59] 8450,
  mkRef1 [67, 111, 112, 114, 111, 100, 117, 99, 116, 59] 8720,
  mkRef1 [67, 111, 117, 110, 116, 101, 114, 67, 108, 111, 99, 107, 119, 105, 115, 101, 67, 111, 110, 116, 111, 117, 114, 73, 110, 116, 101, 103, 114, 97, 108, 59] 8755,
  mkRef1 [67, 114, 111, 115, 115, 59] 10799,
  mkRef1 [67, 115, 99, 114, 59] 119966,
  mkRef1 [67, 117, 112, 59] 8915,
  mkRef1 [67, 117, 112, 67, 97, 112, 59] 8781,
  mkRef1 [68, 68, 59] 8517,
  mkRef1 [68, 68, 111, 116, 114, 97, 104, 100, 59] 10513,
  mkRef1 [68, 74, 99, 121, 59] 1026,
  mkRef1 [68, 83, 99, 121, 59] 1029,
  mkRef1 [68, 90, 99, 121, 59] 1039,
  mkRef1 [68, 97, 103, 103, 101, 114, 59] 8225,
  mkRef1 [68, 97, 114, 114, 59] 8609,
  mkRef1 [68, 97, 115, 104, 118, 59] 10980,
  mkRef1 [68, 99, 97, 114, 111, 110, 59] 270,
  mkRef1 [68, 99, 121, 59] 1044,
  mkRef1 [68, 101, 108, 59] 8711,
  mkRef1 [68, 101, 108, 116, 97, 59] 916,
  mkRef1 [68, 102, 114, 59] 120071,
  mkRef1 [68, 105, 97, 99, 114, 105, 116, 105, 99, 97, 108, 65, 99, 117, 116, 101, 59] 180,
  mkRef1 [68, 105, 97, 99, 114, 105, 116, 105, 99, 97, 108, 68, 111, 116, 59] 729,
  mkRef1 [68, 105, 97, 99, 114, 105, 116, 105, 99, 97, 108, 68, 111, 117, 98, 108, 101, 65, 99, 117, 116, 101, 59] 733,
  mkRef1 [68, 105, 97, 99, 114, 105, 116, 105, 99, 97, 108, 71, 114, 97, 118, 101, 59] 96,
  mkRef1 [68, 105, 97, 99, 114, 105, 116, 105, 99, 97, 108, 84, 105, 108, 100, 101, 59] 732,
  mkRef1 [68, 105, 97, 109, 111, 110, 100, 59] 8900,
  mkRef1 [68, 105, 102, 102, 101, 114, 101, 110, 116, 105, 97, 108, 68, 59] 8518,
  mkRef1 [68, 111, 112, 102, 59] 120123,
  mkRef1 [68, 111, 116, 59] 168,
  mkRef1 [68, 111, 116, 68, 111, 116, 59] 8412,
  mkRef1 [68, 111, 116, 69, 113, 117, 97, 108, 59] 8784,
  mkRef1 [68, 111, 117, 98, 108, 101, 67, 111, 110, 116, 111, 117, 114, 73, 110, 116, 101, 103, 114, 97, 108, 59] 8751,
  mkRef1 [68, 111, 117, 98, 108, 101, 68, 111, 116, 59] 168,
  mkRef1 [68, 111, 117, 98, 108, 101, 68, 111, 119, 110, 65, 114, 114, 111, 119, 59] 8659,
  mkRef1 [68, 111, 117, 98, 108, 101, 76, 101, 102, 116, 65, 114, 114, 111, 119, 59] 8656,
  mkRef1 [68, 111, 117, 98, 108, 101, 76, 101, 102, 116, 82, 105, 103, 104, 116, 65, 114, 114, 111, 119, 59] 8660,
  mkRef1 [68, 111, 117, 98, 108, 101, 76, 101, 102, 116, 84, 101, 101, 59] 10980,
  mkRef1 [68, 111, 117, 98, 108, 101, 76, 111, 110, 103, 76, 101, 102, 116, 65, 114, 114, 111, 119, 59] 10232,
  mkRef1 [68, 111, 117, 98, 108, 101, 76, 111, 110, 103, 76, 101, 102, 116, 82, 105, 103, 104, 116, 65, 114, 114, 111, 119, 59] 10234,
  mkRef1 [68, 111, 117, 98, 108, 101, 76, 111, 110, 103, 82, 105, 103, 104, 116, 65, 114, 114, 111, 119, 59] 10233,
  mkRef1 [68, 111, 117, 98, 108, 101, 82, 105, 103, 104, 116, 65, 114, 114, 111, 119, 59] 8658,
  mkRef1 [68, 111, 117, 98, 108, 101, 82, 105, 103, 104, 116, 84, 101, 101, 59] 8872,
  mkRef1 [68, 111, 117, 98, 108, 101, 85, 112, 65, 114, 114, 111, 119, 59] 8657,
  mkRef1 [68, 111, 117, 98, 108, 101, 85, 112, 68, 111, 119, 110, 65, 114, 114, 111, 119, 59] 8661,
  mkRef1 [68, 111, 117, 98, 108, 101, 86, 101, 114, 116, 105, 99, 97, 108, 66, 97, 114, 59] 8741,
  mkRef1 [68, 111, 119, 110, 65, 114, 114, 111, 119, 59] 8595,
  mkRef1 [68, 111, 119, 110, 65, 114, 114, 111, 119, 66, 97, 114, 59] 10515,
  mkRef1 [68, 111, 119, 110, 65, 114, 114, 111, 119, 85, 112, 65, 114, 114, 111, 119, 59] 8693,
  mkRef1 [68, 111, 119, 110, 66, 114, 101, 118, 101, 59] 785,
  mkRef1 [68, 111, 119, 110, 76, 101, 102, 116, 82, 105, 103, 104, 116, 86, 101, 99, 116, 111, 114, 59] 10576,
  mkRef1 [68, 111, 119, 110, 76, 101, 102, 116, 84, 101, 101, 86, 101, 99, 116, 111, 114, 59] 10590,
  mkRef1 [68, 111, 119, 110, 76, 101, 102, 116, 86, 101, 99, 116, 111, 114, 59] 8637,
  mkRef1 [68, 111, 119, 110, 76, 101, 102, 116, 86, 101, 99, 116, 111, 114, 66, 97, 114, 59] 10582,
  mkRef1 [68, 111, 119, 110, 82, 105, 103, 104, 116, 84, 101, 101, 86, 101, 99, 116, 111, 114, 59] 10591,
  mkRef1 [68, 111, 119, 110, 82, 105, 103, 104, 116, 86, 101, 99, 116, 111, 114, 59] 8641,
  mkRef1 [68, 111, 119, 110, 82, 105, 103, 104, 116, 86, 101, 99, 116, 111, 114, 66, 97, 114, 59] 10583,
  mkRef1 [68, 111, 119, 110, 84, 101, 101, 59] 8868,
  mkRef1 [68, 111, 119, 110, 84, 101, 101, 65, 114, 114, 111, 119, 59] 8615,
  mkRef1 [68, 111, 119, 110, 97, 114, 114, 111, 119, 59] 8659,
  mkRef1 [68, 115, 99, 114, 59] 119967,
  mkRef1 [68, 115, 116, 114, 111, 107, 59] 272,
  mkRef1 [69, 78, 71, 59] 330,
  mkRef1 [69, 84, 72, 59] 208,
  mkRef1 [69, 84, 72] 208,
  mkRef1 [69, 97, 99, 117, 116, 101, 59] 201,
  mkRef1 [69, 97, 99, 117, 116, 101] 201,
  mkRef1 [69, 99, 97, 114, 111, 110, 59] 282,
  mkRef1 [69, 99, 105, 114, 99, 59] 202,
  mkRef1 [69, 99, 105, 114, 99] 202,
  mkRef1 [69, 99, 121, 59] 1069,
  mkRef1 [69, 100, 111, 116, 59] 278,
  mkRef1 [69, 102, 114, 59] 120072,
  mkRef1 [69, 103, 114, 97, 118, 101, 59] 200,
  mkRef1 [69, 103, 114, 97, 118, 101] 200,
  mkRef1 [69, 108, 101, 109, 101, 110, 116, 59] 8712,
  mkRef1 [69, 109, 97, 99, 114, 59] 274,
  mkRef1 [69, 109, 112, 116, 121, 83, 109, 97, 108, 108, 83, 113, 117, 97, 114, 101, 59] 9723,
  mkRef1 [69, 109, 112, 116, 121, 86, 101, 114, 121, 83, 109, 97, 108, 108, 83, 113, 117, 97, 114, 101, 59] 9643,
  mkRef1 [69, 111, 103, 111, 110, 59] 280,
  mkRef1 [69, 111, 112, 102, 59] 120124,
  mkRef1 [69, 112, 115, 105, 108, 111, 110, 59] 917,
  mkRef1 [69, 113, 117, 97, 108, 59] 10869,
  mkRef1 [69, 113, 117, 97, 108, 84, 105, 108, 100, 101, 59] 8770,
  mkRef1 [69, 113, 117, 105, 108, 105, 98, 114, 105, 117, 109, 59] 8652,
  mkRef1 [69, 115, 99, 114, 59] 8496,
  mkRef1 [69, 115, 105, 109, 59] 10867,
  mkRef1 [69, 116, 97, 59] 919,
  mkRef1 [69, 117, 109, 108, 59] 203,
  mkRef1 [69, 117, 109, 108] 203,
  mkRef1 [69, 120, 105, 115, 116, 115, 59] 8707,
  mkRef1 [69, 120, 112, 111, 110, 101, 110, 116, 105, 97, 108, 69, 59] 8519,
  mkRef1 [70, 99, 121, 59] 1060,
  mkRef1 [70, 102, 114, 59] 120073,
  mkRef1 [70, 105, 108, 108, 101, 100, 83, 109, 97, 108, 108, 83, 113, 117, 97, 114, 101, 59] 9724,
  mkRef1 [70, 105, 108, 108, 101, 100, 86, 101, 114, 121, 83, 109, 97, 108, 108, 83, 113, 117, 97, 114, 101, 59] 9642,
  mkRef1 [70, 111, 112, 102, 59] 120125,
  mkRef1 [70, 111, 114, 65, 108, 108, 59] 8704,
  mkRef1 [70, 111, 117, 114, 105, 101, 114, 116, 114, 102, 59] 8497,
  mkRef1 [70, 115, 99, 114, 59] 8497,
  mkRef1 [71, 74, 99, 121, 59] 1027,
  mkRef1 [71, 84, 59] 62,
  mkRef1 [71, 84] 62,
  mkRef1 [71, 97, 109, 109, 97, 59] 915,
  mkRef1 [71, 97, 109, 109, 97, 100, 59] 988,
  mkRef1 [71, 98, 114, 101, 118, 101, 59] 286,
  mkRef1 [71, 99, 101, 100, 105, 108, 59] 290,
  mkRef1 [71, 99, 105, 114, 99, 59] 284,
  mkRef1 [71, 99, 121, 59] 1043,
  mkRef1 [71, 100, 111, 116, 59] 288,
  mkRef1 [71, 102, 114, 59] 120074,
  mkRef1 [71, 103, 59] 8921,
  mkRef1 [71, 111, 112, 102, 59] 120126,
  mkRef1 [71, 114, 101, 97, 116, 101, 114, 69, 113, 117, 97, 108, 59] 8805,
  mkRef1 [71, 114, 101, 97, 116, 101, 114, 69, 113, 117, 97, 108, 76, 101, 115, 115, 59] 8923,
  mkRef1 [71, 114, 101, 97, 116, 101, 114, 70, 117, 108, 108, 69, 113, 117, 97, 108, 59] 8807,
  mkRef1 [71, 114, 101, 97, 116, 101, 114, 71, 114, 101, 97, 116, 101, 114, 59] 10914,
  mkRef1 [71, 114, 101, 97, 116, 101, 114, 76, 101, 115, 115, 59] 8823,
  mkRef1 [71, 114, 101, 97, 116, 101, 114, 83, 108, 97, 110, 116, 69, 113, 117, 97, 108, 59] 10878,
  mkRef1 [71, 114, 101, 97, 116, 101, 114, 84, 105, 108, 100, 101, 59] 8819,
  mkRef1 [71, 115, 99, 114, 59] 119970,
  mkRef1 [71, 116, 59] 8811,
  mkRef1 [72, 65, 82, 68, 99, 121, 59] 1066,
  mkRef1 [72, 97, 99, 101, 107, 59] 711,
  mkRef1 [72, 97, 116, 59] 94,
  mkRef1 [72, 99, 105, 114, 99, 59] 292,
  mkRef1 [72, 102, 114, 59] 8460,
  mkRef1 [72, 105, 108, 98, 101, 114, 116, 83, 112, 97, 99, 101, 59] 8459,
  mkRef1 [72, 111, 112, 102, 59] 8461,
  mkRef1 [72, 111, 114, 105, 122, 111, 110, 116, 97, 108, 76, 105, 110, 101, 59] 9472,
  mkRef1 [72, 115, 99, 114, 59] 8459,
  mkRef1 [72, 115, 116, 114, 111, 107, 59] 294,
  mkRef1 [72, 117, 109, 112, 68, 111, 119, 110, 72, 117, 109, 112, 59] 8782,
  mkRef1 [72, 117, 109, 112, 69, 113, 117, 97, 108, 59] 8783,
  mkRef1 [73, 69, 99, 121, 59] 1045,
  mkRef1 [73, 74, 108, 105, 103, 59] 306,
  mkRef1 [73, 79, 99, 121, 59] 1025,
  mkRef1 [73, 97, 99, 117, 116, 101, 59] 205,
  mkRef1 [73, 97, 99, 117, 116, 101] 205,
  mkRef1 [73, 99, 105, 114, 99, 59] 206,
  mkRef1 [73, 99, 105, 114, 99] 206,
  mkRef1 [73, 99, 121, 59] 1048,
  mkRef1 [73, 100, 111, 116, 59] 304,
  mkRef1 [73, 102, 114, 59] 8465,
  mkRef1 [73, 103, 114, 97, 118, 101, 59] 204,
  mkRef1 [73, 103, 114, 97, 118, 101] 204,
  mkRef1 [73, 109, 59] 8465,
  mkRef1 [73, 109, 97, 99, 114, 59] 298,
  mkRef1 [73, 109, 97, 103, 105, 110, 97, 114, 121, 73, 59] 8520,
  mkRef1 [73, 109, 112, 108, 105, 101, 115, 59] 8658,
  mkRef1 [73, 110, 116, 59] 8748,
  mkRef1 [73, 110, 116, 101, 103, 114, 97, 108, 59] 8747,
  mkRef1 [73, 110, 116, 101, 114, 115, 101, 99, 116, 105, 111, 110, 59] 8898,
  mkRef1 [73, 110, 118, 105, 115, 105, 98, 108, 101, 67, 111, 109, 109, 97, 59] 8291,
  mkRef1 [73, 110, 118, 105, 115, 105, 98, 108, 101, 84, 105, 109, 101, 115, 59] 8290,
  mkRef1 [73, 111, 103, 111, 110, 59] 302,
  mkRef1 [73, 111, 112, 102, 59] 120128,
  mkRef1 [73, 111, 116, 97, 59] 921,
  mkRef1 [73, 115, 99, 114, 59] 8464,
  mkRef1 [73, 116, 105, 108, 100, 101, 59] 296,
  mkRef1 [73, 117, 107, 99, 121, 59] 1030,
  mkRef1 [73, 117, 109, 108, 59] 207,
  mkRef1 [73, 117, 109, 108] 207,
  mkRef1 [74, 99, 105, 114, 99, 59] 308,
  mkRef1 [74, 99, 121, 59] 1049,
  mkRef1 [74, 102, 114, 59] 120077,
  mkRef1 [74, 111, 112, 102, 59] 120129,
  mkRef1 [74, 115, 99, 114, 59] 119973,
  mkRef1 [74, 115, 101, 114, 99, 121, 59] 1032,
  mkRef1 [74, 117, 107, 99, 121, 59] 1028,
  mkRef1 [75, 72, 99, 121, 59] 1061,
  mkRef1 [75, 74, 99, 121, 59] 1036,
  mkRef1 [75, 97, 112, 112, 97, 59] 922,
  mkRef1 [75, 99, 101, 100, 105, 108, 59] 310 ]

def kNamedEntities1 : List NamedCharRef := [
  mkRef1 [75, 99, 121, 59] 1050,
  mkRef1 [75, 102, 114, 59] 120078,
  mkRef1 [75, 111, 112, 102, 59] 120130,
  mkRef1 [75, 115, 99, 114, 59] 119974,
  mkRef1 [76, 74, 99, 121, 59] 1033,
  mkRef1 [76, 84, 59] 60,
  mkRef1 [76, 84] 60,
  mkRef1 [76, 97, 99, 117, 116, 101, 59] 313,
  mkRef1 [76, 97, 109, 98, 100, 97, 59] 923,
  mkRef1 [76, 97, 110, 103, 59] 10218,
  mkRef1 [76, 97, 112, 108, 97, 99, 101, 116, 114, 102, 59] 8466,
  mkRef1 [76, 97, 114, 114, 59] 8606,
  mkRef1 [76, 99, 97, 114, 111, 110, 59] 317,
  mkRef1 [76, 99, 101, 100, 105, 108, 59] 315,
  mkRef1 [76, 99, 121, 59] 1051,
  mkRef1 [76, 101, 102, 116, 65, 110, 103, 108, 101, 66, 114, 97, 99, 107, 101, 116, 59] 10216,
  mkRef1 [76, 101, 102, 116, 65, 114, 114, 111, 119, 59] 8592,
  mkRef1 [76, 101, 102, 116, 65, 114, 114, 111, 119, 66, 97, 114, 59] 8676,
  mkRef1 [76, 101, 102, 116, 65, 114, 114, 111, 119, 82, 105, 103, 104, 116, 65, 114, 114, 111, 119, 59] 8646,
  mkRef1 [76, 101, 102, 116, 67, 101, 105, 108, 105, 110, 103, 59] 8968,
  mkRef1 [76, 101, 102, 116, 68, 111, 117, 98, 108, 101, 66, 114, 97, 99, 107, 101, 116, 59] 10214,
  mkRef1 [76, 101, 102, 116, 68, 111, 119, 110, 84, 101, 101, 86, 101, 99, 116, 111, 114, 59] 10593,
  mkRef1 [76, 101, 102, 116, 68, 111, 119, 110, 86, 101, 99, 116, 111, 114, 59] 8643,
  mkRef1 [76, 101, 102, 116, 68, 111, 119, 110, 86, 101, 99, 116, 111, 114, 66, 97, 114, 59] 10585,
  mkRef1 [76, 101, 102, 116, 70, 108, 111, 111, 114, 59] 8970,
  mkRef1 [76, 101, 102, 116, 82, 105, 103, 104, 116, 65, 114, 114, 111, 119, 59] 8596,
  mkRef1 [76, 101, 102, 116, 82, 105, 103, 104, 116, 86, 101, 99, 116, 111, 114, 59] 10574,
  mkRef1 [76, 101, 102, 116, 84, 101, 101, 59] 8867,
  mkRef1 [76, 101, 102, 116, 84, 101, 101, 65, 114, 114, 111, 119, 59] 8612,
  mkRef1 [76, 101, 102, 116, 84, 101, 101, 86, 101, 99, 116, 111, 114, 59] 10586,
  mkRef1 [76, 101, 102, 116, 84, 114, 105, 97, 110, 103, 108, 101, 59] 8882,
  mkRef1 [76, 101, 102, 116, 84, 114, 105, 97, 110, 103, 108, 101, 66, 97, 114, 59] 10703,
  mkRef1 [76, 101, 102, 116, 84, 114, 105, 97, 110, 103, 108, 101, 69, 113, 117, 97, 108, 59] 8884,
  mkRef1 [76, 101, 102, 116, 85, 112, 68, 111, 119, 110, 86, 101, 99, 116, 111, 114, 59] 10577,
  mkRef1 [76, 101, 102, 116, 85, 112, 84, 101, 101, 86, 101, 99, 116, 111, 114, 59] 10592,
  mkRef1 [76, 101, 102, 116, 85, 112, 86, 101, 99, 116, 111, 114, 59] 8639,
  mkRef1 [76, 101, 102, 116, 85, 112, 86, 101, 99, 116, 111, 114, 66, 97, 114, 59] 10584,
  mkRef1 [76, 101, 102, 116, 86, 101, 99, 116, 111, 114, 59] 8636,
  mkRef1 [76, 101, 102, 116, 86, 101, 99, 116, 111, 114, 66, 97, 114, 59] 10578,
  mkRef1 [76, 101, 102, 116, 97, 114, 114, 111, 119, 59] 8656,
  mkRef1 [76, 101, 102, 116, 114, 105, 103, 104, 116, 97, 114, 114, 111, 119, 59] 8660,
  mkRef1 [76, 101, 115, 115, 69, 113, 117, 97, 108, 71, 114, 101, 97, 116, 101, 114, 59] 8922,
  mkRef1 [76, 101, 115, 115, 70, 117, 108, 108, 69, 113, 117, 97, 108, 59] 8806,
  mkRef1 [76, 101, 115, 115, 71, 114, 101, 97, 116, 101, 114, 59] 8822,
  mkRef1 [76, 101, 115, 115, 76, 101, 115, 115, 59] 10913,
  mkRef1 [76, 101, 115, 115, 83, 108, 97, 110, 116, 69, 113, 117, 97, 108, 59] 10877,
  mkRef1 [76, 101, 115, 115, 84, 105, 108, 100, 101, 59] 8818,
  mkRef1 [76, 102, 114, 59] 120079,
  mkRef1 [76, 108, 59] 8920,
  mkRef1 [76, 108, 101, 102, 116, 97, 114, 114, 111, 119, 59] 8666,
  mkRef1 [76, 109, 105, 100, 111, 116, 59] 319,
  mkRef1 [76, 111, 110, 103, 76, 101, 102, 116, 65, 114, 114, 111, 119, 59] 10229,
  mkRef1 [76, 111, 110, 103, 76, 101, 102, 116, 82, 105, 103, 104, 116, 65, 114, 114, 111, 119, 59] 10231,
  mkRef1 [76, 111, 110, 103, 82, 105, 103, 104, 116, 65, 114, 114, 111, 119, 59] 10230,
  mkRef1 [76, 111, 110, 103, 108, 101, 102, 116, 97, 114, 114, 111, 119, 59] 10232,
  mkRef1 [76, 111, 110, 103, 108, 101, 102, 116, 114, 105, 103, 104, 116, 97, 114, 114, 111, 119, 59] 10234,
  mkRef1 [76, 111, 110, 103, 114, 105, 103, 104, 116, 97, 114, 114, 111, 119, 59] 10233,
  mkRef1 [76, 111, 112, 102, 59] 120131,
  mkRef1 [76, 111, 119, 101, 114, 76, 101, 102, 116, 65, 114, 114, 111, 119, 59] 8601,
  mkRef1 [76, 111, 119, 101, 114, 82, 105, 103, 104, 116, 65, 114, 114, 111, 119, 59] 8600,
  mkRef1 [76, 115, 99, 114, 59] 8466,
  mkRef1 [76, 115, 104, 59] 8624,
  mkRef1 [76, 115, 116, 114, 111, 107, 59] 321,
  mkRef1 [76, 116, 59] 8810,
  mkRef1 [77, 97, 112, 59] 10501,
  mkRef1 [77, 99, 121, 59] 1052,
  mkRef1 [77, 101, 100, 105, 117, 109, 83, 112, 97, 99, 101, 59] 8287,
  mkRef1 [77, 101, 108, 108, 105, 110, 116, 114, 102, 59] 8499,
  mkRef1 [77, 102, 114, 59] 120080,
  mkRef1 [77, 105, 110, 117, 115, 80, 108, 117, 115, 59] 8723,
  mkRef1 [77, 111, 112, 102, 59] 120132,
  mkRef1 [77, 115, 99, 114, 59] 8499,
  mkRef1 [77, 117, 59] 924,
  mkRef1 [78, 74, 99, 121, 59] 1034,
  mkRef1 [78, 97, 99, 117, 116, 101, 59] 323,
  mkRef1 [78, 99, 97, 114, 111, 110, 59] 327,
  mkRef1 [78, 99, 101, 100, 105, 108, 59] 325,
  mkRef1 [78, 99, 121, 59] 1053,
  mkRef1 [78, 101, 103, 97, 116, 105, 118, 101, 77, 101, 100, 105, 117, 109, 83, 112, 97, 99, 101, 59] 8203,
  mkRef1 [78, 101, 103, 97, 116, 105, 118, 101, 84, 104, 105, 99, 107, 83, 112, 97, 99, 101, 59] 8203,
  mkRef1 [78, 101, 103, 97, 116, 105, 118, 101, 84, 104, 105, 110, 83, 112, 97, 99, 101, 59] 8203,
  mkRef1 [78, 101, 103, 97, 116, 105, 118, 101, 86, 101, 114, 121, 84, 104, 105, 110, 83, 112, 97, 99, 101, 59] 8203,
  mkRef1 [78, 101, 115, 116, 101, 100, 71, 114, 101, 97, 116, 101, 114, 71, 114, 101, 97, 116, 101, 114, 59] 8811,
  mkRef1 [78, 101, 115, 116, 101, 100, 76, 101, 115, 115, 76, 101, 115, 115, 59] 8810,
  mkRef1 [78, 101, 119, 76, 105, 110, 101, 59] 10,
  mkRef1 [78, 102, 114, 59] 120081,
  mkRef1 [78, 111, 66, 114, 101, 97, 107, 59] 8288,
  mkRef1 [78, 111, 110, 66, 114, 101, 97, 107, 105, 110, 103, 83, 112, 97, 99, 101, 59] 160,
  mkRef1 [78, 111, 112, 102, 59] 8469,
  mkRef1 [78, 111, 116, 59] 10988,
  mkRef1 [78, 111, 116, 67, 111, 110, 103, 114, 117, 101, 110, 116, 59] 8802,
  mkRef1 [78, 111, 116, 67, 117, 112, 67, 97, 112, 59] 8813,
  mkRef1 [78, 111, 116, 68, 111, 117, 98, 108, 101, 86, 101, 114, 116, 105, 99, 97, 108, 66, 97, 114, 59] 8742,
  mkRef1 [78, 111, 116, 69, 108, 101, 109, 101, 110, 116, 59] 8713,
  mkRef1 [78, 111, 116, 69, 113, 117, 97, 108, 59] 8800,
  mkRef [78, 111, 116, 69, 113, 117, 97, 108, 84, 105, 108, 100, 101, 59] 8770 824,
  mkRef1 [78, 111, 116, 69, 120, 105, 115, 116, 115, 59] 8708,
  mkRef1 [78, 111, 116, 71, 114, 101, 97, 116, 101, 114, 59] 8815,
  mkRef1 [78, 111, 116, 71, 114, 101, 97, 116, 101, 114, 69, 113, 117, 97, 108, 59] 8817,
  mkRef [78, 111, 116, 71, 114, 101, 97, 116, 101, 114, 70, 117, 108, 108, 69, 113, 117, 97, 108, 59] 8807 824,
  mkRef [78, 111, 116, 71, 114, 101, 97, 116, 101, 114, 71, 114, 101, 97, 116, 101, 114, 59] 8811 824,
  mkRef1 [78, 111, 116, 71, 114, 101, 97, 116, 101, 114, 76, 101, 115, 115, 59] 8825,
  mkRef [78, 111, 116, 71, 114, 101, 97, 116, 101, 114, 83, 108, 97, 110, 116, 69, 113, 117, 97, 108, 59] 10878 824,
  mkRef1 [78, 111, 116, 71, 114, 101, 97, 116, 101, 114, 84, 105, 108, 100, 101, 59] 8821,
  mkRef [78, 111, 116, 72, 117, 109, 112, 68, 111, 119, 110, 72, 117, 109, 112, 59] 8782 824,
  mkRef [78, 111, 116, 72, 117, 109, 112, 69, 113, 117, 97, 108, 59] 8783 824,
  mkRef1 [78, 111, 116, 76, 101, 102, 116, 84, 114, 105, 97, 110, 103, 108, 101, 59] 8938,
  mkRef [78, 111, 116, 76, 101, 102, 116, 84, 114, 105, 97, 110, 103, 108, 101, 66, 97, 114, 59] 10703 824,
  mkRef1 [78, 111, 116, 76, 101, 102, 116, 84, 114, 105, 97, 110, 103, 108, 101, 69, 113, 117, 97, 108, 59] 8940,
  mkRef1 [78, 111, 116, 76, 101, 115, 115, 59] 8814,
  mkRef1 [78, 111, 116, 76, 101, 115, 115, 69, 113, 117, 97, 108, 59] 8816,
  mkRef1 [78, 111, 116, 76, 101, 115, 115, 71, 114, 101, 97, 116, 101, 114, 59] 8824,
  mkRef [78, 111, 116, 76, 101, 115, 115, 76, 101, 115, 115, 59] 8810 824,
  mkRef [78, 111, 116, 76, 101, 115, 115, 83, 108, 97, 110, 116, 69, 113, 117, 97, 108, 59] 10877 824,
  mkRef1 [78, 111, 116, 76, 101, 115, 115, 84, 105, 108, 100, 101, 59] 8820,
  mkRef [78, 111, 116, 78, 101, 115, 116, 101, 100, 71, 114, 101, 97, 116, 101, 114, 71, 114, 101, 97, 116, 101, 114, 59] 10914 824,
  mkRef [78, 111, 116, 78, 101, 115, 116, 101, 100, 76, 101, 115, 115, 76, 101, 115, 115, 59] 10913 824,
  mkRef1 [78, 111, 116, 80, 114, 101, 99, 101, 100, 101, 115, 59] 8832,
  mkRef [78, 111, 116, 80, 114, 101, 99, 101, 100, 101, 115, 69, 113, 117, 97, 108, 59] 10927 824,
  mkRef1 [78, 111, 116, 80, 114, 101, 99, 101, 100, 101, 115, 83, 108, 97, 110, 116, 69, 113, 117, 97, 108, 59] 8928,
  mkRef1 [78, 111, 116, 82, 101, 118, 101, 114, 115, 101, 69, 108, 101, 109, 101, 110, 116, 59] 8716,
  mkRef1 [78, 111, 116, 82, 105, 103, 104, 116, 84, 114, 105, 97, 110, 103, 108, 101, 59] 8939,
  mkRef [78, 111, 116, 82, 105, 103, 104, 116, 84, 114, 105, 97, 110, 103, 108, 101, 66, 97, 114, 59] 10704 824,
  mkRef1 [78, 111, 116, 82, 105, 103, 104, 116, 84, 114, 105, 97, 110, 103, 108, 101, 69, 113, 117, 97, 108, 59] 8941,
  mkRef [78, 111, 116, 83, 113, 117, 97, 114, 101, 83, 117, 98, 115, 101, 116, 59] 8847 824,
  mkRef1 [78, 111, 116, 83, 113, 117, 97, 114, 101, 83, 117, 98, 115, 101, 116, 69, 113, 117, 97, 108, 59] 8930,
  mkRef [78, 111, 116, 83, 113, 117, 97, 114, 101, 83, 117, 112, 101, 114, 115, 101, 116, 59] 8848 824,
  mkRef1 [78, 111, 116, 83, 113, 117, 97, 114, 101, 83, 117, 112, 101, 114, 115, 101, 116, 69, 113, 117, 97, 108, 59] 8931,
  mkRef [78, 111, 116, 83, 117, 98, 115, 101, 116, 59] 8834 8402,
  mkRef1 [78, 111, 116, 83, 117, 98, 115, 101, 116, 69, 113, 117, 97, 108, 59] 8840,
  mkRef1 [78, 111, 116, 83, 117, 99, 99, 101, 101, 100, 115, 59] 8833,
  mkRef [78, 111, 116, 83, 117, 99, 99, 101, 101, 100, 115, 69, 113, 117, 97, 108, 59] 10928 824,
  mkRef1 [78, 111, 116, 83, 117, 99, 99, 101, 101, 100, 115, 83, 108, 97, 110, 116, 69, 113, 117, 97, 108, 59] 8929,
  mkRef [78, 111, 116, 83, 117, 99, 99, 101, 101, 100, 115, 84, 105, 108, 100, 101, 59] 8831 824,
  mkRef [78, 111, 116, 83, 117, 112, 101, 114, 115, 101, 116, 59] 8835 8402,
  mkRef1 [78, 111, 116, 83, 117, 112, 101, 114, 115, 101, 116, 69, 113, 117, 97, 108, 59] 8841,
  mkRef1 [78, 111, 116, 84, 105, 108, 100, 101, 59] 8769,
  mkRef1 [78, 111, 116, 84, 105, 108, 100, 101, 69, 113, 117, 97, 108, 59] 8772,
  mkRef1 [78, 111, 116, 84, 105, 108, 100, 101, 70, 117, 108, 108, 69, 113, 117, 97, 108, 59] 8775,
  mkRef1 [78, 111, 116, 84, 105, 108, 100, 101, 84, 105, 108, 100, 101, 59] 8777,
  mkRef1 [78, 111, 116, 86, 101, 114, 116, 105, 99, 97, 108, 66, 97, 114, 59] 8740,
  mkRef1 [78, 115, 99, 114, 59] 119977,
  mkRef1 [78, 116, 105, 108, 100, 101, 59] 209,
  mkRef1 [78, 116, 105, 108, 100, 101] 209,
  mkRef1 [78, 117, 59] 925,
  mkRef1 [79, 69, 108, 105, 103, 59] 338,
  mkRef1 [79, 97, 99, 117, 116, 101, 59] 211,
  mkRef1 [79, 97, 99, 117, 116, 101] 211,
  mkRef1 [79, 99, 105, 114, 99, 59] 212,
  mkRef1 [79, 99, 105, 114, 99] 212,
  mkRef1 [79, 99, 121, 59] 1054,
  mkRef1 [79, 100, 98, 108, 97, 99, 59] 336,
  mkRef1 [79, 102, 114, 59] 120082,
  mkRef1 [79, 103, 114, 97, 118, 101, 59] 210,
  mkRef1 [79, 103, 114, 97, 118, 101] 210,
  mkRef1 [79, 109, 97, 99, 114, 59] 332,
  mkRef1 [79, 109, 101, 103, 97, 59] 937,
  mkRef1 [79, 109, 105, 99, 114, 111, 110, 59] 927,
  mkRef1 [79, 111, 112, 102, 59] 120134,
  mkRef1 [79, 112, 101, 110, 67, 117, 114, 108, 121, 68, 111, 117, 98, 108, 101, 81, 117, 111, 116, 101, 59] 8220,
  mkRef1 [79, 112, 101, 110, 67, 117, 114, 108, 121, 81, 117, 111, 116, 101, 59] 8216,
  mkRef1 [79, 114, 59] 10836,
  mkRef1 [79, 115, 99, 114, 59] 119978,
  mkRef1 [79, 115, 108, 97, 115, 104, 59] 216,
  mkRef1 [79, 115, 108, 97, 115, 104] 216,
  mkRef1 [79, 116, 105, 108, 100, 101, 59] 213,
  mkRef1 [79, 116, 105, 108, 100, 101] 213,
  mkRef1 [79, 116, 105, 109, 101, 115, 59] 10807,
  mkRef1 [79, 117, 109, 108, 59] 214,
  mkRef1 [79, 117, 109, 108] 214,
  mkRef1 [79, 118, 101, 114, 66, 97, 114, 59] 8254,
  mkRef1 [79, 118, 101, 114, 66, 114, 97, 99, 101, 59] 9182,
  mkRef1 [79, 118, 101, 114, 66, 114, 97, 99, 107, 101, 116, 59] 9140,
  mkRef1 [79, 118, 101, 114, 80, 97, 114, 101, 110, 116, 104, 101, 115, 105, 115, 59] 9180,
  mkRef1 [80, 97, 114, 116, 105, 97, 108, 68, 59] 8706,
  mkRef1 [80, 99, 121, 59] 1055,
  mkRef1 [80, 102, 114, 59] 120083,
  mkRef1 [80, 104, 105, 59] 934,
  mkRef1 [80, 105, 59] 928,
  mkRef1 [80, 108, 117, 115, 77, 105, 110, 117, 115, 59] 177,
  mkRef1 [80, 111, 105, 110, 99, 97, 114, 101, 112, 108, 97, 110, 101, 59] 8460,
  mkRef1 [80, 111, 112, 102, 59] 8473,
  mkRef1 [80, 114, 59] 10939,
  mkRef1 [80, 114, 101, 99, 101, 100, 101, 115, 59] 8826,
  mkRef1 [80, 114, 101, 99, 101, 100, 101, 115, 69, 113, 117, 97, 108, 59] 10927,
  mkRef1 [80, 114, 101, 99, 101, 100, 101, 115, 83, 108, 97, 110, 116, 69, 113, 117, 97, 108, 59] 8828,
  mkRef1 [80, 114, 101, 99, 101, 100, 101, 115, 84, 105, 108, 100, 101, 59] 8830,
  mkRef1 [80, 114, 105, 109, 101, 59] 8243,
  mkRef1 [80, 114, 111, 100, 117, 99, 116, 59] 8719,
  mkRef1 [80, 114, 111, 112, 111, 114, 116, 105, 111, 110, 59] 8759,
  mkRef1 [80, 114, 111, 112, 111, 114, 116, 105, 111, 110, 97, 108, 59] 8733,
  mkRef1 [80, 115, 99, 114, 59] 119979,
  mkRef1 [80, 115, 105, 59] 936,
  mkRef1 [81, 85, 79, 84, 59] 34,
  mkRef1 [81, 85, 79, 84] 34,
  mkRef1 [81, 102, 114, 59] 120084,
  mkRef1 [81, 111, 112, 102, 59] 8474,
  mkRef1 [81, 115, 99, 114, 59] 119980,
  mkRef1 [82, 66, 97, 114, 114, 59] 10512,
  mkRef1 [82, 69, 71, 59] 174,
  mkRef1 [82, 69, 71] 174,
  mkRef1 [82, 97, 99, 117, 116, 101, 59] 340,
  mkRef1 [82, 97, 110, 103, 59] 10219,
  mkRef1 [82, 97, 114, 114, 59] 8608,
  mkRef1 [82, 97, 114, 114, 116, 108, 59] 10518,
  mkRef1 [82, 99, 97, 114, 111, 110, 59] 344,
  mkRef1 [82, 99, 101, 100, 105, 108, 59] 342,
  mkRef1 [82, 99, 121, 59] 1056,
  mkRef1 [82, 101, 59] 8476,
  mkRef1 [82, 101, 118, 101, 114, 115, 101, 69, 108, 101, 109, 101, 110, 116, 59] 8715,
  mkRef1 [82, 101, 118, 101, 114, 115, 101, 69, 113, 117, 105, 108, 105, 98, 114, 105, 117, 109, 59] 8651,
  mkRef1 [82, 101, 118, 101, 114, 115, 101, 85, 112, 69, 113, 117, 105, 108, 105, 98, 114, 105, 117, 109, 59] 10607,
  mkRef1 [82, 102, 114, 59] 8476,
  mkRef1 [82, 104, 111, 59] 929,
  mkRef1 [82, 105, 103, 104, 116, 65, 110, 103, 108, 101, 66, 114, 97, 99, 107, 101, 116, 59] 10217,
  mkRef1 [82, 105, 103, 104, 116, 65, 114, 114, 111, 119, 59] 8594,
  mkRef1 [82, 105, 103, 104, 116, 65, 114, 114, 111, 119, 66, 97, 114, 59] 8677,
  mkRef1 [82, 105, 103, 104, 116, 65, 114, 114, 111, 119, 76, 101, 102, 116, 65, 114, 114, 111, 119, 59] 8644,
  mkRef1 [82, 105, 103, 104, 116, 67, 101, 105, 108, 105, 110, 103, 59] 8969,
  mkRef1 [82, 105, 103, 104, 116, 68, 111, 117, 98, 108, 101, 66, 114, 97, 99, 107, 101, 116, 59] 10215,
  mkRef1 [82, 105, 103, 104, 116, 68, 111, 119, 110, 84, 101, 101, 86, 101, 99, 116, 111, 114, 59] 10589,
  mkRef1 [82, 105, 103, 104, 116, 68, 111, 119, 110, 86, 101, 99, 116, 111, 114, 59] 8642,
  mkRef1 [82, 105, 103, 104, 116, 68, 111, 119, 110, 86, 101, 99, 116, 111, 114, 66, 97, 114, 59] 10581,
  mkRef1 [82, 105, 103, 104, 116, 70, 108, 111, 111, 114, 59] 8971,
  mkRef1 [82, 105, 103, 104, 116, 84, 101, 101, 59] 8866,
  mkRef1 [82, 105, 103, 104, 116, 84, 101, 101, 65, 114, 114, 111, 119, 59] 8614,
  mkRef1 [82, 105, 103, 104, 116, 84, 101, 101, 86, 101, 99, 116, 111, 114, 59] 10587,
  mkRef1 [82, 105, 103, 104, 116, 84, 114, 105, 97, 110, 103, 108, 101, 59] 8883,
  mkRef1 [82, 105, 103, 104, 116, 84, 114, 105, 97, 110, 103, 108, 101, 66, 97, 114, 59] 10704,
  mkRef1 [82, 105, 103, 104, 116, 84, 114, 105, 97, 110, 103, 108, 101, 69, 113, 117, 97, 108, 59] 8885,
  mkRef1 [82, 105, 103, 104, 116, 85, 112, 68, 111, 119, 110, 86, 101, 99, 116, 111, 114, 59] 10575,
  mkRef1 [82, 105, 103, 104, 116, 85, 112, 84, 101, 101, 86, 101, 99, 116, 111, 114, 59] 10588,
  mkRef1 [82, 105, 103, 104, 116, 85, 112, 86, 101, 99, 116, 111, 114, 59] 8638,
  mkRef1 [82, 105, 103, 104, 116, 85, 112, 86, 101, 99, 116, 111, 114, 66, 97, 114, 59] 10580,
  mkRef1 [82, 105, 103, 104, 116, 86, 101, 99, 116, 111, 114, 59] 8640,
  mkRef1 [82, 105, 103, 104, 116, 86, 101, 99, 116, 111, 114, 66, 97, 114, 59] 10579,
  mkRef1 [82, 105, 103, 104, 116, 97, 114, 114, 111, 119, 59] 8658,
  mkRef1 [82, 111, 112, 102, 59] 8477,
  mkRef1 [82, 111, 117, 110, 100, 73, 109, 112, 108, 105, 101, 115, 59] 10608,
  mkRef1 [82, 114, 105, 103, 104, 116, 97, 114, 114, 111, 119, 59] 8667 ]

def kNamedEntities2 : List NamedCharRef := [
  mkRef1 [82, 115, 99, 114, 59] 8475,
  mkRef1 [82, 115, 104, 59] 8625,
  mkRef1 [82, 117, 108, 101, 68, 101, 108, 97, 121, 101, 100, 59] 10740,
  mkRef1 [83, 72, 67, 72, 99, 121, 59] 1065,
  mkRef1 [83, 72, 99, 121, 59] 1064,
  mkRef1 [83, 79, 70, 84, 99, 121, 59] 1068,
  mkRef1 [83, 97, 99, 117, 116, 101, 59] 346,
  mkRef1 [83, 99, 59] 10940,
  mkRef1 [83, 99, 97, 114, 111, 110, 59] 352,
  mkRef1 [83, 99, 101, 100, 105, 108, 59] 350,
  mkRef1 [83, 99, 105, 114, 99, 59] 348,
  mkRef1 [83, 99, 121, 59] 1057,
  mkRef1 [83, 102, 114, 59] 120086,
  mkRef1 [83, 104, 111, 114, 116, 68, 111, 119, 110, 65, 114, 114, 111, 119, 59] 8595,
  mkRef1 [83, 104, 111, 114, 116, 76, 101, 102, 116, 65, 114, 114, 111, 119, 59] 8592,
  mkRef1 [83, 104, 111, 114, 116, 82, 105, 103, 104, 116, 65, 114, 114, 111, 119, 59] 8594,
  mkRef1 [83, 104, 111, 114, 116, 85, 112, 65, 114, 114, 111, 119, 59] 8593,
  mkRef1 [83, 105, 103, 109, 97, 59] 931,
  mkRef1 [83, 109, 97, 108, 108, 67, 105, 114, 99, 108, 101, 59] 8728,
  mkRef1 [83, 111, 112, 102, 59] 120138,
  mkRef1 [83, 113, 114, 116, 59] 8730,
  mkRef1 [83, 113, 117, 97, 114, 101, 59] 9633,
  mkRef1 [83, 113, 117, 97, 114, 101, 73, 110, 116, 101, 114, 115, 101, 99, 116, 105, 111, 110, 59] 8851,
  mkRef1 [83, 113, 117, 97, 114, 101, 83, 117, 98, 115, 101, 116, 59] 8847,
  mkRef1 [83, 113, 117, 97, 114, 101, 83, 117, 98, 115, 101, 116, 69, 113, 117, 97, 108, 59] 8849,
  mkRef1 [83, 113, 117, 97, 114, 101, 83, 117, 112, 101, 114, 115, 101, 116, 59] 8848,
  mkRef1 [83, 113, 117, 97, 114, 101, 83, 117, 112, 101, 114, 115, 101, 116, 69, 113, 117, 97, 108, 59] 8850,
  mkRef1 [83, 113, 117, 97, 114, 101, 85, 110, 105, 111, 110, 59] 8852,
  mkRef1 [83, 115, 99, 114, 59] 119982,
  mkRef1 [83, 116, 97, 114, 59] 8902,
  mkRef1 [83, 117, 98, 59] 8912,
  mkRef1 [83, 117, 98, 115, 101, 116, 59] 8912,
  mkRef1 [83, 117, 98, 115, 101, 116, 69, 113, 117, 97, 108, 59] 8838,
  mkRef1 [83, 117, 99, 99, 101, 101, 100, 115, 59] 8827,
  mkRef1 [83, 117, 99, 99, 101, 101, 100, 115, 69, 113, 117, 97, 108, 59] 10928,
  mkRef1 [83, 117, 99, 99, 101, 101, 100, 115, 83, 108, 97, 110, 116, 69, 113, 117, 97, 108, 59] 8829,
  mkRef1 [83, 117, 99, 99, 101, 101, 100, 115, 84, 105, 108, 100, 101, 59] 8831,
  mkRef1 [83, 117, 99, 104, 84, 104, 97, 116, 59] 8715,
  mkRef1 [83, 117, 109, 59] 8721,
  mkRef1 [83, 117, 112, 59] 8913,
  mkRef1 [83, 117, 112, 101, 114, 115, 101, 116, 59] 8835,
  mkRef1 [83, 117, 112, 101, 114, 115, 101, 116, 69, 113, 117, 97, 108, 59] 8839,
  mkRef1 [83, 117, 112, 115, 101, 116, 59] 8913,
  mkRef1 [84, 72, 79, 82, 78, 59] 222,
  mkRef1 [84, 72, 79, 82, 78] 222,
  mkRef1 [84, 82, 65, 68, 69, 59] 8482,
  mkRef1 [84, 83, 72, 99, 121, 59] 1035,
  mkRef1 [84, 83, 99, 121, 59] 1062,
  mkRef1 [84, 97, 98, 59] 9,
  mkRef1 [84, 97, 117, 59] 932,
  mkRef1 [84, 99, 97, 114, 111, 110, 59] 356,
  mkRef1 [84, 99, 101, 100, 105, 108, 59] 354,
  mkRef1 [84, 99, 121, 59] 1058,
  mkRef1 [84, 102, 114, 59] 120087,
  mkRef1 [84, 104, 101, 114, 101, 102, 111, 114, 101, 59] 8756,
  mkRef1 [84, 104, 101, 116, 97, 59] 920,
  mkRef [84, 104, 105, 99, 107, 83, 112, 97, 99, 101, 59] 8287 8202,
  mkRef1 [84, 104, 105, 110, 83, 112, 97, 99, 101, 59] 8201,
  mkRef1 [84, 105, 108, 100, 101, 59] 8764,
  mkRef1 [84, 105, 108, 100, 101, 69, 113, 117, 97, 108, 59] 8771,
  mkRef1 [84, 105, 108, 100, 101, 70, 117, 108, 108, 69, 113, 117, 97, 108, 59] 8773,
  mkRef1 [84, 105, 108, 100, 101, 84, 105, 108, 100, 101, 59] 8776,
  mkRef1 [84, 111, 112, 102, 59] 120139,
  mkRef1 [84, 114, 105, 112, 108, 101, 68, 111, 116, 59] 8411,
  mkRef1 [84, 115, 99, 114, 59] 119983,
  mkRef1 [84, 115, 116, 114, 111, 107, 59] 358,
  mkRef1 [85, 97, 99, 117, 116, 101, 59] 218,
  mkRef1 [85, 97, 99, 117, 116, 101] 218,
  mkRef1 [85, 97, 114, 114, 59] 8607,
  mkRef1 [85, 97, 114, 114, 111, 99, 105, 114, 59] 10569,
  mkRef1 [85, 98, 114, 99, 121, 59] 1038,
  mkRef1 [85, 98, 114, 101, 118, 101, 59] 364,
  mkRef1 [85, 99, 105, 114, 99, 59] 219,
  mkRef1 [85, 99, 105, 114, 99] 219,
  mkRef1 [85, 99, 121, 59] 1059,
  mkRef1 [85, 100, 98, 108, 97, 99, 59] 368,
  mkRef1 [85, 102, 114, 59] 120088,
  mkRef1 [85, 103, 114, 97, 118, 101, 59] 217,
  mkRef1 [85, 103, 114, 97, 118, 101] 217,
  mkRef1 [85, 109, 97, 99, 114, 59] 362,
  mkRef1 [85, 110, 100, 101, 114, 66, 97, 114, 59] 95,
  mkRef1 [85, 110, 100, 101, 114, 66, 114, 97, 99, 101, 59] 9183,
  mkRef1 [85, 110, 100, 101, 114, 66, 114, 97, 99, 107, 101, 116, 59] 9141,
  mkRef1 [85, 110, 100, 101, 114, 80, 97, 114, 101, 110, 116, 104, 101, 115, 105, 115, 59] 9181,
  mkRef1 [85, 110, 105, 111, 110, 59] 8899,
  mkRef1 [85, 110, 105, 111, 110, 80, 108, 117, 115, 59] 8846,
  mkRef1 [85, 111, 103, 111, 110, 59] 370,
  mkRef1 [85, 111, 112, 102, 59] 120140,
  mkRef1 [85, 112, 65, 114, 114, 111, 119, 59] 8593,
  mkRef1 [85, 112, 65, 114, 114, 111, 119, 66, 97, 114, 59] 10514,
  mkRef1 [85, 112, 65, 114, 114, 111, 119, 68, 111, 119, 110, 65, 114, 114, 111, 119, 59] 8645,
  mkRef1 [85, 112, 68, 111, 119, 110, 65, 114, 114, 111, 119, 59] 8597,
  mkRef1 [85, 112, 69, 113, 117, 105, 108, 105, 98, 114, 105, 117, 109, 59] 10606,
  mkRef1 [85, 112, 84, 101, 101, 59] 8869,
  mkRef1 [85, 112, 84, 101, 101, 65, 114, 114, 111, 119, 59] 8613,
  mkRef1 [85, 112, 97, 114, 114, 111, 119, 59] 8657,
  mkRef1 [85, 112, 100, 111, 119, 110, 97, 114, 114, 111, 119, 59] 8661,
  mkRef1 [85, 112, 112, 101, 114, 76, 101, 102, 116, 65, 114, 114, 111, 119, 59] 8598,
  mkRef1 [85, 112, 112, 101, 114, 82, 105, 103, 104, 116, 65, 114, 114, 111, 119, 59] 8599,
  mkRef1 [85, 112, 115, 105, 59] 978,
  mkRef1 [85, 112, 115, 105, 108, 111, 110, 59] 933,
  mkRef1 [85, 114, 105, 110, 103, 59] 366,
  mkRef1 [85, 115, 99, 114, 59] 119984,
  mkRef1 [85, 116, 105, 108, 100, 101, 59] 360,
  mkRef1 [85, 117, 109, 108, 59] 220,
  mkRef1 [85, 117, 109, 108] 220,
  mkRef1 [86, 68, 97, 115, 104, 59] 8875,
  mkRef1 [86, 98, 97, 114, 59] 10987,
  mkRef1 [86, 99, 121, 59] 1042,
  mkRef1 [86, 100, 97, 115, 104, 59] 8873,
  mkRef1 [86, 100, 97, 115, 104, 108, 59] 10982,
  mkRef1 [86, 101, 101, 59] 8897,
  mkRef1 [86, 101, 114, 98, 97, 114, 59] 8214,
  mkRef1 [86, 101, 114, 116, 59] 8214,
  mkRef1 [86, 101, 114, 116, 105, 99, 97, 108, 66, 97, 114, 59] 8739,
  mkRef1 [86, 101, 114, 116, 105, 99, 97, 108, 76, 105, 110, 101, 59] 124,
  mkRef1 [86, 101, 114, 116, 105, 99, 97, 108, 83, 101, 112, 97, 114, 97, 116, 111, 114, 59] 10072,
  mkRef1 [86, 101, 114, 116, 105, 99, 97, 108, 84, 105, 108, 100, 101, 59] 8768,
  mkRef1 [86, 101, 114, 121, 84, 104, 105, 110, 83, 112, 97, 99, 101, 59] 8202,
  mkRef1 [86, 102, 114, 59] 120089,
  mkRef1 [86, 111, 112, 102, 59] 120141,
  mkRef1 [86, 115, 99, 114, 59] 119985,
  mkRef1 [86, 118, 100, 97, 115, 104, 59] 8874,
  mkRef1 [87, 99, 105, 114, 99, 59] 372,
  mkRef1 [87, 101, 100, 103, 101, 59] 8896,
  mkRef1 [87, 102, 114, 59] 120090,
  mkRef1 [87, 111, 112, 102, 59] 120142,
  mkRef1 [87, 115, 99, 114, 59] 119986,
  mkRef1 [88, 102, 114, 59] 120091,
  mkRef1 [88, 105, 59] 926,
  mkRef1 [88, 111, 112, 102, 59] 120143,
  mkRef1 [88, 115, 99, 114, 59] 119987,
  mkRef1 [89, 65, 99, 121, 59] 1071,
  mkRef1 [89, 73, 99, 121, 59] 1031,
  mkRef1 [89, 85, 99, 121, 59] 1070,
  mkRef1 [89, 97, 99, 117, 116, 101, 59] 221,
  mkRef1 [89, 97, 99, 117, 116, 101] 221,
  mkRef1 [89, 99, 105, 114, 99, 59] 374,
  mkRef1 [89, 99, 121, 59] 1067,
  mkRef1 [89, 102, 114, 59] 120092,
  mkRef1 [89, 111, 112, 102, 59] 120144,
  mkRef1 [89, 115, 99, 114, 59] 119988,
  mkRef1 [89, 117, 109, 108, 59] 376,
  mkRef1 [90, 72, 99, 121, 59] 1046,
  mkRef1 [90, 97, 99, 117, 116, 101, 59] 377,
  mkRef1 [90, 99, 97, 114, 111, 110, 59] 381,
  mkRef1 [90, 99, 121, 59] 1047,
  mkRef1 [90, 100, 111, 116, 59] 379,
  mkRef1 [90, 101, 114, 111, 87, 105, 100, 116, 104, 83, 112, 97, 99, 101, 59] 8203,
  mkRef1 [90, 101, 116, 97, 59] 918,
  mkRef1 [90, 102, 114, 59] 8488,
  mkRef1 [90, 111, 112, 102, 59] 8484,
  mkRef1 [90, 115, 99, 114, 59] 119989,
  mkRef1 [97, 97, 99, 117, 116, 101, 59] 225,
  mkRef1 [97, 97, 99, 117, 116, 101] 225,
  mkRef1 [97, 98, 114, 101, 118, 101, 59] 259,
  mkRef1 [97, 99, 59] 8766,
  mkRef [97, 99, 69, 59] 8766 819,
  mkRef1 [97, 99, 100, 59] 8767,
  mkRef1 [97, 99, 105, 114, 99, 59] 226,
  mkRef1 [97, 99, 105, 114, 99] 226,
  mkRef1 [97, 99, 117, 116, 101, 59] 180,
  mkRef1 [97, 99, 117, 116, 101] 180,
  mkRef1 [97, 99, 121, 59] 1072,
  mkRef1 [97, 101, 108, 105, 103, 59] 230,
  mkRef1 [97, 101, 108, 105, 103] 230,
  mkRef1 [97, 102, 59] 8289,
  mkRef1 [97, 102, 114, 59] 120094,
  mkRef1 [97, 103, 114, 97, 118, 101, 59] 224,
  mkRef1 [97, 103, 114, 97, 118, 101] 224,
  mkRef1 [97, 108, 101, 102, 115, 121, 109, 59] 8501,
  mkRef1 [97, 108, 101, 112, 104, 59] 8501,
  mkRef1 [97, 108, 112, 104, 97, 59] 945,
  mkRef1 [97, 109, 97, 99, 114, 59] 257,
  mkRef1 [97, 109, 97, 108, 103, 59] 10815,
  mkRef1 [97, 109, 112, 59] 38,
  mkRef1 [97, 109, 112] 38,
  mkRef1 [97, 110, 100, 59] 8743,
  mkRef1 [97, 110, 100, 97, 110, 100, 59] 10837,
  mkRef1 [97, 110, 100, 100, 59] 10844,
  mkRef1 [97, 110, 100, 115, 108, 111, 112, 101, 59] 10840,
  mkRef1 [97, 110, 100, 118, 59] 10842,
  mkRef1 [97, 110, 103, 59] 8736,
  mkRef1 [97, 110, 103, 101, 59] 10660,
  mkRef1 [97, 110, 103, 108, 101, 59] 8736,
  mkRef1 [97, 110, 103, 109, 115, 100, 59] 8737,
  mkRef1 [97, 110, 103, 109, 115, 100, 97, 97, 59] 10664,
  mkRef1 [97, 110, 103, 109, 115, 100, 97, 98, 59] 10665,
  mkRef1 [97, 110, 103, 109, 115, 100, 97, 99, 59] 10666,
  mkRef1 [97, 110, 103, 109, 115, 100, 97, 100, 59] 10667,
  mkRef1 [97, 110, 103, 109, 115, 100, 97, 101, 59] 10668,
  mkRef1 [97, 110, 103, 109, 115, 100, 97, 102, 59] 10669,
  mkRef1 [97, 110, 103, 109, 115, 100, 97, 103, 59] 10670,
  mkRef1 [97, 110, 103, 109, 115, 100, 97, 104, 59] 10671,
  mkRef1 [97, 110, 103, 114, 116, 59] 8735,
  mkRef1 [97, 110, 103, 114, 116, 118, 98, 59] 8894,
  mkRef1 [97, 110, 103, 114, 116, 118, 98, 100, 59] 10653,
  mkRef1 [97, 110, 103, 115, 112, 104, 59] 8738,
  mkRef1 [97, 110, 103, 115, 116, 59] 197,
  mkRef1 [97, 110, 103, 122, 97, 114, 114, 59] 9084,
  mkRef1 [97, 111, 103, 111, 110, 59] 261,
  mkRef1 [97, 111, 112, 102, 59] 120146,
  mkRef1 [97, 112, 59] 8776,
  mkRef1 [97, 112, 69, 59] 10864,
  mkRef1 [97, 112, 97, 99, 105, 114, 59] 10863,
  mkRef1 [97, 112, 101, 59] 8778,
  mkRef1 [97, 112, 105, 100, 59] 8779,
  mkRef1 [97, 112, 111, 115, 59] 39,
  mkRef1 [97, 112, 112, 114, 111, 120, 59] 8776,
  mkRef1 [97, 112, 112, 114, 111, 120, 101, 113, 59] 8778,
  mkRef1 [97, 114, 105, 110, 103, 59] 229,
  mkRef1 [97, 114, 105, 110, 103] 229,
  mkRef1 [97, 115, 99, 114, 59] 119990,
  mkRef1 [97, 115, 116, 59] 42,
  mkRef1 [97, 115, 121, 109, 112, 59] 8776,
  mkRef1 [97, 115, 121, 109, 112, 101, 113, 59] 8781,
  mkRef1 [97, 116, 105, 108, 100, 101, 59] 227,
  mkRef1 [97, 116, 105, 108, 100, 101] 227,
  mkRef1 [97, 117, 109, 108, 59] 228,
  mkRef1 [97, 117, 109, 108] 228,
  mkRef1 [97, 119, 99, 111, 110, 105, 110, 116, 59] 8755,
  mkRef1 [97, 119, 105, 110, 116, 59] 10769,
  mkRef1 [98, 78, 111, 116, 59] 10989,
  mkRef1 [98, 97, 99, 107, 99, 111, 110, 103, 59] 8780,
  mkRef1 [98, 97, 99, 107, 101, 112, 115, 105, 108, 111, 110, 59] 1014,
  mkRef1 [98, 97, 99, 107, 112, 114, 105, 109, 101, 59] 8245,
  mkRef1 [98, 97, 99, 107, 115, 105, 109, 59] 8765,
  mkRef1 [98, 97, 99, 107, 115, 105, 109, 101, 113, 59] 8909,
  mkRef1 [98, 97, 114, 118, 101, 101, 59] 8893,
  mkRef1 [98, 97, 114, 119, 101, 100, 59] 8965,
  mkRef1 [98, 97, 114, 119, 101, 100, 103, 101, 59] 8965,
  mkRef1 [98, 98, 114, 107, 59] 9141,
  mkRef1 [98, 98, 114, 107, 116, 98, 114, 107, 59] 9142,
  mkRef1 [98, 99, 111, 110, 103, 59] 8780,
  mkRef1 [98, 99, 121, 59] 1073,
  mkRef1 [98, 100, 113, 117, 111, 59] 8222,
  mkRef1 [98, 101, 99, 97, 117, 115, 59] 8757,
  mkRef1 [98, 101, 99, 97, 117, 115, 101, 59] 8757,
  mkRef1 [98, 101, 109, 112, 116, 121, 118, 59] 10672,
  mkRef1 [98, 101, 112, 115, 105, 59] 1014 ]

def kNamedEntities3 : List NamedCharRef := [
  mkRef1 [98, 101, 114, 110, 111, 117, 59] 8492,
  mkRef1 [98, 101, 116, 97, 59] 946,
  mkRef1 [98, 101, 116, 104, 59] 8502,
  mkRef1 [98, 101, 116, 119, 101, 101, 110, 59] 8812,
  mkRef1 [98, 102, 114, 59] 120095,
  mkRef1 [98, 105, 103, 99, 97, 112, 59] 8898,
  mkRef1 [98, 105, 103, 99, 105, 114, 99, 59] 9711,
  mkRef1 [98, 105, 103, 99, 117, 112, 59] 8899,
  mkRef1 [98, 105, 103, 111, 100, 111, 116, 59] 10752,
  mkRef1 [98, 105, 103, 111, 112, 108, 117, 115, 59] 10753,
  mkRef1 [98, 105, 103, 111, 116, 105, 109, 101, 115, 59] 10754,
  mkRef1 [98, 105, 103, 115, 113, 99, 117, 112, 59] 10758,
  mkRef1 [98, 105, 103, 115, 116, 97, 114, 59] 9733,
  mkRef1 [98, 105, 103, 116, 114, 105, 97, 110, 103, 108, 101, 100, 111, 119, 110, 59] 9661,
  mkRef1 [98, 105, 103, 116, 114, 105, 97, 110, 103, 108, 101, 117, 112, 59] 9651,
  mkRef1 [98, 105, 103, 117, 112, 108, 117, 115, 59] 10756,
  mkRef1 [98, 105, 103, 118, 101, 101, 59] 8897,
  mkRef1 [98, 105, 103, 119, 101, 100, 103, 101, 59] 8896,
  mkRef1 [98, 107, 97, 114, 111, 119, 59] 10509,
  mkRef1 [98, 108, 97, 99, 107, 108, 111, 122, 101, 110, 103, 101, 59] 10731,
  mkRef1 [98, 108, 97, 99, 107, 115, 113, 117, 97, 114, 101, 59] 9642,
  mkRef1 [98, 108, 97, 99, 107, 116, 114, 105, 97, 110, 103, 108, 101, 59] 9652,
  mkRef1 [98, 108, 97, 99, 107, 116, 114, 105, 97, 110, 103, 108, 101, 100, 111, 119, 110, 59] 9662,
  mkRef1 [98, 108, 97, 99, 107, 116, 114, 105, 97, 110, 103, 108, 101, 108, 101, 102, 116, 59] 9666,
  mkRef1 [98, 108, 97, 99, 107, 116, 114, 105, 97, 110, 103, 108, 101, 114, 105, 103, 104, 116, 59] 9656,
  mkRef1 [98, 108, 97, 110, 107, 59] 9251,
  mkRef1 [98, 108, 107, 49, 50, 59] 9618,
  mkRef1 [98, 108, 107, 49, 52, 59] 9617,
  mkRef1 [98, 108, 107, 51, 52, 59] 9619,
  mkRef1 [98, 108, 111, 99, 107, 59] 9608,
  mkRef [98, 110, 101, 59] 61 8421,
  mkRef [98, 110, 101, 113, 117, 105, 118, 59] 8801 8421,
  mkRef1 [98, 110, 111, 116, 59] 8976,
  mkRef1 [98, 111, 112, 102, 59] 120147,
  mkRef1 [98, 111, 116, 59] 8869,
  mkRef1 [98, 111, 116, 116, 111, 109, 59] 8869,
  mkRef1 [98, 111, 119, 116, 105, 101, 59] 8904,
  mkRef1 [98, 111, 120, 68, 76, 59] 9559,
  mkRef1 [98, 111, 120, 68, 82, 59] 9556,
  mkRef1 [98, 111, 120, 68, 108, 59] 9558,
  mkRef1 [98, 111, 120, 68, 114, 59] 9555,
  mkRef1 [98, 111, 120, 72, 59] 9552,
  mkRef1 [98, 111, 120, 72, 68, 59] 9574,
  mkRef1 [98, 111, 120, 72, 85, 59] 9577,
  mkRef1 [98, 111, 120, 72, 100, 59] 9572,
  mkRef1 [98, 111, 120, 72, 117, 59] 9575,
  mkRef1 [98, 111, 120, 85, 76, 59] 9565,
  mkRef1 [98, 111, 120, 85, 82, 59] 9562,
  mkRef1 [98, 111, 120, 85, 108, 59] 9564,
  mkRef1 [98, 111, 120, 85, 114, 59] 9561,
  mkRef1 [98, 111, 120, 86, 59] 9553,
  mkRef1 [98, 111, 120, 86, 72, 59] 9580,
  mkRef1 [98, 111, 120, 86, 76, 59] 9571,
  mkRef1 [98, 111, 120, 86, 82, 59] 9568,
  mkRef1 [98, 111, 120, 86, 104, 59] 9579,
  mkRef1 [98, 111, 120, 86, 108, 59] 9570,
  mkRef1 [98, 111, 120, 86, 114, 59] 9567,
  mkRef1 [98, 111, 120, 98, 111, 120, 59] 10697,
  mkRef1 [98, 111, 120, 100, 76, 59] 9557,
  mkRef1 [98, 111, 120, 100, 82, 59] 9554,
  mkRef1 [98, 111, 120, 100, 108, 59] 9488,
  mkRef1 [98, 111, 120, 100, 114, 59] 9484,
  mkRef1 [98, 111, 120, 104, 59] 9472,
  mkRef1 [98, 111, 120, 104, 68, 59] 9573,
  mkRef1 [98, 111, 120, 104, 85, 59] 9576,
  mkRef1 [98, 111, 120, 104, 100, 59] 9516,
  mkRef1 [98, 111, 120, 104, 117, 59] 9524,
  mkRef1 [98, 111, 120, 109, 105, 110, 117, 115, 59] 8863,
  mkRef1 [98, 111, 120, 112, 108, 117, 115, 59] 8862,
  mkRef1 [98, 111, 120, 116, 105, 109, 101, 115, 59] 8864,
  mkRef1 [98, 111, 120, 117, 76, 59] 9563,
  mkRef1 [98, 111, 120, 117, 82, 59] 9560,
  mkRef1 [98, 111, 120, 117, 108, 59] 9496,
  mkRef1 [98, 111, 120, 117, 114, 59] 9492,
  mkRef1 [98, 111, 120, 118, 59] 9474,
  mkRef1 [98, 111, 120, 118, 72, 59] 9578,
  mkRef1 [98, 111, 120, 118, 76, 59] 9569,
  mkRef1 [98, 111, 120, 118, 82, 59] 9566,
  mkRef1 [98, 111, 120, 118, 104, 59] 9532,
  mkRef1 [98, 111, 120, 118, 108, 59] 9508,
  mkRef1 [98, 111, 120, 118, 114, 59] 9500,
  mkRef1 [98, 112, 114, 105, 109, 101, 59] 8245,
  mkRef1 [98, 114, 101, 118, 101, 59] 728,
  mkRef1 [98, 114, 118, 98, 97, 114, 59] 166,
  mkRef1 [98, 114, 118, 98, 97, 114] 166,
  mkRef1 [98, 115, 99, 114, 59] 119991,
  mkRef1 [98, 115, 101, 109, 105, 59] 8271,
  mkRef1 [98, 115, 105, 109, 59] 8765,
  mkRef1 [98, 115, 105, 109, 101, 59] 8909,
  mkRef1 [98, 115, 111, 108, 59] 92,
  mkRef1 [98, 115, 111, 108, 98, 59] 10693,
  mkRef1 [98, 115, 111, 108, 104, 115, 117, 98, 59] 10184,
  mkRef1 [98, 117, 108, 108, 59] 8226,
  mkRef1 [98, 117, 108, 108, 101, 116, 59] 8226,
  mkRef1 [98, 117, 109, 112, 59] 8782,
  mkRef1 [98, 117, 109, 112, 69, 59] 10926,
  mkRef1 [98, 117, 109, 112, 101, 59] 8783,
  mkRef1 [98, 117, 109, 112, 101, 113, 59] 8783,
  mkRef1 [99, 97, 99, 117, 116, 101, 59] 263,
  mkRef1 [99, 97, 112, 59] 8745,
  mkRef1 [99, 97, 112, 97, 110, 100, 59] 10820,
  mkRef1 [99, 97, 112, 98, 114, 99, 117, 112, 59] 10825,
  mkRef1 [99, 97, 112, 99, 97, 112, 59] 10827,
  mkRef1 [99, 97, 112, 99, 117, 112, 59] 10823,
  mkRef1 [99, 97, 112, 100, 111, 116, 59] 10816,
  mkRef [99, 97, 112, 115, 59] 8745 65024,
  mkRef1 [99, 97, 114, 101, 116, 59] 8257,
  mkRef1 [99, 97, 114, 111, 110, 59] 711,
  mkRef1 [99, 99, 97, 112, 115, 59] 10829,
  mkRef1 [99, 99, 97, 114, 111, 110, 59] 269,
  mkRef1 [99, 99, 101, 100, 105, 108, 59] 231,
  mkRef1 [99, 99, 101, 100, 105, 108] 231,
  mkRef1 [99, 99, 105, 114, 99, 59] 265,
  mkRef1 [99, 99, 117, 112, 115, 59] 10828,
  mkRef1 [99, 99, 117, 112, 115, 115, 109, 59] 10832,
  mkRef1 [99, 100, 111, 116, 59] 267,
  mkRef1 [99, 101, 100, 105, 108, 59] 184,
  mkRef1 [99, 101, 100, 105, 108] 184,
  mkRef1 [99, 101, 109, 112, 116, 121, 118, 59] 10674,
  mkRef1 [99, 101, 110, 116, 59] 162,
  mkRef1 [99, 101, 110, 116] 162,
  mkRef1 [99, 101, 110, 116, 101, 114, 100, 111, 116, 59] 183,
  mkRef1 [99, 102, 114, 59] 120096,
  mkRef1 [99, 104, 99, 121, 59] 1095,
  mkRef1 [99, 104, 101, 99, 107, 59] 10003,
  mkRef1 [99, 104, 101, 99, 107, 109, 97, 114, 107, 59] 10003,
  mkRef1 [99, 104, 105, 59] 967,
  mkRef1 [99, 105, 114, 59] 9675,
  mkRef1 [99, 105, 114, 69, 59] 10691,
  mkRef1 [99, 105, 114, 99, 59] 710,
  mkRef1 [99, 105, 114, 99, 101, 113, 59] 8791,
  mkRef1 [99, 105, 114, 99, 108, 101, 97, 114, 114, 111, 119, 108, 101, 102, 116, 59] 8634,
  mkRef1 [99, 105, 114, 99, 108, 101, 97, 114, 114, 111, 119, 114, 105, 103, 104, 116, 59] 8635,
  mkRef1 [99, 105, 114, 99, 108, 101, 100, 82, 59] 174,
  mkRef1 [99, 105, 114, 99, 108, 101, 100, 83, 59] 9416,
  mkRef1 [99, 105, 114, 99, 108, 101, 100, 97, 115, 116, 59] 8859,
  mkRef1 [99, 105, 114, 99, 108, 101, 100, 99, 105, 114, 99, 59] 8858,
  mkRef1 [99, 105, 114, 99, 108, 101, 100, 100, 97, 115, 104, 59] 8861,
  mkRef1 [99, 105, 114, 101, 59] 8791,
  mkRef1 [99, 105, 114, 102, 110, 105, 110, 116, 59] 10768,
  mkRef1 [99, 105, 114, 109, 105, 100, 59] 10991,
  mkRef1 [99, 105, 114, 115, 99, 105, 114, 59] 10690,
  mkRef1 [99, 108, 117, 98, 115, 59] 9827,
  mkRef1 [99, 108, 117, 98, 115, 117, 105, 116, 59] 9827,
  mkRef1 [99, 111, 108, 111, 110, 59] 58,
  mkRef1 [99, 111, 108, 111, 110, 101, 59] 8788,
  mkRef1 [99, 111, 108, 111, 110, 101, 113, 59] 8788,
  mkRef1 [99, 111, 109, 109, 97, 59] 44,
  mkRef1 [99, 111, 109, 109, 97, 116, 59] 64,
  mkRef1 [99, 111, 109, 112, 59] 8705,
  mkRef1 [99, 111, 109, 112, 102, 110, 59] 8728,
  mkRef1 [99, 111, 109, 112, 108, 101, 109, 101, 110, 116, 59] 8705,
  mkRef1 [99, 111, 109, 112, 108, 101, 120, 101, 115, 59] 8450,
  mkRef1 [99, 111, 110, 103, 59] 8773,
  mkRef1 [99, 111, 110, 103, 100, 111, 116, 59] 10861,
  mkRef1 [99, 111, 110, 105, 110, 116, 59] 8750,
  mkRef1 [99, 111, 112, 102, 59] 120148,
  mkRef1 [99, 111, 112, 114, 111, 100, 59] 8720,
  mkRef1 [99, 111, 112, 121, 59] 169,
  mkRef1 [99, 111, 112, 121] 169,
  mkRef1 [99, 111, 112, 121, 115, 114, 59] 8471,
  mkRef1 [99, 114, 97, 114, 114, 59] 8629,
  mkRef1 [99, 114, 111, 115, 115, 59] 10007,
  mkRef1 [99, 115, 99, 114, 59] 119992,
  mkRef1 [99, 115, 117, 98, 59] 10959,
  mkRef1 [99, 115, 117, 98, 101, 59] 10961,
  mkRef1 [99, 115, 117, 112, 59] 10960,
  mkRef1 [99, 115, 117, 112, 101, 59] 10962,
  mkRef1 [99, 116, 100, 111, 116, 59] 8943,
  mkRef1 [99, 117, 100, 97, 114, 114, 108, 59] 10552,
  mkRef1 [99, 117, 100, 97, 114, 114, 114, 59] 10549,
  mkRef1 [99, 117, 101, 112, 114, 59] 8926,
  mkRef1 [99, 117, 101, 115, 99, 59] 8927,
  mkRef1 [99, 117, 108, 97, 114, 114, 59] 8630,
  mkRef1 [99, 117, 108, 97, 114, 114, 112, 59] 10557,
  mkRef1 [99, 117, 112, 59] 8746,
  mkRef1 [99, 117, 112, 98, 114, 99, 97, 112, 59] 10824,
  mkRef1 [99, 117, 112, 99, 97, 112, 59] 10822,
  mkRef1 [99, 117, 112, 99, 117, 112, 59] 10826,
  mkRef1 [99, 117, 112, 100, 111, 116, 59] 8845,
  mkRef1 [99, 117, 112, 111, 114, 59] 10821,
  mkRef [99, 117, 112, 115, 59] 8746 65024,
  mkRef1 [99, 117, 114, 97, 114, 114, 59] 8631,
  mkRef1 [99, 117, 114, 97, 114, 114, 109, 59] 10556,
  mkRef1 [99, 117, 114, 108, 121, 101, 113, 112, 114, 101, 99, 59] 8926,
  mkRef1 [99, 117, 114, 108, 121, 101, 113, 115, 117, 99, 99, 59] 8927,
  mkRef1 [99, 117, 114, 108, 121, 118, 101, 101, 59] 8910,
  mkRef1 [99, 117, 114, 108, 121, 119, 101, 100, 103, 101, 59] 8911,
  mkRef1 [99, 117, 114, 114, 101, 110, 59] 164,
  mkRef1 [99, 117, 114, 114, 101, 110] 164,
  mkRef1 [99, 117, 114, 118, 101, 97, 114, 114, 111, 119, 108, 101, 102, 116, 59] 8630,
  mkRef1 [99, 117, 114, 118, 101, 97, 114, 114, 111, 119, 114, 105, 103, 104, 116, 59] 8631,
  mkRef1 [99, 117, 118, 101, 101, 59] 8910,
  mkRef1 [99, 117, 119, 101, 100, 59] 8911,
  mkRef1 [99, 119, 99, 111, 110, 105, 110, 116, 59] 8754,
  mkRef1 [99, 119, 105, 110, 116, 59] 8753,
  mkRef1 [99, 121, 108, 99, 116, 121, 59] 9005,
  mkRef1 [100, 65, 114, 114, 59] 8659,
  mkRef1 [100, 72, 97, 114, 59] 10597,
  mkRef1 [100, 97, 103, 103, 101, 114, 59] 8224,
  mkRef1 [100, 97, 108, 101, 116, 104, 59] 8504,
  mkRef1 [100, 97, 114, 114, 59] 8595,
  mkRef1 [100, 97, 115, 104, 59] 8208,
  mkRef1 [100, 97, 115, 104, 118, 59] 8867,
  mkRef1 [100, 98, 107, 97, 114, 111, 119, 59] 10511,
  mkRef1 [100, 98, 108, 97, 99, 59] 733,
  mkRef1 [100, 99, 97, 114, 111, 110, 59] 271,
  mkRef1 [100, 99, 121, 59] 1076,
  mkRef1 [100, 100, 59] 8518,
  mkRef1 [100, 100, 97, 103, 103, 101, 114, 59] 8225,
  mkRef1 [100, 100, 97, 114, 114, 59] 8650,
  mkRef1 [100, 100, 111, 116, 115, 101, 113, 59] 10871,
  mkRef1 [100, 101, 103, 59] 176,
  mkRef1 [100, 101, 103] 176,
  mkRef1 [100, 101, 108, 116, 97, 59] 948,
  mkRef1 [100, 101, 109, 112, 116, 121, 118, 59] 10673,
  mkRef1 [100, 102, 105, 115, 104, 116, 59] 10623,
  mkRef1 [100, 102, 114, 59] 120097,
  mkRef1 [100, 104, 97, 114, 108, 59] 8643,
  mkRef1 [100, 104, 97, 114, 114, 59] 8642,
  mkRef1 [100, 105, 97, 109, 59] 8900,
  mkRef1 [100, 105, 97, 109, 111, 110, 100, 59] 8900,
  mkRef1 [100, 105, 97, 109, 111, 110, 100, 115, 117, 105, 116, 59] 9830,
  mkRef1 [100, 105, 97, 109, 115, 59] 9830,
  mkRef1 [100, 105, 101, 59] 168,
  mkRef1 [100, 105, 103, 97, 109, 109, 97, 59] 989,
  mkRef1 [100, 105, 115, 105, 110, 59] 8946,
  mkRef1 [100, 105, 118, 59] 247,
  mkRef1 [100, 105, 118, 105, 100, 101, 59] 247,
  mkRef1 [100, 105, 118, 105, 100, 101] 247,
  mkRef1 [100, 105, 118, 105, 100, 101, 111, 110, 116, 105, 109, 101, 115, 59] 8903,
  mkRef1 [100, 105, 118, 111, 110, 120, 59] 8903,
  mkRef1 [100, 106, 99, 121, 59] 1106,
  mkRef1 [100, 108, 99, 111, 114, 110, 59] 8990,
  mkRef1 [100, 108, 99, 114, 111, 112, 59] 8973,
  mkRef1 [100, 111, 108, 108, 97, 114, 59] 36,
  mkRef1 [100, 111, 112, 102, 59] 120149,
  mkRef1 [100, 111, 116, 59] 729,
  mkRef1 [100, 111, 116, 101, 113, 59] 8784,
  mkRef1 [100, 111, 116, 101, 113, 100, 111, 116, 59] 8785 ]

def kNamedEntities4 : List NamedCharRef := [
  mkRef1 [100, 111, 116, 109, 105, 110, 117, 115, 59] 8760,
  mkRef1 [100, 111, 116, 112, 108, 117, 115, 59] 8724,
  mkRef1 [100, 111, 116, 115, 113, 117, 97, 114, 101, 59] 8865,
  mkRef1 [100, 111, 117, 98, 108, 101, 98, 97, 114, 119, 101, 100, 103, 101, 59] 8966,
  mkRef1 [100, 111, 119, 110, 97, 114, 114, 111, 119, 59] 8595,
  mkRef1 [100, 111, 119, 110, 100, 111, 119, 110, 97, 114, 114, 111, 119, 115, 59] 8650,
  mkRef1 [100, 111, 119, 110, 104, 97, 114, 112, 111, 111, 110, 108, 101, 102, 116, 59] 8643,
  mkRef1 [100, 111, 119, 110, 104, 97, 114, 112, 111, 111, 110, 114, 105, 103, 104, 116, 59] 8642,
  mkRef1 [100, 114, 98, 107, 97, 114, 111, 119, 59] 10512,
  mkRef1 [100, 114, 99, 111, 114, 110, 59] 8991,
  mkRef1 [100, 114, 99, 114, 111, 112, 59] 8972,
  mkRef1 [100, 115, 99, 114, 59] 119993,
  mkRef1 [100, 115, 99, 121, 59] 1109,
  mkRef1 [100, 115, 111, 108, 59] 10742,
  mkRef1 [100, 115, 116, 114, 111, 107, 59] 273,
  mkRef1 [100, 116, 100, 111, 116, 59] 8945,
  mkRef1 [100, 116, 114, 105, 59] 9663,
  mkRef1 [100, 116, 114, 105, 102, 59] 9662,
  mkRef1 [100, 117, 97, 114, 114, 59] 8693,
  mkRef1 [100, 117, 104, 97, 114, 59] 10607,
  mkRef1 [100, 119, 97, 110, 103, 108, 101, 59] 10662,
  mkRef1 [100, 122, 99, 121, 59] 1119,
  mkRef1 [100, 122, 105, 103, 114, 97, 114, 114, 59] 10239,
  mkRef1 [101, 68, 68, 111, 116, 59] 10871,
  mkRef1 [101, 68, 111, 116, 59] 8785,
  mkRef1 [101, 97, 99, 117, 116, 101, 59] 233,
  mkRef1 [101, 97, 99, 117, 116, 101] 233,
  mkRef1 [101, 97, 115, 116, 101, 114, 59] 10862,
  mkRef1 [101, 99, 97, 114, 111, 110, 59] 283,
  mkRef1 [101, 99, 105, 114, 59] 8790,
  mkRef1 [101, 99, 105, 114, 99, 59] 234,
  mkRef1 [101, 99, 105, 114, 99] 234,
  mkRef1 [101, 99, 111, 108, 111, 110, 59] 8789,
  mkRef1 [101, 99, 121, 59] 1101,
  mkRef1 [101, 100, 111, 116, 59] 279,
  mkRef1 [101, 101, 59] 8519,
  mkRef1 [101, 102, 68, 111, 116, 59] 8786,
  mkRef1 [101, 102, 114, 59] 120098,
  mkRef1 [101, 103, 59] 10906,
  mkRef1 [101, 103, 114, 97, 118, 101, 59] 232,
  mkRef1 [101, 103, 114, 97, 118, 101] 232,
  mkRef1 [101, 103, 115, 59] 10902,
  mkRef1 [101, 103, 115, 100, 111, 116, 59] 10904,
  mkRef1 [101, 108, 59] 10905,
  mkRef1 [101, 108, 105, 110, 116, 101, 114, 115, 59] 9191,
  mkRef1 [101, 108, 108, 59] 8467,
  mkRef1 [101, 108, 115, 59] 10901,
  mkRef1 [101, 108, 115, 100, 111, 116, 59] 10903,
  mkRef1 [101, 109, 97, 99, 114, 59] 275,
  mkRef1 [101, 109, 112, 116, 121, 59] 8709,
  mkRef1 [101, 109, 112, 116, 121, 115, 101, 116, 59] 8709,
  mkRef1 [101, 109, 112, 116, 121, 118, 59] 8709,
  mkRef1 [101, 109, 115, 112, 49, 51, 59] 8196,
  mkRef1 [101, 109, 115, 112, 49, 52, 59] 8197,
  mkRef1 [101, 109, 115, 112, 59] 8195,
  mkRef1 [101, 110, 103, 59] 331,
  mkRef1 [101, 110, 115, 112, 59] 8194,
  mkRef1 [101, 111, 103, 111, 110, 59] 281,
  mkRef1 [101, 111, 112, 102, 59] 120150,
  mkRef1 [101, 112, 97, 114, 59] 8917,
  mkRef1 [101, 112, 97, 114, 115, 108, 59] 10723,
  mkRef1 [101, 112, 108, 117, 115, 59] 10865,
  mkRef1 [101, 112, 115, 105, 59] 949,
  mkRef1 [101, 112, 115, 105, 108, 111, 110, 59] 949,
  mkRef1 [101, 112, 115, 105, 118, 59] 1013,
  mkRef1 [101, 113, 99, 105, 114, 99, 59] 8790,
  mkRef1 [101, 113, 99, 111, 108, 111, 110, 59] 8789,
  mkRef1 [101, 113, 115, 105, 109, 59] 8770,
  mkRef1 [101, 113, 115, 108, 97, 110, 116, 103, 116, 114, 59] 10902,
  mkRef1 [101, 113, 115, 108, 97, 110, 116, 108, 101, 115, 115, 59] 10901,
  mkRef1 [101, 113, 117, 97, 108, 115, 59] 61,
  mkRef1 [101, 113, 117, 101, 115, 116, 59] 8799,
  mkRef1 [101, 113, 117, 105, 118, 59] 8801,
  mkRef1 [101, 113, 117, 105, 118, 68, 68, 59] 10872,
  mkRef1 [101, 113, 118, 112, 97, 114, 115, 108, 59] 10725,
  mkRef1 [101, 114, 68, 111, 116, 59] 8787,
  mkRef1 [101, 114, 97, 114, 114, 59] 10609,
  mkRef1 [101, 115, 99, 114, 59] 8495,
  mkRef1 [101, 115, 100, 111, 116, 59] 8784,
  mkRef1 [101, 115, 105, 109, 59] 8770,
  mkRef1 [101, 116, 97, 59] 951,
  mkRef1 [101, 116, 104, 59] 240,
  mkRef1 [101, 116, 104] 240,
  mkRef1 [101, 117, 109, 108, 59] 235,
  mkRef1 [101, 117, 109, 108] 235,
  mkRef1 [101, 117, 114, 111, 59] 8364,
  mkRef1 [101, 120, 99, 108, 59] 33,
  mkRef1 [101, 120, 105, 115, 116, 59] 8707,
  mkRef1 [101, 120, 112, 101, 99, 116, 97, 116, 105, 111, 110, 59] 8496,
  mkRef1 [101, 120, 112, 111, 110, 101, 110, 116, 105, 97, 108, 101, 59] 8519,
  mkRef1 [102, 97, 108, 108, 105, 110, 103, 100, 111, 116, 115, 101, 113, 59] 8786,
  mkRef1 [102, 99, 121, 59] 1092,
  mkRef1 [102, 101, 109, 97, 108, 101, 59] 9792,
  mkRef1 [102, 102, 105, 108, 105, 103, 59] 64259,
  mkRef1 [102, 102, 108, 105, 103, 59] 64256,
  mkRef1 [102, 102, 108, 108, 105, 103, 59] 64260,
  mkRef1 [102, 102, 114, 59] 120099,
  mkRef1 [102, 105, 108, 105, 103, 59] 64257,
  mkRef [102, 106, 108, 105, 103, 59] 102 106,
  mkRef1 [102, 108, 97, 116, 59] 9837,
  mkRef1 [102, 108, 108, 105, 103, 59] 64258,
  mkRef1 [102, 108, 116, 110, 115, 59] 9649,
  mkRef1 [102, 110, 111, 102, 59] 402,
  mkRef1 [102, 111, 112, 102, 59] 120151,
  mkRef1 [102, 111, 114, 97, 108, 108, 59] 8704,
  mkRef1 [102, 111, 114, 107, 59] 8916,
  mkRef1 [102, 111, 114, 107, 118, 59] 10969,
  mkRef1 [102, 112, 97, 114, 116, 105, 110, 116, 59] 10765,
  mkRef1 [102, 114, 97, 99, 49, 50, 59] 189,
  mkRef1 [102, 114, 97, 99, 49, 50] 189,
  mkRef1 [102, 114, 97, 99, 49, 51, 59] 8531,
  mkRef1 [102, 114, 97, 99, 49, 52, 59] 188,
  mkRef1 [102, 114, 97, 99, 49, 52] 188,
  mkRef1 [102, 114, 97, 99, 49, 53, 59] 8533,
  mkRef1 [102, 114, 97, 99, 49, 54, 59] 8537,
  mkRef1 [102, 114, 97, 99, 49, 56, 59] 8539,
  mkRef1 [102, 114, 97, 99, 50, 51, 59] 8532,
  mkRef1 [102, 114, 97, 99, 50, 53, 59] 8534,
  mkRef1 [102, 114, 97, 99, 51, 52, 59] 190,
  mkRef1 [102, 114, 97, 99, 51, 52] 190,
  mkRef1 [102, 114, 97, 99, 51, 53, 59] 8535,
  mkRef1 [102, 114, 97, 99, 51, 56, 59] 8540,
  mkRef1 [102, 114, 97, 99, 52, 53, 59] 8536,
  mkRef1 [102, 114, 97, 99, 53, 54, 59] 8538,
  mkRef1 [102, 114, 97, 99, 53, 56, 59] 8541,
  mkRef1 [102, 114, 97, 99, 55, 56, 59] 8542,
  mkRef1 [102, 114, 97, 115, 108, 59] 8260,
  mkRef1 [102, 114, 111, 119, 110, 59] 8994,
  mkRef1 [102, 115, 99, 114, 59] 119995,
  mkRef1 [103, 69, 59] 8807,
  mkRef1 [103, 69, 108, 59] 10892,
  mkRef1 [103, 97, 99, 117, 116, 101, 59] 501,
  mkRef1 [103, 97, 109, 109, 97, 59] 947,
  mkRef1 [103, 97, 109, 109, 97, 100, 59] 989,
  mkRef1 [103, 97, 112, 59] 10886,
  mkRef1 [103, 98, 114, 101, 118, 101, 59] 287,
  mkRef1 [103, 99, 105, 114, 99, 59] 285,
  mkRef1 [103, 99, 121, 59] 1075,
  mkRef1 [103, 100, 111, 116, 59] 289,
  mkRef1 [103, 101, 59] 8805,
  mkRef1 [103, 101, 108, 59] 8923,
  mkRef1 [103, 101, 113, 59] 8805,
  mkRef1 [103, 101, 113, 113, 59] 8807,
  mkRef1 [103, 101, 113, 115, 108, 97, 110, 116, 59] 10878,
  mkRef1 [103, 101, 115, 59] 10878,
  mkRef1 [103, 101, 115, 99, 99, 59] 10921,
  mkRef1 [103, 101, 115, 100, 111, 116, 59] 10880,
  mkRef1 [103, 101, 115, 100, 111, 116, 111, 59] 10882,
  mkRef1 [103, 101, 115, 100, 111, 116, 111, 108, 59] 10884,
  mkRef [103, 101, 115, 108, 59] 8923 65024,
  mkRef1 [103, 101, 115, 108, 101, 115, 59] 10900,
  mkRef1 [103, 102, 114, 59] 120100,
  mkRef1 [103, 103, 59] 8811,
  mkRef1 [103, 103, 103, 59] 8921,
  mkRef1 [103, 105, 109, 101, 108, 59] 8503,
  mkRef1 [103, 106, 99, 121, 59] 1107,
  mkRef1 [103, 108, 59] 8823,
  mkRef1 [103, 108, 69, 59] 10898,
  mkRef1 [103, 108, 97, 59] 10917,
  mkRef1 [103, 108, 106, 59] 10916,
  mkRef1 [103, 110, 69, 59] 8809,
  mkRef1 [103, 110, 97, 112, 59] 10890,
  mkRef1 [103, 110, 97, 112, 112, 114, 111, 120, 59] 10890,
  mkRef1 [103, 110, 101, 59] 10888,
  mkRef1 [103, 110, 101, 113, 59] 10888,
  mkRef1 [103, 110, 101, 113, 113, 59] 8809,
  mkRef1 [103, 110, 115, 105, 109, 59] 8935,
  mkRef1 [103, 111, 112, 102, 59] 120152,
  mkRef1 [103, 114, 97, 118, 101, 59] 96,
  mkRef1 [103, 115, 99, 114, 59] 8458,
  mkRef1 [103, 115, 105, 109, 59] 8819,
  mkRef1 [103, 115, 105, 109, 101, 59] 10894,
  mkRef1 [103, 115, 105, 109, 108, 59] 10896,
  mkRef1 [103, 116, 59] 62,
  mkRef1 [103, 116] 62,
  mkRef1 [103, 116, 99, 99, 59] 10919,
  mkRef1 [103, 116, 99, 105, 114, 59] 10874,
  mkRef1 [103, 116, 100, 111, 116, 59] 8919,
  mkRef1 [103, 116, 108, 80, 97, 114, 59] 10645,
  mkRef1 [103, 116, 113, 117, 101, 115, 116, 59] 10876,
  mkRef1 [103, 116, 114, 97, 112, 112, 114, 111, 120, 59] 10886,
  mkRef1 [103, 116, 114, 97, 114, 114, 59] 10616,
  mkRef1 [103, 116, 114, 100, 111, 116, 59] 8919,
  mkRef1 [103, 116, 114, 101, 113, 108, 101, 115, 115, 59] 8923,
  mkRef1 [103, 116, 114, 101, 113, 113, 108, 101, 115, 115, 59] 10892,
  mkRef1 [103, 116, 114, 108, 101, 115, 115, 59] 8823,
  mkRef1 [103, 116, 114, 115, 105, 109, 59] 8819,
  mkRef [103, 118, 101, 114, 116, 110, 101, 113, 113, 59] 8809 65024,
  mkRef [103, 118, 110, 69, 59] 8809 65024,
  mkRef1 [104, 65, 114, 114, 59] 8660,
  mkRef1 [104, 97, 105, 114, 115, 112, 59] 8202,
  mkRef1 [104, 97, 108, 102, 59] 189,
  mkRef1 [104, 97, 109, 105, 108, 116, 59] 8459,
  mkRef1 [104, 97, 114, 100, 99, 121, 59] 1098,
  mkRef1 [104, 97, 114, 114, 59] 8596,
  mkRef1 [104, 97, 114, 114, 99, 105, 114, 59] 10568,
  mkRef1 [104, 97, 114, 114, 119, 59] 8621,
  mkRef1 [104, 98, 97, 114, 59] 8463,
  mkRef1 [104, 99, 105, 114, 99, 59] 293,
  mkRef1 [104, 101, 97, 114, 116, 115, 59] 9829,
  mkRef1 [104, 101, 97, 114, 116, 115, 117, 105, 116, 59] 9829,
  mkRef1 [104, 101, 108, 108, 105, 112, 59] 8230,
  mkRef1 [104, 101, 114, 99, 111, 110, 59] 8889,
  mkRef1 [104, 102, 114, 59] 120101,
  mkRef1 [104, 107, 115, 101, 97, 114, 111, 119, 59] 10533,
  mkRef1 [104, 107, 115, 119, 97, 114, 111, 119, 59] 10534,
  mkRef1 [104, 111, 97, 114, 114, 59] 8703,
  mkRef1 [104, 111, 109, 116, 104, 116, 59] 8763,
  mkRef1 [104, 111, 111, 107, 108, 101, 102, 116, 97, 114, 114, 111, 119, 59] 8617,
  mkRef1 [104, 111, 111, 107, 114, 105, 103, 104, 116, 97, 114, 114, 111, 119, 59] 8618,
  mkRef1 [104, 111, 112, 102, 59] 120153,
  mkRef1 [104, 111, 114, 98, 97, 114, 59] 8213,
  mkRef1 [104, 115, 99, 114, 59] 119997,
  mkRef1 [104, 115, 108, 97, 115, 104, 59] 8463,
  mkRef1 [104, 115, 116, 114, 111, 107, 59] 295,
  mkRef1 [104, 121, 98, 117, 108, 108, 59] 8259,
  mkRef1 [104, 121, 112, 104, 101, 110, 59] 8208,
  mkRef1 [105, 97, 99, 117, 116, 101, 59] 237,
  mkRef1 [105, 97, 99, 117, 116, 101] 237,
  mkRef1 [105, 99, 59] 8291,
  mkRef1 [105, 99, 105, 114, 99, 59] 238,
  mkRef1 [105, 99, 105, 114, 99] 238,
  mkRef1 [105, 99, 121, 59] 1080,
  mkRef1 [105, 101, 99, 121, 59] 1077,
  mkRef1 [105, 101, 120, 99, 108, 59] 161,
  mkRef1 [105, 101, 120, 99, 108] 161,
  mkRef1 [105, 102, 102, 59] 8660,
  mkRef1 [105, 102, 114, 59] 120102,
  mkRef1 [105, 103, 114, 97, 118, 101, 59] 236,
  mkRef1 [105, 103, 114, 97, 118, 101] 236,
  mkRef1 [105, 105, 59] 8520,
  mkRef1 [105, 105, 105, 105, 110, 116, 59] 10764,
  mkRef1 [105, 105, 105, 110, 116, 59] 8749,
  mkRef1 [105, 105, 110, 102, 105, 110, 59] 10716,
  mkRef1 [105, 105, 111, 116, 97, 59] 8489,
  mkRef1 [105, 106, 108, 105, 103, 59] 307,
  mkRef1 [105, 109, 97, 99, 114, 59] 299,
  mkRef1 [105, 109, 97, 103, 101, 59] 8465,
  mkRef1 [105, 109, 97, 103, 108, 105, 110, 101, 59] 8464,
  mkRef1 [105, 109, 97, 103, 112, 97, 114, 116, 59] 8465 ]

def kNamedEntities5 : List NamedCharRef := [
  mkRef1 [105, 109, 97, 116, 104, 59] 305,
  mkRef1 [105, 109, 111, 102, 59] 8887,
  mkRef1 [105, 109, 112, 101, 100, 59] 437,
  mkRef1 [105, 110, 59] 8712,
  mkRef1 [105, 110, 99, 97, 114, 101, 59] 8453,
  mkRef1 [105, 110, 102, 105, 110, 59] 8734,
  mkRef1 [105, 110, 102, 105, 110, 116, 105, 101, 59] 10717,
  mkRef1 [105, 110, 111, 100, 111, 116, 59] 305,
  mkRef1 [105, 110, 116, 59] 8747,
  mkRef1 [105, 110, 116, 99, 97, 108, 59] 8890,
  mkRef1 [105, 110, 116, 101, 103, 101, 114, 115, 59] 8484,
  mkRef1 [105, 110, 116, 101, 114, 99, 97, 108, 59] 8890,
  mkRef1 [105, 110, 116, 108, 97, 114, 104, 107, 59] 10775,
  mkRef1 [105, 110, 116, 112, 114, 111, 100, 59] 10812,
  mkRef1 [105, 111, 99, 121, 59] 1105,
  mkRef1 [105, 111, 103, 111, 110, 59] 303,
  mkRef1 [105, 111, 112, 102, 59] 120154,
  mkRef1 [105, 111, 116, 97, 59] 953,
  mkRef1 [105, 112, 114, 111, 100, 59] 10812,
  mkRef1 [105, 113, 117, 101, 115, 116, 59] 191,
  mkRef1 [105, 113, 117, 101, 115, 116] 191,
  mkRef1 [105, 115, 99, 114, 59] 119998,
  mkRef1 [105, 115, 105, 110, 59] 8712,
  mkRef1 [105, 115, 105, 110, 69, 59] 8953,
  mkRef1 [105, 115, 105, 110, 100, 111, 116, 59] 8949,
  mkRef1 [105, 115, 105, 110, 115, 59] 8948,
  mkRef1 [105, 115, 105, 110, 115, 118, 59] 8947,
  mkRef1 [105, 115, 105, 110, 118, 59] 8712,
  mkRef1 [105, 116, 59] 8290,
  mkRef1 [105, 116, 105, 108, 100, 101, 59] 297,
  mkRef1 [105, 117, 107, 99, 121, 59] 1110,
  mkRef1 [105, 117, 109, 108, 59] 239,
  mkRef1 [105, 117, 109, 108] 239,
  mkRef1 [106, 99, 105, 114, 99, 59] 309,
  mkRef1 [106, 99, 121, 59] 1081,
  mkRef1 [106, 102, 114, 59] 120103,
  mkRef1 [106, 109, 97, 116, 104, 59] 567,
  mkRef1 [106, 111, 112, 102, 59] 120155,
  mkRef1 [106, 115, 99, 114, 59] 119999,
  mkRef1 [106, 115, 101, 114, 99, 121, 59] 1112,
  mkRef1 [106, 117, 107, 99, 121, 59] 1108,
  mkRef1 [107, 97, 112, 112, 97, 59] 954,
  mkRef1 [107, 97, 112, 112, 97, 118, 59] 1008,
  mkRef1 [107, 99, 101, 100, 105, 108, 59] 311,
  mkRef1 [107, 99, 121, 59] 1082,
  mkRef1 [107, 102, 114, 59] 120104,
  mkRef1 [107, 103, 114, 101, 101, 110, 59] 312,
  mkRef1 [107, 104, 99, 121, 59] 1093,
  mkRef1 [107, 106, 99, 121, 59] 1116,
  mkRef1 [107, 111, 112, 102, 59] 120156,
  mkRef1 [107, 115, 99, 114, 59] 120000,
  mkRef1 [108, 65, 97, 114, 114, 59] 8666,
  mkRef1 [108, 65, 114, 114, 59] 8656,
  mkRef1 [108, 65, 116, 97, 105, 108, 59] 10523,
  mkRef1 [108, 66, 97, 114, 114, 59] 10510,
  mkRef1 [108, 69, 59] 8806,
  mkRef1 [108, 69, 103, 59] 10891,
  mkRef1 [108, 72, 97, 114, 59] 10594,
  mkRef1 [108, 97, 99, 117, 116, 101, 59] 314,
  mkRef1 [108, 97, 101, 109, 112, 116, 121, 118, 59] 10676,
  mkRef1 [108, 97, 103, 114, 97, 110, 59] 8466,
  mkRef1 [108, 97, 109, 98, 100, 97, 59] 955,
  mkRef1 [108, 97, 110, 103, 59] 10216,
  mkRef1 [108, 97, 110, 103, 100, 59] 10641,
  mkRef1 [108, 97, 110, 103, 108, 101, 59] 10216,
  mkRef1 [108, 97, 112, 59] 10885,
  mkRef1 [108, 97, 113, 117, 111, 59] 171,
  mkRef1 [108, 97, 113, 117, 111] 171,
  mkRef1 [108, 97, 114, 114, 59] 8592,
  mkRef1 [108, 97, 114, 114, 98, 59] 8676,
  mkRef1 [108, 97, 114, 114, 98, 102, 115, 59] 10527,
  mkRef1 [108, 97, 114, 114, 102, 115, 59] 10525,
  mkRef1 [108, 97, 114, 114, 104, 107, 59] 8617,
  mkRef1 [108, 97, 114, 114, 108, 112, 59] 8619,
  mkRef1 [108, 97, 114, 114, 112, 108, 59] 10553,
  mkRef1 [108, 97, 114, 114, 115, 105, 109, 59] 10611,
  mkRef1 [108, 97, 114, 114, 116, 108, 59] 8610,
  mkRef1 [108, 97, 116, 59] 10923,
  mkRef1 [108, 97, 116, 97, 105, 108, 59] 10521,
  mkRef1 [108, 97, 116, 101, 59] 10925,
  mkRef [108, 97, 116, 101, 115, 59] 10925 65024,
  mkRef1 [108, 98, 97, 114, 114, 59] 10508,
  mkRef1 [108, 98, 98, 114, 107, 59] 10098,
  mkRef1 [108, 98, 114, 97, 99, 101, 59] 123,
  mkRef1 [108, 98, 114, 97, 99, 107, 59] 91,
  mkRef1 [108, 98, 114, 107, 101, 59] 10635,
  mkRef1 [108, 98, 114, 107, 115, 108, 100, 59] 10639,
  mkRef1 [108, 98, 114, 107, 115, 108, 117, 59] 10637,
  mkRef1 [108, 99, 97, 114, 111, 110, 59] 318,
  mkRef1 [108, 99, 101, 100, 105, 108, 59] 316,
  mkRef1 [108, 99, 101, 105, 108, 59] 8968,
  mkRef1 [108, 99, 117, 98, 59] 123,
  mkRef1 [108, 99, 121, 59] 1083,
  mkRef1 [108, 100, 99, 97, 59] 10550,
  mkRef1 [108, 100, 113, 117, 111, 59] 8220,
  mkRef1 [108, 100, 113, 117, 111, 114, 59] 8222,
  mkRef1 [108, 100, 114, 100, 104, 97, 114, 59] 10599,
  mkRef1 [108, 100, 114, 117, 115, 104, 97, 114, 59] 10571,
  mkRef1 [108, 100, 115, 104, 59] 8626,
  mkRef1 [108, 101, 59] 8804,
  mkRef1 [108, 101, 102, 116, 97, 114, 114, 111, 119, 59] 8592,
  mkRef1 [108, 101, 102, 116, 97, 114, 114, 111, 119, 116, 97, 105, 108, 59] 8610,
  mkRef1 [108, 101, 102, 116, 104, 97, 114, 112, 111, 111, 110, 100, 111, 119, 110, 59] 8637,
  mkRef1 [108, 101, 102, 116, 104, 97, 114, 112, 111, 111, 110, 117, 112, 59] 8636,
  mkRef1 [108, 101, 102, 116, 108, 101, 102, 116, 97, 114, 114, 111, 119, 115, 59] 8647,
  mkRef1 [108, 101, 102, 116, 114, 105, 103, 104, 116, 97, 114, 114, 111, 119, 59] 8596,
  mkRef1 [108, 101, 102, 116, 114, 105, 103, 104, 116, 97, 114, 114, 111, 119, 115, 59] 8646,
  mkRef1 [108, 101, 102, 116, 114, 105, 103, 104, 116, 104, 97, 114, 112, 111, 111, 110, 115, 59] 8651,
  mkRef1 [108, 101, 102, 116, 114, 105, 103, 104, 116, 115, 113, 117, 105, 103, 97, 114, 114, 111, 119, 59] 8621,
  mkRef1 [108, 101, 102, 116, 116, 104, 114, 101, 101, 116, 105, 109, 101, 115, 59] 8907,
  mkRef1 [108, 101, 103, 59] 8922,
  mkRef1 [108, 101, 113, 59] 8804,
  mkRef1 [108, 101, 113, 113, 59] 8806,
  mkRef1 [108, 101, 113, 115, 108, 97, 110, 116, 59] 10877,
  mkRef1 [108, 101, 115, 59] 10877,
  mkRef1 [108, 101, 115, 99, 99, 59] 10920,
  mkRef1 [108, 101, 115, 100, 111, 116, 59] 10879,
  mkRef1 [108, 101, 115, 100, 111, 116, 111, 59] 10881,
  mkRef1 [108, 101, 115, 100, 111, 116, 111, 114, 59] 10883,
  mkRef [108, 101, 115, 103, 59] 8922 65024,
  mkRef1 [108, 101, 115, 103, 101, 115, 59] 10899,
  mkRef1 [108, 101, 115, 115, 97, 112, 112, 114, 111, 120, 59] 10885,
  mkRef1 [108, 101, 115, 115, 100, 111, 116, 59] 8918,
  mkRef1 [108, 101, 115, 115, 101, 113, 103, 116, 114, 59] 8922,
  mkRef1 [108, 101, 115, 115, 101, 113, 113, 103, 116, 114, 59] 10891,
  mkRef1 [108, 101, 115, 115, 103, 116, 114, 59] 8822,
  mkRef1 [108, 101, 115, 115, 115, 105, 109, 59] 8818,
  mkRef1 [108, 102, 105, 115, 104, 116, 59] 10620,
  mkRef1 [108, 102, 108, 111, 111, 114, 59] 8970,
  mkRef1 [108, 102, 114, 59] 120105,
  mkRef1 [108, 103, 59] 8822,
  mkRef1 [108, 103, 69, 59] 10897,
  mkRef1 [108, 104, 97, 114, 100, 59] 8637,
  mkRef1 [108, 104, 97, 114, 117, 59] 8636,
  mkRef1 [108, 104, 97, 114, 117, 108, 59] 10602,
  mkRef1 [108, 104, 98, 108, 107, 59] 9604,
  mkRef1 [108, 106, 99, 121, 59] 1113,
  mkRef1 [108, 108, 59] 8810,
  mkRef1 [108, 108, 97, 114, 114, 59] 8647,
  mkRef1 [108, 108, 99, 111, 114, 110, 101, 114, 59] 8990,
  mkRef1 [108, 108, 104, 97, 114, 100, 59] 10603,
  mkRef1 [108, 108, 116, 114, 105, 59] 9722,
  mkRef1 [108, 109, 105, 100, 111, 116, 59] 320,
  mkRef1 [108, 109, 111, 117, 115, 116, 59] 9136,
  mkRef1 [108, 109, 111, 117, 115, 116, 97, 99, 104, 101, 59] 9136,
  mkRef1 [108, 110, 69, 59] 8808,
  mkRef1 [108, 110, 97, 112, 59] 10889,
  mkRef1 [108, 110, 97, 112, 112, 114, 111, 120, 59] 10889,
  mkRef1 [108, 110, 101, 59] 10887,
  mkRef1 [108, 110, 101, 113, 59] 10887,
  mkRef1 [108, 110, 101, 113, 113, 59] 8808,
  mkRef1 [108, 110, 115, 105, 109, 59] 8934,
  mkRef1 [108, 111, 97, 110, 103, 59] 10220,
  mkRef1 [108, 111, 97, 114, 114, 59] 8701,
  mkRef1 [108, 111, 98, 114, 107, 59] 10214,
  mkRef1 [108, 111, 110, 103, 108, 101, 102, 116, 97, 114, 114, 111, 119, 59] 10229,
  mkRef1 [108, 111, 110, 103, 108, 101, 102, 116, 114, 105, 103, 104, 116, 97, 114, 114, 111, 119, 59] 10231,
  mkRef1 [108, 111, 110, 103, 109, 97, 112, 115, 116, 111, 59] 10236,
  mkRef1 [108, 111, 110, 103, 114, 105, 103, 104, 116, 97, 114, 114, 111, 119, 59] 10230,
  mkRef1 [108, 111, 111, 112, 97, 114, 114, 111, 119, 108, 101, 102, 116, 59] 8619,
  mkRef1 [108, 111, 111, 112, 97, 114, 114, 111, 119, 114, 105, 103, 104, 116, 59] 8620,
  mkRef1 [108, 111, 112, 97, 114, 59] 10629,
  mkRef1 [108, 111, 112, 102, 59] 120157,
  mkRef1 [108, 111, 112, 108, 117, 115, 59] 10797,
  mkRef1 [108, 111, 116, 105, 109, 101, 115, 59] 10804,
  mkRef1 [108, 111, 119, 97, 115, 116, 59] 8727,
  mkRef1 [108, 111, 119, 98, 97, 114, 59] 95,
  mkRef1 [108, 111, 122, 59] 9674,
  mkRef1 [108, 111, 122, 101, 110, 103, 101, 59] 9674,
  mkRef1 [108, 111, 122, 102, 59] 10731,
  mkRef1 [108, 112, 97, 114, 59] 40,
  mkRef1 [108, 112, 97, 114, 108, 116, 59] 10643,
  mkRef1 [108, 114, 97, 114, 114, 59] 8646,
  mkRef1 [108, 114, 99, 111, 114, 110, 101, 114, 59] 8991,
  mkRef1 [108, 114, 104, 97, 114, 59] 8651,
  mkRef1 [108, 114, 104, 97, 114, 100, 59] 10605,
  mkRef1 [108, 114, 109, 59] 8206,
  mkRef1 [108, 114, 116, 114, 105, 59] 8895,
  mkRef1 [108, 115, 97, 113, 117, 111, 59] 8249,
  mkRef1 [108, 115, 99, 114, 59] 120001,
  mkRef1 [108, 115, 104, 59] 8624,
  mkRef1 [108, 115, 105, 109, 59] 8818,
  mkRef1 [108, 115, 105, 109, 101, 59] 10893,
  mkRef1 [108, 115, 105, 109, 103, 59] 10895,
  mkRef1 [108, 115, 113, 98, 59] 91,
  mkRef1 [108, 115, 113, 117, 111, 59] 8216,
  mkRef1 [108, 115, 113, 117, 111, 114, 59] 8218,
  mkRef1 [108, 115, 116, 114, 111, 107, 59] 322,
  mkRef1 [108, 116, 59] 60,
  mkRef1 [108, 116] 60,
  mkRef1 [108, 116, 99, 99, 59] 10918,
  mkRef1 [108, 116, 99, 105, 114, 59] 10873,
  mkRef1 [108, 116, 100, 111, 116, 59] 8918,
  mkRef1 [108, 116, 104, 114, 101, 101, 59] 8907,
  mkRef1 [108, 116, 105, 109, 101, 115, 59] 8905,
  mkRef1 [108, 116, 108, 97, 114, 114, 59] 10614,
  mkRef1 [108, 116, 113, 117, 101, 115, 116, 59] 10875,
  mkRef1 [108, 116, 114, 80, 97, 114, 59] 10646,
  mkRef1 [108, 116, 114, 105, 59] 9667,
  mkRef1 [108, 116, 114, 105, 101, 59] 8884,
  mkRef1 [108, 116, 114, 105, 102, 59] 9666,
  mkRef1 [108, 117, 114, 100, 115, 104, 97, 114, 59] 10570,
  mkRef1 [108, 117, 114, 117, 104, 97, 114, 59] 10598,
  mkRef [108, 118, 101, 114, 116, 110, 101, 113, 113, 59] 8808 65024,
  mkRef [108, 118, 110, 69, 59] 8808 65024,
  mkRef1 [109, 68, 68, 111, 116, 59] 8762,
  mkRef1 [109, 97, 99, 114, 59] 175,
  mkRef1 [109, 97, 99, 114] 175,
  mkRef1 [109, 97, 108, 101, 59] 9794,
  mkRef1 [109, 97, 108, 116, 59] 10016,
  mkRef1 [109, 97, 108, 116, 101, 115, 101, 59] 10016,
  mkRef1 [109, 97, 112, 59] 8614,
  mkRef1 [109, 97, 112, 115, 116, 111, 59] 8614,
  mkRef1 [109, 97, 112, 115, 116, 111, 100, 111, 119, 110, 59] 8615,
  mkRef1 [109, 97, 112, 115, 116, 111, 108, 101, 102, 116, 59] 8612,
  mkRef1 [109, 97, 112, 115, 116, 111, 117, 112, 59] 8613,
  mkRef1 [109, 97, 114, 107, 101, 114, 59] 9646,
  mkRef1 [109, 99, 111, 109, 109, 97, 59] 10793,
  mkRef1 [109, 99, 121, 59] 1084,
  mkRef1 [109, 100, 97, 115, 104, 59] 8212,
  mkRef1 [109, 101, 97, 115, 117, 114, 101, 100, 97, 110, 103, 108, 101, 59] 8737,
  mkRef1 [109, 102, 114, 59] 120106,
  mkRef1 [109, 104, 111, 59] 8487,
  mkRef1 [109, 105, 99, 114, 111, 59] 181,
  mkRef1 [109, 105, 99, 114, 111] 181,
  mkRef1 [109, 105, 100, 59] 8739,
  mkRef1 [109, 105, 100, 97, 115, 116, 59] 42,
  mkRef1 [109, 105, 100, 99, 105, 114, 59] 10992,
  mkRef1 [109, 105, 100, 100, 111, 116, 59] 183,
  mkRef1 [109, 105, 100, 100, 111, 116] 183,
  mkRef1 [109, 105, 110, 117, 115, 59] 8722,
  mkRef1 [109, 105, 110, 117, 115, 98, 59] 8863,
  mkRef1 [109, 105, 110, 117, 115, 100, 59] 8760,
  mkRef1 [109, 105, 110, 117, 115, 100, 117, 59] 10794,
  mkRef1 [109, 108, 99, 112, 59] 10971,
  mkRef1 [109, 108, 100, 114, 59] 8230,
  mkRef1 [109, 110, 112, 108, 117, 115, 59] 8723,
  mkRef1 [109, 111, 100, 101, 108, 115, 59] 8871,
  mkRef1 [109, 111, 112, 102, 59] 120158,
  mkRef1 [109, 112, 59] 8723 ]

def kNamedEntities6 : List NamedCharRef := [
  mkRef1 [109, 115, 99, 114, 59] 120002,
  mkRef1 [109, 115, 116, 112, 111, 115, 59] 8766,
  mkRef1 [109, 117, 59] 956,
  mkRef1 [109, 117, 108, 116, 105, 109, 97, 112, 59] 8888,
  mkRef1 [109, 117, 109, 97, 112, 59] 8888,
  mkRef [110, 71, 103, 59] 8921 824,
  mkRef [110, 71, 116, 59] 8811 8402,
  mkRef [110, 71, 116, 118, 59] 8811 824,
  mkRef1 [110, 76, 101, 102, 116, 97, 114, 114, 111, 119, 59] 8653,
  mkRef1 [110, 76, 101, 102, 116, 114, 105, 103, 104, 116, 97, 114, 114, 111, 119, 59] 8654,
  mkRef [110, 76, 108, 59] 8920 824,
  mkRef [110, 76, 116, 59] 8810 8402,
  mkRef [110, 76, 116, 118, 59] 8810 824,
  mkRef1 [110, 82, 105, 103, 104, 116, 97, 114, 114, 111, 119, 59] 8655,
  mkRef1 [110, 86, 68, 97, 115, 104, 59] 8879,
  mkRef1 [110, 86, 100, 97, 115, 104, 59] 8878,
  mkRef1 [110, 97, 98, 108, 97, 59] 8711,
  mkRef1 [110, 97, 99, 117, 116, 101, 59] 324,
  mkRef [110, 97, 110, 103, 59] 8736 8402,
  mkRef1 [110, 97, 112, 59] 8777,
  mkRef [110, 97, 112, 69, 59] 10864 824,
  mkRef [110, 97, 112, 105, 100, 59] 8779 824,
  mkRef1 [110, 97, 112, 111, 115, 59] 329,
  mkRef1 [110, 97, 112, 112, 114, 111, 120, 59] 8777,
  mkRef1 [110, 97, 116, 117, 114, 59] 9838,
  mkRef1 [110, 97, 116, 117, 114, 97, 108, 59] 9838,
  mkRef1 [110, 97, 116, 117, 114, 97, 108, 115, 59] 8469,
  mkRef1 [110, 98, 115, 112, 59] 160,
  mkRef1 [110, 98, 115, 112] 160,
  mkRef [110, 98, 117, 109, 112, 59] 8782 824,
  mkRef [110, 98, 117, 109, 112, 101, 59] 8783 824,
  mkRef1 [110, 99, 97, 112, 59] 10819,
  mkRef1 [110, 99, 97, 114, 111, 110, 59] 328,
  mkRef1 [110, 99, 101, 100, 105, 108, 59] 326,
  mkRef1 [110, 99, 111, 110, 103, 59] 8775,
  mkRef [110, 99, 111, 110, 103, 100, 111, 116, 59] 10861 824,
  mkRef1 [110, 99, 117, 112, 59] 10818,
  mkRef1 [110, 99, 121, 59] 1085,
  mkRef1 [110, 100, 97, 115, 104, 59] 8211,
  mkRef1 [110, 101, 59] 8800,
  mkRef1 [110, 101, 65, 114, 114, 59] 8663,
  mkRef1 [110, 101, 97, 114, 104, 107, 59] 10532,
  mkRef1 [110, 101, 97, 114, 114, 59] 8599,
  mkRef1 [110, 101, 97, 114, 114, 111, 119, 59] 8599,
  mkRef [110, 101, 100, 111, 116, 59] 8784 824,
  mkRef1 [110, 101, 113, 117, 105, 118, 59] 8802,
  mkRef1 [110, 101, 115, 101, 97, 114, 59] 10536,
  mkRef [110, 101, 115, 105, 109, 59] 8770 824,
  mkRef1 [110, 101, 120, 105, 115, 116, 59] 8708,
  mkRef1 [110, 101, 120, 105, 115, 116, 115, 59] 8708,
  mkRef1 [110, 102, 114, 59] 120107,
  mkRef [110, 103, 69, 59] 8807 824,
  mkRef1 [110, 103, 101, 59] 8817,
  mkRef1 [110, 103, 101, 113, 59] 8817,
  mkRef [110, 103, 101, 113, 113, 59] 8807 824,
  mkRef [110, 103, 101, 113, 115, 108, 97, 110, 116, 59] 10878 824,
  mkRef [110, 103, 101, 115, 59] 10878 824,
  mkRef1 [110, 103, 115, 105, 109, 59] 8821,
  mkRef1 [110, 103, 116, 59] 8815,
  mkRef1 [110, 103, 116, 114, 59] 8815,
  mkRef1 [110, 104, 65, 114, 114, 59] 8654,
  mkRef1 [110, 104, 97, 114, 114, 59] 8622,
  mkRef1 [110, 104, 112, 97, 114, 59] 10994,
  mkRef1 [110, 105, 59] 8715,
  mkRef1 [110, 105, 115, 59] 8956,
  mkRef1 [110, 105, 115, 100, 59] 8954,
  mkRef1 [110, 105, 118, 59] 8715,
  mkRef1 [110, 106, 99, 121, 59] 1114,
  mkRef1 [110, 108, 65, 114, 114, 59] 8653,
  mkRef [110, 108, 69, 59] 8806 824,
  mkRef1 [110, 108, 97, 114, 114, 59] 8602,
  mkRef1 [110, 108, 100, 114, 59] 8229,
  mkRef1 [110, 108, 101, 59] 8816,
  mkRef1 [110, 108, 101, 102, 116, 97, 114, 114, 111, 119, 59] 8602,
  mkRef1 [110, 108, 101, 102, 116, 114, 105, 103, 104, 116, 97, 114, 114, 111, 119, 59] 8622,
  mkRef1 [110, 108, 101, 113, 59] 8816,
  mkRef [110, 108, 101, 113, 113, 59] 8806 824,
  mkRef [110, 108, 101, 113, 115, 108, 97, 110, 116, 59] 10877 824,
  mkRef [110, 108, 101, 115, 59] 10877 824,
  mkRef1 [110, 108, 101, 115, 115, 59] 8814,
  mkRef1 [110, 108, 115, 105, 109, 59] 8820,
  mkRef1 [110, 108, 116, 59] 8814,
  mkRef1 [110, 108, 116, 114, 105, 59] 8938,
  mkRef1 [110, 108, 116, 114, 105, 101, 59] 8940,
  mkRef1 [110, 109, 105, 100, 59] 8740,
  mkRef1 [110, 111, 112, 102, 59] 120159,
  mkRef1 [110, 111, 116, 59] 172,
  mkRef1 [110, 111, 116, 105, 110, 59] 8713,
  mkRef [110, 111, 116, 105, 110, 69, 59] 8953 824,
  mkRef [110, 111, 116, 105, 110, 100, 111, 116, 59] 8949 824,
  mkRef1 [110, 111, 116, 105, 110, 118, 97, 59] 8713,
  mkRef1 [110, 111, 116, 105, 110, 118, 98, 59] 8951,
  mkRef1 [110, 111, 116, 105, 110, 118, 99, 59] 8950,
  mkRef1 [110, 111, 116, 110, 105, 59] 8716,
  mkRef1 [110, 111, 116, 110, 105, 118, 97, 59] 8716,
  mkRef1 [110, 111, 116, 110, 105, 118, 98, 59] 8958,
  mkRef1 [110, 111, 116, 110, 105, 118, 99, 59] 8957,
  mkRef1 [110, 111, 116] 172,
  mkRef1 [110, 112, 97, 114, 59] 8742,
  mkRef1 [110, 112, 97, 114, 97, 108, 108, 101, 108, 59] 8742,
  mkRef [110, 112, 97, 114, 115, 108, 59] 11005 8421,
  mkRef [110, 112, 97, 114, 116, 59] 8706 824,
  mkRef1 [110, 112, 111, 108, 105, 110, 116, 59] 10772,
  mkRef1 [110, 112, 114, 59] 8832,
  mkRef1 [110, 112, 114, 99, 117, 101, 59] 8928,
  mkRef [110, 112, 114, 101, 59] 10927 824,
  mkRef1 [110, 112, 114, 101, 99, 59] 8832,
  mkRef [110, 112, 114, 101, 99, 101, 113, 59] 10927 824,
  mkRef1 [110, 114, 65, 114, 114, 59] 8655,
  mkRef1 [110, 114, 97, 114, 114, 59] 8603,
  mkRef [110, 114, 97, 114, 114, 99, 59] 10547 824,
  mkRef [110, 114, 97, 114, 114, 119, 59] 8605 824,
  mkRef1 [110, 114, 105, 103, 104, 116, 97, 114, 114, 111, 119, 59] 8603,
  mkRef1 [110, 114, 116, 114, 105, 59] 8939,
  mkRef1 [110, 114, 116, 114, 105, 101, 59] 8941,
  mkRef1 [110, 115, 99, 59] 8833,
  mkRef1 [110, 115, 99, 99, 117, 101, 59] 8929,
  mkRef [110, 115, 99, 101, 59] 10928 824,
  mkRef1 [110, 115, 99, 114, 59] 120003,
  mkRef1 [110, 115, 104, 111, 114, 116, 109, 105, 100, 59] 8740,
  mkRef1 [110, 115, 104, 111, 114, 116, 112, 97, 114, 97, 108, 108, 101, 108, 59] 8742,
  mkRef1 [110, 115, 105, 109, 59] 8769,
  mkRef1 [110, 115, 105, 109, 101, 59] 8772,
  mkRef1 [110, 115, 105, 109, 101, 113, 59] 8772,
  mkRef1 [110, 115, 109, 105, 100, 59] 8740,
  mkRef1 [110, 115, 112, 97, 114, 59] 8742,
  mkRef1 [110, 115, 113, 115, 117, 98, 101, 59] 8930,
  mkRef1 [110, 115, 113, 115, 117, 112, 101, 59] 8931,
  mkRef1 [110, 115, 117, 98, 59] 8836,
  mkRef [110, 115, 117, 98, 69, 59] 10949 824,
  mkRef1 [110, 115, 117, 98, 101, 59] 8840,
  mkRef [110, 115, 117, 98, 115, 101, 116, 59] 8834 8402,
  mkRef1 [110, 115, 117, 98, 115, 101, 116, 101, 113, 59] 8840,
  mkRef [110, 115, 117, 98, 115, 101, 116, 101, 113, 113, 59] 10949 824,
  mkRef1 [110, 115, 117, 99, 99, 59] 8833,
  mkRef [110, 115, 117, 99, 99, 101, 113, 59] 10928 824,
  mkRef1 [110, 115, 117, 112, 59] 8837,
  mkRef [110, 115, 117, 112, 69, 59] 10950 824,
  mkRef1 [110, 115, 117, 112, 101, 59] 8841,
  mkRef [110, 115, 117, 112, 115, 101, 116, 59] 8835 8402,
  mkRef1 [110, 115, 117, 112, 115, 101, 116, 101, 113, 59] 8841,
  mkRef [110, 115, 117, 112, 115, 101, 116, 101, 113, 113, 59] 10950 824,
  mkRef1 [110, 116, 103, 108, 59] 8825,
  mkRef1 [110, 116, 105, 108, 100, 101, 59] 241,
  mkRef1 [110, 116, 105, 108, 100, 101] 241,
  mkRef1 [110, 116, 108, 103, 59] 8824,
  mkRef1 [110, 116, 114, 105, 97, 110, 103, 108, 101, 108, 101, 102, 116, 59] 8938,
  mkRef1 [110, 116, 114, 105, 97, 110, 103, 108, 101, 108, 101, 102, 116, 101, 113, 59] 8940,
  mkRef1 [110, 116, 114, 105, 97, 110, 103, 108, 101, 114, 105, 103, 104, 116, 59] 8939,
  mkRef1 [110, 116, 114, 105, 97, 110, 103, 108, 101, 114, 105, 103, 104, 116, 101, 113, 59] 8941,
  mkRef1 [110, 117, 59] 957,
  mkRef1 [110, 117, 109, 59] 35,
  mkRef1 [110, 117, 109, 101, 114, 111, 59] 8470,
  mkRef1 [110, 117, 109, 115, 112, 59] 8199,
  mkRef1 [110, 118, 68, 97, 115, 104, 59] 8877,
  mkRef1 [110, 118, 72, 97, 114, 114, 59] 10500,
  mkRef [110, 118, 97, 112, 59] 8781 8402,
  mkRef1 [110, 118, 100, 97, 115, 104, 59] 8876,
  mkRef [110, 118, 103, 101, 59] 8805 8402,
  mkRef [110, 118, 103, 116, 59] 62 8402,
  mkRef1 [110, 118, 105, 110, 102, 105, 110, 59] 10718,
  mkRef1 [110, 118, 108, 65, 114, 114, 59] 10498,
  mkRef [110, 118, 108, 101, 59] 8804 8402,
  mkRef [110, 118, 108, 116, 59] 60 8402,
  mkRef [110, 118, 108, 116, 114, 105, 101, 59] 8884 8402,
  mkRef1 [110, 118, 114, 65, 114, 114, 59] 10499,
  mkRef [110, 118, 114, 116, 114, 105, 101, 59] 8885 8402,
  mkRef [110, 118, 115, 105, 109, 59] 8764 8402,
  mkRef1 [110, 119, 65, 114, 114, 59] 8662,
  mkRef1 [110, 119, 97, 114, 104, 107, 59] 10531,
  mkRef1 [110, 119, 97, 114, 114, 59] 8598,
  mkRef1 [110, 119, 97, 114, 114, 111, 119, 59] 8598,
  mkRef1 [110, 119, 110, 101, 97, 114, 59] 10535,
  mkRef1 [111, 83, 59] 9416,
  mkRef1 [111, 97, 99, 117, 116, 101, 59] 243,
  mkRef1 [111, 97, 99, 117, 116, 101] 243,
  mkRef1 [111, 97, 115, 116, 59] 8859,
  mkRef1 [111, 99, 105, 114, 59] 8858,
  mkRef1 [111, 99, 105, 114, 99, 59] 244,
  mkRef1 [111, 99, 105, 114, 99] 244,
  mkRef1 [111, 99, 121, 59] 1086,
  mkRef1 [111, 100, 97, 115, 104, 59] 8861,
  mkRef1 [111, 100, 98, 108, 97, 99, 59] 337,
  mkRef1 [111, 100, 105, 118, 59] 10808,
  mkRef1 [111, 100, 111, 116, 59] 8857,
  mkRef1 [111, 100, 115, 111, 108, 100, 59] 10684,
  mkRef1 [111, 101, 108, 105, 103, 59] 339,
  mkRef1 [111, 102, 99, 105, 114, 59] 10687,
  mkRef1 [111, 102, 114, 59] 120108,
  mkRef1 [111, 103, 111, 110, 59] 731,
  mkRef1 [111, 103, 114, 97, 118, 101, 59] 242,
  mkRef1 [111, 103, 114, 97, 118, 101] 242,
  mkRef1 [111, 103, 116, 59] 10689,
  mkRef1 [111, 104, 98, 97, 114, 59] 10677,
  mkRef1 [111, 104, 109, 59] 937,
  mkRef1 [111, 105, 110, 116, 59] 8750,
  mkRef1 [111, 108, 97, 114, 114, 59] 8634,
  mkRef1 [111, 108, 99, 105, 114, 59] 10686,
  mkRef1 [111, 108, 99, 114, 111, 115, 115, 59] 10683,
  mkRef1 [111, 108, 105, 110, 101, 59] 8254,
  mkRef1 [111, 108, 116, 59] 10688,
  mkRef1 [111, 109, 97, 99, 114, 59] 333,
  mkRef1 [111, 109, 101, 103, 97, 59] 969,
  mkRef1 [111, 109, 105, 99, 114, 111, 110, 59] 959,
  mkRef1 [111, 109, 105, 100, 59] 10678,
  mkRef1 [111, 109, 105, 110, 117, 115, 59] 8854,
  mkRef1 [111, 111, 112, 102, 59] 120160,
  mkRef1 [111, 112, 97, 114, 59] 10679,
  mkRef1 [111, 112, 101, 114, 112, 59] 10681,
  mkRef1 [111, 112, 108, 117, 115, 59] 8853,
  mkRef1 [111, 114, 59] 8744,
  mkRef1 [111, 114, 97, 114, 114, 59] 8635,
  mkRef1 [111, 114, 100, 59] 10845,
  mkRef1 [111, 114, 100, 101, 114, 59] 8500,
  mkRef1 [111, 114, 100, 101, 114, 111, 102, 59] 8500,
  mkRef1 [111, 114, 100, 102, 59] 170,
  mkRef1 [111, 114, 100, 102] 170,
  mkRef1 [111, 114, 100, 109, 59] 186,
  mkRef1 [111, 114, 100, 109] 186,
  mkRef1 [111, 114, 105, 103, 111, 102, 59] 8886,
  mkRef1 [111, 114, 111, 114, 59] 10838,
  mkRef1 [111, 114, 115, 108, 111, 112, 101, 59] 10839,
  mkRef1 [111, 114, 118, 59] 10843,
  mkRef1 [111, 115, 99, 114, 59] 8500,
  mkRef1 [111, 115, 108, 97, 115, 104, 59] 248,
  mkRef1 [111, 115, 108, 97, 115, 104] 248,
  mkRef1 [111, 115, 111, 108, 59] 8856,
  mkRef1 [111, 116, 105, 108, 100, 101, 59] 245,
  mkRef1 [111, 116, 105, 108, 100, 101] 245,
  mkRef1 [111, 116, 105, 109, 101, 115, 59] 8855,
  mkRef1 [111, 116, 105, 109, 101, 115, 97, 115, 59] 10806,
  mkRef1 [111, 117, 109, 108, 59] 246,
  mkRef1 [111, 117, 109, 108] 246,
  mkRef1 [111, 118, 98, 97, 114, 59] 9021,
  mkRef1 [112, 97, 114, 59] 8741,
  mkRef1 [112, 97, 114, 97, 59] 182,
  mkRef1 [112, 97, 114, 97] 182,
  mkRef1 [112, 97, 114, 97, 108, 108, 101, 108, 59] 8741,
  mkRef1 [112, 97, 114, 115, 105, 109, 59] 10995,
  mkRef1 [112, 97, 114, 115, 108, 59] 11005 ]

def kNamedEntities7 : List NamedCharRef := [
  mkRef1 [112, 97, 114, 116, 59] 8706,
  mkRef1 [112, 99, 121, 59] 1087,
  mkRef1 [112, 101, 114, 99, 110, 116, 59] 37,
  mkRef1 [112, 101, 114, 105, 111, 100, 59] 46,
  mkRef1 [112, 101, 114, 109, 105, 108, 59] 8240,
  mkRef1 [112, 101, 114, 112, 59] 8869,
  mkRef1 [112, 101, 114, 116, 101, 110, 107, 59] 8241,
  mkRef1 [112, 102, 114, 59] 120109,
  mkRef1 [112, 104, 105, 59] 966,
  mkRef1 [112, 104, 105, 118, 59] 981,
  mkRef1 [112, 104, 109, 109, 97, 116, 59] 8499,
  mkRef1 [112, 104, 111, 110, 101, 59] 9742,
  mkRef1 [112, 105, 59] 960,
  mkRef1 [112, 105, 116, 99, 104, 102, 111, 114, 107, 59] 8916,
  mkRef1 [112, 105, 118, 59] 982,
  mkRef1 [112, 108, 97, 110, 99, 107, 59] 8463,
  mkRef1 [112, 108, 97, 110, 99, 107, 104, 59] 8462,
  mkRef1 [112, 108, 97, 110, 107, 118, 59] 8463,
  mkRef1 [112, 108, 117, 115, 59] 43,
  mkRef1 [112, 108, 117, 115, 97, 99, 105, 114, 59] 10787,
  mkRef1 [112, 108, 117, 115, 98, 59] 8862,
  mkRef1 [112, 108, 117, 115, 99, 105, 114, 59] 10786,
  mkRef1 [112, 108, 117, 115, 100, 111, 59] 8724,
  mkRef1 [112, 108, 117, 115, 100, 117, 59] 10789,
  mkRef1 [112, 108, 117, 115, 101, 59] 10866,
  mkRef1 [112, 108, 117, 115, 109, 110, 59] 177,
  mkRef1 [112, 108, 117, 115, 109, 110] 177,
  mkRef1 [112, 108, 117, 115, 115, 105, 109, 59] 10790,
  mkRef1 [112, 108, 117, 115, 116, 119, 111, 59] 10791,
  mkRef1 [112, 109, 59] 177,
  mkRef1 [112, 111, 105, 110, 116, 105, 110, 116, 59] 10773,
  mkRef1 [112, 111, 112, 102, 59] 120161,
  mkRef1 [112, 111, 117, 110, 100, 59] 163,
  mkRef1 [112, 111, 117, 110, 100] 163,
  mkRef1 [112, 114, 59] 8826,
  mkRef1 [112, 114, 69, 59] 10931,
  mkRef1 [112, 114, 97, 112, 59] 10935,
  mkRef1 [112, 114, 99, 117, 101, 59] 8828,
  mkRef1 [112, 114, 101, 59] 10927,
  mkRef1 [112, 114, 101, 99, 59] 8826,
  mkRef1 [112, 114, 101, 99, 97, 112, 112, 114, 111, 120, 59] 10935,
  mkRef1 [112, 114, 101, 99, 99, 117, 114, 108, 121, 101, 113, 59] 8828,
  mkRef1 [112, 114, 101, 99, 101, 113, 59] 10927,
  mkRef1 [112, 114, 101, 99, 110, 97, 112, 112, 114, 111, 120, 59] 10937,
  mkRef1 [112, 114, 101, 99, 110, 101, 113, 113, 59] 10933,
  mkRef1 [112, 114, 101, 99, 110, 115, 105, 109, 59] 8936,
  mkRef1 [112, 114, 101, 99, 115, 105, 109, 59] 8830,
  mkRef1 [112, 114, 105, 109, 101, 59] 8242,
  mkRef1 [112, 114, 105, 109, 101, 115, 59] 8473,
  mkRef1 [112, 114, 110, 69, 59] 10933,
  mkRef1 [112, 114, 110, 97, 112, 59] 10937,
  mkRef1 [112, 114, 110, 115, 105, 109, 59] 8936,
  mkRef1 [112, 114, 111, 100, 59] 8719,
  mkRef1 [112, 114, 111, 102, 97, 108, 97, 114, 59] 9006,
  mkRef1 [112, 114, 111, 102, 108, 105, 110, 101, 59] 8978,
  mkRef1 [112, 114, 111, 102, 115, 117, 114, 102, 59] 8979,
  mkRef1 [112, 114, 111, 112, 59] 8733,
  mkRef1 [112, 114, 111, 112, 116, 111, 59] 8733,
  mkRef1 [112, 114, 115, 105, 109, 59] 8830,
  mkRef1 [112, 114, 117, 114, 101, 108, 59] 8880,
  mkRef1 [112, 115, 99, 114, 59] 120005,
  mkRef1 [112, 115, 105, 59] 968,
  mkRef1 [112, 117, 110, 99, 115, 112, 59] 8200,
  mkRef1 [113, 102, 114, 59] 120110,
  mkRef1 [113, 105, 110, 116, 59] 10764,
  mkRef1 [113, 111, 112, 102, 59] 120162,
  mkRef1 [113, 112, 114, 105, 109, 101, 59] 8279,
  mkRef1 [113, 115, 99, 114, 59] 120006,
  mkRef1 [113, 117, 97, 116, 101, 114, 110, 105, 111, 110, 115, 59] 8461,
  mkRef1 [113, 117, 97, 116, 105, 110, 116, 59] 10774,
  mkRef1 [113, 117, 101, 115, 116, 59] 63,
  mkRef1 [113, 117, 101, 115, 116, 101, 113, 59] 8799,
  mkRef1 [113, 117, 111, 116, 59] 34,
  mkRef1 [113, 117, 111, 116] 34,
  mkRef1 [114, 65, 97, 114, 114, 59] 8667,
  mkRef1 [114, 65, 114, 114, 59] 8658,
  mkRef1 [114, 65, 116, 97, 105, 108, 59] 10524,
  mkRef1 [114, 66, 97, 114, 114, 59] 10511,
  mkRef1 [114, 72, 97, 114, 59] 10596,
  mkRef [114, 97, 99, 101, 59] 8765 817,
  mkRef1 [114, 97, 99, 117, 116, 101, 59] 341,
  mkRef1 [114, 97, 100, 105, 99, 59] 8730,
  mkRef1 [114, 97, 101, 109, 112, 116, 121, 118, 59] 10675,
  mkRef1 [114, 97, 110, 103, 59] 10217,
  mkRef1 [114, 97, 110, 103, 100, 59] 10642,
  mkRef1 [114, 97, 110, 103, 101, 59] 10661,
  mkRef1 [114, 97, 110, 103, 108, 101, 59] 10217,
  mkRef1 [114, 97, 113, 117, 111, 59] 187,
  mkRef1 [114, 97, 113, 117, 111] 187,
  mkRef1 [114, 97, 114, 114, 59] 8594,
  mkRef1 [114, 97, 114, 114, 97, 112, 59] 10613,
  mkRef1 [114, 97, 114, 114, 98, 59] 8677,
  mkRef1 [114, 97, 114, 114, 98, 102, 115, 59] 10528,
  mkRef1 [114, 97, 114, 114, 99, 59] 10547,
  mkRef1 [114, 97, 114, 114, 102, 115, 59] 10526,
  mkRef1 [114, 97, 114, 114, 104, 107, 59] 8618,
  mkRef1 [114, 97, 114, 114, 108, 112, 59] 8620,
  mkRef1 [114, 97, 114, 114, 112, 108, 59] 10565,
  mkRef1 [114, 97, 114, 114, 115, 105, 109, 59] 10612,
  mkRef1 [114, 97, 114, 114, 116, 108, 59] 8611,
  mkRef1 [114, 97, 114, 114, 119, 59] 8605,
  mkRef1 [114, 97, 116, 97, 105, 108, 59] 10522,
  mkRef1 [114, 97, 116, 105, 111, 59] 8758,
  mkRef1 [114, 97, 116, 105, 111, 110, 97, 108, 115, 59] 8474,
  mkRef1 [114, 98, 97, 114, 114, 59] 10509,
  mkRef1 [114, 98, 98, 114, 107, 59] 10099,
  mkRef1 [114, 98, 114, 97, 99, 101, 59] 125,
  mkRef1 [114, 98, 114, 97, 99, 107, 59] 93,
  mkRef1 [114, 98, 114, 107, 101, 59] 10636,
  mkRef1 [114, 98, 114, 107, 115, 108, 100, 59] 10638,
  mkRef1 [114, 98, 114, 107, 115, 108, 117, 59] 10640,
  mkRef1 [114, 99, 97, 114, 111, 110, 59] 345,
  mkRef1 [114, 99, 101, 100, 105, 108, 59] 343,
  mkRef1 [114, 99, 101, 105, 108, 59] 8969,
  mkRef1 [114, 99, 117, 98, 59] 125,
  mkRef1 [114, 99, 121, 59] 1088,
  mkRef1 [114, 100, 99, 97, 59] 10551,
  mkRef1 [114, 100, 108, 100, 104, 97, 114, 59] 10601,
  mkRef1 [114, 100, 113, 117, 111, 59] 8221,
  mkRef1 [114, 100, 113, 117, 111, 114, 59] 8221,
  mkRef1 [114, 100, 115, 104, 59] 8627,
  mkRef1 [114, 101, 97, 108, 59] 8476,
  mkRef1 [114, 101, 97, 108, 105, 110, 101, 59] 8475,
  mkRef1 [114, 101, 97, 108, 112, 97, 114, 116, 59] 8476,
  mkRef1 [114, 101, 97, 108, 115, 59] 8477,
  mkRef1 [114, 101, 99, 116, 59] 9645,
  mkRef1 [114, 101, 103, 59] 174,
  mkRef1 [114, 101, 103] 174,
  mkRef1 [114, 102, 105, 115, 104, 116, 59] 10621,
  mkRef1 [114, 102, 108, 111, 111, 114, 59] 8971,
  mkRef1 [114, 102, 114, 59] 120111,
  mkRef1 [114, 104, 97, 114, 100, 59] 8641,
  mkRef1 [114, 104, 97, 114, 117, 59] 8640,
  mkRef1 [114, 104, 97, 114, 117, 108, 59] 10604,
  mkRef1 [114, 104, 111, 59] 961,
  mkRef1 [114, 104, 111, 118, 59] 1009,
  mkRef1 [114, 105, 103, 104, 116, 97, 114, 114, 111, 119, 59] 8594,
  mkRef1 [114, 105, 103, 104, 116, 97, 114, 114, 111, 119, 116, 97, 105, 108, 59] 8611,
  mkRef1 [114, 105, 103, 104, 116, 104, 97, 114, 112, 111, 111, 110, 100, 111, 119, 110, 59] 8641,
  mkRef1 [114, 105, 103, 104, 116, 104, 97, 114, 112, 111, 111, 110, 117, 112, 59] 8640,
  mkRef1 [114, 105, 103, 104, 116, 108, 101, 102, 116, 97, 114, 114, 111, 119, 115, 59] 8644,
  mkRef1 [114, 105, 103, 104, 116, 108, 101, 102, 116, 104, 97, 114, 112, 111, 111, 110, 115, 59] 8652,
  mkRef1 [114, 105, 103, 104, 116, 114, 105, 103, 104, 116, 97, 114, 114, 111, 119, 115, 59] 8649,
  mkRef1 [114, 105, 103, 104, 116, 115, 113, 117, 105, 103, 97, 114, 114, 111, 119, 59] 8605,
  mkRef1 [114, 105, 103, 104, 116, 116, 104, 114, 101, 101, 116, 105, 109, 101, 115, 59] 8908,
  mkRef1 [114, 105, 110, 103, 59] 730,
  mkRef1 [114, 105, 115, 105, 110, 103, 100, 111, 116, 115, 101, 113, 59] 8787,
  mkRef1 [114, 108, 97, 114, 114, 59] 8644,
  mkRef1 [114, 108, 104, 97, 114, 59] 8652,
  mkRef1 [114, 108, 109, 59] 8207,
  mkRef1 [114, 109, 111, 117, 115, 116, 59] 9137,
  mkRef1 [114, 109, 111, 117, 115, 116, 97, 99, 104, 101, 59] 9137,
  mkRef1 [114, 110, 109, 105, 100, 59] 10990,
  mkRef1 [114, 111, 97, 110, 103, 59] 10221,
  mkRef1 [114, 111, 97, 114, 114, 59] 8702,
  mkRef1 [114, 111, 98, 114, 107, 59] 10215,
  mkRef1 [114, 111, 112, 97, 114, 59] 10630,
  mkRef1 [114, 111, 112, 102, 59] 120163,
  mkRef1 [114, 111, 112, 108, 117, 115, 59] 10798,
  mkRef1 [114, 111, 116, 105, 109, 101, 115, 59] 10805,
  mkRef1 [114, 112, 97, 114, 59] 41,
  mkRef1 [114, 112, 97, 114, 103, 116, 59] 10644,
  mkRef1 [114, 112, 112, 111, 108, 105, 110, 116, 59] 10770,
  mkRef1 [114, 114, 97, 114, 114, 59] 8649,
  mkRef1 [114, 115, 97, 113, 117, 111, 59] 8250,
  mkRef1 [114, 115, 99, 114, 59] 120007,
  mkRef1 [114, 115, 104, 59] 8625,
  mkRef1 [114, 115, 113, 98, 59] 93,
  mkRef1 [114, 115, 113, 117, 111, 59] 8217,
  mkRef1 [114, 115, 113, 117, 111, 114, 59] 8217,
  mkRef1 [114, 116, 104, 114, 101, 101, 59] 8908,
  mkRef1 [114, 116, 105, 109, 101, 115, 59] 8906,
  mkRef1 [114, 116, 114, 105, 59] 9657,
  mkRef1 [114, 116, 114, 105, 101, 59] 8885,
  mkRef1 [114, 116, 114, 105, 102, 59] 9656,
  mkRef1 [114, 116, 114, 105, 108, 116, 114, 105, 59] 10702,
  mkRef1 [114, 117, 108, 117, 104, 97, 114, 59] 10600,
  mkRef1 [114, 120, 59] 8478,
  mkRef1 [115, 97, 99, 117, 116, 101, 59] 347,
  mkRef1 [115, 98, 113, 117, 111, 59] 8218,
  mkRef1 [115, 99, 59] 8827,
  mkRef1 [115, 99, 69, 59] 10932,
  mkRef1 [115, 99, 97, 112, 59] 10936,
  mkRef1 [115, 99, 97, 114, 111, 110, 59] 353,
  mkRef1 [115, 99, 99, 117, 101, 59] 8829,
  mkRef1 [115, 99, 101, 59] 10928,
  mkRef1 [115, 99, 101, 100, 105, 108, 59] 351,
  mkRef1 [115, 99, 105, 114, 99, 59] 349,
  mkRef1 [115, 99, 110, 69, 59] 10934,
  mkRef1 [115, 99, 110, 97, 112, 59] 10938,
  mkRef1 [115, 99, 110, 115, 105, 109, 59] 8937,
  mkRef1 [115, 99, 112, 111, 108, 105, 110, 116, 59] 10771,
  mkRef1 [115, 99, 115, 105, 109, 59] 8831,
  mkRef1 [115, 99, 121, 59] 1089,
  mkRef1 [115, 100, 111, 116, 59] 8901,
  mkRef1 [115, 100, 111, 116, 98, 59] 8865,
  mkRef1 [115, 100, 111, 116, 101, 59] 10854,
  mkRef1 [115, 101, 65, 114, 114, 59] 8664,
  mkRef1 [115, 101, 97, 114, 104, 107, 59] 10533,
  mkRef1 [115, 101, 97, 114, 114, 59] 8600,
  mkRef1 [115, 101, 97, 114, 114, 111, 119, 59] 8600,
  mkRef1 [115, 101, 99, 116, 59] 167,
  mkRef1 [115, 101, 99, 116] 167,
  mkRef1 [115, 101, 109, 105, 59] 59,
  mkRef1 [115, 101, 115, 119, 97, 114, 59] 10537,
  mkRef1 [115, 101, 116, 109, 105, 110, 117, 115, 59] 8726,
  mkRef1 [115, 101, 116, 109, 110, 59] 8726,
  mkRef1 [115, 101, 120, 116, 59] 10038,
  mkRef1 [115, 102, 114, 59] 120112,
  mkRef1 [115, 102, 114, 111, 119, 110, 59] 8994,
  mkRef1 [115, 104, 97, 114, 112, 59] 9839,
  mkRef1 [115, 104, 99, 104, 99, 121, 59] 1097,
  mkRef1 [115, 104, 99, 121, 59] 1096,
  mkRef1 [115, 104, 111, 114, 116, 109, 105, 100, 59] 8739,
  mkRef1 [115, 104, 111, 114, 116, 112, 97, 114, 97, 108, 108, 101, 108, 59] 8741,
  mkRef1 [115, 104, 121, 59] 173,
  mkRef1 [115, 104, 121] 173,
  mkRef1 [115, 105, 103, 109, 97, 59] 963,
  mkRef1 [115, 105, 103, 109, 97, 102, 59] 962,
  mkRef1 [115, 105, 103, 109, 97, 118, 59] 962,
  mkRef1 [115, 105, 109, 59] 8764,
  mkRef1 [115, 105, 109, 100, 111, 116, 59] 10858,
  mkRef1 [115, 105, 109, 101, 59] 8771,
  mkRef1 [115, 105, 109, 101, 113, 59] 8771,
  mkRef1 [115, 105, 109, 103, 59] 10910,
  mkRef1 [115, 105, 109, 103, 69, 59] 10912,
  mkRef1 [115, 105, 109, 108, 59] 10909,
  mkRef1 [115, 105, 109, 108, 69, 59] 10911,
  mkRef1 [115, 105, 109, 110, 101, 59] 8774,
  mkRef1 [115, 105, 109, 112, 108, 117, 115, 59] 10788,
  mkRef1 [115, 105, 109, 114, 97, 114, 114, 59] 10610,
  mkRef1 [115, 108, 97, 114, 114, 59] 8592,
  mkRef1 [115, 109, 97, 108, 108, 115, 101, 116, 109, 105, 110, 117, 115, 59] 8726,
  mkRef1 [115, 109, 97, 115, 104, 112, 59] 10803,
  mkRef1 [115, 109, 101, 112, 97, 114, 115, 108, 59] 10724,
  mkRef1 [115, 109, 105, 100, 59] 8739,
  mkRef1 [115, 109, 105, 108, 101, 59] 8995,
  mkRef1 [115, 109, 116, 59] 10922,
  mkRef1 [115, 109, 116, 101, 59] 10924,
  mkRef [115, 109, 116, 101, 115, 59] 10924 65024 ]

def kNamedEntities8 : List NamedCharRef := [
  mkRef1 [115, 111, 102, 116, 99, 121, 59] 1100,
  mkRef1 [115, 111, 108, 59] 47,
  mkRef1 [115, 111, 108, 98, 59] 10692,
  mkRef1 [115, 111, 108, 98, 97, 114, 59] 9023,
  mkRef1 [115, 111, 112, 102, 59] 120164,
  mkRef1 [115, 112, 97, 100, 101, 115, 59] 9824,
  mkRef1 [115, 112, 97, 100, 101, 115, 117, 105, 116, 59] 9824,
  mkRef1 [115, 112, 97, 114, 59] 8741,
  mkRef1 [115, 113, 99, 97, 112, 59] 8851,
  mkRef [115, 113, 99, 97, 112, 115, 59] 8851 65024,
  mkRef1 [115, 113, 99, 117, 112, 59] 8852,
  mkRef [115, 113, 99, 117, 112, 115, 59] 8852 65024,
  mkRef1 [115, 113, 115, 117, 98, 59] 8847,
  mkRef1 [115, 113, 115, 117, 98, 101, 59] 8849,
  mkRef1 [115, 113, 115, 117, 98, 115, 101, 116, 59] 8847,
  mkRef1 [115, 113, 115, 117, 98, 115, 101, 116, 101, 113, 59] 8849,
  mkRef1 [115, 113, 115, 117, 112, 59] 8848,
  mkRef1 [115, 113, 115, 117, 112, 101, 59] 8850,
  mkRef1 [115, 113, 115, 117, 112, 115, 101, 116, 59] 8848,
  mkRef1 [115, 113, 115, 117, 112, 115, 101, 116, 101, 113, 59] 8850,
  mkRef1 [115, 113, 117, 59] 9633,
  mkRef1 [115, 113, 117, 97, 114, 101, 59] 9633,
  mkRef1 [115, 113, 117, 97, 114, 102, 59] 9642,
  mkRef1 [115, 113, 117, 102, 59] 9642,
  mkRef1 [115, 114, 97, 114, 114, 59] 8594,
  mkRef1 [115, 115, 99, 114, 59] 120008,
  mkRef1 [115, 115, 101, 116, 109, 110, 59] 8726,
  mkRef1 [115, 115, 109, 105, 108, 101, 59] 8995,
  mkRef1 [115, 115, 116, 97, 114, 102, 59] 8902,
  mkRef1 [115, 116, 97, 114, 59] 9734,
  mkRef1 [115, 116, 97, 114, 102, 59] 9733,
  mkRef1 [115, 116, 114, 97, 105, 103, 104, 116, 101, 112, 115, 105, 108, 111, 110, 59] 1013,
  mkRef1 [115, 116, 114, 97, 105, 103, 104, 116, 112, 104, 105, 59] 981,
  mkRef1 [115, 116, 114, 110, 115, 59] 175,
  mkRef1 [115, 117, 98, 59] 8834,
  mkRef1 [115, 117, 98, 69, 59] 10949,
  mkRef1 [115, 117, 98, 100, 111, 116, 59] 10941,
  mkRef1 [115, 117, 98, 101, 59] 8838,
  mkRef1 [115, 117, 98, 101, 100, 111, 116, 59] 10947,
  mkRef1 [115, 117, 98, 109, 117, 108, 116, 59] 10945,
  mkRef1 [115, 117, 98, 110, 69, 59] 10955,
  mkRef1 [115, 117, 98, 110, 101, 59] 8842,
  mkRef1 [115, 117, 98, 112, 108, 117, 115, 59] 10943,
  mkRef1 [115, 117, 98, 114, 97, 114, 114, 59] 10617,
  mkRef1 [115, 117, 98, 115, 101, 116, 59] 8834,
  mkRef1 [115, 117, 98, 115, 101, 116, 101, 113, 59] 8838,
  mkRef1 [115, 117, 98, 115, 101, 116, 101, 113, 113, 59] 10949,
  mkRef1 [115, 117, 98, 115, 101, 116, 110, 101, 113, 59] 8842,
  mkRef1 [115, 117, 98, 115, 101, 116, 110, 101, 113, 113, 59] 10955,
  mkRef1 [115, 117, 98, 115, 105, 109, 59] 10951,
  mkRef1 [115, 117, 98, 115, 117, 98, 59] 10965,
  mkRef1 [115, 117, 98, 115, 117, 112, 59] 10963,
  mkRef1 [115, 117, 99, 99, 59] 8827,
  mkRef1 [115, 117, 99, 99, 97, 112, 112, 114, 111, 120, 59] 10936,
  mkRef1 [115, 117, 99, 99, 99, 117, 114, 108, 121, 101, 113, 59] 8829,
  mkRef1 [115, 117, 99, 99, 101, 113, 59] 10928,
  mkRef1 [115, 117, 99, 99, 110, 97, 112, 112, 114, 111, 120, 59] 10938,
  mkRef1 [115, 117, 99, 99, 110, 101, 113, 113, 59] 10934,
  mkRef1 [115, 117, 99, 99, 110, 115, 105, 109, 59] 8937,
  mkRef1 [115, 117, 99, 99, 115, 105, 109, 59] 8831,
  mkRef1 [115, 117, 109, 59] 8721,
  mkRef1 [115, 117, 110, 103, 59] 9834,
  mkRef1 [115, 117, 112, 49, 59] 185,
  mkRef1 [115, 117, 112, 49] 185,
  mkRef1 [115, 117, 112, 50, 59] 178,
  mkRef1 [115, 117, 112, 50] 178,
  mkRef1 [115, 117, 112, 51, 59] 179,
  mkRef1 [115, 117, 112, 51] 179,
  mkRef1 [115, 117, 112, 59] 8835,
  mkRef1 [115, 117, 112, 69, 59] 10950,
  mkRef1 [115, 117, 112, 100, 111, 116, 59] 10942,
  mkRef1 [115, 117, 112, 100, 115, 117, 98, 59] 10968,
  mkRef1 [115, 117, 112, 101, 59] 8839,
  mkRef1 [115, 117, 112, 101, 100, 111, 116, 59] 10948,
  mkRef1 [115, 117, 112, 104, 115, 111, 108, 59] 10185,
  mkRef1 [115, 117, 112, 104, 115, 117, 98, 59] 10967,
  mkRef1 [115, 117, 112, 108, 97, 114, 114, 59] 10619,
  mkRef1 [115, 117, 112, 109, 117, 108, 116, 59] 10946,
  mkRef1 [115, 117, 112, 110, 69, 59] 10956,
  mkRef1 [115, 117, 112, 110, 101, 59] 8843,
  mkRef1 [115, 117, 112, 112, 108, 117, 115, 59] 10944,
  mkRef1 [115, 117, 112, 115, 101, 116, 59] 8835,
  mkRef1 [115, 117, 112, 115, 101, 116, 101, 113, 59] 8839,
  mkRef1 [115, 117, 112, 115, 101, 116, 101, 113, 113, 59] 10950,
  mkRef1 [115, 117, 112, 115, 101, 116, 110, 101, 113, 59] 8843,
  mkRef1 [115, 117, 112, 115, 101, 116, 110, 101, 113, 113, 59] 10956,
  mkRef1 [115, 117, 112, 115, 105, 109, 59] 10952,
  mkRef1 [115, 117, 112, 115, 117, 98, 59] 10964,
  mkRef1 [115, 117, 112, 115, 117, 112, 59] 10966,
  mkRef1 [115, 119, 65, 114, 114, 59] 8665,
  mkRef1 [115, 119, 97, 114, 104, 107, 59] 10534,
  mkRef1 [115, 119, 97, 114, 114, 59] 8601,
  mkRef1 [115, 119, 97, 114, 114, 111, 119, 59] 8601,
  mkRef1 [115, 119, 110, 119, 97, 114, 59] 10538,
  mkRef1 [115, 122, 108, 105, 103, 59] 223,
  mkRef1 [115, 122, 108, 105, 103] 223,
  mkRef1 [116, 97, 114, 103, 101, 116, 59] 8982,
  mkRef1 [116, 97, 117, 59] 964,
  mkRef1 [116, 98, 114, 107, 59] 9140,
  mkRef1 [116, 99, 97, 114, 111, 110, 59] 357,
  mkRef1 [116, 99, 101, 100, 105, 108, 59] 355,
  mkRef1 [116, 99, 121, 59] 1090,
  mkRef1 [116, 100, 111, 116, 59] 8411,
  mkRef1 [116, 101, 108, 114, 101, 99, 59] 8981,
  mkRef1 [116, 102, 114, 59] 120113,
  mkRef1 [116, 104, 101, 114, 101, 52, 59] 8756,
  mkRef1 [116, 104, 101, 114, 101, 102, 111, 114, 101, 59] 8756,
  mkRef1 [116, 104, 101, 116, 97, 59] 952,
  mkRef1 [116, 104, 101, 116, 97, 115, 121, 109, 59] 977,
  mkRef1 [116, 104, 101, 116, 97, 118, 59] 977,
  mkRef1 [116, 104, 105, 99, 107, 97, 112, 112, 114, 111, 120, 59] 8776,
  mkRef1 [116, 104, 105, 99, 107, 115, 105, 109, 59] 8764,
  mkRef1 [116, 104, 105, 110, 115, 112, 59] 8201,
  mkRef1 [116, 104, 107, 97, 112, 59] 8776,
  mkRef1 [116, 104, 107, 115, 105, 109, 59] 8764,
  mkRef1 [116, 104, 111, 114, 110, 59] 254,
  mkRef1 [116, 104, 111, 114, 110] 254,
  mkRef1 [116, 105, 108, 100, 101, 59] 732,
  mkRef1 [116, 105, 109, 101, 115, 59] 215,
  mkRef1 [116, 105, 109, 101, 115] 215,
  mkRef1 [116, 105, 109, 101, 115, 98, 59] 8864,
  mkRef1 [116, 105, 109, 101, 115, 98, 97, 114, 59] 10801,
  mkRef1 [116, 105, 109, 101, 115, 100, 59] 10800,
  mkRef1 [116, 105, 110, 116, 59] 8749,
  mkRef1 [116, 111, 101, 97, 59] 10536,
  mkRef1 [116, 111, 112, 59] 8868,
  mkRef1 [116, 111, 112, 98, 111, 116, 59] 9014,
  mkRef1 [116, 111, 112, 99, 105, 114, 59] 10993,
  mkRef1 [116, 111, 112, 102, 59] 120165,
  mkRef1 [116, 111, 112, 102, 111, 114, 107, 59] 10970,
  mkRef1 [116, 111, 115, 97, 59] 10537,
  mkRef1 [116, 112, 114, 105, 109, 101, 59] 8244,
  mkRef1 [116, 114, 97, 100, 101, 59] 8482,
  mkRef1 [116, 114, 105, 97, 110, 103, 108, 101, 59] 9653,
  mkRef1 [116, 114, 105, 97, 110, 103, 108, 101, 100, 111, 119, 110, 59] 9663,
  mkRef1 [116, 114, 105, 97, 110, 103, 108, 101, 108, 101, 102, 116, 59] 9667,
  mkRef1 [116, 114, 105, 97, 110, 103, 108, 101, 108, 101, 102, 116, 101, 113, 59] 8884,
  mkRef1 [116, 114, 105, 97, 110, 103, 108, 101, 113, 59] 8796,
  mkRef1 [116, 114, 105, 97, 110, 103, 108, 101, 114, 105, 103, 104, 116, 59] 9657,
  mkRef1 [116, 114, 105, 97, 110, 103, 108, 101, 114, 105, 103, 104, 116, 101, 113, 59] 8885,
  mkRef1 [116, 114, 105, 100, 111, 116, 59] 9708,
  mkRef1 [116, 114, 105, 101, 59] 8796,
  mkRef1 [116, 114, 105, 109, 105, 110, 117, 115, 59] 10810,
  mkRef1 [116, 114, 105, 112, 108, 117, 115, 59] 10809,
  mkRef1 [116, 114, 105, 115, 98, 59] 10701,
  mkRef1 [116, 114, 105, 116, 105, 109, 101, 59] 10811,
  mkRef1 [116, 114, 112, 101, 122, 105, 117, 109, 59] 9186,
  mkRef1 [116, 115, 99, 114, 59] 120009,
  mkRef1 [116, 115, 99, 121, 59] 1094,
  mkRef1 [116, 115, 104, 99, 121, 59] 1115,
  mkRef1 [116, 115, 116, 114, 111, 107, 59] 359,
  mkRef1 [116, 119, 105, 120, 116, 59] 8812,
  mkRef1 [116, 119, 111, 104, 101, 97, 100, 108, 101, 102, 116, 97, 114, 114, 111, 119, 59] 8606,
  mkRef1 [116, 119, 111, 104, 101, 97, 100, 114, 105, 103, 104, 116, 97, 114, 114, 111, 119, 59] 8608,
  mkRef1 [117, 65, 114, 114, 59] 8657,
  mkRef1 [117, 72, 97, 114, 59] 10595,
  mkRef1 [117, 97, 99, 117, 116, 101, 59] 250,
  mkRef1 [117, 97, 99, 117, 116, 101] 250,
  mkRef1 [117, 97, 114, 114, 59] 8593,
  mkRef1 [117, 98, 114, 99, 121, 59] 1118,
  mkRef1 [117, 98, 114, 101, 118, 101, 59] 365,
  mkRef1 [117, 99, 105, 114, 99, 59] 251,
  mkRef1 [117, 99, 105, 114, 99] 251,
  mkRef1 [117, 99, 121, 59] 1091,
  mkRef1 [117, 100, 97, 114, 114, 59] 8645,
  mkRef1 [117, 100, 98, 108, 97, 99, 59] 369,
  mkRef1 [117, 100, 104, 97, 114, 59] 10606,
  mkRef1 [117, 102, 105, 115, 104, 116, 59] 10622,
  mkRef1 [117, 102, 114, 59] 120114,
  mkRef1 [117, 103, 114, 97, 118, 101, 59] 249,
  mkRef1 [117, 103, 114, 97, 118, 101] 249,
  mkRef1 [117, 104, 97, 114, 108, 59] 8639,
  mkRef1 [117, 104, 97, 114, 114, 59] 8638,
  mkRef1 [117, 104, 98, 108, 107, 59] 9600,
  mkRef1 [117, 108, 99, 111, 114, 110, 59] 8988,
  mkRef1 [117, 108, 99, 111, 114, 110, 101, 114, 59] 8988,
  mkRef1 [117, 108, 99, 114, 111, 112, 59] 8975,
  mkRef1 [117, 108, 116, 114, 105, 59] 9720,
  mkRef1 [117, 109, 97, 99, 114, 59] 363,
  mkRef1 [117, 109, 108, 59] 168,
  mkRef1 [117, 109, 108] 168,
  mkRef1 [117, 111, 103, 111, 110, 59] 371,
  mkRef1 [117, 111, 112, 102, 59] 120166,
  mkRef1 [117, 112, 97, 114, 114, 111, 119, 59] 8593,
  mkRef1 [117, 112, 100, 111, 119, 110, 97, 114, 114, 111, 119, 59] 8597,
  mkRef1 [117, 112, 104, 97, 114, 112, 111, 111, 110, 108, 101, 102, 116, 59] 8639,
  mkRef1 [117, 112, 104, 97, 114, 112, 111, 111, 110, 114, 105, 103, 104, 116, 59] 8638,
  mkRef1 [117, 112, 108, 117, 115, 59] 8846,
  mkRef1 [117, 112, 115, 105, 59] 965,
  mkRef1 [117, 112, 115, 105, 104, 59] 978,
  mkRef1 [117, 112, 115, 105, 108, 111, 110, 59] 965,
  mkRef1 [117, 112, 117, 112, 97, 114, 114, 111, 119, 115, 59] 8648,
  mkRef1 [117, 114, 99, 111, 114, 110, 59] 8989,
  mkRef1 [117, 114, 99, 111, 114, 110, 101, 114, 59] 8989,
  mkRef1 [117, 114, 99, 114, 111, 112, 59] 8974,
  mkRef1 [117, 114, 105, 110, 103, 59] 367,
  mkRef1 [117, 114, 116, 114, 105, 59] 9721,
  mkRef1 [117, 115, 99, 114, 59] 120010,
  mkRef1 [117, 116, 100, 111, 116, 59] 8944,
  mkRef1 [117, 116, 105, 108, 100, 101, 59] 361,
  mkRef1 [117, 116, 114, 105, 59] 9653,
  mkRef1 [117, 116, 114, 105, 102, 59] 9652,
  mkRef1 [117, 117, 97, 114, 114, 59] 8648,
  mkRef1 [117, 117, 109, 108, 59] 252,
  mkRef1 [117, 117, 109, 108] 252,
  mkRef1 [117, 119, 97, 110, 103, 108, 101, 59] 10663,
  mkRef1 [118, 65, 114, 114, 59] 8661,
  mkRef1 [118, 66, 97, 114, 59] 10984,
  mkRef1 [118, 66, 97, 114, 118, 59] 10985,
  mkRef1 [118, 68, 97, 115, 104, 59] 8872,
  mkRef1 [118, 97, 110, 103, 114, 116, 59] 10652,
  mkRef1 [118, 97, 114, 101, 112, 115, 105, 108, 111, 110, 59] 1013,
  mkRef1 [118, 97, 114, 107, 97, 112, 112, 97, 59] 1008,
  mkRef1 [118, 97, 114, 110, 111, 116, 104, 105, 110, 103, 59] 8709,
  mkRef1 [118, 97, 114, 112, 104, 105, 59] 981,
  mkRef1 [118, 97, 114, 112, 105, 59] 982,
  mkRef1 [118, 97, 114, 112, 114, 111, 112, 116, 111, 59] 8733,
  mkRef1 [118, 97, 114, 114, 59] 8597,
  mkRef1 [118, 97, 114, 114, 104, 111, 59] 1009,
  mkRef1 [118, 97, 114, 115, 105, 103, 109, 97, 59] 962,
  mkRef [118, 97, 114, 115, 117, 98, 115, 101, 116, 110, 101, 113, 59] 8842 65024,
  mkRef [118, 97, 114, 115, 117, 98, 115, 101, 116, 110, 101, 113, 113, 59] 10955 65024,
  mkRef [118, 97, 114, 115, 117, 112, 115, 101, 116, 110, 101, 113, 59] 8843 65024,
  mkRef [118, 97, 114, 115, 117, 112, 115, 101, 116, 110, 101, 113, 113, 59] 10956 65024,
  mkRef1 [118, 97, 114, 116, 104, 101, 116, 97, 59] 977,
  mkRef1 [118, 97, 114, 116, 114, 105, 97, 110, 103, 108, 101, 108, 101, 102, 116, 59] 8882,
  mkRef1 [118, 97, 114, 116, 114, 105, 97, 110, 103, 108, 101, 114, 105, 103, 104, 116, 59] 8883,
  mkRef1 [118, 99, 121, 59] 1074,
  mkRef1 [118, 100, 97, 115, 104, 59] 8866,
  mkRef1 [118, 101, 101, 59] 8744,
  mkRef1 [118, 101, 101, 98, 97, 114, 59] 8891,
  mkRef1 [118, 101, 101, 101, 113, 59] 8794,
  mkRef1 [118, 101, 108, 108, 105, 112, 59] 8942,
  mkRef1 [118, 101, 114, 98, 97, 114, 59] 124,
  mkRef1 [118, 101, 114, 116, 59] 124,
  mkRef1 [118, 102, 114, 59] 120115,
  mkRef1 [118, 108, 116, 114, 105, 59] 8882,
  mkRef [118, 110, 115, 117, 98, 59] 8834 8402,
  mkRef [118, 110, 115, 117, 112, 59] 8835 8402,
  mkRef1 [118, 111, 112, 102, 59] 120167 ]

def kNamedEntities9 : List NamedCharRef := [
  mkRef1 [118, 112, 114, 111, 112, 59] 8733,
  mkRef1 [118, 114, 116, 114, 105, 59] 8883,
  mkRef1 [118, 115, 99, 114, 59] 120011,
  mkRef [118, 115, 117, 98, 110, 69, 59] 10955 65024,
  mkRef [118, 115, 117, 98, 110, 101, 59] 8842 65024,
  mkRef [118, 115, 117, 112, 110, 69, 59] 10956 65024,
  mkRef [118, 115, 117, 112, 110, 101, 59] 8843 65024,
  mkRef1 [118, 122, 105, 103, 122, 97, 103, 59] 10650,
  mkRef1 [119, 99, 105, 114, 99, 59] 373,
  mkRef1 [119, 101, 100, 98, 97, 114, 59] 10847,
  mkRef1 [119, 101, 100, 103, 101, 59] 8743,
  mkRef1 [119, 101, 100, 103, 101, 113, 59] 8793,
  mkRef1 [119, 101, 105, 101, 114, 112, 59] 8472,
  mkRef1 [119, 102, 114, 59] 120116,
  mkRef1 [119, 111, 112, 102, 59] 120168,
  mkRef1 [119, 112, 59] 8472,
  mkRef1 [119, 114, 59] 8768,
  mkRef1 [119, 114, 101, 97, 116, 104, 59] 8768,
  mkRef1 [119, 115, 99, 114, 59] 120012,
  mkRef1 [120, 99, 97, 112, 59] 8898,
  mkRef1 [120, 99, 105, 114, 99, 59] 9711,
  mkRef1 [120, 99, 117, 112, 59] 8899,
  mkRef1 [120, 100, 116, 114, 105, 59] 9661,
  mkRef1 [120, 102, 114, 59] 120117,
  mkRef1 [120, 104, 65, 114, 114, 59] 10234,
  mkRef1 [120, 104, 97, 114, 114, 59] 10231,
  mkRef1 [120, 105, 59] 958,
  mkRef1 [120, 108, 65, 114, 114, 59] 10232,
  mkRef1 [120, 108, 97, 114, 114, 59] 10229,
  mkRef1 [120, 109, 97, 112, 59] 10236,
  mkRef1 [120, 110, 105, 115, 59] 8955,
  mkRef1 [120, 111, 100, 111, 116, 59] 10752,
  mkRef1 [120, 111, 112, 102, 59] 120169,
  mkRef1 [120, 111, 112, 108, 117, 115, 59] 10753,
  mkRef1 [120, 111, 116, 105, 109, 101, 59] 10754,
  mkRef1 [120, 114, 65, 114, 114, 59] 10233,
  mkRef1 [120, 114, 97, 114, 114, 59] 10230,
  mkRef1 [120, 115, 99, 114, 59] 120013,
  mkRef1 [120, 115, 113, 99, 117, 112, 59] 10758,
  mkRef1 [120, 117, 112, 108, 117, 115, 59] 10756,
  mkRef1 [120, 117, 116, 114, 105, 59] 9651,
  mkRef1 [120, 118, 101, 101, 59] 8897,
  mkRef1 [120, 119, 101, 100, 103, 101, 59] 8896,
  mkRef1 [121, 97, 99, 117, 116, 101, 59] 253,
  mkRef1 [121, 97, 99, 117, 116, 101] 253,
  mkRef1 [121, 97, 99, 121, 59] 1103,
  mkRef1 [121, 99, 105, 114, 99, 59] 375,
  mkRef1 [121, 99, 121, 59] 1099,
  mkRef1 [121, 101, 110, 59] 165,
  mkRef1 [121, 101, 110] 165,
  mkRef1 [121, 102, 114, 59] 120118,
  mkRef1 [121, 105, 99, 121, 59] 1111,
  mkRef1 [121, 111, 112, 102, 59] 120170,
  mkRef1 [121, 115, 99, 114, 59] 120014,
  mkRef1 [121, 117, 99, 121, 59] 1102,
  mkRef1 [121, 117, 109, 108, 59] 255,
  mkRef1 [121, 117, 109, 108] 255,
  mkRef1 [122, 97, 99, 117, 116, 101, 59] 378,
  mkRef1 [122, 99, 97, 114, 111, 110, 59] 382,
  mkRef1 [122, 99, 121, 59] 1079,
  mkRef1 [122, 100, 111, 116, 59] 380,
  mkRef1 [122, 101, 101, 116, 114, 102, 59] 8488,
  mkRef1 [122, 101, 116, 97, 59] 950,
  mkRef1 [122, 102, 114, 59] 120119,
  mkRef1 [122, 104, 99, 121, 59] 1078,
  mkRef1 [122, 105, 103, 114, 97, 114, 114, 59] 8669,
  mkRef1 [122, 111, 112, 102, 59] 120171,
  mkRef1 [122, 115, 99, 114, 59] 120015,
  mkRef1 [122, 119, 106, 59] 8205,
  mkRef1 [122, 119, 110, 106, 59] 8204 ]


/-- The full kNamedEntities table (without the all-zero terminator entry). -/
def kNamedEntities : List NamedCharRef :=
  kNamedEntities0 ++ (kNamedEntities1 ++ (kNamedEntities2 ++ (kNamedEntities3 ++
  (kNamedEntities4 ++ (kNamedEntities5 ++ (kNamedEntities6 ++ (kNamedEntities7 ++
  (kNamedEntities8 ++ kNamedEntities9))))))))

/-- Result pair of the character-reference resolver (char_ref.h):
`first`/`second` are codepoints or kGumboNoChar (-1). -/
structure OneOrTwoCodepoints where
  first : Int
  second : Int
deriving Repr, DecidableEq

/-- One step of the longest-match scan: keep the better of the current
best match and entry `e` for the input `bytes` (a strictly longer
matching name wins; on equal lengths the earlier entry is kept). -/
def refStep (bytes : List Nat) (best : Option NamedCharRef) (e : NamedCharRef) :
    Option NamedCharRef :=
  if e.name.isPrefixOf bytes then
    match best with
    | Option.none => some e
    | some b => if b.name.length < e.name.length then some e else best
  else best

/-- The `valid_named_ref` Ragel scanner of char_ref.rl is declared as a
longest-match scanner (`|* ... *|`) over the entity-name literals; its
compiled form (`write exec`) finds the longest literal that is a prefix
of the input starting at `p` and runs that literal's action, which stores
the entry's codepoints.  This models that scan as a fold over the same
entity list. -/
def matchNamedRef (bytes : List Nat) : Option NamedCharRef :=
  kNamedEntities.foldl (refStep bytes) Option.none

/-- Translation of `is_legal_attribute_char_next` (char_ref lines
2536-2539): reads the character the iterator is CURRENTLY on. -/
def is_legal_attribute_char_next (iter : Utf8Iterator) : Bool :=
  iter.current = 61 || isalnum iter.current

/-- Translation of `add_named_reference_error` (char_ref lines 2454-2464):
the position and original text come from the iterator's mark. -/
def add_named_reference_error (iter : Utf8Iterator) (type : GumboErrorType)
    (text : List Nat) : Utf8Iterator :=
  let e : GumboError :=
    { type := type, line := iter.mark_line, column := iter.mark_column,
      offset := iter.mark_offset, original_text := iter.mark_start,
      payload := .text text }
  { iter with errors := gumbo_add_error iter.max_errors iter.errors e }

/-- Translation of `add_codepoint_error` (char_ref lines 2442-2452). -/
def add_codepoint_error (iter : Utf8Iterator) (type : GumboErrorType)
    (codepoint : Nat) : Utf8Iterator :=
  let e : GumboError :=
    { type := type, line := iter.mark_line, column := iter.mark_column,
      offset := iter.mark_offset, original_text := iter.mark_start,
      payload := .codepoint codepoint }
  { iter with errors := gumbo_add_error iter.max_errors iter.errors e }

/-- Translation of `add_no_digit_error` (char_ref lines 2432-2440);
the C error record carries no payload field for this type, modelled as
codepoint 0. -/
def add_no_digit_error (iter : Utf8Iterator) : Utf8Iterator :=
  add_codepoint_error iter .NUMERIC_CHAR_REF_NO_DIGITS 0

/-- The `while (isalnum-ish c) utf8iterator_next` loop of
`maybe_add_invalid_named_reference` (char_ref lines 2546-2552); the C
loop tests for ASCII letters and digits explicitly.  `fuel` bounds the
recursion; each iteration consumes at least one input byte, so
`input.length + 1` steps always suffice. -/
def alnumSkipLoop : Nat → Utf8Iterator → Utf8Iterator
  | 0, iter => iter
  | fuel + 1, iter =>
    if decide ((97 ≤ iter.current ∧ iter.current ≤ 122) ∨
        (65 ≤ iter.current ∧ iter.current ≤ 90) ∨
        (48 ≤ iter.current ∧ iter.current ≤ 57)) then
      alnumSkipLoop fuel (utf8iterator_next iter)
    else iter

/-- Translation of `maybe_add_invalid_named_reference` (char_ref lines
2541-2562). -/
def maybe_add_invalid_named_reference (iter : Utf8Iterator) :
    Utf8Iterator × Bool :=
  let start := iter.start
  let iter := alnumSkipLoop (iter.input.length + 1) iter
  if iter.current = 59 then
    let bad_ref := (iter.input.drop start).take (iter.start - start)
    (add_named_reference_error iter .NAMED_CHAR_REF_INVALID bad_ref, false)
  else (iter, true)

/-- Translation of `parse_digit` (char_ref lines 2419-2430). -/
def parse_digit (c : Int) (allow_hex : Bool) : Int :=
  if 48 ≤ c ∧ c ≤ 57 then c - 48
  else if allow_hex ∧ 97 ≤ c ∧ c ≤ 102 then c - 97 + 10
  else if allow_hex ∧ 65 ≤ c ∧ c ≤ 70 then c - 65 + 10
  else -1

/-- The `kCharReplacements` table (char_ref lines 2380-2417), without the
terminator entry. -/
def kCharReplacements : List (Nat × Nat) := [
  (0x00, 0xfffd), (0x0d, 0x000d), (0x80, 0x20ac), (0x81, 0x0081),
  (0x82, 0x201A), (0x83, 0x0192), (0x84, 0x201E), (0x85, 0x2026),
  (0x86, 0x2020), (0x87, 0x2021), (0x88, 0x02C6), (0x89, 0x2030),
  (0x8A, 0x0160), (0x8B, 0x2039), (0x8C, 0x0152), (0x8D, 0x008D),
  (0x8E, 0x017D), (0x8F, 0x008F), (0x90, 0x0090), (0x91, 0x2018),
  (0x92, 0x2019), (0x93, 0x201C), (0x94, 0x201D), (0x95, 0x2022),
  (0x96, 0x2013), (0x97, 0x2014), (0x98, 0x02DC), (0x99, 0x2122),
  (0x9A, 0x0161), (0x9B, 0x203A), (0x9C, 0x0153), (0x9D, 0x009D),
  (0x9E, 0x017E), (0x9F, 0x0178) ]

/-- Translation of `maybe_replace_codepoint` (char_ref lines 2466-2473):
-1 when the codepoint is not in the replacement table. -/
def maybe_replace_codepoint (codepoint : Nat) : Int :=
  match kCharReplacements.find? (fun r => r.1 == codepoint) with
  | some r => (r.2 : Int)
  | Option.none => -1

/-- The `do ... while (digit != -1)` loop of `consume_numeric_ref`
(char_ref lines 2497-2501): on entry `digit` is a valid digit value;
accumulate, advance, and continue while the next character is a digit.
`fuel` bounds the recursion as in `alnumSkipLoop`. -/
def numericDigitLoop : Nat → Utf8Iterator → Bool → Nat → Nat → Utf8Iterator × Nat
  | 0, iter, _, codepoint, _ => (iter, codepoint)
  | fuel + 1, iter, is_hex, codepoint, digit =>
    let codepoint := codepoint * (if is_hex then 16 else 10) + digit
    let iter := utf8iterator_next iter
    let d := parse_digit iter.current is_hex
    if d = -1 then (iter, codepoint)
    else numericDigitLoop fuel iter is_hex codepoint d.toNat

/-- Translation of `consume_numeric_ref` (char_ref lines 2475-2534),
returning the iterator, the `*output` codepoint and the status.  The C
accumulator is an int; inputs long enough to overflow it are undefined
behavior in C and are modelled with unbounded Nat arithmetic. -/
def consume_numeric_ref (iter : Utf8Iterator) : Utf8Iterator × Int × Bool :=
  let iter := utf8iterator_next iter
  let (iter, is_hex) :=
    if iter.current = 120 ∨ iter.current = 88 then (utf8iterator_next iter, true)
    else (iter, false)
  let digit := parse_digit iter.current is_hex
  if digit = -1 then
    let iter := add_no_digit_error iter
    (utf8iterator_reset iter, kGumboNoChar, false)
  else
    let (iter, codepoint) :=
      numericDigitLoop (iter.input.length + 1) iter is_hex 0 digit.toNat
    let (iter, status) :=
      if iter.current ≠ 59 then
        (add_codepoint_error iter .NUMERIC_CHAR_REF_WITHOUT_SEMICOLON codepoint,
          false)
      else (utf8iterator_next iter, true)
    let replacement := maybe_replace_codepoint codepoint
    if replacement ≠ -1 then
      (add_codepoint_error iter .NUMERIC_CHAR_REF_INVALID codepoint,
        replacement, false)
    else if (0xd800 ≤ codepoint ∧ codepoint ≤ 0xdfff) ∨ 0x10ffff < codepoint then
      (add_codepoint_error iter .NUMERIC_CHAR_REF_INVALID codepoint,
        (0xfffd : Int), false)
    else if utf8_is_invalid_code_point codepoint ∨ codepoint = 0xb then
      (add_codepoint_error iter .NUMERIC_CHAR_REF_INVALID codepoint,
        (codepoint : Int), false)
    else ((codepoint : Int), status) |> fun r => (iter, r.1, r.2)

/-- Translation of `consume_named_ref` (char_ref lines 4803-4850).  The
Ragel scan (`write exec`) is `matchNamedRef` on the bytes at the cursor;
on a match, `te` points one past the matched literal, so `*(te-1)` is the
last byte of the matched name and `te - start` is its length. -/
def consume_named_ref (iter : Utf8Iterator) (is_in_attribute : Bool) :
    Utf8Iterator × OneOrTwoCodepoints × Bool :=
  match matchNamedRef (iter.input.drop iter.start) with
  | some e =>
    let last_char := e.name.getLastD 0
    if last_char = 59 then
      let (iter, _) := utf8iterator_maybe_consume_match iter e.name true
      (iter, ⟨e.first, e.second⟩, true)
    else if is_in_attribute && is_legal_attribute_char_next iter then
      (utf8iterator_reset iter, ⟨kGumboNoChar, kGumboNoChar⟩, true)
    else
      let iter := add_named_reference_error iter
        .NAMED_CHAR_REF_WITHOUT_SEMICOLON e.name
      let (iter, _) := utf8iterator_maybe_consume_match iter e.name true
      (iter, ⟨e.first, e.second⟩, false)
  | Option.none =>
    let (iter, status) := maybe_add_invalid_named_reference iter
    (utf8iterator_reset iter, ⟨kGumboNoChar, kGumboNoChar⟩, status)

/-- Translation of `consume_char_ref` (char_ref lines 4852-4881). -/
def consume_char_ref (iter : Utf8Iterator) (additional_allowed_char : Int)
    (is_in_attribute : Bool) : Utf8Iterator × OneOrTwoCodepoints × Bool :=
  let iter := utf8iterator_mark iter
  let iter := utf8iterator_next iter
  let c := iter.current
  if c = additional_allowed_char then
    (utf8iterator_reset iter, ⟨kGumboNoChar, kGumboNoChar⟩, true)
  else if c = 9 ∨ c = 10 ∨ c = 12 ∨ c = 32 ∨ c = 60 ∨ c = 38 ∨ c = -1 then
    (utf8iterator_reset iter, ⟨kGumboNoChar, kGumboNoChar⟩, true)
  else if c = 35 then
    let (iter, cp, status) := consume_numeric_ref iter
    (iter, ⟨cp, kGumboNoChar⟩, status)
  else consume_named_ref iter is_in_attribute

/-! ## Computable certificates about the entity table

The checks below are stated chunk by chunk: evaluating a recursive
function over the full 2230-entry list nests reductions too deeply for
the elaborator, while each 240-entry chunk evaluates comfortably. -/

/-- Pairwise check of consecutive table entries: either strictly
increasing byte-lexicographically, or the later name is a proper prefix
of the earlier one (the placement used for the semicolon-less legacy
forms). -/
def chainOrdOk : List NamedCharRef → Bool
  | [] => true
  | [_] => true
  | a :: b :: rest =>
    (lexLt a.name b.name || properPrefixOf b.name a.name) && chainOrdOk (b :: rest)

/-- The consecutive-entry relation of the order certificate. -/
def entOrdRel (a b : NamedCharRef) : Prop :=
  lexLt a.name b.name = true ∨ properPrefixOf b.name a.name = true

/-- Pairwise-distinct check on byte strings. -/
def nodupBL : List (List Nat) → Bool
  | [] => true
  | x :: xs => !(xs.contains x) && nodupBL xs

/-- The 52 ASCII letters: every entity name starts with one of these. -/
def entFirstBytes : List Nat :=
  (List.range 26).map (fun i => 65 + i) ++ (List.range 26).map (fun i => 97 + i)

/-- Names of the entity-table entries whose first byte is `b`, collected
chunk by chunk. -/
def entNameBucket (b : Nat) : List (List Nat) :=
  ((kNamedEntities0.map (fun e => e.name)).filter (fun n => n.headD 0 == b)) ++
  (((kNamedEntities1.map (fun e => e.name)).filter (fun n => n.headD 0 == b)) ++
  (((kNamedEntities2.map (fun e => e.name)).filter (fun n => n.headD 0 == b)) ++
  (((kNamedEntities3.map (fun e => e.name)).filter (fun n => n.headD 0 == b)) ++
  (((kNamedEntities4.map (fun e => e.name)).filter (fun n => n.headD 0 == b)) ++
  (((kNamedEntities5.map (fun e => e.name)).filter (fun n => n.headD 0 == b)) ++
  (((kNamedEntities6.map (fun e => e.name)).filter (fun n => n.headD 0 == b)) ++
  (((kNamedEntities7.map (fun e => e.name)).filter (fun n => n.headD 0 == b)) ++
  (((kNamedEntities8.map (fun e => e.name)).filter (fun n => n.headD 0 == b)) ++
  ((kNamedEntities9.map (fun e => e.name)).filter (fun n => n.headD 0 == b))))))))))

/-- Entity names with first byte 65, in table order. -/
def entBucket65 : List (List Nat) :=
  [[65, 69, 108, 105, 103], [65, 77, 80, 59], [65, 77, 80], [65, 97, 99, 117, 116, 101, 59], [65, 97, 99, 117, 116, 101], [65, 98, 114, 101, 118, 101, 59], [65, 99, 105, 114, 99, 59], [65, 99, 105, 114, 99], [65, 99, 121, 59], [65, 102, 114, 59], [65, 103, 114, 97, 118, 101, 59], [65, 103, 114, 97, 118, 101], [65, 108, 112, 104, 97, 59], [65, 109, 97, 99, 114, 59], [65, 110, 100, 59], [65, 111, 103, 111, 110, 59], [65, 111, 112, 102, 59], [65, 112, 112, 108, 121, 70, 117, 110, 99, 116, 105, 111, 110, 59], [65, 114, 105, 110, 103, 59], [65, 114, 105, 110, 103], [65, 115, 99, 114, 59], [65, 115, 115, 105, 103, 110, 59], [65, 116, 105, 108, 100, 101, 59], [65, 116, 105, 108, 100, 101], [65, 117, 109, 108, 59], [65, 117, 109, 108]]

/-- Entity names with first byte 66, in table order. -/
def entBucket66 : List (List Nat) :=
  [[66, 97, 99, 107, 115, 108, 97, 115, 104, 59], [66, 97, 114, 118, 59], [66, 97, 114, 119, 101, 100, 59], [66, 99, 121, 59], [66, 101, 99, 97, 117, 115, 101, 59], [66, 101, 114, 110, 111, 117, 108, 108, 105, 115, 59], [66, 101, 116, 97, 59], [66, 102, 114, 59], [66, 111, 112, 102, 59], [66, 114, 101, 118, 101, 59], [66, 115, 99, 114, 59], [66, 117, 109, 112, 101, 113, 59]]

/-- Entity names with first byte 67, in table order. -/
def entBucket67 : List (List Nat) :=
  [[67, 72, 99, 121, 59], [67, 79, 80, 89, 59], [67, 79, 80, 89], [67, 97, 99, 117, 116, 101, 59], [67, 97, 112, 59], [67, 97, 112, 105, 116, 97, 108, 68, 105, 102, 102, 101, 114, 101, 110, 116, 105, 97, 108, 68, 59], [67, 97, 121, 108, 101, 121, 115, 59], [67, 99, 97, 114, 111, 110, 59], [67, 99, 101, 100, 105, 108, 59], [67, 99, 101, 100, 105, 108], [67, 99, 105, 114, 99, 59], [67, 99, 111, 110, 105, 110, 116, 59], [67, 100, 111, 116, 59], [67, 101, 100, 105, 108, 108, 97, 59], [67, 101, 110, 116, 101, 114, 68, 111, 116, 59], [67, 102, 114, 59], [67, 104, 105, 59], [67, 105, 114, 99, 108, 101, 68, 111, 116, 59], [67, 105, 114, 99, 108, 101, 77, 105, 110, 117, 115, 59], [67, 105, 114, 99, 108, 101, 80, 108, 117, 115, 59], [67, 105, 114, 99, 108, 101, 84, 105, 109, 101, 115, 59], [67, 108, 111, 99, 107, 119, 105, 115, 101, 67, 111, 110, 116, 111, 117, 114, 73, 110, 116, 101, 103, 114, 97, 108, 59], [67, 108, 111, 115, 101, 67, 117, 114, 108, 121, 68, 111, 117, 98, 108, 101, 81, 117, 111, 116, 101, 59], [67, 108, 111, 115, 101, 67, 117, 114, 108, 121, 81, 117, 111, 116, 101, 59], [67, 111, 108, 111, 110, 59], [67, 111, 108, 111, 110, 101, 59], [67, 111, 110, 103, 114, 117, 101, 110, 116, 59], [67, 111, 110, 105, 110, 116, 59], [67, 111, 110, 116, 111, 117, 114, 73, 110, 116, 101, 103, 114, 97, 108, 59], [67, 111, 112, 102, 59], [67, 111, 112, 114, 111, 100, 117, 99, 116, 59], [67, 111, 117, 110, 116, 101, 114, 67, 108, 111, 99, 107, 119, 105, 115, 101, 67, 111, 110, 116, 111, 117, 114, 73, 110, 116, 101, 103, 114, 97, 108, 59], [67, 114, 111, 115, 115, 59], [67, 115, 99, 114, 59], [67, 117, 112, 59], [67, 117, 112, 67, 97, 112, 59]]

/-- Entity names with first byte 68, in table order. -/
def entBucket68 : List (List Nat) :=
  [[68, 68, 59], [68, 68, 111, 116, 114, 97, 104, 100, 59], [68, 74, 99, 121, 59], [68, 83, 99, 121, 59], [68, 90, 99, 121, 59], [68, 97, 103, 103, 101, 114, 59], [68, 97, 114, 114, 59], [68, 97, 115, 104, 118, 59], [68, 99, 97, 114, 111, 110, 59], [68, 99, 121, 59], [68, 101, 108, 59], [68, 101, 108, 116, 97, 59], [68, 102, 114, 59], [68, 105, 97, 99, 114, 105, 116, 105, 99, 97, 108, 65, 99, 117, 116, 101, 59], [68, 105, 97, 99, 114, 105, 116, 105, 99, 97, 108, 68, 111, 116, 59], [68, 105, 97, 99, 114, 105, 116, 105, 99, 97, 108, 68, 111, 117, 98, 108, 101, 65, 99, 117, 116, 101, 59], [68, 105, 97, 99, 114, 105, 116, 105, 99, 97, 108, 71, 114, 97, 118, 101, 59], [68, 105, 97, 99, 114, 105, 116, 105, 99, 97, 108, 84, 105, 108, 100, 101, 59], [68, 105, 97, 109, 111, 110, 100, 59], [68, 105, 102, 102, 101, 114, 101, 110, 116, 105, 97, 108, 68, 59], [68, 111, 112, 102, 59], [68, 111, 116, 59], [68, 111, 116, 68, 111, 116, 59], [68, 111, 116, 69, 113, 117, 97, 108, 59], [68, 111, 117, 98, 108, 101, 67, 111, 110, 116, 111, 117, 114, 73, 110, 116, 101, 103, 114, 97, 108, 59], [68, 111, 117, 98, 108, 101, 68, 111, 116, 59], [68, 111, 117, 98, 108, 101, 68, 111, 119, 110, 65, 114, 114, 111, 119, 59], [68, 111, 117, 98, 108, 101, 76, 101, 102, 116, 65, 114, 114, 111, 119, 59], [68, 111, 117, 98, 108, 101, 76, 101, 102, 116, 82, 105, 103, 104, 116, 65, 114, 114, 111, 119, 59], [68, 111, 117, 98, 108, 101, 76, 101, 102, 116, 84, 101, 101, 59], [68, 111, 117, 98, 108, 101, 76, 111, 110, 103, 76, 101, 102, 116, 65, 114, 114, 111, 119, 59], [68, 111, 117, 98, 108, 101, 76, 111, 110, 103, 76, 101, 102, 116, 82, 105, 103, 104, 116, 65, 114, 114, 111, 119, 59], [68, 111, 117, 98, 108, 101, 76, 111, 110, 103, 82, 105, 103, 104, 116, 65, 114, 114, 111, 119, 59], [68, 111, 117, 98, 108, 101, 82, 105, 103, 104, 116, 65, 114, 114, 111, 119, 59], [68, 111, 117, 98, 108, 101, 82, 105, 103, 104, 116, 84, 101, 101, 59], [68, 111, 117, 98, 108, 101, 85, 112, 65, 114, 114, 111, 119, 59], [68, 111, 117, 98, 108, 101, 85, 112, 68, 111, 119, 110, 65, 114, 114, 111, 119, 59], [68, 111, 117, 98, 108, 101, 86, 101, 114, 116, 105, 99, 97, 108, 66, 97, 114, 59], [68, 111, 119, 110, 65, 114, 114, 111, 119, 59], [68, 111, 119, 110, 65, 114, 114, 111, 119, 66, 97, 114, 59], [68, 111, 119, 110, 65, 114, 114, 111, 119, 85, 112, 65, 114, 114, 111, 119, 59], [68, 111, 119, 110, 66, 114, 101, 118, 101, 59], [68, 111, 119, 110, 76, 101, 102, 116, 82, 105, 103, 104, 116, 86, 101, 99, 116, 111, 114, 59], [68, 111, 119, 110, 76, 101, 102, 116, 84, 101, 101, 86, 101, 99, 116, 111, 114, 59], [68, 111, 119, 110, 76, 101, 102, 116, 86, 101, 99, 116, 111, 114, 59], [68, 111, 119, 110, 76, 101, 102, 116, 86, 101, 99, 116, 111, 114, 66, 97, 114, 59], [68, 111, 119, 110, 82, 105, 103, 104, 116, 84, 101, 101, 86, 101, 99, 116, 111, 114, 59], [68, 111, 119, 110, 82, 105, 103, 104, 116, 86, 101, 99, 116, 111, 114, 59], [68, 111, 119, 110, 82, 105, 103, 104, 116, 86, 101, 99, 116, 111, 114, 66, 97, 114, 59], [68, 111, 119, 110, 84, 101, 101, 59], [68, 111, 119, 110, 84, 101, 101, 65, 114, 114, 111, 119, 59], [68, 111, 119, 110, 97, 114, 114, 111, 119, 59], [68, 115, 99, 114, 59], [68, 115, 116, 114, 111, 107, 59]]

/-- Entity names with first byte 69, in table order. -/
def entBucket69 : List (List Nat) :=
  [[69, 78, 71, 59], [69, 84, 72, 59], [69, 84, 72], [69, 97, 99, 117, 116, 101, 59], [69, 97, 99, 117, 116, 101], [69, 99, 97, 114, 111, 110, 59], [69, 99, 105, 114, 99, 59], [69, 99, 105, 114, 99], [69, 99, 121, 59], [69, 100, 111, 116, 59], [69, 102, 114, 59], [69, 103, 114, 97, 118, 101, 59], [69, 103, 114, 97, 118, 101], [69, 108, 101, 109, 101, 110, 116, 59], [69, 109, 97, 99, 114, 59], [69, 109, 112, 116, 121, 83, 109, 97, 108, 108, 83, 113, 117, 97, 114, 101, 59], [69, 109, 112, 116, 121, 86, 101, 114, 121, 83, 109, 97, 108, 108, 83, 113, 117, 97, 114, 101, 59], [69, 111, 103, 111, 110, 59], [69, 111, 112, 102, 59], [69, 112, 115, 105, 108, 111, 110, 59], [69, 113, 117, 97, 108, 59], [69, 113, 117, 97, 108, 84, 105, 108, 100, 101, 59], [69, 113, 117, 105, 108, 105, 98, 114, 105, 117, 109, 59], [69, 115, 99, 114, 59], [69, 115, 105, 109, 59], [69, 116, 97, 59], [69, 117, 109, 108, 59], [69, 117, 109, 108], [69, 120, 105, 115, 116, 115, 59], [69, 120, 112, 111, 110, 101, 110, 116, 105, 97, 108, 69, 59]]

/-- Entity names with first byte 70, in table order. -/
def entBucket70 : List (List Nat) :=
  [[70, 99, 121, 59], [70, 102, 114, 59], [70, 105, 108, 108, 101, 100, 83, 109, 97, 108, 108, 83, 113, 117, 97, 114, 101, 59], [70, 105, 108, 108, 101, 100, 86, 101, 114, 121, 83, 109, 97, 108, 108, 83, 113, 117, 97, 114, 101, 59], [70, 111, 112, 102, 59], [70, 111, 114, 65, 108, 108, 59], [70, 111, 117, 114, 105, 101, 114, 116, 114, 102, 59], [70, 115, 99, 114, 59]]

/-- Entity names with first byte 71, in table order. -/
def entBucket71 : List (List Nat) :=
  [[71, 74, 99, 121, 59], [71, 84, 59], [71, 84], [71, 97, 109, 109, 97, 59], [71, 97, 109, 109, 97, 100, 59], [71, 98, 114, 101, 118, 101, 59], [71, 99, 101, 100, 105, 108, 59], [71, 99, 105, 114, 99, 59], [71, 99, 121, 59], [71, 100, 111, 116, 59], [71, 102, 114, 59], [71, 103, 59], [71, 111, 112, 102, 59], [71, 114, 101, 97, 116, 101, 114, 69, 113, 117, 97, 108, 59], [71, 114, 101, 97, 116, 101, 114, 69, 113, 117, 97, 108, 76, 101, 115, 115, 59], [71, 114, 101, 97, 116, 101, 114, 70, 117, 108, 108, 69, 113, 117, 97, 108, 59], [71, 114, 101, 97, 116, 101, 114, 71, 114, 101, 97, 116, 101, 114, 59], [71, 114, 101, 97, 116, 101, 114, 76, 101, 115, 115, 59], [71, 114, 101, 97, 116, 101, 114, 83, 108, 97, 110, 116, 69, 113, 117, 97, 108, 59], [71, 114, 101, 97, 116, 101, 114, 84, 105, 108, 100, 101, 59], [71, 115, 99, 114, 59], [71, 116, 59]]

/-- Entity names with first byte 72, in table order. -/
def entBucket72 : List (List Nat) :=
  [[72, 65, 82, 68, 99, 121, 59], [72, 97, 99, 101, 107, 59], [72, 97, 116, 59], [72, 99, 105, 114, 99, 59], [72, 102, 114, 59], [72, 105, 108, 98, 101, 114, 116, 83, 112, 97, 99, 101, 59], [72, 111, 112, 102, 59], [72, 111, 114, 105, 122, 111, 110, 116, 97, 108, 76, 105, 110, 101, 59], [72, 115, 99, 114, 59], [72, 115, 116, 114, 111, 107, 59], [72, 117, 109, 112, 68, 111, 119, 110, 72, 117, 109, 112, 59], [72, 117, 109, 112, 69, 113, 117, 97, 108, 59]]

/-- Entity names with first byte 73, in table order. -/
def entBucket73 : List (List Nat) :=
  [[73, 69, 99, 121, 59], [73, 74, 108, 105, 103, 59], [73, 79, 99, 121, 59], [73, 97, 99, 117, 116, 101, 59], [73, 97, 99, 117, 116, 101], [73, 99, 105, 114, 99, 59], [73, 99, 105, 114, 99], [73, 99, 121, 59], [73, 100, 111, 116, 59], [73, 102, 114, 59], [73, 103, 114, 97, 118, 101, 59], [73, 103, 114, 97, 118, 101], [73, 109, 59], [73, 109, 97, 99, 114, 59], [73, 109, 97, 103, 105, 110, 97, 114, 121, 73, 59], [73, 109, 112, 108, 105, 101, 115, 59], [73, 110, 116, 59], [73, 110, 116, 101, 103, 114, 97, 108, 59], [73, 110, 116, 101, 114, 115, 101, 99, 116, 105, 111, 110, 59], [73, 110, 118, 105, 115, 105, 98, 108, 101, 67, 111, 109, 109, 97, 59], [73, 110, 118, 105, 115, 105, 98, 108, 101, 84, 105, 109, 101, 115, 59], [73, 111, 103, 111, 110, 59], [73, 111, 112, 102, 59], [73, 111, 116, 97, 59], [73, 115, 99, 114, 59], [73, 116, 105, 108, 100, 101, 59], [73, 117, 107, 99, 121, 59], [73, 117, 109, 108, 59], [73, 117, 109, 108]]

/-- Entity names with first byte 74, in table order. -/
def entBucket74 : List (List Nat) :=
  [[74, 99, 105, 114, 99, 59], [74, 99, 121, 59], [74, 102, 114, 59], [74, 111, 112, 102, 59], [74, 115, 99, 114, 59], [74, 115, 101, 114, 99, 121, 59], [74, 117, 107, 99, 121, 59]]

/-- Entity names with first byte 75, in table order. -/
def entBucket75 : List (List Nat) :=
  [[75, 72, 99, 121, 59], [75, 74, 99, 121, 59], [75, 97, 112, 112, 97, 59], [75, 99, 101, 100, 105, 108, 59], [75, 99, 121, 59], [75, 102, 114, 59], [75, 111, 112, 102, 59], [75, 115, 99, 114, 59]]

/-- Entity names with first byte 76, in table order. -/
def entBucket76 : List (List Nat) :=
  [[76, 74, 99, 121, 59], [76, 84, 59], [76, 84], [76, 97, 99, 117, 116, 101, 59], [76, 97, 109, 98, 100, 97, 59], [76, 97, 110, 103, 59], [76, 97, 112, 108, 97, 99, 101, 116, 114, 102, 59], [76, 97, 114, 114, 59], [76, 99, 97, 114, 111, 110, 59], [76, 99, 101, 100, 105, 108, 59], [76, 99, 121, 59], [76, 101, 102, 116, 65, 110, 103, 108, 101, 66, 114, 97, 99, 107, 101, 116, 59], [76, 101, 102, 116, 65, 114, 114, 111, 119, 59], [76, 101, 102, 116, 65, 114, 114, 111, 119, 66, 97, 114, 59], [76, 101, 102, 116, 65, 114, 114, 111, 119, 82, 105, 103, 104, 116, 65, 114, 114, 111, 119, 59], [76, 101, 102, 116, 67, 101, 105, 108, 105, 110, 103, 59], [76, 101, 102, 116, 68, 111, 117, 98, 108, 101, 66, 114, 97, 99, 107, 101, 116, 59], [76, 101, 102, 116, 68, 111, 119, 110, 84, 101, 101, 86, 101, 99, 116, 111, 114, 59], [76, 101, 102, 116, 68, 111, 119, 110, 86, 101, 99, 116, 111, 114, 59], [76, 101, 102, 116, 68, 111, 119, 110, 86, 101, 99, 116, 111, 114, 66, 97, 114, 59], [76, 101, 102, 116, 70, 108, 111, 111, 114, 59], [76, 101, 102, 116, 82, 105, 103, 104, 116, 65, 114, 114, 111, 119, 59], [76, 101, 102, 116, 82, 105, 103, 104, 116, 86, 101, 99, 116, 111, 114, 59], [76, 101, 102, 116, 84, 101, 101, 59], [76, 101, 102, 116, 84, 101, 101, 65, 114, 114, 111, 119, 59], [76, 101, 102, 116, 84, 101, 101, 86, 101, 99, 116, 111, 114, 59], [76, 101, 102, 116, 84, 114, 105, 97, 110, 103, 108, 101, 59], [76, 101, 102, 116, 84, 114, 105, 97, 110, 103, 108, 101, 66, 97, 114, 59], [76, 101, 102, 116, 84, 114, 105, 97, 110, 103, 108, 101, 69, 113, 117, 97, 108, 59], [76, 101, 102, 116, 85, 112, 68, 111, 119, 110, 86, 101, 99, 116, 111, 114, 59], [76, 101, 102, 116, 85, 112, 84, 101, 101, 86, 101, 99, 116, 111, 114, 59], [76, 101, 102, 116, 85, 112, 86, 101, 99, 116, 111, 114, 59], [76, 101, 102, 116, 85, 112, 86, 101, 99, 116, 111, 114, 66, 97, 114, 59], [76, 101, 102, 116, 86, 101, 99, 116, 111, 114, 59], [76, 101, 102, 116, 86, 101, 99, 116, 111, 114, 66, 97, 114, 59], [76, 101, 102, 116, 97, 114, 114, 111, 119, 59], [76, 101, 102, 116, 114, 105, 103, 104, 116, 97, 114, 114, 111, 119, 59], [76, 101, 115, 115, 69, 113, 117, 97, 108, 71, 114, 101, 97, 116, 101, 114, 59], [76, 101, 115, 115, 70, 117, 108, 108, 69, 113, 117, 97, 108, 59], [76, 101, 115, 115, 71, 114, 101, 97, 116, 101, 114, 59], [76, 101, 115, 115, 76, 101, 115, 115, 59], [76, 101, 115, 115, 83, 108, 97, 110, 116, 69, 113, 117, 97, 108, 59], [76, 101, 115, 115, 84, 105, 108, 100, 101, 59], [76, 102, 114, 59], [76, 108, 59], [76, 108, 101, 102, 116, 97, 114, 114, 111, 119, 59], [76, 109, 105, 100, 111, 116, 59], [76, 111, 110, 103, 76, 101, 102, 116, 65, 114, 114, 111, 119, 59], [76, 111, 110, 103, 76, 101, 102, 116, 82, 105, 103, 104, 116, 65, 114, 114, 111, 119, 59], [76, 111, 110, 103, 82, 105, 103, 104, 116, 65, 114, 114, 111, 119, 59], [76, 111, 110, 103, 108, 101, 102, 116, 97, 114, 114, 111, 119, 59], [76, 111, 110, 103, 108, 101, 102, 116, 114, 105, 103, 104, 116, 97, 114, 114, 111, 119, 59], [76, 111, 110, 103, 114, 105, 103, 104, 116, 97, 114, 114, 111, 119, 59], [76, 111, 112, 102, 59], [76, 111, 119, 101, 114, 76, 101, 102, 116, 65, 114, 114, 111, 119, 59], [76, 111, 119, 101, 114, 82, 105, 103, 104, 116, 65, 114, 114, 111, 119, 59], [76, 115, 99, 114, 59], [76, 115, 104, 59], [76, 115, 116, 114, 111, 107, 59], [76, 116, 59]]

/-- Entity names with first byte 77, in table order. -/
def entBucket77 : List (List Nat) :=
  [[77, 97, 112, 59], [77, 99, 121, 59], [77, 101, 100, 105, 117, 109, 83, 112, 97, 99, 101, 59], [77, 101, 108, 108, 105, 110, 116, 114, 102, 59], [77, 102, 114, 59], [77, 105, 110, 117, 115, 80, 108, 117, 115, 59], [77, 111, 112, 102, 59], [77, 115, 99, 114, 59], [77, 117, 59]]

/-- Entity names with first byte 78, in table order. -/
def entBucket78 : List (List Nat) :=
  [[78, 74, 99, 121, 59], [78, 97, 99, 117, 116, 101, 59], [78, 99, 97, 114, 111, 110, 59], [78, 99, 101, 100, 105, 108, 59], [78, 99, 121, 59], [78, 101, 103, 97, 116, 105, 118, 101, 77, 101, 100, 105, 117, 109, 83, 112, 97, 99, 101, 59], [78, 101, 103, 97, 116, 105, 118, 101, 84, 104, 105, 99, 107, 83, 112, 97, 99, 101, 59], [78, 101, 103, 97, 116, 105, 118, 101, 84, 104, 105, 110, 83, 112, 97, 99, 101, 59], [78, 101, 103, 97, 116, 105, 118, 101, 86, 101, 114, 121, 84, 104, 105, 110, 83, 112, 97, 99, 101, 59], [78, 101, 115, 116, 101, 100, 71, 114, 101, 97, 116, 101, 114, 71, 114, 101, 97, 116, 101, 114, 59], [78, 101, 115, 116, 101, 100, 76, 101, 115, 115, 76, 101, 115, 115, 59], [78, 101, 119, 76, 105, 110, 101, 59], [78, 102, 114, 59], [78, 111, 66, 114, 101, 97, 107, 59], [78, 111, 110, 66, 114, 101, 97, 107, 105, 110, 103, 83, 112, 97, 99, 101, 59], [78, 111, 112, 102, 59], [78, 111, 116, 59], [78, 111, 116, 67, 111, 110, 103, 114, 117, 101, 110, 116, 59], [78, 111, 116, 67, 117, 112, 67, 97, 112, 59], [78, 111, 116, 68, 111, 117, 98, 108, 101, 86, 101, 114, 116, 105, 99, 97, 108, 66, 97, 114, 59], [78, 111, 116, 69, 108, 101, 109, 101, 110, 116, 59], [78, 111, 116, 69, 113, 117, 97, 108, 59], [78, 111, 116, 69, 113, 117, 97, 108, 84, 105, 108, 100, 101, 59], [78, 111, 116, 69, 120, 105, 115, 116, 115, 59], [78, 111, 116, 71, 114, 101, 97, 116, 101, 114, 59], [78, 111, 116, 71, 114, 101, 97, 116, 101, 114, 69, 113, 117, 97, 108, 59], [78, 111, 116, 71, 114, 101, 97, 116, 101, 114, 70, 117, 108, 108, 69, 113, 117, 97, 108, 59], [78, 111, 116, 71, 114, 101, 97, 116, 101, 114, 71, 114, 101, 97, 116, 101, 114, 59], [78, 111, 116, 71, 114, 101, 97, 116, 101, 114, 76, 101, 115, 115, 59], [78, 111, 116, 71, 114, 101, 97, 116, 101, 114, 83, 108, 97, 110, 116, 69, 113, 117, 97, 108, 59], [78, 111, 116, 71, 114, 101, 97, 116, 101, 114, 84, 105, 108, 100, 101, 59], [78, 111, 116, 72, 117, 109, 112, 68, 111, 119, 110, 72, 117, 109, 112, 59], [78, 111, 116, 72, 117, 109, 112, 69, 113, 117, 97, 108, 59], [78, 111, 116, 76, 101, 102, 116, 84, 114, 105, 97, 110, 103, 108, 101, 59], [78, 111, 116, 76, 101, 102, 116, 84, 114, 105, 97, 110, 103, 108, 101, 66, 97, 114, 59], [78, 111, 116, 76, 101, 102, 116, 84, 114, 105, 97, 110, 103, 108, 101, 69, 113, 117, 97, 108, 59], [78, 111, 116, 76, 101, 115, 115, 59], [78, 111, 116, 76, 101, 115, 115, 69, 113, 117, 97, 108, 59], [78, 111, 116, 76, 101, 115, 115, 71, 114, 101, 97, 116, 101, 114, 59], [78, 111, 116, 76, 101, 115, 115, 76, 101, 115, 115, 59], [78, 111, 116, 76, 101, 115, 115, 83, 108, 97, 110, 116, 69, 113, 117, 97, 108, 59], [78, 111, 116, 76, 101, 115, 115, 84, 105, 108, 100, 101, 59], [78, 111, 116, 78, 101, 115, 116, 101, 100, 71, 114, 101, 97, 116, 101, 114, 71, 114, 101, 97, 116, 101, 114, 59], [78, 111, 116, 78, 101, 115, 116, 101, 100, 76, 101, 115, 115, 76, 101, 115, 115, 59], [78, 111, 116, 80, 114, 101, 99, 101, 100, 101, 115, 59], [78, 111, 116, 80, 114, 101, 99, 101, 100, 101, 115, 69, 113, 117, 97, 108, 59], [78, 111, 116, 80, 114, 101, 99, 101, 100, 101, 115, 83, 108, 97, 110, 116, 69, 113, 117, 97, 108, 59], [78, 111, 116, 82, 101, 118, 101, 114, 115, 101, 69, 108, 101, 109, 101, 110, 116, 59], [78, 111, 116, 82, 105, 103, 104, 116, 84, 114, 105, 97, 110, 103, 108, 101, 59], [78, 111, 116, 82, 105, 103, 104, 116, 84, 114, 105, 97, 110, 103, 108, 101, 66, 97, 114, 59], [78, 111, 116, 82, 105, 103, 104, 116, 84, 114, 105, 97, 110, 103, 108, 101, 69, 113, 117, 97, 108, 59], [78, 111, 116, 83, 113, 117, 97, 114, 101, 83, 117, 98, 115, 101, 116, 59], [78, 111, 116, 83, 113, 117, 97, 114, 101, 83, 117, 98, 115, 101, 116, 69, 113, 117, 97, 108, 59], [78, 111, 116, 83, 113, 117, 97, 114, 101, 83, 117, 112, 101, 114, 115, 101, 116, 59], [78, 111, 116, 83, 113, 117, 97, 114, 101, 83, 117, 112, 101, 114, 115, 101, 116, 69, 113, 117, 97, 108, 59], [78, 111, 116, 83, 117, 98, 115, 101, 116, 59], [78, 111, 116, 83, 117, 98, 115, 101, 116, 69, 113, 117, 97, 108, 59], [78, 111, 116, 83, 117, 99, 99, 101, 101, 100, 115, 59], [78, 111, 116, 83, 117, 99, 99, 101, 101, 100, 115, 69, 113, 117, 97, 108, 59], [78, 111, 116, 83, 117, 99, 99, 101, 101, 100, 115, 83, 108, 97, 110, 116, 69, 113, 117, 97, 108, 59], [78, 111, 116, 83, 117, 99, 99, 101, 101, 100, 115, 84, 105, 108, 100, 101, 59], [78, 111, 116, 83, 117, 112, 101, 114, 115, 101, 116, 59], [78, 111, 116, 83, 117, 112, 101, 114, 115, 101, 116, 69, 113, 117, 97, 108, 59], [78, 111, 116, 84, 105, 108, 100, 101, 59], [78, 111, 116, 84, 105, 108, 100, 101, 69, 113, 117, 97, 108, 59], [78, 111, 116, 84, 105, 108, 100, 101, 70, 117, 108, 108, 69, 113, 117, 97, 108, 59], [78, 111, 116, 84, 105, 108, 100, 101, 84, 105, 108, 100, 101, 59], [78, 111, 116, 86, 101, 114, 116, 105, 99, 97, 108, 66, 97, 114, 59], [78, 115, 99, 114, 59], [78, 116, 105, 108, 100, 101, 59], [78, 116, 105, 108, 100, 101], [78, 117, 59]]

/-- Entity names with first byte 79, in table order. -/
def entBucket79 : List (List Nat) :=
  [[79, 69, 108, 105, 103, 59], [79, 97, 99, 117, 116, 101, 59], [79, 97, 99, 117, 116, 101], [79, 99, 105, 114, 99, 59], [79, 99, 105, 114, 99], [79, 99, 121, 59], [79, 100, 98, 108, 97, 99, 59], [79, 102, 114, 59], [79, 103, 114, 97, 118, 101, 59], [79, 103, 114, 97, 118, 101], [79, 109, 97, 99, 114, 59], [79, 109, 101, 103, 97, 59], [79, 109, 105, 99, 114, 111, 110, 59], [79, 111, 112, 102, 59], [79, 112, 101, 110, 67, 117, 114, 108, 121, 68, 111, 117, 98, 108, 101, 81, 117, 111, 116, 101, 59], [79, 112, 101, 110, 67, 117, 114, 108, 121, 81, 117, 111, 116, 101, 59], [79, 114, 59], [79, 115, 99, 114, 59], [79, 115, 108, 97, 115, 104, 59], [79, 115, 108, 97, 115, 104], [79, 116, 105, 108, 100, 101, 59], [79, 116, 105, 108, 100, 101], [79, 116, 105, 109, 101, 115, 59], [79, 117, 109, 108, 59], [79, 117, 109, 108], [79, 118, 101, 114, 66, 97, 114, 59], [79, 118, 101, 114, 66, 114, 97, 99, 101, 59], [79, 118, 101, 114, 66, 114, 97, 99, 107, 101, 116, 59], [79, 118, 101, 114, 80, 97, 114, 101, 110, 116, 104, 101, 115, 105, 115, 59]]

/-- Entity names with first byte 80, in table order. -/
def entBucket80 : List (List Nat) :=
  [[80, 97, 114, 116, 105, 97, 108, 68, 59], [80, 99, 121, 59], [80, 102, 114, 59], [80, 104, 105, 59], [80, 105, 59], [80, 108, 117, 115, 77, 105, 110, 117, 115, 59], [80, 111, 105, 110, 99, 97, 114, 101, 112, 108, 97, 110, 101, 59], [80, 111, 112, 102, 59], [80, 114, 59], [80, 114, 101, 99, 101, 100, 101, 115, 59], [80, 114, 101, 99, 101, 100, 101, 115, 69, 113, 117, 97, 108, 59], [80, 114, 101, 99, 101, 100, 101, 115, 83, 108, 97, 110, 116, 69, 113, 117, 97, 108, 59], [80, 114, 101, 99, 101, 100, 101, 115, 84, 105, 108, 100, 101, 59], [80, 114, 105, 109, 101, 59], [80, 114, 111, 100, 117, 99, 116, 59], [80, 114, 111, 112, 111, 114, 116, 105, 111, 110, 59], [80, 114, 111, 112, 111, 114, 116, 105, 111, 110, 97, 108, 59], [80, 115, 99, 114, 59], [80, 115, 105, 59]]

/-- Entity names with first byte 81, in table order. -/
def entBucket81 : List (List Nat) :=
  [[81, 85, 79, 84, 59], [81, 85, 79, 84], [81, 102, 114, 59], [81, 111, 112, 102, 59], [81, 115, 99, 114, 59]]

/-- Entity names with first byte 82, in table order. -/
def entBucket82 : List (List Nat) :=
  [[82, 66, 97, 114, 114, 59], [82, 69, 71, 59], [82, 69, 71], [82, 97, 99, 117, 116, 101, 59], [82, 97, 110, 103, 59], [82, 97, 114, 114, 59], [82, 97, 114, 114, 116, 108, 59], [82, 99, 97, 114, 111, 110, 59], [82, 99, 101, 100, 105, 108, 59], [82, 99, 121, 59], [82, 101, 59], [82, 101, 118, 101, 114, 115, 101, 69, 108, 101, 109, 101, 110, 116, 59], [82, 101, 118, 101, 114, 115, 101, 69, 113, 117, 105, 108, 105, 98, 114, 105, 117, 109, 59], [82, 101, 118, 101, 114, 115, 101, 85, 112, 69, 113, 117, 105, 108, 105, 98, 114, 105, 117, 109, 59], [82, 102, 114, 59], [82, 104, 111, 59], [82, 105, 103, 104, 116, 65, 110, 103, 108, 101, 66, 114, 97, 99, 107, 101, 116, 59], [82, 105, 103, 104, 116, 65, 114, 114, 111, 119, 59], [82, 105, 103, 104, 116, 65, 114, 114, 111, 119, 66, 97, 114, 59], [82, 105, 103, 104, 116, 65, 114, 114, 111, 119, 76, 101, 102, 116, 65, 114, 114, 111, 119, 59], [82, 105, 103, 104, 116, 67, 101, 105, 108, 105, 110, 103, 59], [82, 105, 103, 104, 116, 68, 111, 117, 98, 108, 101, 66, 114, 97, 99, 107, 101, 116, 59], [82, 105, 103, 104, 116, 68, 111, 119, 110, 84, 101, 101, 86, 101, 99, 116, 111, 114, 59], [82, 105, 103, 104, 116, 68, 111, 119, 110, 86, 101, 99, 116, 111, 114, 59], [82, 105, 103, 104, 116, 68, 111, 119, 110, 86, 101, 99, 116, 111, 114, 66, 97, 114, 59], [82, 105, 103, 104, 116, 70, 108, 111, 111, 114, 59], [82, 105, 103, 104, 116, 84, 101, 101, 59], [82, 105, 103, 104, 116, 84, 101, 101, 65, 114, 114, 111, 119, 59], [82, 105, 103, 104, 116, 84, 101, 101, 86, 101, 99, 116, 111, 114, 59], [82, 105, 103, 104, 116, 84, 114, 105, 97, 110, 103, 108, 101, 59], [82, 105, 103, 104, 116, 84, 114, 105, 97, 110, 103, 108, 101, 66, 97, 114, 59], [82, 105, 103, 104, 116, 84, 114, 105, 97, 110, 103, 108, 101, 69, 113, 117, 97, 108, 59], [82, 105, 103, 104, 116, 85, 112, 68, 111, 119, 110, 86, 101, 99, 116, 111, 114, 59], [82, 105, 103, 104, 116, 85, 112, 84, 101, 101, 86, 101, 99, 116, 111, 114, 59], [82, 105, 103, 104, 116, 85, 112, 86, 101, 99, 116, 111, 114, 59], [82, 105, 103, 104, 116, 85, 112, 86, 101, 99, 116, 111, 114, 66, 97, 114, 59], [82, 105, 103, 104, 116, 86, 101, 99, 116, 111, 114, 59], [82, 105, 103, 104, 116, 86, 101, 99, 116, 111, 114, 66, 97, 114, 59], [82, 105, 103, 104, 116, 97, 114, 114, 111, 119, 59], [82, 111, 112, 102, 59], [82, 111, 117, 110, 100, 73, 109, 112, 108, 105, 101, 115, 59], [82, 114, 105, 103, 104, 116, 97, 114, 114, 111, 119, 59], [82, 115, 99, 114, 59], [82, 115, 104, 59], [82, 117, 108, 101, 68, 101, 108, 97, 121, 101, 100, 59]]

/-- Entity names with first byte 83, in table order. -/
def entBucket83 : List (List Nat) :=
  [[83, 72, 67, 72, 99, 121, 59], [83, 72, 99, 121, 59], [83, 79, 70, 84, 99, 121, 59], [83, 97, 99, 117, 116, 101, 59], [83, 99, 59], [83, 99, 97, 114, 111, 110, 59], [83, 99, 101, 100, 105, 108, 59], [83, 99, 105, 114, 99, 59], [83, 99, 121, 59], [83, 102, 114, 59], [83, 104, 111, 114, 116, 68, 111, 119, 110, 65, 114, 114, 111, 119, 59], [83, 104, 111, 114, 116, 76, 101, 102, 116, 65, 114, 114, 111, 119, 59], [83, 104, 111, 114, 116, 82, 105, 103, 104, 116, 65, 114, 114, 111, 119, 59], [83, 104, 111, 114, 116, 85, 112, 65, 114, 114, 111, 119, 59], [83, 105, 103, 109, 97, 59], [83, 109, 97, 108, 108, 67, 105, 114, 99, 108, 101, 59], [83, 111, 112, 102, 59], [83, 113, 114, 116, 59], [83, 113, 117, 97, 114, 101, 59], [83, 113, 117, 97, 114, 101, 73, 110, 116, 101, 114, 115, 101, 99, 116, 105, 111, 110, 59], [83, 113, 117, 97, 114, 101, 83, 117, 98, 115, 101, 116, 59], [83, 113, 117, 97, 114, 101, 83, 117, 98, 115, 101, 116, 69, 113, 117, 97, 108, 59], [83, 113, 117, 97, 114, 101, 83, 117, 112, 101, 114, 115, 101, 116, 59], [83, 113, 117, 97, 114, 101, 83, 117, 112, 101, 114, 115, 101, 116, 69, 113, 117, 97, 108, 59], [83, 113, 117, 97, 114, 101, 85, 110, 105, 111, 110, 59], [83, 115, 99, 114, 59], [83, 116, 97, 114, 59], [83, 117, 98, 59], [83, 117, 98, 115, 101, 116, 59], [83, 117, 98, 115, 101, 116, 69, 113, 117, 97, 108, 59], [83, 117, 99, 99, 101, 101, 100, 115, 59], [83, 117, 99, 99, 101, 101, 100, 115, 69, 113, 117, 97, 108, 59], [83, 117, 99, 99, 101, 101, 100, 115, 83, 108, 97, 110, 116, 69, 113, 117, 97, 108, 59], [83, 117, 99, 99, 101, 101, 100, 115, 84, 105, 108, 100, 101, 59], [83, 117, 99, 104, 84, 104, 97, 116, 59], [83, 117, 109, 59], [83, 117, 112, 59], [83, 117, 112, 101, 114, 115, 101, 116, 59], [83, 117, 112, 101, 114, 115, 101, 116, 69, 113, 117, 97, 108, 59], [83, 117, 112, 115, 101, 116, 59]]

/-- Entity names with first byte 84, in table order. -/
def entBucket84 : List (List Nat) :=
  [[84, 72, 79, 82, 78, 59], [84, 72, 79, 82, 78], [84, 82, 65, 68, 69, 59], [84, 83, 72, 99, 121, 59], [84, 83, 99, 121, 59], [84, 97, 98, 59], [84, 97, 117, 59], [84, 99, 97, 114, 111, 110, 59], [84, 99, 101, 100, 105, 108, 59], [84, 99, 121, 59], [84, 102, 114, 59], [84, 104, 101, 114, 101, 102, 111, 114, 101, 59], [84, 104, 101, 116, 97, 59], [84, 104, 105, 99, 107, 83, 112, 97, 99, 101, 59], [84, 104, 105, 110, 83, 112, 97, 99, 101, 59], [84, 105, 108, 100, 101, 59], [84, 105, 108, 100, 101, 69, 113, 117, 97, 108, 59], [84, 105, 108, 100, 101, 70, 117, 108, 108, 69, 113, 117, 97, 108, 59], [84, 105, 108, 100, 101, 84, 105, 108, 100, 101, 59], [84, 111, 112, 102, 59], [84, 114, 105, 112, 108, 101, 68, 111, 116, 59], [84, 115, 99, 114, 59], [84, 115, 116, 114, 111, 107, 59]]

/-- Entity names with first byte 85, in table order. -/
def entBucket85 : List (List Nat) :=
  [[85, 97, 99, 117, 116, 101, 59], [85, 97, 99, 117, 116, 101], [85, 97, 114, 114, 59], [85, 97, 114, 114, 111, 99, 105, 114, 59], [85, 98, 114, 99, 121, 59], [85, 98, 114, 101, 118, 101, 59], [85, 99, 105, 114, 99, 59], [85, 99, 105, 114, 99], [85, 99, 121, 59], [85, 100, 98, 108, 97, 99, 59], [85, 102, 114, 59], [85, 103, 114, 97, 118, 101, 59], [85, 103, 114, 97, 118, 101], [85, 109, 97, 99, 114, 59], [85, 110, 100, 101, 114, 66, 97, 114, 59], [85, 110, 100, 101, 114, 66, 114, 97, 99, 101, 59], [85, 110, 100, 101, 114, 66, 114, 97, 99, 107, 101, 116, 59], [85, 110, 100, 101, 114, 80, 97, 114, 101, 110, 116, 104, 101, 115, 105, 115, 59], [85, 110, 105, 111, 110, 59], [85, 110, 105, 111, 110, 80, 108, 117, 115, 59], [85, 111, 103, 111, 110, 59], [85, 111, 112, 102, 59], [85, 112, 65, 114, 114, 111, 119, 59], [85, 112, 65, 114, 114, 111, 119, 66, 97, 114, 59], [85, 112, 65, 114, 114, 111, 119, 68, 111, 119, 110, 65, 114, 114, 111, 119, 59], [85, 112, 68, 111, 119, 110, 65, 114, 114, 111, 119, 59], [85, 112, 69, 113, 117, 105, 108, 105, 98, 114, 105, 117, 109, 59], [85, 112, 84, 101, 101, 59], [85, 112, 84, 101, 101, 65, 114, 114, 111, 119, 59], [85, 112, 97, 114, 114, 111, 119, 59], [85, 112, 100, 111, 119, 110, 97, 114, 114, 111, 119, 59], [85, 112, 112, 101, 114, 76, 101, 102, 116, 65, 114, 114, 111, 119, 59], [85, 112, 112, 101, 114, 82, 105, 103, 104, 116, 65, 114, 114, 111, 119, 59], [85, 112, 115, 105, 59], [85, 112, 115, 105, 108, 111, 110, 59], [85, 114, 105, 110, 103, 59], [85, 115, 99, 114, 59], [85, 116, 105, 108, 100, 101, 59], [85, 117, 109, 108, 59], [85, 117, 109, 108]]

/-- Entity names with first byte 86, in table order. -/
def entBucket86 : List (List Nat) :=
  [[86, 68, 97, 115, 104, 59], [86, 98, 97, 114, 59], [86, 99, 121, 59], [86, 100, 97, 115, 104, 59], [86, 100, 97, 115, 104, 108, 59], [86, 101, 101, 59], [86, 101, 114, 98, 97, 114, 59], [86, 101, 114, 116, 59], [86, 101, 114, 116, 105, 99, 97, 108, 66, 97, 114, 59], [86, 101, 114, 116, 105, 99, 97, 108, 76, 105, 110, 101, 59], [86, 101, 114, 116, 105, 99, 97, 108, 83, 101, 112, 97, 114, 97, 116, 111, 114, 59], [86, 101, 114, 116, 105, 99, 97, 108, 84, 105, 108, 100, 101, 59], [86, 101, 114, 121, 84, 104, 105, 110, 83, 112, 97, 99, 101, 59], [86, 102, 114, 59], [86, 111, 112, 102, 59], [86, 115, 99, 114, 59], [86, 118, 100, 97, 115, 104, 59]]

/-- Entity names with first byte 87, in table order. -/
def entBucket87 : List (List Nat) :=
  [[87, 99, 105, 114, 99, 59], [87, 101, 100, 103, 101, 59], [87, 102, 114, 59], [87, 111, 112, 102, 59], [87, 115, 99, 114, 59]]

/-- Entity names with first byte 88, in table order. -/
def entBucket88 : List (List Nat) :=
  [[88, 102, 114, 59], [88, 105, 59], [88, 111, 112, 102, 59], [88, 115, 99, 114, 59]]

/-- Entity names with first byte 89, in table order. -/
def entBucket89 : List (List Nat) :=
  [[89, 65, 99, 121, 59], [89, 73, 99, 121, 59], [89, 85, 99, 121, 59], [89, 97, 99, 117, 116, 101, 59], [89, 97, 99, 117, 116, 101], [89, 99, 105, 114, 99, 59], [89, 99, 121, 59], [89, 102, 114, 59], [89, 111, 112, 102, 59], [89, 115, 99, 114, 59], [89, 117, 109, 108, 59]]

/-- Entity names with first byte 90, in table order. -/
def entBucket90 : List (List Nat) :=
  [[90, 72, 99, 121, 59], [90, 97, 99, 117, 116, 101, 59], [90, 99, 97, 114, 111, 110, 59], [90, 99, 121, 59], [90, 100, 111, 116, 59], [90, 101, 114, 111, 87, 105, 100, 116, 104, 83, 112, 97, 99, 101, 59], [90, 101, 116, 97, 59], [90, 102, 114, 59], [90, 111, 112, 102, 59], [90, 115, 99, 114, 59]]

/-- Entity names with first byte 97, in table order. -/
def entBucket97 : List (List Nat) :=
  [[97, 97, 99, 117, 116, 101, 59], [97, 97, 99, 117, 116, 101], [97, 98, 114, 101, 118, 101, 59], [97, 99, 59], [97, 99, 69, 59], [97, 99, 100, 59], [97, 99, 105, 114, 99, 59], [97, 99, 105, 114, 99], [97, 99, 117, 116, 101, 59], [97, 99, 117, 116, 101], [97, 99, 121, 59], [97, 101, 108, 105, 103, 59], [97, 101, 108, 105, 103], [97, 102, 59], [97, 102, 114, 59], [97, 103, 114, 97, 118, 101, 59], [97, 103, 114, 97, 118, 101], [97, 108, 101, 102, 115, 121, 109, 59], [97, 108, 101, 112, 104, 59], [97, 108, 112, 104, 97, 59], [97, 109, 97, 99, 114, 59], [97, 109, 97, 108, 103, 59], [97, 109, 112, 59], [97, 109, 112], [97, 110, 100, 59], [97, 110, 100, 97, 110, 100, 59], [97, 110, 100, 100, 59], [97, 110, 100, 115, 108, 111, 112, 101, 59], [97, 110, 100, 118, 59], [97, 110, 103, 59], [97, 110, 103, 101, 59], [97, 110, 103, 108, 101, 59], [97, 110, 103, 109, 115, 100, 59], [97, 110, 103, 109, 115, 100, 97, 97, 59], [97, 110, 103, 109, 115, 100, 97, 98, 59], [97, 110, 103, 109, 115, 100, 97, 99, 59], [97, 110, 103, 109, 115, 100, 97, 100, 59], [97, 110, 103, 109, 115, 100, 97, 101, 59], [97, 110, 103, 109, 115, 100, 97, 102, 59], [97, 110, 103, 109, 115, 100, 97, 103, 59], [97, 110, 103, 109, 115, 100, 97, 104, 59], [97, 110, 103, 114, 116, 59], [97, 110, 103, 114, 116, 118, 98, 59], [97, 110, 103, 114, 116, 118, 98, 100, 59], [97, 110, 103, 115, 112, 104, 59], [97, 110, 103, 115, 116, 59], [97, 110, 103, 122, 97, 114, 114, 59], [97, 111, 103, 111, 110, 59], [97, 111, 112, 102, 59], [97, 112, 59], [97, 112, 69, 59], [97, 112, 97, 99, 105, 114, 59], [97, 112, 101, 59], [97, 112, 105, 100, 59], [97, 112, 111, 115, 59], [97, 112, 112, 114, 111, 120, 59], [97, 112, 112, 114, 111, 120, 101, 113, 59], [97, 114, 105, 110, 103, 59], [97, 114, 105, 110, 103], [97, 115, 99, 114, 59], [97, 115, 116, 59], [97, 115, 121, 109, 112, 59], [97, 115, 121, 109, 112, 101, 113, 59], [97, 116, 105, 108, 100, 101, 59], [97, 116, 105, 108, 100, 101], [97, 117, 109, 108, 59], [97, 117, 109, 108], [97, 119, 99, 111, 110, 105, 110, 116, 59], [97, 119, 105, 110, 116, 59]]

/-- Entity names with first byte 98, in table order. -/
def entBucket98 : List (List Nat) :=
  [[98, 78, 111, 116, 59], [98, 97, 99, 107, 99, 111, 110, 103, 59], [98, 97, 99, 107, 101, 112, 115, 105, 108, 111, 110, 59], [98, 97, 99, 107, 112, 114, 105, 109, 101, 59], [98, 97, 99, 107, 115, 105, 109, 59], [98, 97, 99, 107, 115, 105, 109, 101, 113, 59], [98, 97, 114, 118, 101, 101, 59], [98, 97, 114, 119, 101, 100, 59], [98, 97, 114, 119, 101, 100, 103, 101, 59], [98, 98, 114, 107, 59], [98, 98, 114, 107, 116, 98, 114, 107, 59], [98, 99, 111, 110, 103, 59], [98, 99, 121, 59], [98, 100, 113, 117, 111, 59], [98, 101, 99, 97, 117, 115, 59], [98, 101, 99, 97, 117, 115, 101, 59], [98, 101, 109, 112, 116, 121, 118, 59], [98, 101, 112, 115, 105, 59], [98, 101, 114, 110, 111, 117, 59], [98, 101, 116, 97, 59], [98, 101, 116, 104, 59], [98, 101, 116, 119, 101, 101, 110, 59], [98, 102, 114, 59], [98, 105, 103, 99, 97, 112, 59], [98, 105, 103, 99, 105, 114, 99, 59], [98, 105, 103, 99, 117, 112, 59], [98, 105, 103, 111, 100, 111, 116, 59], [98, 105, 103, 111, 112, 108, 117, 115, 59], [98, 105, 103, 111, 116, 105, 109, 101, 115, 59], [98, 105, 103, 115, 113, 99, 117, 112, 59], [98, 105, 103, 115, 116, 97, 114, 59], [98, 105, 103, 116, 114, 105, 97, 110, 103, 108, 101, 100, 111, 119, 110, 59], [98, 105, 103, 116, 114, 105, 97, 110, 103, 108, 101, 117, 112, 59], [98, 105, 103, 117, 112, 108, 117, 115, 59], [98, 105, 103, 118, 101, 101, 59], [98, 105, 103, 119, 101, 100, 103, 101, 59], [98, 107, 97, 114, 111, 119, 59], [98, 108, 97, 99, 107, 108, 111, 122, 101, 110, 103, 101, 59], [98, 108, 97, 99, 107, 115, 113, 117, 97, 114, 101, 59], [98, 108, 97, 99, 107, 116, 114, 105, 97, 110, 103, 108, 101, 59], [98, 108, 97, 99, 107, 116, 114, 105, 97, 110, 103, 108, 101, 100, 111, 119, 110, 59], [98, 108, 97, 99, 107, 116, 114, 105, 97, 110, 103, 108, 101, 108, 101, 102, 116, 59], [98, 108, 97, 99, 107, 116, 114, 105, 97, 110, 103, 108, 101, 114, 105, 103, 104, 116, 59], [98, 108, 97, 110, 107, 59], [98, 108, 107, 49, 50, 59], [98, 108, 107, 49, 52, 59], [98, 108, 107, 51, 52, 59], [98, 108, 111, 99, 107, 59], [98, 110, 101, 59], [98, 110, 101, 113, 117, 105, 118, 59], [98, 110, 111, 116, 59], [98, 111, 112, 102, 59], [98, 111, 116, 59], [98, 111, 116, 116, 111, 109, 59], [98, 111, 119, 116, 105, 101, 59], [98, 111, 120, 68, 76, 59], [98, 111, 120, 68, 82, 59], [98, 111, 120, 68, 108, 59], [98, 111, 120, 68, 114, 59], [98, 111, 120, 72, 59], [98, 111, 120, 72, 68, 59], [98, 111, 120, 72, 85, 59], [98, 111, 120, 72, 100, 59], [98, 111, 120, 72, 117, 59], [98, 111, 120, 85, 76, 59], [98, 111, 120, 85, 82, 59], [98, 111, 120, 85, 108, 59], [98, 111, 120, 85, 114, 59], [98, 111, 120, 86, 59], [98, 111, 120, 86, 72, 59], [98, 111, 120, 86, 76, 59], [98, 111, 120, 86, 82, 59], [98, 111, 120, 86, 104, 59], [98, 111, 120, 86, 108, 59], [98, 111, 120, 86, 114, 59], [98, 111, 120, 98, 111, 120, 59], [98, 111, 120, 100, 76, 59], [98, 111, 120, 100, 82, 59], [98, 111, 120, 100, 108, 59], [98, 111, 120, 100, 114, 59], [98, 111, 120, 104, 59], [98, 111, 120, 104, 68, 59], [98, 111, 120, 104, 85, 59], [98, 111, 120, 104, 100, 59], [98, 111, 120, 104, 117, 59], [98, 111, 120, 109, 105, 110, 117, 115, 59], [98, 111, 120, 112, 108, 117, 115, 59], [98, 111, 120, 116, 105, 109, 101, 115, 59], [98, 111, 120, 117, 76, 59], [98, 111, 120, 117, 82, 59], [98, 111, 120, 117, 108, 59], [98, 111, 120, 117, 114, 59], [98, 111, 120, 118, 59], [98, 111, 120, 118, 72, 59], [98, 111, 120, 118, 76, 59], [98, 111, 120, 118, 82, 59], [98, 111, 120, 118, 104, 59], [98, 111, 120, 118, 108, 59], [98, 111, 120, 118, 114, 59], [98, 112, 114, 105, 109, 101, 59], [98, 114, 101, 118, 101, 59], [98, 114, 118, 98, 97, 114, 59], [98, 114, 118, 98, 97, 114], [98, 115, 99, 114, 59], [98, 115, 101, 109, 105, 59], [98, 115, 105, 109, 59], [98, 115, 105, 109, 101, 59], [98, 115, 111, 108, 59], [98, 115, 111, 108, 98, 59], [98, 115, 111, 108, 104, 115, 117, 98, 59], [98, 117, 108, 108, 59], [98, 117, 108, 108, 101, 116, 59], [98, 117, 109, 112, 59], [98, 117, 109, 112, 69, 59], [98, 117, 109, 112, 101, 59], [98, 117, 109, 112, 101, 113, 59]]

/-- Entity names with first byte 99, in table order. -/
def entBucket99 : List (List Nat) :=
  [[99, 97, 99, 117, 116, 101, 59], [99, 97, 112, 59], [99, 97, 112, 97, 110, 100, 59], [99, 97, 112, 98, 114, 99, 117, 112, 59], [99, 97, 112, 99, 97, 112, 59], [99, 97, 112, 99, 117, 112, 59], [99, 97, 112, 100, 111, 116, 59], [99, 97, 112, 115, 59], [99, 97, 114, 101, 116, 59], [99, 97, 114, 111, 110, 59], [99, 99, 97, 112, 115, 59], [99, 99, 97, 114, 111, 110, 59], [99, 99, 101, 100, 105, 108, 59], [99, 99, 101, 100, 105, 108], [99, 99, 105, 114, 99, 59], [99, 99, 117, 112, 115, 59], [99, 99, 117, 112, 115, 115, 109, 59], [99, 100, 111, 116, 59], [99, 101, 100, 105, 108, 59], [99, 101, 100, 105, 108], [99, 101, 109, 112, 116, 121, 118, 59], [99, 101, 110, 116, 59], [99, 101, 110, 116], [99, 101, 110, 116, 101, 114, 100, 111, 116, 59], [99, 102, 114, 59], [99, 104, 99, 121, 59], [99, 104, 101, 99, 107, 59], [99, 104, 101, 99, 107, 109, 97, 114, 107, 59], [99, 104, 105, 59], [99, 105, 114, 59], [99, 105, 114, 69, 59], [99, 105, 114, 99, 59], [99, 105, 114, 99, 101, 113, 59], [99, 105, 114, 99, 108, 101, 97, 114, 114, 111, 119, 108, 101, 102, 116, 59], [99, 105, 114, 99, 108, 101, 97, 114, 114, 111, 119, 114, 105, 103, 104, 116, 59], [99, 105, 114, 99, 108, 101, 100, 82, 59], [99, 105, 114, 99, 108, 101, 100, 83, 59], [99, 105, 114, 99, 108, 101, 100, 97, 115, 116, 59], [99, 105, 114, 99, 108, 101, 100, 99, 105, 114, 99, 59], [99, 105, 114, 99, 108, 101, 100, 100, 97, 115, 104, 59], [99, 105, 114, 101, 59], [99, 105, 114, 102, 110, 105, 110, 116, 59], [99, 105, 114, 109, 105, 100, 59], [99, 105, 114, 115, 99, 105, 114, 59], [99, 108, 117, 98, 115, 59], [99, 108, 117, 98, 115, 117, 105, 116, 59], [99, 111, 108, 111, 110, 59], [99, 111, 108, 111, 110, 101, 59], [99, 111, 108, 111, 110, 101, 113, 59], [99, 111, 109, 109, 97, 59], [99, 111, 109, 109, 97, 116, 59], [99, 111, 109, 112, 59], [99, 111, 109, 112, 102, 110, 59], [99, 111, 109, 112, 108, 101, 109, 101, 110, 116, 59], [99, 111, 109, 112, 108, 101, 120, 101, 115, 59], [99, 111, 110, 103, 59], [99, 111, 110, 103, 100, 111, 116, 59], [99, 111, 110, 105, 110, 116, 59], [99, 111, 112, 102, 59], [99, 111, 112, 114, 111, 100, 59], [99, 111, 112, 121, 59], [99, 111, 112, 121], [99, 111, 112, 121, 115, 114, 59], [99, 114, 97, 114, 114, 59], [99, 114, 111, 115, 115, 59], [99, 115, 99, 114, 59], [99, 115, 117, 98, 59], [99, 115, 117, 98, 101, 59], [99, 115, 117, 112, 59], [99, 115, 117, 112, 101, 59], [99, 116, 100, 111, 116, 59], [99, 117, 100, 97, 114, 114, 108, 59], [99, 117, 100, 97, 114, 114, 114, 59], [99, 117, 101, 112, 114, 59], [99, 117, 101, 115, 99, 59], [99, 117, 108, 97, 114, 114, 59], [99, 117, 108, 97, 114, 114, 112, 59], [99, 117, 112, 59], [99, 117, 112, 98, 114, 99, 97, 112, 59], [99, 117, 112, 99, 97, 112, 59], [99, 117, 112, 99, 117, 112, 59], [99, 117, 112, 100, 111, 116, 59], [99, 117, 112, 111, 114, 59], [99, 117, 112, 115, 59], [99, 117, 114, 97, 114, 114, 59], [99, 117, 114, 97, 114, 114, 109, 59], [99, 117, 114, 108, 121, 101, 113, 112, 114, 101, 99, 59], [99, 117, 114, 108, 121, 101, 113, 115, 117, 99, 99, 59], [99, 117, 114, 108, 121, 118, 101, 101, 59], [99, 117, 114, 108, 121, 119, 101, 100, 103, 101, 59], [99, 117, 114, 114, 101, 110, 59], [99, 117, 114, 114, 101, 110], [99, 117, 114, 118, 101, 97, 114, 114, 111, 119, 108, 101, 102, 116, 59], [99, 117, 114, 118, 101, 97, 114, 114, 111, 119, 114, 105, 103, 104, 116, 59], [99, 117, 118, 101, 101, 59], [99, 117, 119, 101, 100, 59], [99, 119, 99, 111, 110, 105, 110, 116, 59], [99, 119, 105, 110, 116, 59], [99, 121, 108, 99, 116, 121, 59]]

/-- Entity names with first byte 100, in table order. -/
def entBucket100 : List (List Nat) :=
  [[100, 65, 114, 114, 59], [100, 72, 97, 114, 59], [100, 97, 103, 103, 101, 114, 59], [100, 97, 108, 101, 116, 104, 59], [100, 97, 114, 114, 59], [100, 97, 115, 104, 59], [100, 97, 115, 104, 118, 59], [100, 98, 107, 97, 114, 111, 119, 59], [100, 98, 108, 97, 99, 59], [100, 99, 97, 114, 111, 110, 59], [100, 99, 121, 59], [100, 100, 59], [100, 100, 97, 103, 103, 101, 114, 59], [100, 100, 97, 114, 114, 59], [100, 100, 111, 116, 115, 101, 113, 59], [100, 101, 103, 59], [100, 101, 103], [100, 101, 108, 116, 97, 59], [100, 101, 109, 112, 116, 121, 118, 59], [100, 102, 105, 115, 104, 116, 59], [100, 102, 114, 59], [100, 104, 97, 114, 108, 59], [100, 104, 97, 114, 114, 59], [100, 105, 97, 109, 59], [100, 105, 97, 109, 111, 110, 100, 59], [100, 105, 97, 109, 111, 110, 100, 115, 117, 105, 116, 59], [100, 105, 97, 109, 115, 59], [100, 105, 101, 59], [100, 105, 103, 97, 109, 109, 97, 59], [100, 105, 115, 105, 110, 59], [100, 105, 118, 59], [100, 105, 118, 105, 100, 101, 59], [100, 105, 118, 105, 100, 101], [100, 105, 118, 105, 100, 101, 111, 110, 116, 105, 109, 101, 115, 59], [100, 105, 118, 111, 110, 120, 59], [100, 106, 99, 121, 59], [100, 108, 99, 111, 114, 110, 59], [100, 108, 99, 114, 111, 112, 59], [100, 111, 108, 108, 97, 114, 59], [100, 111, 112, 102, 59], [100, 111, 116, 59], [100, 111, 116, 101, 113, 59], [100, 111, 116, 101, 113, 100, 111, 116, 59], [100, 111, 116, 109, 105, 110, 117, 115, 59], [100, 111, 116, 112, 108, 117, 115, 59], [100, 111, 116, 115, 113, 117, 97, 114, 101, 59], [100, 111, 117, 98, 108, 101, 98, 97, 114, 119, 101, 100, 103, 101, 59], [100, 111, 119, 110, 97, 114, 114, 111, 119, 59], [100, 111, 119, 110, 100, 111, 119, 110, 97, 114, 114, 111, 119, 115, 59], [100, 111, 119, 110, 104, 97, 114, 112, 111, 111, 110, 108, 101, 102, 116, 59], [100, 111, 119, 110, 104, 97, 114, 112, 111, 111, 110, 114, 105, 103, 104, 116, 59], [100, 114, 98, 107, 97, 114, 111, 119, 59], [100, 114, 99, 111, 114, 110, 59], [100, 114, 99, 114, 111, 112, 59], [100, 115, 99, 114, 59], [100, 115, 99, 121, 59], [100, 115, 111, 108, 59], [100, 115, 116, 114, 111, 107, 59], [100, 116, 100, 111, 116, 59], [100, 116, 114, 105, 59], [100, 116, 114, 105, 102, 59], [100, 117, 97, 114, 114, 59], [100, 117, 104, 97, 114, 59], [100, 119, 97, 110, 103, 108, 101, 59], [100, 122, 99, 121, 59], [100, 122, 105, 103, 114, 97, 114, 114, 59]]

/-- Entity names with first byte 101, in table order. -/
def entBucket101 : List (List Nat) :=
  [[101, 68, 68, 111, 116, 59], [101, 68, 111, 116, 59], [101, 97, 99, 117, 116, 101, 59], [101, 97, 99, 117, 116, 101], [101, 97, 115, 116, 101, 114, 59], [101, 99, 97, 114, 111, 110, 59], [101, 99, 105, 114, 59], [101, 99, 105, 114, 99, 59], [101, 99, 105, 114, 99], [101, 99, 111, 108, 111, 110, 59], [101, 99, 121, 59], [101, 100, 111, 116, 59], [101, 101, 59], [101, 102, 68, 111, 116, 59], [101, 102, 114, 59], [101, 103, 59], [101, 103, 114, 97, 118, 101, 59], [101, 103, 114, 97, 118, 101], [101, 103, 115, 59], [101, 103, 115, 100, 111, 116, 59], [101, 108, 59], [101, 108, 105, 110, 116, 101, 114, 115, 59], [101, 108, 108, 59], [101, 108, 115, 59], [101, 108, 115, 100, 111, 116, 59], [101, 109, 97, 99, 114, 59], [101, 109, 112, 116, 121, 59], [101, 109, 112, 116, 121, 115, 101, 116, 59], [101, 109, 112, 116, 121, 118, 59], [101, 109, 115, 112, 49, 51, 59], [101, 109, 115, 112, 49, 52, 59], [101, 109, 115, 112, 59], [101, 110, 103, 59], [101, 110, 115, 112, 59], [101, 111, 103, 111, 110, 59], [101, 111, 112, 102, 59], [101, 112, 97, 114, 59], [101, 112, 97, 114, 115, 108, 59], [101, 112, 108, 117, 115, 59], [101, 112, 115, 105, 59], [101, 112, 115, 105, 108, 111, 110, 59], [101, 112, 115, 105, 118, 59], [101, 113, 99, 105, 114, 99, 59], [101, 113, 99, 111, 108, 111, 110, 59], [101, 113, 115, 105, 109, 59], [101, 113, 115, 108, 97, 110, 116, 103, 116, 114, 59], [101, 113, 115, 108, 97, 110, 116, 108, 101, 115, 115, 59], [101, 113, 117, 97, 108, 115, 59], [101, 113, 117, 101, 115, 116, 59], [101, 113, 117, 105, 118, 59], [101, 113, 117, 105, 118, 68, 68, 59], [101, 113, 118, 112, 97, 114, 115, 108, 59], [101, 114, 68, 111, 116, 59], [101, 114, 97, 114, 114, 59], [101, 115, 99, 114, 59], [101, 115, 100, 111, 116, 59], [101, 115, 105, 109, 59], [101, 116, 97, 59], [101, 116, 104, 59], [101, 116, 104], [101, 117, 109, 108, 59], [101, 117, 109, 108], [101, 117, 114, 111, 59], [101, 120, 99, 108, 59], [101, 120, 105, 115, 116, 59], [101, 120, 112, 101, 99, 116, 97, 116, 105, 111, 110, 59], [101, 120, 112, 111, 110, 101, 110, 116, 105, 97, 108, 101, 59]]

/-- Entity names with first byte 102, in table order. -/
def entBucket102 : List (List Nat) :=
  [[102, 97, 108, 108, 105, 110, 103, 100, 111, 116, 115, 101, 113, 59], [102, 99, 121, 59], [102, 101, 109, 97, 108, 101, 59], [102, 102, 105, 108, 105, 103, 59], [102, 102, 108, 105, 103, 59], [102, 102, 108, 108, 105, 103, 59], [102, 102, 114, 59], [102, 105, 108, 105, 103, 59], [102, 106, 108, 105, 103, 59], [102, 108, 97, 116, 59], [102, 108, 108, 105, 103, 59], [102, 108, 116, 110, 115, 59], [102, 110, 111, 102, 59], [102, 111, 112, 102, 59], [102, 111, 114, 97, 108, 108, 59], [102, 111, 114, 107, 59], [102, 111, 114, 107, 118, 59], [102, 112, 97, 114, 116, 105, 110, 116, 59], [102, 114, 97, 99, 49, 50, 59], [102, 114, 97, 99, 49, 50], [102, 114, 97, 99, 49, 51, 59], [102, 114, 97, 99, 49, 52, 59], [102, 114, 97, 99, 49, 52], [102, 114, 97, 99, 49, 53, 59], [102, 114, 97, 99, 49, 54, 59], [102, 114, 97, 99, 49, 56, 59], [102, 114, 97, 99, 50, 51, 59], [102, 114, 97, 99, 50, 53, 59], [102, 114, 97, 99, 51, 52, 59], [102, 114, 97, 99, 51, 52], [102, 114, 97, 99, 51, 53, 59], [102, 114, 97, 99, 51, 56, 59], [102, 114, 97, 99, 52, 53, 59], [102, 114, 97, 99, 53, 54, 59], [102, 114, 97, 99, 53, 56, 59], [102, 114, 97, 99, 55, 56, 59], [102, 114, 97, 115, 108, 59], [102, 114, 111, 119, 110, 59], [102, 115, 99, 114, 59]]

/-- Entity names with first byte 103, in table order. -/
def entBucket103 : List (List Nat) :=
  [[103, 69, 59], [103, 69, 108, 59], [103, 97, 99, 117, 116, 101, 59], [103, 97, 109, 109, 97, 59], [103, 97, 109, 109, 97, 100, 59], [103, 97, 112, 59], [103, 98, 114, 101, 118, 101, 59], [103, 99, 105, 114, 99, 59], [103, 99, 121, 59], [103, 100, 111, 116, 59], [103, 101, 59], [103, 101, 108, 59], [103, 101, 113, 59], [103, 101, 113, 113, 59], [103, 101, 113, 115, 108, 97, 110, 116, 59], [103, 101, 115, 59], [103, 101, 115, 99, 99, 59], [103, 101, 115, 100, 111, 116, 59], [103, 101, 115, 100, 111, 116, 111, 59], [103, 101, 115, 100, 111, 116, 111, 108, 59], [103, 101, 115, 108, 59], [103, 101, 115, 108, 101, 115, 59], [103, 102, 114, 59], [103, 103, 59], [103, 103, 103, 59], [103, 105, 109, 101, 108, 59], [103, 106, 99, 121, 59], [103, 108, 59], [103, 108, 69, 59], [103, 108, 97, 59], [103, 108, 106, 59], [103, 110, 69, 59], [103, 110, 97, 112, 59], [103, 110, 97, 112, 112, 114, 111, 120, 59], [103, 110, 101, 59], [103, 110, 101, 113, 59], [103, 110, 101, 113, 113, 59], [103, 110, 115, 105, 109, 59], [103, 111, 112, 102, 59], [103, 114, 97, 118, 101, 59], [103, 115, 99, 114, 59], [103, 115, 105, 109, 59], [103, 115, 105, 109, 101, 59], [103, 115, 105, 109, 108, 59], [103, 116, 59], [103, 116], [103, 116, 99, 99, 59], [103, 116, 99, 105, 114, 59], [103, 116, 100, 111, 116, 59], [103, 116, 108, 80, 97, 114, 59], [103, 116, 113, 117, 101, 115, 116, 59], [103, 116, 114, 97, 112, 112, 114, 111, 120, 59], [103, 116, 114, 97, 114, 114, 59], [103, 116, 114, 100, 111, 116, 59], [103, 116, 114, 101, 113, 108, 101, 115, 115, 59], [103, 116, 114, 101, 113, 113, 108, 101, 115, 115, 59], [103, 116, 114, 108, 101, 115, 115, 59], [103, 116, 114, 115, 105, 109, 59], [103, 118, 101, 114, 116, 110, 101, 113, 113, 59], [103, 118, 110, 69, 59]]

/-- Entity names with first byte 104, in table order. -/
def entBucket104 : List (List Nat) :=
  [[104, 65, 114, 114, 59], [104, 97, 105, 114, 115, 112, 59], [104, 97, 108, 102, 59], [104, 97, 109, 105, 108, 116, 59], [104, 97, 114, 100, 99, 121, 59], [104, 97, 114, 114, 59], [104, 97, 114, 114, 99, 105, 114, 59], [104, 97, 114, 114, 119, 59], [104, 98, 97, 114, 59], [104, 99, 105, 114, 99, 59], [104, 101, 97, 114, 116, 115, 59], [104, 101, 97, 114, 116, 115, 117, 105, 116, 59], [104, 101, 108, 108, 105, 112, 59], [104, 101, 114, 99, 111, 110, 59], [104, 102, 114, 59], [104, 107, 115, 101, 97, 114, 111, 119, 59], [104, 107, 115, 119, 97, 114, 111, 119, 59], [104, 111, 97, 114, 114, 59], [104, 111, 109, 116, 104, 116, 59], [104, 111, 111, 107, 108, 101, 102, 116, 97, 114, 114, 111, 119, 59], [104, 111, 111, 107, 114, 105, 103, 104, 116, 97, 114, 114, 111, 119, 59], [104, 111, 112, 102, 59], [104, 111, 114, 98, 97, 114, 59], [104, 115, 99, 114, 59], [104, 115, 108, 97, 115, 104, 59], [104, 115, 116, 114, 111, 107, 59], [104, 121, 98, 117, 108, 108, 59], [104, 121, 112, 104, 101, 110, 59]]

/-- Entity names with first byte 105, in table order. -/
def entBucket105 : List (List Nat) :=
  [[105, 97, 99, 117, 116, 101, 59], [105, 97, 99, 117, 116, 101], [105, 99, 59], [105, 99, 105, 114, 99, 59], [105, 99, 105, 114, 99], [105, 99, 121, 59], [105, 101, 99, 121, 59], [105, 101, 120, 99, 108, 59], [105, 101, 120, 99, 108], [105, 102, 102, 59], [105, 102, 114, 59], [105, 103, 114, 97, 118, 101, 59], [105, 103, 114, 97, 118, 101], [105, 105, 59], [105, 105, 105, 105, 110, 116, 59], [105, 105, 105, 110, 116, 59], [105, 105, 110, 102, 105, 110, 59], [105, 105, 111, 116, 97, 59], [105, 106, 108, 105, 103, 59], [105, 109, 97, 99, 114, 59], [105, 109, 97, 103, 101, 59], [105, 109, 97, 103, 108, 105, 110, 101, 59], [105, 109, 97, 103, 112, 97, 114, 116, 59], [105, 109, 97, 116, 104, 59], [105, 109, 111, 102, 59], [105, 109, 112, 101, 100, 59], [105, 110, 59], [105, 110, 99, 97, 114, 101, 59], [105, 110, 102, 105, 110, 59], [105, 110, 102, 105, 110, 116, 105, 101, 59], [105, 110, 111, 100, 111, 116, 59], [105, 110, 116, 59], [105, 110, 116, 99, 97, 108, 59], [105, 110, 116, 101, 103, 101, 114, 115, 59], [105, 110, 116, 101, 114, 99, 97, 108, 59], [105, 110, 116, 108, 97, 114, 104, 107, 59], [105, 110, 116, 112, 114, 111, 100, 59], [105, 111, 99, 121, 59], [105, 111, 103, 111, 110, 59], [105, 111, 112, 102, 59], [105, 111, 116, 97, 59], [105, 112, 114, 111, 100, 59], [105, 113, 117, 101, 115, 116, 59], [105, 113, 117, 101, 115, 116], [105, 115, 99, 114, 59], [105, 115, 105, 110, 59], [105, 115, 105, 110, 69, 59], [105, 115, 105, 110, 100, 111, 116, 59], [105, 115, 105, 110, 115, 59], [105, 115, 105, 110, 115, 118, 59], [105, 115, 105, 110, 118, 59], [105, 116, 59], [105, 116, 105, 108, 100, 101, 59], [105, 117, 107, 99, 121, 59], [105, 117, 109, 108, 59], [105, 117, 109, 108]]

/-- Entity names with first byte 106, in table order. -/
def entBucket106 : List (List Nat) :=
  [[106, 99, 105, 114, 99, 59], [106, 99, 121, 59], [106, 102, 114, 59], [106, 109, 97, 116, 104, 59], [106, 111, 112, 102, 59], [106, 115, 99, 114, 59], [106, 115, 101, 114, 99, 121, 59], [106, 117, 107, 99, 121, 59]]

/-- Entity names with first byte 107, in table order. -/
def entBucket107 : List (List Nat) :=
  [[107, 97, 112, 112, 97, 59], [107, 97, 112, 112, 97, 118, 59], [107, 99, 101, 100, 105, 108, 59], [107, 99, 121, 59], [107, 102, 114, 59], [107, 103, 114, 101, 101, 110, 59], [107, 104, 99, 121, 59], [107, 106, 99, 121, 59], [107, 111, 112, 102, 59], [107, 115, 99, 114, 59]]

/-- Entity names with first byte 108, in table order. -/
def entBucket108 : List (List Nat) :=
  [[108, 65, 97, 114, 114, 59], [108, 65, 114, 114, 59], [108, 65, 116, 97, 105, 108, 59], [108, 66, 97, 114, 114, 59], [108, 69, 59], [108, 69, 103, 59], [108, 72, 97, 114, 59], [108, 97, 99, 117, 116, 101, 59], [108, 97, 101, 109, 112, 116, 121, 118, 59], [108, 97, 103, 114, 97, 110, 59], [108, 97, 109, 98, 100, 97, 59], [108, 97, 110, 103, 59], [108, 97, 110, 103, 100, 59], [108, 97, 110, 103, 108, 101, 59], [108, 97, 112, 59], [108, 97, 113, 117, 111, 59], [108, 97, 113, 117, 111], [108, 97, 114, 114, 59], [108, 97, 114, 114, 98, 59], [108, 97, 114, 114, 98, 102, 115, 59], [108, 97, 114, 114, 102, 115, 59], [108, 97, 114, 114, 104, 107, 59], [108, 97, 114, 114, 108, 112, 59], [108, 97, 114, 114, 112, 108, 59], [108, 97, 114, 114, 115, 105, 109, 59], [108, 97, 114, 114, 116, 108, 59], [108, 97, 116, 59], [108, 97, 116, 97, 105, 108, 59], [108, 97, 116, 101, 59], [108, 97, 116, 101, 115, 59], [108, 98, 97, 114, 114, 59], [108, 98, 98, 114, 107, 59], [108, 98, 114, 97, 99, 101, 59], [108, 98, 114, 97, 99, 107, 59], [108, 98, 114, 107, 101, 59], [108, 98, 114, 107, 115, 108, 100, 59], [108, 98, 114, 107, 115, 108, 117, 59], [108, 99, 97, 114, 111, 110, 59], [108, 99, 101, 100, 105, 108, 59], [108, 99, 101, 105, 108, 59], [108, 99, 117, 98, 59], [108, 99, 121, 59], [108, 100, 99, 97, 59], [108, 100, 113, 117, 111, 59], [108, 100, 113, 117, 111, 114, 59], [108, 100, 114, 100, 104, 97, 114, 59], [108, 100, 114, 117, 115, 104, 97, 114, 59], [108, 100, 115, 104, 59], [108, 101, 59], [108, 101, 102, 116, 97, 114, 114, 111, 119, 59], [108, 101, 102, 116, 97, 114, 114, 111, 119, 116, 97, 105, 108, 59], [108, 101, 102, 116, 104, 97, 114, 112, 111, 111, 110, 100, 111, 119, 110, 59], [108, 101, 102, 116, 104, 97, 114, 112, 111, 111, 110, 117, 112, 59], [108, 101, 102, 116, 108, 101, 102, 116, 97, 114, 114, 111, 119, 115, 59], [108, 101, 102, 116, 114, 105, 103, 104, 116, 97, 114, 114, 111, 119, 59], [108, 101, 102, 116, 114, 105, 103, 104, 116, 97, 114, 114, 111, 119, 115, 59], [108, 101, 102, 116, 114, 105, 103, 104, 116, 104, 97, 114, 112, 111, 111, 110, 115, 59], [108, 101, 102, 116, 114, 105, 103, 104, 116, 115, 113, 117, 105, 103, 97, 114, 114, 111, 119, 59], [108, 101, 102, 116, 116, 104, 114, 101, 101, 116, 105, 109, 101, 115, 59], [108, 101, 103, 59], [108, 101, 113, 59], [108, 101, 113, 113, 59], [108, 101, 113, 115, 108, 97, 110, 116, 59], [108, 101, 115, 59], [108, 101, 115, 99, 99, 59], [108, 101, 115, 100, 111, 116, 59], [108, 101, 115, 100, 111, 116, 111, 59], [108, 101, 115, 100, 111, 116, 111, 114, 59], [108, 101, 115, 103, 59], [108, 101, 115, 103, 101, 115, 59], [108, 101, 115, 115, 97, 112, 112, 114, 111, 120, 59], [108, 101, 115, 115, 100, 111, 116, 59], [108, 101, 115, 115, 101, 113, 103, 116, 114, 59], [108, 101, 115, 115, 101, 113, 113, 103, 116, 114, 59], [108, 101, 115, 115, 103, 116, 114, 59], [108, 101, 115, 115, 115, 105, 109, 59], [108, 102, 105, 115, 104, 116, 59], [108, 102, 108, 111, 111, 114, 59], [108, 102, 114, 59], [108, 103, 59], [108, 103, 69, 59], [108, 104, 97, 114, 100, 59], [108, 104, 97, 114, 117, 59], [108, 104, 97, 114, 117, 108, 59], [108, 104, 98, 108, 107, 59], [108, 106, 99, 121, 59], [108, 108, 59], [108, 108, 97, 114, 114, 59], [108, 108, 99, 111, 114, 110, 101, 114, 59], [108, 108, 104, 97, 114, 100, 59], [108, 108, 116, 114, 105, 59], [108, 109, 105, 100, 111, 116, 59], [108, 109, 111, 117, 115, 116, 59], [108, 109, 111, 117, 115, 116, 97, 99, 104, 101, 59], [108, 110, 69, 59], [108, 110, 97, 112, 59], [108, 110, 97, 112, 112, 114, 111, 120, 59], [108, 110, 101, 59], [108, 110, 101, 113, 59], [108, 110, 101, 113, 113, 59], [108, 110, 115, 105, 109, 59], [108, 111, 97, 110, 103, 59], [108, 111, 97, 114, 114, 59], [108, 111, 98, 114, 107, 59], [108, 111, 110, 103, 108, 101, 102, 116, 97, 114, 114, 111, 119, 59], [108, 111, 110, 103, 108, 101, 102, 116, 114, 105, 103, 104, 116, 97, 114, 114, 111, 119, 59], [108, 111, 110, 103, 109, 97, 112, 115, 116, 111, 59], [108, 111, 110, 103, 114, 105, 103, 104, 116, 97, 114, 114, 111, 119, 59], [108, 111, 111, 112, 97, 114, 114, 111, 119, 108, 101, 102, 116, 59], [108, 111, 111, 112, 97, 114, 114, 111, 119, 114, 105, 103, 104, 116, 59], [108, 111, 112, 97, 114, 59], [108, 111, 112, 102, 59], [108, 111, 112, 108, 117, 115, 59], [108, 111, 116, 105, 109, 101, 115, 59], [108, 111, 119, 97, 115, 116, 59], [108, 111, 119, 98, 97, 114, 59], [108, 111, 122, 59], [108, 111, 122, 101, 110, 103, 101, 59], [108, 111, 122, 102, 59], [108, 112, 97, 114, 59], [108, 112, 97, 114, 108, 116, 59], [108, 114, 97, 114, 114, 59], [108, 114, 99, 111, 114, 110, 101, 114, 59], [108, 114, 104, 97, 114, 59], [108, 114, 104, 97, 114, 100, 59], [108, 114, 109, 59], [108, 114, 116, 114, 105, 59], [108, 115, 97, 113, 117, 111, 59], [108, 115, 99, 114, 59], [108, 115, 104, 59], [108, 115, 105, 109, 59], [108, 115, 105, 109, 101, 59], [108, 115, 105, 109, 103, 59], [108, 115, 113, 98, 59], [108, 115, 113, 117, 111, 59], [108, 115, 113, 117, 111, 114, 59], [108, 115, 116, 114, 111, 107, 59], [108, 116, 59], [108, 116], [108, 116, 99, 99, 59], [108, 116, 99, 105, 114, 59], [108, 116, 100, 111, 116, 59], [108, 116, 104, 114, 101, 101, 59], [108, 116, 105, 109, 101, 115, 59], [108, 116, 108, 97, 114, 114, 59], [108, 116, 113, 117, 101, 115, 116, 59], [108, 116, 114, 80, 97, 114, 59], [108, 116, 114, 105, 59], [108, 116, 114, 105, 101, 59], [108, 116, 114, 105, 102, 59], [108, 117, 114, 100, 115, 104, 97, 114, 59], [108, 117, 114, 117, 104, 97, 114, 59], [108, 118, 101, 114, 116, 110, 101, 113, 113, 59], [108, 118, 110, 69, 59]]

/-- Entity names with first byte 109, in table order. -/
def entBucket109 : List (List Nat) :=
  [[109, 68, 68, 111, 116, 59], [109, 97, 99, 114, 59], [109, 97, 99, 114], [109, 97, 108, 101, 59], [109, 97, 108, 116, 59], [109, 97, 108, 116, 101, 115, 101, 59], [109, 97, 112, 59], [109, 97, 112, 115, 116, 111, 59], [109, 97, 112, 115, 116, 111, 100, 111, 119, 110, 59], [109, 97, 112, 115, 116, 111, 108, 101, 102, 116, 59], [109, 97, 112, 115, 116, 111, 117, 112, 59], [109, 97, 114, 107, 101, 114, 59], [109, 99, 111, 109, 109, 97, 59], [109, 99, 121, 59], [109, 100, 97, 115, 104, 59], [109, 101, 97, 115, 117, 114, 101, 100, 97, 110, 103, 108, 101, 59], [109, 102, 114, 59], [109, 104, 111, 59], [109, 105, 99, 114, 111, 59], [109, 105, 99, 114, 111], [109, 105, 100, 59], [109, 105, 100, 97, 115, 116, 59], [109, 105, 100, 99, 105, 114, 59], [109, 105, 100, 100, 111, 116, 59], [109, 105, 100, 100, 111, 116], [109, 105, 110, 117, 115, 59], [109, 105, 110, 117, 115, 98, 59], [109, 105, 110, 117, 115, 100, 59], [109, 105, 110, 117, 115, 100, 117, 59], [109, 108, 99, 112, 59], [109, 108, 100, 114, 59], [109, 110, 112, 108, 117, 115, 59], [109, 111, 100, 101, 108, 115, 59], [109, 111, 112, 102, 59], [109, 112, 59], [109, 115, 99, 114, 59], [109, 115, 116, 112, 111, 115, 59], [109, 117, 59], [109, 117, 108, 116, 105, 109, 97, 112, 59], [109, 117, 109, 97, 112, 59]]

/-- Entity names with first byte 110, in table order. -/
def entBucket110 : List (List Nat) :=
  [[110, 71, 103, 59], [110, 71, 116, 59], [110, 71, 116, 118, 59], [110, 76, 101, 102, 116, 97, 114, 114, 111, 119, 59], [110, 76, 101, 102, 116, 114, 105, 103, 104, 116, 97, 114, 114, 111, 119, 59], [110, 76, 108, 59], [110, 76, 116, 59], [110, 76, 116, 118, 59], [110, 82, 105, 103, 104, 116, 97, 114, 114, 111, 119, 59], [110, 86, 68, 97, 115, 104, 59], [110, 86, 100, 97, 115, 104, 59], [110, 97, 98, 108, 97, 59], [110, 97, 99, 117, 116, 101, 59], [110, 97, 110, 103, 59], [110, 97, 112, 59], [110, 97, 112, 69, 59], [110, 97, 112, 105, 100, 59], [110, 97, 112, 111, 115, 59], [110, 97, 112, 112, 114, 111, 120, 59], [110, 97, 116, 117, 114, 59], [110, 97, 116, 117, 114, 97, 108, 59], [110, 97, 116, 117, 114, 97, 108, 115, 59], [110, 98, 115, 112, 59], [110, 98, 115, 112], [110, 98, 117, 109, 112, 59], [110, 98, 117, 109, 112, 101, 59], [110, 99, 97, 112, 59], [110, 99, 97, 114, 111, 110, 59], [110, 99, 101, 100, 105, 108, 59], [110, 99, 111, 110, 103, 59], [110, 99, 111, 110, 103, 100, 111, 116, 59], [110, 99, 117, 112, 59], [110, 99, 121, 59], [110, 100, 97, 115, 104, 59], [110, 101, 59], [110, 101, 65, 114, 114, 59], [110, 101, 97, 114, 104, 107, 59], [110, 101, 97, 114, 114, 59], [110, 101, 97, 114, 114, 111, 119, 59], [110, 101, 100, 111, 116, 59], [110, 101, 113, 117, 105, 118, 59], [110, 101, 115, 101, 97, 114, 59], [110, 101, 115, 105, 109, 59], [110, 101, 120, 105, 115, 116, 59], [110, 101, 120, 105, 115, 116, 115, 59], [110, 102, 114, 59], [110, 103, 69, 59], [110, 103, 101, 59], [110, 103, 101, 113, 59], [110, 103, 101, 113, 113, 59], [110, 103, 101, 113, 115, 108, 97, 110, 116, 59], [110, 103, 101, 115, 59], [110, 103, 115, 105, 109, 59], [110, 103, 116, 59], [110, 103, 116, 114, 59], [110, 104, 65, 114, 114, 59], [110, 104, 97, 114, 114, 59], [110, 104, 112, 97, 114, 59], [110, 105, 59], [110, 105, 115, 59], [110, 105, 115, 100, 59], [110, 105, 118, 59], [110, 106, 99, 121, 59], [110, 108, 65, 114, 114, 59], [110, 108, 69, 59], [110, 108, 97, 114, 114, 59], [110, 108, 100, 114, 59], [110, 108, 101, 59], [110, 108, 101, 102, 116, 97, 114, 114, 111, 119, 59], [110, 108, 101, 102, 116, 114, 105, 103, 104, 116, 97, 114, 114, 111, 119, 59], [110, 108, 101, 113, 59], [110, 108, 101, 113, 113, 59], [110, 108, 101, 113, 115, 108, 97, 110, 116, 59], [110, 108, 101, 115, 59], [110, 108, 101, 115, 115, 59], [110, 108, 115, 105, 109, 59], [110, 108, 116, 59], [110, 108, 116, 114, 105, 59], [110, 108, 116, 114, 105, 101, 59], [110, 109, 105, 100, 59], [110, 111, 112, 102, 59], [110, 111, 116, 59], [110, 111, 116, 105, 110, 59], [110, 111, 116, 105, 110, 69, 59], [110, 111, 116, 105, 110, 100, 111, 116, 59], [110, 111, 116, 105, 110, 118, 97, 59], [110, 111, 116, 105, 110, 118, 98, 59], [110, 111, 116, 105, 110, 118, 99, 59], [110, 111, 116, 110, 105, 59], [110, 111, 116, 110, 105, 118, 97, 59], [110, 111, 116, 110, 105, 118, 98, 59], [110, 111, 116, 110, 105, 118, 99, 59], [110, 111, 116], [110, 112, 97, 114, 59], [110, 112, 97, 114, 97, 108, 108, 101, 108, 59], [110, 112, 97, 114, 115, 108, 59], [110, 112, 97, 114, 116, 59], [110, 112, 111, 108, 105, 110, 116, 59], [110, 112, 114, 59], [110, 112, 114, 99, 117, 101, 59], [110, 112, 114, 101, 59], [110, 112, 114, 101, 99, 59], [110, 112, 114, 101, 99, 101, 113, 59], [110, 114, 65, 114, 114, 59], [110, 114, 97, 114, 114, 59], [110, 114, 97, 114, 114, 99, 59], [110, 114, 97, 114, 114, 119, 59], [110, 114, 105, 103, 104, 116, 97, 114, 114, 111, 119, 59], [110, 114, 116, 114, 105, 59], [110, 114, 116, 114, 105, 101, 59], [110, 115, 99, 59], [110, 115, 99, 99, 117, 101, 59], [110, 115, 99, 101, 59], [110, 115, 99, 114, 59], [110, 115, 104, 111, 114, 116, 109, 105, 100, 59], [110, 115, 104, 111, 114, 116, 112, 97, 114, 97, 108, 108, 101, 108, 59], [110, 115, 105, 109, 59], [110, 115, 105, 109, 101, 59], [110, 115, 105, 109, 101, 113, 59], [110, 115, 109, 105, 100, 59], [110, 115, 112, 97, 114, 59], [110, 115, 113, 115, 117, 98, 101, 59], [110, 115, 113, 115, 117, 112, 101, 59], [110, 115, 117, 98, 59], [110, 115, 117, 98, 69, 59], [110, 115, 117, 98, 101, 59], [110, 115, 117, 98, 115, 101, 116, 59], [110, 115, 117, 98, 115, 101, 116, 101, 113, 59], [110, 115, 117, 98, 115, 101, 116, 101, 113, 113, 59], [110, 115, 117, 99, 99, 59], [110, 115, 117, 99, 99, 101, 113, 59], [110, 115, 117, 112, 59], [110, 115, 117, 112, 69, 59], [110, 115, 117, 112, 101, 59], [110, 115, 117, 112, 115, 101, 116, 59], [110, 115, 117, 112, 115, 101, 116, 101, 113, 59], [110, 115, 117, 112, 115, 101, 116, 101, 113, 113, 59], [110, 116, 103, 108, 59], [110, 116, 105, 108, 100, 101, 59], [110, 116, 105, 108, 100, 101], [110, 116, 108, 103, 59], [110, 116, 114, 105, 97, 110, 103, 108, 101, 108, 101, 102, 116, 59], [110, 116, 114, 105, 97, 110, 103, 108, 101, 108, 101, 102, 116, 101, 113, 59], [110, 116, 114, 105, 97, 110, 103, 108, 101, 114, 105, 103, 104, 116, 59], [110, 116, 114, 105, 97, 110, 103, 108, 101, 114, 105, 103, 104, 116, 101, 113, 59], [110, 117, 59], [110, 117, 109, 59], [110, 117, 109, 101, 114, 111, 59], [110, 117, 109, 115, 112, 59], [110, 118, 68, 97, 115, 104, 59], [110, 118, 72, 97, 114, 114, 59], [110, 118, 97, 112, 59], [110, 118, 100, 97, 115, 104, 59], [110, 118, 103, 101, 59], [110, 118, 103, 116, 59], [110, 118, 105, 110, 102, 105, 110, 59], [110, 118, 108, 65, 114, 114, 59], [110, 118, 108, 101, 59], [110, 118, 108, 116, 59], [110, 118, 108, 116, 114, 105, 101, 59], [110, 118, 114, 65, 114, 114, 59], [110, 118, 114, 116, 114, 105, 101, 59], [110, 118, 115, 105, 109, 59], [110, 119, 65, 114, 114, 59], [110, 119, 97, 114, 104, 107, 59], [110, 119, 97, 114, 114, 59], [110, 119, 97, 114, 114, 111, 119, 59], [110, 119, 110, 101, 97, 114, 59]]

/-- Entity names with first byte 111, in table order. -/
def entBucket111 : List (List Nat) :=
  [[111, 83, 59], [111, 97, 99, 117, 116, 101, 59], [111, 97, 99, 117, 116, 101], [111, 97, 115, 116, 59], [111, 99, 105, 114, 59], [111, 99, 105, 114, 99, 59], [111, 99, 105, 114, 99], [111, 99, 121, 59], [111, 100, 97, 115, 104, 59], [111, 100, 98, 108, 97, 99, 59], [111, 100, 105, 118, 59], [111, 100, 111, 116, 59], [111, 100, 115, 111, 108, 100, 59], [111, 101, 108, 105, 103, 59], [111, 102, 99, 105, 114, 59], [111, 102, 114, 59], [111, 103, 111, 110, 59], [111, 103, 114, 97, 118, 101, 59], [111, 103, 114, 97, 118, 101], [111, 103, 116, 59], [111, 104, 98, 97, 114, 59], [111, 104, 109, 59], [111, 105, 110, 116, 59], [111, 108, 97, 114, 114, 59], [111, 108, 99, 105, 114, 59], [111, 108, 99, 114, 111, 115, 115, 59], [111, 108, 105, 110, 101, 59], [111, 108, 116, 59], [111, 109, 97, 99, 114, 59], [111, 109, 101, 103, 97, 59], [111, 109, 105, 99, 114, 111, 110, 59], [111, 109, 105, 100, 59], [111, 109, 105, 110, 117, 115, 59], [111, 111, 112, 102, 59], [111, 112, 97, 114, 59], [111, 112, 101, 114, 112, 59], [111, 112, 108, 117, 115, 59], [111, 114, 59], [111, 114, 97, 114, 114, 59], [111, 114, 100, 59], [111, 114, 100, 101, 114, 59], [111, 114, 100, 101, 114, 111, 102, 59], [111, 114, 100, 102, 59], [111, 114, 100, 102], [111, 114, 100, 109, 59], [111, 114, 100, 109], [111, 114, 105, 103, 111, 102, 59], [111, 114, 111, 114, 59], [111, 114, 115, 108, 111, 112, 101, 59], [111, 114, 118, 59], [111, 115, 99, 114, 59], [111, 115, 108, 97, 115, 104, 59], [111, 115, 108, 97, 115, 104], [111, 115, 111, 108, 59], [111, 116, 105, 108, 100, 101, 59], [111, 116, 105, 108, 100, 101], [111, 116, 105, 109, 101, 115, 59], [111, 116, 105, 109, 101, 115, 97, 115, 59], [111, 117, 109, 108, 59], [111, 117, 109, 108], [111, 118, 98, 97, 114, 59]]

/-- Entity names with first byte 112, in table order. -/
def entBucket112 : List (List Nat) :=
  [[112, 97, 114, 59], [112, 97, 114, 97, 59], [112, 97, 114, 97], [112, 97, 114, 97, 108, 108, 101, 108, 59], [112, 97, 114, 115, 105, 109, 59], [112, 97, 114, 115, 108, 59], [112, 97, 114, 116, 59], [112, 99, 121, 59], [112, 101, 114, 99, 110, 116, 59], [112, 101, 114, 105, 111, 100, 59], [112, 101, 114, 109, 105, 108, 59], [112, 101, 114, 112, 59], [112, 101, 114, 116, 101, 110, 107, 59], [112, 102, 114, 59], [112, 104, 105, 59], [112, 104, 105, 118, 59], [112, 104, 109, 109, 97, 116, 59], [112, 104, 111, 110, 101, 59], [112, 105, 59], [112, 105, 116, 99, 104, 102, 111, 114, 107, 59], [112, 105, 118, 59], [112, 108, 97, 110, 99, 107, 59], [112, 108, 97, 110, 99, 107, 104, 59], [112, 108, 97, 110, 107, 118, 59], [112, 108, 117, 115, 59], [112, 108, 117, 115, 97, 99, 105, 114, 59], [112, 108, 117, 115, 98, 59], [112, 108, 117, 115, 99, 105, 114, 59], [112, 108, 117, 115, 100, 111, 59], [112, 108, 117, 115, 100, 117, 59], [112, 108, 117, 115, 101, 59], [112, 108, 117, 115, 109, 110, 59], [112, 108, 117, 115, 109, 110], [112, 108, 117, 115, 115, 105, 109, 59], [112, 108, 117, 115, 116, 119, 111, 59], [112, 109, 59], [112, 111, 105, 110, 116, 105, 110, 116, 59], [112, 111, 112, 102, 59], [112, 111, 117, 110, 100, 59], [112, 111, 117, 110, 100], [112, 114, 59], [112, 114, 69, 59], [112, 114, 97, 112, 59], [112, 114, 99, 117, 101, 59], [112, 114, 101, 59], [112, 114, 101, 99, 59], [112, 114, 101, 99, 97, 112, 112, 114, 111, 120, 59], [112, 114, 101, 99, 99, 117, 114, 108, 121, 101, 113, 59], [112, 114, 101, 99, 101, 113, 59], [112, 114, 101, 99, 110, 97, 112, 112, 114, 111, 120, 59], [112, 114, 101, 99, 110, 101, 113, 113, 59], [112, 114, 101, 99, 110, 115, 105, 109, 59], [112, 114, 101, 99, 115, 105, 109, 59], [112, 114, 105, 109, 101, 59], [112, 114, 105, 109, 101, 115, 59], [112, 114, 110, 69, 59], [112, 114, 110, 97, 112, 59], [112, 114, 110, 115, 105, 109, 59], [112, 114, 111, 100, 59], [112, 114, 111, 102, 97, 108, 97, 114, 59], [112, 114, 111, 102, 108, 105, 110, 101, 59], [112, 114, 111, 102, 115, 117, 114, 102, 59], [112, 114, 111, 112, 59], [112, 114, 111, 112, 116, 111, 59], [112, 114, 115, 105, 109, 59], [112, 114, 117, 114, 101, 108, 59], [112, 115, 99, 114, 59], [112, 115, 105, 59], [112, 117, 110, 99, 115, 112, 59]]

/-- Entity names with first byte 113, in table order. -/
def entBucket113 : List (List Nat) :=
  [[113, 102, 114, 59], [113, 105, 110, 116, 59], [113, 111, 112, 102, 59], [113, 112, 114, 105, 109, 101, 59], [113, 115, 99, 114, 59], [113, 117, 97, 116, 101, 114, 110, 105, 111, 110, 115, 59], [113, 117, 97, 116, 105, 110, 116, 59], [113, 117, 101, 115, 116, 59], [113, 117, 101, 115, 116, 101, 113, 59], [113, 117, 111, 116, 59], [113, 117, 111, 116]]

/-- Entity names with first byte 114, in table order. -/
def entBucket114 : List (List Nat) :=
  [[114, 65, 97, 114, 114, 59], [114, 65, 114, 114, 59], [114, 65, 116, 97, 105, 108, 59], [114, 66, 97, 114, 114, 59], [114, 72, 97, 114, 59], [114, 97, 99, 101, 59], [114, 97, 99, 117, 116, 101, 59], [114, 97, 100, 105, 99, 59], [114, 97, 101, 109, 112, 116, 121, 118, 59], [114, 97, 110, 103, 59], [114, 97, 110, 103, 100, 59], [114, 97, 110, 103, 101, 59], [114, 97, 110, 103, 108, 101, 59], [114, 97, 113, 117, 111, 59], [114, 97, 113, 117, 111], [114, 97, 114, 114, 59], [114, 97, 114, 114, 97, 112, 59], [114, 97, 114, 114, 98, 59], [114, 97, 114, 114, 98, 102, 115, 59], [114, 97, 114, 114, 99, 59], [114, 97, 114, 114, 102, 115, 59], [114, 97, 114, 114, 104, 107, 59], [114, 97, 114, 114, 108, 112, 59], [114, 97, 114, 114, 112, 108, 59], [114, 97, 114, 114, 115, 105, 109, 59], [114, 97, 114, 114, 116, 108, 59], [114, 97, 114, 114, 119, 59], [114, 97, 116, 97, 105, 108, 59], [114, 97, 116, 105, 111, 59], [114, 97, 116, 105, 111, 110, 97, 108, 115, 59], [114, 98, 97, 114, 114, 59], [114, 98, 98, 114, 107, 59], [114, 98, 114, 97, 99, 101, 59], [114, 98, 114, 97, 99, 107, 59], [114, 98, 114, 107, 101, 59], [114, 98, 114, 107, 115, 108, 100, 59], [114, 98, 114, 107, 115, 108, 117, 59], [114, 99, 97, 114, 111, 110, 59], [114, 99, 101, 100, 105, 108, 59], [114, 99, 101, 105, 108, 59], [114, 99, 117, 98, 59], [114, 99, 121, 59], [114, 100, 99, 97, 59], [114, 100, 108, 100, 104, 97, 114, 59], [114, 100, 113, 117, 111, 59], [114, 100, 113, 117, 111, 114, 59], [114, 100, 115, 104, 59], [114, 101, 97, 108, 59], [114, 101, 97, 108, 105, 110, 101, 59], [114, 101, 97, 108, 112, 97, 114, 116, 59], [114, 101, 97, 108, 115, 59], [114, 101, 99, 116, 59], [114, 101, 103, 59], [114, 101, 103], [114, 102, 105, 115, 104, 116, 59], [114, 102, 108, 111, 111, 114, 59], [114, 102, 114, 59], [114, 104, 97, 114, 100, 59], [114, 104, 97, 114, 117, 59], [114, 104, 97, 114, 117, 108, 59], [114, 104, 111, 59], [114, 104, 111, 118, 59], [114, 105, 103, 104, 116, 97, 114, 114, 111, 119, 59], [114, 105, 103, 104, 116, 97, 114, 114, 111, 119, 116, 97, 105, 108, 59], [114, 105, 103, 104, 116, 104, 97, 114, 112, 111, 111, 110, 100, 111, 119, 110, 59], [114, 105, 103, 104, 116, 104, 97, 114, 112, 111, 111, 110, 117, 112, 59], [114, 105, 103, 104, 116, 108, 101, 102, 116, 97, 114, 114, 111, 119, 115, 59], [114, 105, 103, 104, 116, 108, 101, 102, 116, 104, 97, 114, 112, 111, 111, 110, 115, 59], [114, 105, 103, 104, 116, 114, 105, 103, 104, 116, 97, 114, 114, 111, 119, 115, 59], [114, 105, 103, 104, 116, 115, 113, 117, 105, 103, 97, 114, 114, 111, 119, 59], [114, 105, 103, 104, 116, 116, 104, 114, 101, 101, 116, 105, 109, 101, 115, 59], [114, 105, 110, 103, 59], [114, 105, 115, 105, 110, 103, 100, 111, 116, 115, 101, 113, 59], [114, 108, 97, 114, 114, 59], [114, 108, 104, 97, 114, 59], [114, 108, 109, 59], [114, 109, 111, 117, 115, 116, 59], [114, 109, 111, 117, 115, 116, 97, 99, 104, 101, 59], [114, 110, 109, 105, 100, 59], [114, 111, 97, 110, 103, 59], [114, 111, 97, 114, 114, 59], [114, 111, 98, 114, 107, 59], [114, 111, 112, 97, 114, 59], [114, 111, 112, 102, 59], [114, 111, 112, 108, 117, 115, 59], [114, 111, 116, 105, 109, 101, 115, 59], [114, 112, 97, 114, 59], [114, 112, 97, 114, 103, 116, 59], [114, 112, 112, 111, 108, 105, 110, 116, 59], [114, 114, 97, 114, 114, 59], [114, 115, 97, 113, 117, 111, 59], [114, 115, 99, 114, 59], [114, 115, 104, 59], [114, 115, 113, 98, 59], [114, 115, 113, 117, 111, 59], [114, 115, 113, 117, 111, 114, 59], [114, 116, 104, 114, 101, 101, 59], [114, 116, 105, 109, 101, 115, 59], [114, 116, 114, 105, 59], [114, 116, 114, 105, 101, 59], [114, 116, 114, 105, 102, 59], [114, 116, 114, 105, 108, 116, 114, 105, 59], [114, 117, 108, 117, 104, 97, 114, 59], [114, 120, 59]]

/-- Entity names with first byte 115, in table order. -/
def entBucket115 : List (List Nat) :=
  [[115, 97, 99, 117, 116, 101, 59], [115, 98, 113, 117, 111, 59], [115, 99, 59], [115, 99, 69, 59], [115, 99, 97, 112, 59], [115, 99, 97, 114, 111, 110, 59], [115, 99, 99, 117, 101, 59], [115, 99, 101, 59], [115, 99, 101, 100, 105, 108, 59], [115, 99, 105, 114, 99, 59], [115, 99, 110, 69, 59], [115, 99, 110, 97, 112, 59], [115, 99, 110, 115, 105, 109, 59], [115, 99, 112, 111, 108, 105, 110, 116, 59], [115, 99, 115, 105, 109, 59], [115, 99, 121, 59], [115, 100, 111, 116, 59], [115, 100, 111, 116, 98, 59], [115, 100, 111, 116, 101, 59], [115, 101, 65, 114, 114, 59], [115, 101, 97, 114, 104, 107, 59], [115, 101, 97, 114, 114, 59], [115, 101, 97, 114, 114, 111, 119, 59], [115, 101, 99, 116, 59], [115, 101, 99, 116], [115, 101, 109, 105, 59], [115, 101, 115, 119, 97, 114, 59], [115, 101, 116, 109, 105, 110, 117, 115, 59], [115, 101, 116, 109, 110, 59], [115, 101, 120, 116, 59], [115, 102, 114, 59], [115, 102, 114, 111, 119, 110, 59], [115, 104, 97, 114, 112, 59], [115, 104, 99, 104, 99, 121, 59], [115, 104, 99, 121, 59], [115, 104, 111, 114, 116, 109, 105, 100, 59], [115, 104, 111, 114, 116, 112, 97, 114, 97, 108, 108, 101, 108, 59], [115, 104, 121, 59], [115, 104, 121], [115, 105, 103, 109, 97, 59], [115, 105, 103, 109, 97, 102, 59], [115, 105, 103, 109, 97, 118, 59], [115, 105, 109, 59], [115, 105, 109, 100, 111, 116, 59], [115, 105, 109, 101, 59], [115, 105, 109, 101, 113, 59], [115, 105, 109, 103, 59], [115, 105, 109, 103, 69, 59], [115, 105, 109, 108, 59], [115, 105, 109, 108, 69, 59], [115, 105, 109, 110, 101, 59], [115, 105, 109, 112, 108, 117, 115, 59], [115, 105, 109, 114, 97, 114, 114, 59], [115, 108, 97, 114, 114, 59], [115, 109, 97, 108, 108, 115, 101, 116, 109, 105, 110, 117, 115, 59], [115, 109, 97, 115, 104, 112, 59], [115, 109, 101, 112, 97, 114, 115, 108, 59], [115, 109, 105, 100, 59], [115, 109, 105, 108, 101, 59], [115, 109, 116, 59], [115, 109, 116, 101, 59], [115, 109, 116, 101, 115, 59], [115, 111, 102, 116, 99, 121, 59], [115, 111, 108, 59], [115, 111, 108, 98, 59], [115, 111, 108, 98, 97, 114, 59], [115, 111, 112, 102, 59], [115, 112, 97, 100, 101, 115, 59], [115, 112, 97, 100, 101, 115, 117, 105, 116, 59], [115, 112, 97, 114, 59], [115, 113, 99, 97, 112, 59], [115, 113, 99, 97, 112, 115, 59], [115, 113, 99, 117, 112, 59], [115, 113, 99, 117, 112, 115, 59], [115, 113, 115, 117, 98, 59], [115, 113, 115, 117, 98, 101, 59], [115, 113, 115, 117, 98, 115, 101, 116, 59], [115, 113, 115, 117, 98, 115, 101, 116, 101, 113, 59], [115, 113, 115, 117, 112, 59], [115, 113, 115, 117, 112, 101, 59], [115, 113, 115, 117, 112, 115, 101, 116, 59], [115, 113, 115, 117, 112, 115, 101, 116, 101, 113, 59], [115, 113, 117, 59], [115, 113, 117, 97, 114, 101, 59], [115, 113, 117, 97, 114, 102, 59], [115, 113, 117, 102, 59], [115, 114, 97, 114, 114, 59], [115, 115, 99, 114, 59], [115, 115, 101, 116, 109, 110, 59], [115, 115, 109, 105, 108, 101, 59], [115, 115, 116, 97, 114, 102, 59], [115, 116, 97, 114, 59], [115, 116, 97, 114, 102, 59], [115, 116, 114, 97, 105, 103, 104, 116, 101, 112, 115, 105, 108, 111, 110, 59], [115, 116, 114, 97, 105, 103, 104, 116, 112, 104, 105, 59], [115, 116, 114, 110, 115, 59], [115, 117, 98, 59], [115, 117, 98, 69, 59], [115, 117, 98, 100, 111, 116, 59], [115, 117, 98, 101, 59], [115, 117, 98, 101, 100, 111, 116, 59], [115, 117, 98, 109, 117, 108, 116, 59], [115, 117, 98, 110, 69, 59], [115, 117, 98, 110, 101, 59], [115, 117, 98, 112, 108, 117, 115, 59], [115, 117, 98, 114, 97, 114, 114, 59], [115, 117, 98, 115, 101, 116, 59], [115, 117, 98, 115, 101, 116, 101, 113, 59], [115, 117, 98, 115, 101, 116, 101, 113, 113, 59], [115, 117, 98, 115, 101, 116, 110, 101, 113, 59], [115, 117, 98, 115, 101, 116, 110, 101, 113, 113, 59], [115, 117, 98, 115, 105, 109, 59], [115, 117, 98, 115, 117, 98, 59], [115, 117, 98, 115, 117, 112, 59], [115, 117, 99, 99, 59], [115, 117, 99, 99, 97, 112, 112, 114, 111, 120, 59], [115, 117, 99, 99, 99, 117, 114, 108, 121, 101, 113, 59], [115, 117, 99, 99, 101, 113, 59], [115, 117, 99, 99, 110, 97, 112, 112, 114, 111, 120, 59], [115, 117, 99, 99, 110, 101, 113, 113, 59], [115, 117, 99, 99, 110, 115, 105, 109, 59], [115, 117, 99, 99, 115, 105, 109, 59], [115, 117, 109, 59], [115, 117, 110, 103, 59], [115, 117, 112, 49, 59], [115, 117, 112, 49], [115, 117, 112, 50, 59], [115, 117, 112, 50], [115, 117, 112, 51, 59], [115, 117, 112, 51], [115, 117, 112, 59], [115, 117, 112, 69, 59], [115, 117, 112, 100, 111, 116, 59], [115, 117, 112, 100, 115, 117, 98, 59], [115, 117, 112, 101, 59], [115, 117, 112, 101, 100, 111, 116, 59], [115, 117, 112, 104, 115, 111, 108, 59], [115, 117, 112, 104, 115, 117, 98, 59], [115, 117, 112, 108, 97, 114, 114, 59], [115, 117, 112, 109, 117, 108, 116, 59], [115, 117, 112, 110, 69, 59], [115, 117, 112, 110, 101, 59], [115, 117, 112, 112, 108, 117, 115, 59], [115, 117, 112, 115, 101, 116, 59], [115, 117, 112, 115, 101, 116, 101, 113, 59], [115, 117, 112, 115, 101, 116, 101, 113, 113, 59], [115, 117, 112, 115, 101, 116, 110, 101, 113, 59], [115, 117, 112, 115, 101, 116, 110, 101, 113, 113, 59], [115, 117, 112, 115, 105, 109, 59], [115, 117, 112, 115, 117, 98, 59], [115, 117, 112, 115, 117, 112, 59], [115, 119, 65, 114, 114, 59], [115, 119, 97, 114, 104, 107, 59], [115, 119, 97, 114, 114, 59], [115, 119, 97, 114, 114, 111, 119, 59], [115, 119, 110, 119, 97, 114, 59], [115, 122, 108, 105, 103, 59], [115, 122, 108, 105, 103]]

/-- Entity names with first byte 116, in table order. -/
def entBucket116 : List (List Nat) :=
  [[116, 97, 114, 103, 101, 116, 59], [116, 97, 117, 59], [116, 98, 114, 107, 59], [116, 99, 97, 114, 111, 110, 59], [116, 99, 101, 100, 105, 108, 59], [116, 99, 121, 59], [116, 100, 111, 116, 59], [116, 101, 108, 114, 101, 99, 59], [116, 102, 114, 59], [116, 104, 101, 114, 101, 52, 59], [116, 104, 101, 114, 101, 102, 111, 114, 101, 59], [116, 104, 101, 116, 97, 59], [116, 104, 101, 116, 97, 115, 121, 109, 59], [116, 104, 101, 116, 97, 118, 59], [116, 104, 105, 99, 107, 97, 112, 112, 114, 111, 120, 59], [116, 104, 105, 99, 107, 115, 105, 109, 59], [116, 104, 105, 110, 115, 112, 59], [116, 104, 107, 97, 112, 59], [116, 104, 107, 115, 105, 109, 59], [116, 104, 111, 114, 110, 59], [116, 104, 111, 114, 110], [116, 105, 108, 100, 101, 59], [116, 105, 109, 101, 115, 59], [116, 105, 109, 101, 115], [116, 105, 109, 101, 115, 98, 59], [116, 105, 109, 101, 115, 98, 97, 114, 59], [116, 105, 109, 101, 115, 100, 59], [116, 105, 110, 116, 59], [116, 111, 101, 97, 59], [116, 111, 112, 59], [116, 111, 112, 98, 111, 116, 59], [116, 111, 112, 99, 105, 114, 59], [116, 111, 112, 102, 59], [116, 111, 112, 102, 111, 114, 107, 59], [116, 111, 115, 97, 59], [116, 112, 114, 105, 109, 101, 59], [116, 114, 97, 100, 101, 59], [116, 114, 105, 97, 110, 103, 108, 101, 59], [116, 114, 105, 97, 110, 103, 108, 101, 100, 111, 119, 110, 59], [116, 114, 105, 97, 110, 103, 108, 101, 108, 101, 102, 116, 59], [116, 114, 105, 97, 110, 103, 108, 101, 108, 101, 102, 116, 101, 113, 59], [116, 114, 105, 97, 110, 103, 108, 101, 113, 59], [116, 114, 105, 97, 110, 103, 108, 101, 114, 105, 103, 104, 116, 59], [116, 114, 105, 97, 110, 103, 108, 101, 114, 105, 103, 104, 116, 101, 113, 59], [116, 114, 105, 100, 111, 116, 59], [116, 114, 105, 101, 59], [116, 114, 105, 109, 105, 110, 117, 115, 59], [116, 114, 105, 112, 108, 117, 115, 59], [116, 114, 105, 115, 98, 59], [116, 114, 105, 116, 105, 109, 101, 59], [116, 114, 112, 101, 122, 105, 117, 109, 59], [116, 115, 99, 114, 59], [116, 115, 99, 121, 59], [116, 115, 104, 99, 121, 59], [116, 115, 116, 114, 111, 107, 59], [116, 119, 105, 120, 116, 59], [116, 119, 111, 104, 101, 97, 100, 108, 101, 102, 116, 97, 114, 114, 111, 119, 59], [116, 119, 111, 104, 101, 97, 100, 114, 105, 103, 104, 116, 97, 114, 114, 111, 119, 59]]

/-- Entity names with first byte 117, in table order. -/
def entBucket117 : List (List Nat) :=
  [[117, 65, 114, 114, 59], [117, 72, 97, 114, 59], [117, 97, 99, 117, 116, 101, 59], [117, 97, 99, 117, 116, 101], [117, 97, 114, 114, 59], [117, 98, 114, 99, 121, 59], [117, 98, 114, 101, 118, 101, 59], [117, 99, 105, 114, 99, 59], [117, 99, 105, 114, 99], [117, 99, 121, 59], [117, 100, 97, 114, 114, 59], [117, 100, 98, 108, 97, 99, 59], [117, 100, 104, 97, 114, 59], [117, 102, 105, 115, 104, 116, 59], [117, 102, 114, 59], [117, 103, 114, 97, 118, 101, 59], [117, 103, 114, 97, 118, 101], [117, 104, 97, 114, 108, 59], [117, 104, 97, 114, 114, 59], [117, 104, 98, 108, 107, 59], [117, 108, 99, 111, 114, 110, 59], [117, 108, 99, 111, 114, 110, 101, 114, 59], [117, 108, 99, 114, 111, 112, 59], [117, 108, 116, 114, 105, 59], [117, 109, 97, 99, 114, 59], [117, 109, 108, 59], [117, 109, 108], [117, 111, 103, 111, 110, 59], [117, 111, 112, 102, 59], [117, 112, 97, 114, 114, 111, 119, 59], [117, 112, 100, 111, 119, 110, 97, 114, 114, 111, 119, 59], [117, 112, 104, 97, 114, 112, 111, 111, 110, 108, 101, 102, 116, 59], [117, 112, 104, 97, 114, 112, 111, 111, 110, 114, 105, 103, 104, 116, 59], [117, 112, 108, 117, 115, 59], [117, 112, 115, 105, 59], [117, 112, 115, 105, 104, 59], [117, 112, 115, 105, 108, 111, 110, 59], [117, 112, 117, 112, 97, 114, 114, 111, 119, 115, 59], [117, 114, 99, 111, 114, 110, 59], [117, 114, 99, 111, 114, 110, 101, 114, 59], [117, 114, 99, 114, 111, 112, 59], [117, 114, 105, 110, 103, 59], [117, 114, 116, 114, 105, 59], [117, 115, 99, 114, 59], [117, 116, 100, 111, 116, 59], [117, 116, 105, 108, 100, 101, 59], [117, 116, 114, 105, 59], [117, 116, 114, 105, 102, 59], [117, 117, 97, 114, 114, 59], [117, 117, 109, 108, 59], [117, 117, 109, 108], [117, 119, 97, 110, 103, 108, 101, 59]]

/-- Entity names with first byte 118, in table order. -/
def entBucket118 : List (List Nat) :=
  [[118, 65, 114, 114, 59], [118, 66, 97, 114, 59], [118, 66, 97, 114, 118, 59], [118, 68, 97, 115, 104, 59], [118, 97, 110, 103, 114, 116, 59], [118, 97, 114, 101, 112, 115, 105, 108, 111, 110, 59], [118, 97, 114, 107, 97, 112, 112, 97, 59], [118, 97, 114, 110, 111, 116, 104, 105, 110, 103, 59], [118, 97, 114, 112, 104, 105, 59], [118, 97, 114, 112, 105, 59], [118, 97, 114, 112, 114, 111, 112, 116, 111, 59], [118, 97, 114, 114, 59], [118, 97, 114, 114, 104, 111, 59], [118, 97, 114, 115, 105, 103, 109, 97, 59], [118, 97, 114, 115, 117, 98, 115, 101, 116, 110, 101, 113, 59], [118, 97, 114, 115, 117, 98, 115, 101, 116, 110, 101, 113, 113, 59], [118, 97, 114, 115, 117, 112, 115, 101, 116, 110, 101, 113, 59], [118, 97, 114, 115, 117, 112, 115, 101, 116, 110, 101, 113, 113, 59], [118, 97, 114, 116, 104, 101, 116, 97, 59], [118, 97, 114, 116, 114, 105, 97, 110, 103, 108, 101, 108, 101, 102, 116, 59], [118, 97, 114, 116, 114, 105, 97, 110, 103, 108, 101, 114, 105, 103, 104, 116, 59], [118, 99, 121, 59], [118, 100, 97, 115, 104, 59], [118, 101, 101, 59], [118, 101, 101, 98, 97, 114, 59], [118, 101, 101, 101, 113, 59], [118, 101, 108, 108, 105, 112, 59], [118, 101, 114, 98, 97, 114, 59], [118, 101, 114, 116, 59], [118, 102, 114, 59], [118, 108, 116, 114, 105, 59], [118, 110, 115, 117, 98, 59], [118, 110, 115, 117, 112, 59], [118, 111, 112, 102, 59], [118, 112, 114, 111, 112, 59], [118, 114, 116, 114, 105, 59], [118, 115, 99, 114, 59], [118, 115, 117, 98, 110, 69, 59], [118, 115, 117, 98, 110, 101, 59], [118, 115, 117, 112, 110, 69, 59], [118, 115, 117, 112, 110, 101, 59], [118, 122, 105, 103, 122, 97, 103, 59]]

/-- Entity names with first byte 119, in table order. -/
def entBucket119 : List (List Nat) :=
  [[119, 99, 105, 114, 99, 59], [119, 101, 100, 98, 97, 114, 59], [119, 101, 100, 103, 101, 59], [119, 101, 100, 103, 101, 113, 59], [119, 101, 105, 101, 114, 112, 59], [119, 102, 114, 59], [119, 111, 112, 102, 59], [119, 112, 59], [119, 114, 59], [119, 114, 101, 97, 116, 104, 59], [119, 115, 99, 114, 59]]

/-- Entity names with first byte 120, in table order. -/
def entBucket120 : List (List Nat) :=
  [[120, 99, 97, 112, 59], [120, 99, 105, 114, 99, 59], [120, 99, 117, 112, 59], [120, 100, 116, 114, 105, 59], [120, 102, 114, 59], [120, 104, 65, 114, 114, 59], [120, 104, 97, 114, 114, 59], [120, 105, 59], [120, 108, 65, 114, 114, 59], [120, 108, 97, 114, 114, 59], [120, 109, 97, 112, 59], [120, 110, 105, 115, 59], [120, 111, 100, 111, 116, 59], [120, 111, 112, 102, 59], [120, 111, 112, 108, 117, 115, 59], [120, 111, 116, 105, 109, 101, 59], [120, 114, 65, 114, 114, 59], [120, 114, 97, 114, 114, 59], [120, 115, 99, 114, 59], [120, 115, 113, 99, 117, 112, 59], [120, 117, 112, 108, 117, 115, 59], [120, 117, 116, 114, 105, 59], [120, 118, 101, 101, 59], [120, 119, 101, 100, 103, 101, 59]]

/-- Entity names with first byte 121, in table order. -/
def entBucket121 : List (List Nat) :=
  [[121, 97, 99, 117, 116, 101, 59], [121, 97, 99, 117, 116, 101], [121, 97, 99, 121, 59], [121, 99, 105, 114, 99, 59], [121, 99, 121, 59], [121, 101, 110, 59], [121, 101, 110], [121, 102, 114, 59], [121, 105, 99, 121, 59], [121, 111, 112, 102, 59], [121, 115, 99, 114, 59], [121, 117, 99, 121, 59], [121, 117, 109, 108, 59], [121, 117, 109, 108]]

/-- Entity names with first byte 122, in table order. -/
def entBucket122 : List (List Nat) :=
  [[122, 97, 99, 117, 116, 101, 59], [122, 99, 97, 114, 111, 110, 59], [122, 99, 121, 59], [122, 100, 111, 116, 59], [122, 101, 101, 116, 114, 102, 59], [122, 101, 116, 97, 59], [122, 102, 114, 59], [122, 104, 99, 121, 59], [122, 105, 103, 114, 97, 114, 114, 59], [122, 111, 112, 102, 59], [122, 115, 99, 114, 59], [122, 119, 106, 59], [122, 119, 110, 106, 59]]

/-- Coverage certificate for one chunk: every name starts with a letter. -/
def chunkCoverageOk (l : List NamedCharRef) : Bool :=
  l.all (fun e => entFirstBytes.contains (e.name.headD 0))

/-! ## Theorems -/

/-- C1 (amended): `gumbo_arena_malloc` rounds the request up to pointer
alignment (8); when the rounded size is strictly smaller than the current
chunk's remaining space the current cursor is returned and advanced (and
the returned block of `size` bytes fits inside the chunk); otherwise —
including exact fits and requests larger than the chunk size — a new
fixed-size chunk is allocated, becomes the head of the list and the new
current chunk, and the block is carved from its start (so a block larger
than ARENA_CHUNK_SIZE extends past the end of the chunk it was carved
from; there is no dedicated oversize-chunk path). -/
theorem gumbo_arena_malloc_behavior (arena : GumboArena) (size : Nat) :
    (aligned_size size % ARENA_ALIGNMENT = 0 ∧ size ≤ aligned_size size ∧
      aligned_size size < size + ARENA_ALIGNMENT) ∧
    (if (arena.allocation_ptr : Int) <
        (ARENA_CHUNK_SIZE : Int) - (aligned_size size : Int) then
      gumbo_arena_malloc arena size =
        ({ arena with allocation_ptr := arena.allocation_ptr + aligned_size size },
          arena.chunks, arena.allocation_ptr) ∧
      arena.allocation_ptr + size ≤ ARENA_CHUNK_SIZE
    else
      gumbo_arena_malloc arena size =
        ({ chunks := arena.chunks + 1, allocation_ptr := aligned_size size },
          arena.chunks + 1, 0)) := by
  constructor
  · simp only [aligned_size, ARENA_ALIGNMENT]
    omega
  · split_ifs with h
    · constructor
      · rw [gumbo_arena_malloc]
        simp only [if_neg (not_le.mpr h)]
      · have hsz : size ≤ aligned_size size := by
          simp only [aligned_size, ARENA_ALIGNMENT]; omega
        have h' : arena.allocation_ptr + aligned_size size < ARENA_CHUNK_SIZE := by
          have := h
          zify
          omega
        omega
    · rw [gumbo_arena_malloc]
      simp only [if_pos (not_lt.mp h)]

/-- C1 counterexample: on a fresh arena, a request of 400001 bytes
(larger than ARENA_CHUNK_SIZE = 400000) allocates a plain new chunk that
becomes the current head — the previously active chunk is abandoned, not
kept active as the claim says — and the returned block, at offset 0 of
the new chunk, extends 1 byte past the end of that chunk. -/
theorem arena_oversize_counterexample :
    gumbo_arena_malloc arena_init 400001 =
      ({ chunks := 2, allocation_ptr := 400008 }, 2, 0) ∧
    ARENA_CHUNK_SIZE < 0 + 400001 := by
  constructor
  · rfl
  · decide

/-- C3: position tracking of the cursor.  A tab advances the column to
the next tab stop — the smallest multiple of the options' `tab_stop`
strictly greater than the current column — with the default `tab_stop`
being 8; a newline resets the column to 1 and increments the line; any
other non-EOF character increments the column by exactly one. -/
theorem update_position_spec (iter : Utf8Iterator) (hts : 0 < iter.tab_stop) :
    (iter.current = 9 →
      (update_position iter).column % iter.tab_stop = 0 ∧
      iter.column < (update_position iter).column ∧
      (update_position iter).column ≤ iter.column + iter.tab_stop) ∧
    (iter.current = 10 →
      (update_position iter).column = 1 ∧
      (update_position iter).line = iter.line + 1) ∧
    (iter.current ≠ 9 → iter.current ≠ 10 → iter.current ≠ -1 →
      (update_position iter).column = iter.column + 1 ∧
      (update_position iter).line = iter.line) ∧
    (update_position iter).offset = iter.offset + iter.width ∧
    kGumboDefaultOptions.tab_stop = 8 := by
  refine ⟨?_, ?_, ?_, ?_, rfl⟩
  · intro h9
    have h10 : iter.current ≠ 10 := by rw [h9]; decide
    simp only [update_position, if_neg h10, if_pos h9]
    have hdm := Nat.div_add_mod iter.column iter.tab_stop
    have hml := Nat.mod_lt iter.column hts
    refine ⟨Nat.mul_mod_left _ _, ?_, ?_⟩
    · have : (iter.column / iter.tab_stop + 1) * iter.tab_stop =
          iter.tab_stop * (iter.column / iter.tab_stop) + iter.tab_stop := by ring
      omega
    · have : (iter.column / iter.tab_stop + 1) * iter.tab_stop =
          iter.tab_stop * (iter.column / iter.tab_stop) + iter.tab_stop := by ring
      omega
  · intro h10
    simp only [update_position, if_pos h10]
    constructor <;> trivial
  · intro h9 h10 heof
    simp only [update_position, if_neg h10, if_neg h9, if_pos heof]
    constructor <;> trivial
  · simp only [update_position]
    split_ifs <;> rfl

/-- C3 witness: the theorem applied to a concrete cursor state sitting on
a tab at column 4 with the default options (tab stop 8). -/
theorem update_position_spec_witness :
    let it : Utf8Iterator :=
      { input := [9], start := 0, current := 9, width := 1,
        line := 1, column := 4, offset := 0,
        mark_start := 0, mark_line := 1, mark_column := 1, mark_offset := 0,
        errors := [], tab_stop := 8, max_errors := -1 }
    (it.current = 9 →
      (update_position it).column % it.tab_stop = 0 ∧
      it.column < (update_position it).column ∧
      (update_position it).column ≤ it.column + it.tab_stop) ∧
    (it.current = 10 →
      (update_position it).column = 1 ∧
      (update_position it).line = it.line + 1) ∧
    (it.current ≠ 9 → it.current ≠ 10 → it.current ≠ -1 →
      (update_position it).column = it.column + 1 ∧
      (update_position it).line = it.line) ∧
    (update_position it).offset = it.offset + it.width ∧
    kGumboDefaultOptions.tab_stop = 8 :=
  update_position_spec _ (by decide)

/-- C7: a diagnostic is recorded exactly when `max_errors` is negative or
the current number of recorded diagnostics is below it; in particular with
the default options (`max_errors` = -1) every diagnostic is recorded, and
once a non-negative cap is reached `gumbo_add_error` appends nothing. -/
theorem gumbo_add_error_spec (max_errors : Int) (errors : List GumboError)
    (e : GumboError) :
    (gumbo_add_error_ok max_errors errors.length = true ↔
      max_errors < 0 ∨ (errors.length : Int) < max_errors) ∧
    gumbo_add_error max_errors errors e =
      (if max_errors < 0 ∨ (errors.length : Int) < max_errors
        then errors ++ [e] else errors) ∧
    gumbo_add_error kGumboDefaultOptions.max_errors errors e = errors ++ [e] := by
  have hiff : gumbo_add_error_ok max_errors errors.length = true ↔
      max_errors < 0 ∨ (errors.length : Int) < max_errors := by
    simp only [gumbo_add_error_ok, Bool.not_eq_true', Bool.and_eq_false_imp,
      decide_eq_true_eq, decide_eq_false_iff_not, not_le]
    constructor
    · intro h
      by_cases h0 : max_errors < 0
      · exact Or.inl h0
      · exact Or.inr (h (not_lt.mp h0))
    · intro h h0
      rcases h with h | h
      · omega
      · exact h
  refine ⟨hiff, ?_, ?_⟩
  · rw [gumbo_add_error]
    by_cases hc : max_errors < 0 ∨ (errors.length : Int) < max_errors
    · rw [if_pos (hiff.mpr hc), if_pos hc]
    · rw [if_neg hc, if_neg]
      intro hb
      exact hc (hiff.mp hb)
  · simp [gumbo_add_error, gumbo_add_error_ok, kGumboDefaultOptions]

/-- Dropping at an in-range index exposes the byte there. -/
theorem drop_getD_cons {l : List Nat} {s : Nat} (hs : s < l.length) :
    l.drop s = l.getD s 0 :: l.drop (s + 1) := by
  rw [List.drop_eq_getElem_cons hs]
  congr 1
  simp [List.getD_eq_getElem?_getD, List.getElem?_eq_getElem hs]

/-- The shifting fold of `add_error` equals the base-256 value of the
byte window it reads, provided the window holds genuine bytes (< 256). -/
theorem rawBytesPayload_eq_foldl (l : List Nat) (s : Nat) :
    ∀ w, s + w ≤ l.length → (∀ b ∈ l, b < 256) →
    (List.range w).foldl (fun acc i => (acc <<< 8) ||| l.getD (s + i) 0) 0 =
      ((l.drop s).take w).foldl (fun acc b => acc * 256 + b) 0 := by
  intro w
  induction w with
  | zero => intro _ _; rfl
  | succ n ih =>
    intro hw hb
    have hn : s + n ≤ l.length := by omega
    have hlt : s + n < l.length := by omega
    have hbyte : l.getD (s + n) 0 < 256 := by
      have hmem : l.getD (s + n) 0 ∈ l := by
        rw [List.getD_eq_getElem?_getD, List.getElem?_eq_getElem hlt]
        exact List.getElem_mem hlt
      exact hb _ hmem
    have htake : (l.drop s).take (n + 1) =
        (l.drop s).take n ++ [l.getD (s + n) 0] := by
      have hlen : n < (l.drop s).length := by
        rw [List.length_drop]; omega
      have hidx : (l.drop s)[n]? = some (l.getD (s + n) 0) := by
        rw [List.getElem?_eq_getElem hlen, List.getD_eq_getElem?_getD,
          List.getElem?_eq_getElem hlt]
        simp [List.getElem_drop]
      rw [List.take_succ, hidx]
      simp
    rw [List.range_succ, List.foldl_append, htake, List.foldl_append, ih hn hb]
    simp only [List.foldl_cons, List.foldl_nil]
    rw [Nat.shiftLeft_eq]
    have := Nat.mul_add_lt_is_or (i := 8)
      (b := l.getD (s + n) 0) hbyte
      (((l.drop s).take n).foldl (fun acc b => acc * 256 + b) 0)
    calc ((l.drop s).take n).foldl (fun acc b => acc * 256 + b) 0 * 2 ^ 8 |||
          l.getD (s + n) 0
        = 2 ^ 8 * ((l.drop s).take n).foldl (fun acc b => acc * 256 + b) 0 |||
          l.getD (s + n) 0 := by rw [Nat.mul_comm]
      _ = 2 ^ 8 * ((l.drop s).take n).foldl (fun acc b => acc * 256 + b) 0 +
          l.getD (s + n) 0 := this.symm
      _ = ((l.drop s).take n).foldl (fun acc b => acc * 256 + b) 0 * 256 +
          l.getD (s + n) 0 := by ring

/-- C2 (amended): when the decoding loop of `read_char` hits UTF8_REJECT,
the cursor delivers U+FFFD, records one invalid-utf8 diagnostic (cap
permitting) whose codepoint payload is the raw value of the consumed
bytes, and consumes exactly the bytes the loop reports: one byte — the
offending byte itself — when rejection hits the first byte of the
sequence, and otherwise the accepted prefix bytes that precede the
offending byte (which itself is left unconsumed), so more than one byte
may be consumed, and the offending byte is consumed only in the
first-byte case. -/
theorem read_char_reject_spec (iter : Utf8Iterator) (w : Nat)
    (hs : iter.start < iter.input.length)
    (hb : ∀ b ∈ iter.input, b < 256)
    (hw : iter.start + w ≤ iter.input.length)
    (hr : readLoop (iter.input.drop iter.start) UTF8_ACCEPT 0 0 = .rejected w) :
    (read_char iter).current = (kUtf8ReplacementChar : Int) ∧
    (read_char iter).width = w ∧
    (read_char iter).start = iter.start ∧
    (read_char iter).errors = gumbo_add_error iter.max_errors iter.errors
      { type := .UTF8_INVALID, line := iter.line, column := iter.column,
        offset := iter.offset, original_text := iter.start,
        payload := .codepoint
          (((iter.input.drop iter.start).take w).foldl
            (fun acc b => acc * 256 + b) 0) } ∧
    (∀ b rest, (decode UTF8_ACCEPT 0 b).1 = UTF8_REJECT →
      readLoop (b :: rest) UTF8_ACCEPT 0 0 = .rejected 1) := by
  have hpay := rawBytesPayload_eq_foldl iter.input iter.start w hw hb
  have hge : ¬ iter.start ≥ iter.input.length := not_le.mpr hs
  simp only [read_char, hr]
  rw [if_neg hge]
  refine ⟨rfl, rfl, rfl, ?_, ?_⟩
  · simp only [utf8_add_error, rawBytesPayload]
    rw [hpay]
  · intro b rest hrej
    rw [readLoop]
    simp only [hrej]
    norm_num
    intro h
    exact absurd h (by decide)

/-- C2 witness: the reject theorem applied to the concrete input
E0 A0 41 (a two-byte well-formed prefix of a three-byte sequence followed
by a non-continuation byte), where the consumed width is 2. -/
theorem read_char_reject_spec_witness :
    let it : Utf8Iterator :=
      { input := [0xE0, 0xA0, 0x41], start := 0, current := 0, width := 0,
        line := 1, column := 1, offset := 0,
        mark_start := 0, mark_line := 1, mark_column := 1, mark_offset := 0,
        errors := [], tab_stop := 8, max_errors := -1 }
    (read_char it).current = (kUtf8ReplacementChar : Int) ∧
    (read_char it).width = 2 ∧
    (read_char it).start = it.start ∧
    (read_char it).errors = gumbo_add_error it.max_errors it.errors
      { type := .UTF8_INVALID, line := it.line, column := it.column,
        offset := it.offset, original_text := it.start,
        payload := .codepoint
          (((it.input.drop it.start).take 2).foldl
            (fun acc b => acc * 256 + b) 0) } ∧
    (∀ b rest, (decode UTF8_ACCEPT 0 b).1 = UTF8_REJECT →
      readLoop (b :: rest) UTF8_ACCEPT 0 0 = .rejected 1) :=
  read_char_reject_spec _ 2 (by decide) (by decide) (by decide) (by decide)

/-- C2 counterexample: on input E0 A0 41 the rejection happens on the
third byte, and the cursor advances by 2 bytes, not by exactly one as the
claim states; the diagnostic carries the raw hex payload 0xE0A0 of the
two consumed bytes. -/
theorem read_char_reject_counterexample :
    (utf8iterator_init kGumboDefaultOptions [0xE0, 0xA0, 0x41]).width = 2 ∧
    (utf8iterator_init kGumboDefaultOptions [0xE0, 0xA0, 0x41]).width ≠ 1 ∧
    (utf8iterator_init kGumboDefaultOptions [0xE0, 0xA0, 0x41]).current = 0xFFFD ∧
    (utf8iterator_init kGumboDefaultOptions [0xE0, 0xA0, 0x41]).errors =
      [{ type := .UTF8_INVALID, line := 1, column := 1, offset := 0,
         original_text := 0, payload := .codepoint 0xE0A0 }] := by
  refine ⟨rfl, by decide, rfl, rfl⟩

/-- C4: reading a carriage return delivers the codepoint LF (10).  When
the CR is immediately followed by an LF byte the cursor pre-skips that
byte (start and offset advance by one inside `read_char`), so only one
LF is delivered for the pair and the position update adds the remaining
width, for a total offset advance of 2; a lone CR advances the offset by
exactly 1.  The offset is only ever increased, never rewound. -/
theorem read_char_cr_spec (iter : Utf8Iterator)
    (hs : iter.start < iter.input.length)
    (hcr : iter.input.getD iter.start 0 = 13) :
    (read_char iter).current = 10 ∧
    (read_char iter).width = 1 ∧
    (read_char iter).errors = iter.errors ∧
    (if iter.start + 1 < iter.input.length ∧
        iter.input.getD (iter.start + 1) 0 = 10 then
      (read_char iter).start = iter.start + 1 ∧
      (read_char iter).offset = iter.offset + 1 ∧
      (update_position (read_char iter)).offset = iter.offset + 2
    else
      (read_char iter).start = iter.start ∧
      (read_char iter).offset = iter.offset ∧
      (update_position (read_char iter)).offset = iter.offset + 1) := by
  have hge : ¬ iter.start ≥ iter.input.length := not_le.mpr hs
  have hdrop : iter.input.drop iter.start =
      13 :: iter.input.drop (iter.start + 1) := by
    rw [drop_getD_cons hs, hcr]
  have hloop : readLoop (iter.input.drop iter.start) UTF8_ACCEPT 0 0 =
      .accepted 13 1 := by
    rw [hdrop, readLoop, show decode UTF8_ACCEPT 0 13 = (0, 13) from rfl]
    norm_num [UTF8_ACCEPT]
  have hnotinv : utf8_is_invalid_code_point 10 = false := by decide
  simp only [read_char, hloop]
  rw [if_neg hge]
  by_cases hlf : iter.start + 1 < iter.input.length ∧
      iter.input.getD (iter.start + 1) 0 = 10
  · obtain ⟨hlt2, hg2⟩ := hlf
    have helem : iter.input[iter.start + 1] = 10 := by
      rw [List.getD_eq_getElem?_getD, List.getElem?_eq_getElem hlt2] at hg2
      simpa using hg2
    simp [hlt2, hg2, helem, hnotinv, update_position]
  · rw [if_neg hlf]
    rcases Decidable.not_and_iff_or_not.mp hlf with hnlt | hng
    · simp [hnlt, hnotinv, update_position]
    · by_cases hlt2 : iter.start + 1 < iter.input.length
      · have helem : ¬ iter.input[iter.start + 1] = 10 := by
          rw [List.getD_eq_getElem?_getD, List.getElem?_eq_getElem hlt2] at hng
          simpa using hng
        simp [hlt2, helem, hnotinv, update_position]
      · simp [hlt2, hnotinv, update_position]

/-- C4 witness: the CR theorem applied to the concrete inputs CR LF A
(one LF delivered, offset advance 2) and a lone CR (offset advance 1). -/
theorem read_char_cr_spec_witness :
    let it : Utf8Iterator :=
      { input := [13, 10, 65], start := 0, current := 0, width := 0,
        line := 1, column := 1, offset := 0,
        mark_start := 0, mark_line := 1, mark_column := 1, mark_offset := 0,
        errors := [], tab_stop := 8, max_errors := -1 }
    (read_char it).current = 10 ∧
    (read_char it).width = 1 ∧
    (read_char it).errors = it.errors ∧
    (if it.start + 1 < it.input.length ∧
        it.input.getD (it.start + 1) 0 = 10 then
      (read_char it).start = it.start + 1 ∧
      (read_char it).offset = it.offset + 1 ∧
      (update_position (read_char it)).offset = it.offset + 2
    else
      (read_char it).start = it.start ∧
      (read_char it).offset = it.offset ∧
      (update_position (read_char it)).offset = it.offset + 1) :=
  read_char_cr_spec _ (by decide) (by decide)

/-- C5 (amended): for every codepoint in the decodable range, the HTML5
parse-error predicate of the cursor holds exactly for the C0 controls
other than NUL, TAB, LF, FF and CR (so U+000B is included but U+0000 is
NOT — NUL is passed through unchanged, unlike what the claim states),
for U+007F through U+009F, for U+FDD0 through U+FDEF, and for every
codepoint whose low 16 bits are 0xFFFE or 0xFFFF; no other codepoint
satisfies it, and `read_char` replaces a successfully decoded codepoint
by U+FFFD exactly when this predicate holds. -/
theorem utf8_is_invalid_code_point_spec (c : Nat) (hc : c ≤ 0x10FFFF) :
    utf8_is_invalid_code_point c = true ↔
      ((c < 0x20 ∧ c ≠ 0 ∧ c ≠ 9 ∧ c ≠ 10 ∧ c ≠ 12 ∧ c ≠ 13) ∨
       (0x7F ≤ c ∧ c ≤ 0x9F) ∨ (0xFDD0 ≤ c ∧ c ≤ 0xFDEF) ∨
       c % 0x10000 = 0xFFFE ∨ c % 0x10000 = 0xFFFF) := by
  have hmask : c &&& 0xFFFF = c % 65536 := by
    have := Nat.and_pow_two_sub_one_eq_mod c 16
    norm_num at this
    exact this
  simp only [utf8_is_invalid_code_point, decide_eq_true_eq, hmask]
  omega

/-- C5 witness: the predicate theorem applied at U+000B (on the list). -/
theorem utf8_is_invalid_code_point_spec_witness :
    utf8_is_invalid_code_point 0xB = true ↔
      ((0xB < 0x20 ∧ 0xB ≠ 0 ∧ 0xB ≠ 9 ∧ 0xB ≠ 10 ∧ 0xB ≠ 12 ∧ 0xB ≠ 13) ∨
       (0x7F ≤ 0xB ∧ 0xB ≤ 0x9F) ∨ (0xFDD0 ≤ 0xB ∧ 0xB ≤ 0xFDEF) ∨
       0xB % 0x10000 = 0xFFFE ∨ 0xB % 0x10000 = 0xFFFF) :=
  utf8_is_invalid_code_point_spec 0xB (by decide)

/-- C5 counterexample: the claim includes U+0000 in the replaced set, but
the code does not: `utf8_is_invalid_code_point 0` is false, and reading a
NUL byte delivers codepoint 0 unchanged with no diagnostic recorded. -/
theorem nul_not_replaced_counterexample :
    utf8_is_invalid_code_point 0 = false ∧
    (utf8iterator_init kGumboDefaultOptions [0]).current = 0 ∧
    (utf8iterator_init kGumboDefaultOptions [0]).errors = [] := by
  refine ⟨by decide, rfl, rfl⟩

/-- C9 (code evaluated at failing and passing inputs): the tag-name round
trip fails in this snapshot.  `gumbo_normalized_tagname 62` is "rp", but
`gumbo_tag_enum` on "rp" (in either case) returns GUMBO_TAG_UNKNOWN
because the generated perfect-hash tables place "rp" at position 63; even
worse, "menu" (tag 122) hashes to position 123, whose table entry is
"menuitem", and `case_memcmp` compares only the query's 4 bytes, so
`gumbo_tag_enum` returns the menuitem tag for "menu".  The round trip
does still hold for early enum values such as "html" (tag 0). -/
theorem tag_enum_roundtrip_failing :
    gumbo_normalized_tagname 62 = [114, 112] ∧
    gumbo_tag_enum [114, 112] = GUMBO_TAG_UNKNOWN ∧
    gumbo_tag_enum [82, 80] = GUMBO_TAG_UNKNOWN ∧
    GUMBO_TAG_UNKNOWN ≠ 62 ∧
    gumbo_normalized_tagname 122 = [109, 101, 110, 117] ∧
    gumbo_tag_enum [109, 101, 110, 117] = 123 ∧
    gumbo_normalized_tagname 123 = [109, 101, 110, 117, 105, 116, 101, 109] ∧
    gumbo_normalized_tagname 0 = [104, 116, 109, 108] ∧
    gumbo_tag_enum [104, 116, 109, 108] = 0 := by
  refine ⟨rfl, by decide, by decide, by decide, rfl, by decide, rfl, rfl, by decide⟩

/-- Longest-match evaluation for the byte window "not " (as found after
the ampersand of "&not "): the longest matching entity name is the
legacy semicolon-less "not", mapping to U+00AC.  Evaluated chunk by
chunk via `List.foldl_append`. -/
theorem matchNamedRef_not :
    matchNamedRef [110, 111, 116, 32] = some (mkRef1 [110, 111, 116] 0xac) := by
  rw [matchNamedRef, kNamedEntities]
  rw [List.foldl_append, List.foldl_append, List.foldl_append, List.foldl_append,
    List.foldl_append, List.foldl_append, List.foldl_append, List.foldl_append,
    List.foldl_append]
  rw [show List.foldl (refStep [110, 111, 116, 32]) Option.none kNamedEntities0 =
    Option.none from rfl]
  rw [show List.foldl (refStep [110, 111, 116, 32]) Option.none kNamedEntities1 =
    Option.none from rfl]
  rw [show List.foldl (refStep [110, 111, 116, 32]) Option.none kNamedEntities2 =
    Option.none from rfl]
  rw [show List.foldl (refStep [110, 111, 116, 32]) Option.none kNamedEntities3 =
    Option.none from rfl]
  rw [show List.foldl (refStep [110, 111, 116, 32]) Option.none kNamedEntities4 =
    Option.none from rfl]
  rw [show List.foldl (refStep [110, 111, 116, 32]) Option.none kNamedEntities5 =
    Option.none from rfl]
  rw [show List.foldl (refStep [110, 111, 116, 32]) Option.none kNamedEntities6 =
    some (mkRef1 [110, 111, 116] 0xac) from rfl]
  rw [show List.foldl (refStep [110, 111, 116, 32])
    (some (mkRef1 [110, 111, 116] 0xac)) kNamedEntities7 =
    some (mkRef1 [110, 111, 116] 0xac) from rfl]
  rw [show List.foldl (refStep [110, 111, 116, 32])
    (some (mkRef1 [110, 111, 116] 0xac)) kNamedEntities8 =
    some (mkRef1 [110, 111, 116] 0xac) from rfl]
  rw [show List.foldl (refStep [110, 111, 116, 32])
    (some (mkRef1 [110, 111, 116] 0xac)) kNamedEntities9 =
    some (mkRef1 [110, 111, 116] 0xac) from rfl]

/-- C6 (code evaluated at the failing input): in attribute context, on
input "&not " — where the character following the matched name "not" is
a space, so the claim (and the HTML5 spec) requires the reference to be
consumed and a named-char-ref-without-semicolon diagnostic to be
emitted — the code instead leaves the reference unconsumed: the cursor
is reset to the ampersand, no codepoints are produced and no diagnostic
is recorded.  The cause is `is_legal_attribute_char_next`, which reads
the character the iterator currently sits on — the FIRST character of
the entity name, always alphanumeric — instead of the character after
the match.  In text context the same input is consumed correctly,
producing U+00AC and the without-semicolon diagnostic. -/
theorem consume_char_ref_not_space_eval :
    consume_char_ref
        (utf8iterator_init kGumboDefaultOptions [38, 110, 111, 116, 32]) 34 true =
      ({ input := [38, 110, 111, 116, 32], start := 0, current := 38, width := 1,
         line := 1, column := 1, offset := 0,
         mark_start := 0, mark_line := 1, mark_column := 1, mark_offset := 0,
         errors := [], tab_stop := 8, max_errors := -1 },
        ⟨kGumboNoChar, kGumboNoChar⟩, true) ∧
    consume_char_ref
        (utf8iterator_init kGumboDefaultOptions [38, 110, 111, 116, 32]) 34 false =
      ({ input := [38, 110, 111, 116, 32], start := 4, current := 32, width := 1,
         line := 1, column := 5, offset := 4,
         mark_start := 0, mark_line := 1, mark_column := 1, mark_offset := 0,
         errors := [{ type := .NAMED_CHAR_REF_WITHOUT_SEMICOLON, line := 1,
                      column := 1, offset := 0, original_text := 0,
                      payload := .text [110, 111, 116] }],
         tab_stop := 8, max_errors := -1 },
        ⟨0xac, kGumboNoChar⟩, false) := by
  have h2 : utf8iterator_next (utf8iterator_mark
      (utf8iterator_init kGumboDefaultOptions [38, 110, 111, 116, 32])) =
      { input := [38, 110, 111, 116, 32], start := 1, current := 110, width := 1,
        line := 1, column := 2, offset := 1,
        mark_start := 0, mark_line := 1, mark_column := 1, mark_offset := 0,
        errors := [], tab_stop := 8, max_errors := -1 } := rfl
  constructor
  · simp only [consume_char_ref, h2]
    norm_num
    simp only [consume_named_ref]
    norm_num [matchNamedRef_not]
    rfl
  · simp only [consume_char_ref, h2]
    norm_num
    simp only [consume_named_ref]
    norm_num [matchNamedRef_not]
    rfl

/-- The longest-match fold only ever returns a matching table entry (or
its initial accumulator). -/
theorem foldBest_mem (q : List Nat) :
    ∀ (l : List NamedCharRef) (acc : Option NamedCharRef) (r : NamedCharRef),
      l.foldl (refStep q) acc = some r →
      (r ∈ l ∧ r.name.isPrefixOf q = true) ∨ acc = some r := by
  intro l
  induction l with
  | nil => intro acc r h; exact Or.inr h
  | cons e t ih =>
    intro acc r h
    rw [List.foldl_cons] at h
    rcases ih _ _ h with ⟨hmem, hpfx⟩ | hstep
    · exact Or.inl ⟨List.mem_cons_of_mem _ hmem, hpfx⟩
    · rw [refStep.eq_def] at hstep
      by_cases hp : e.name.isPrefixOf q = true
      · rw [if_pos hp] at hstep
        match acc, hstep with
        | Option.none, hstep =>
          cases hstep
          exact Or.inl ⟨List.mem_cons_self _ _, hp⟩
        | some b, hstep =>
          have hstep2 : (if b.name.length < e.name.length
              then some e else some b) = some r := hstep
          by_cases hlt : b.name.length < e.name.length
          · rw [if_pos hlt] at hstep2
            cases hstep2
            exact Or.inl ⟨List.mem_cons_self _ _, hp⟩
          · rw [if_neg hlt] at hstep2
            exact Or.inr hstep2
      · rw [if_neg (by simpa using hp)] at hstep
        exact Or.inr hstep

/-- The longest-match fold never shortens the best match it carries. -/
theorem foldBest_acc_le (q : List Nat) :
    ∀ (l : List NamedCharRef) (b : NamedCharRef),
      ∃ r, l.foldl (refStep q) (some b) = some r ∧
        b.name.length ≤ r.name.length := by
  intro l
  induction l with
  | nil => intro b; exact ⟨b, rfl, Nat.le_refl _⟩
  | cons e t ih =>
    intro b
    rw [List.foldl_cons]
    by_cases hp : e.name.isPrefixOf q = true
    · by_cases hlt : b.name.length < e.name.length
      · have hred : refStep q (some b) e = some e := by
          rw [refStep.eq_def, if_pos hp]
          exact if_pos hlt
        rw [hred]
        obtain ⟨r, hr, hle⟩ := ih e
        exact ⟨r, hr, Nat.le_trans (Nat.le_of_lt hlt) hle⟩
      · have hred : refStep q (some b) e = some b := by
          rw [refStep.eq_def, if_pos hp]
          exact if_neg hlt
        rw [hred]
        exact ih b
    · have hred : refStep q (some b) e = some b := by
        rw [refStep.eq_def]
        exact if_neg (by simpa using hp)
      rw [hred]
      exact ih b

/-- Any matching member of the list forces the fold's result to be at
least as long a match. -/
theorem foldBest_ge (q : List Nat) :
    ∀ (l : List NamedCharRef) (acc : Option NamedCharRef) (e : NamedCharRef),
      e ∈ l → e.name.isPrefixOf q = true →
      ∃ r, l.foldl (refStep q) acc = some r ∧
        e.name.length ≤ r.name.length := by
  intro l
  induction l with
  | nil => intro acc e he; cases he
  | cons a t ih =>
    intro acc e he hp
    rw [List.foldl_cons]
    rcases List.mem_cons.mp he with rfl | hmem
    · match acc with
      | Option.none =>
        have hred : refStep q Option.none e = some e := by
          rw [refStep.eq_def]
          exact if_pos hp
        rw [hred]
        exact foldBest_acc_le q t e
      | some b =>
        by_cases hlt : b.name.length < e.name.length
        · have hred : refStep q (some b) e = some e := by
            rw [refStep.eq_def, if_pos hp]
            exact if_pos hlt
          rw [hred]
          exact foldBest_acc_le q t e
        · have hred : refStep q (some b) e = some b := by
            rw [refStep.eq_def, if_pos hp]
            exact if_neg hlt
          rw [hred]
          obtain ⟨r, hr, hle⟩ := foldBest_acc_le q t b
          exact ⟨r, hr, Nat.le_trans (Nat.le_of_not_lt hlt) hle⟩
    · exact ih _ e hmem hp

/-- Soundness of the pairwise-distinct check. -/
theorem nodupBL_sound : ∀ l : List (List Nat), nodupBL l = true → l.Nodup := by
  intro l
  induction l with
  | nil => intro _; exact List.nodup_nil
  | cons x xs ih =>
    intro h
    rw [nodupBL, Bool.and_eq_true, Bool.not_eq_true'] at h
    refine List.nodup_cons.mpr ⟨?_, ih h.2⟩
    intro hmem
    have : xs.contains x = true := by
      rw [List.contains_eq_any_beq, List.any_eq_true]
      exact ⟨x, hmem, by simp⟩
    rw [this] at h
    exact absurd h.1 (by decide)

/-- Distinctness from per-key-bucket distinctness: if every element's key
is covered by `ks` and each key bucket is duplicate-free, the list is
duplicate-free. -/
theorem nodup_of_bucket_nodup (key : List Nat → Nat) :
    ∀ (l : List (List Nat)) (ks : List Nat),
      (∀ n ∈ l, key n ∈ ks) →
      (∀ b ∈ ks, (l.filter (fun n => key n == b)).Nodup) →
      l.Nodup := by
  intro l
  induction l with
  | nil => intro ks _ _; exact List.nodup_nil
  | cons a t ih =>
    intro ks hcov hbuck
    refine List.nodup_cons.mpr ⟨?_, ?_⟩
    · intro hmem
      have hka : key a ∈ ks := hcov a (List.mem_cons_self _ _)
      have hfla : (List.filter (fun n => key n == key a) (a :: t)).Nodup :=
        hbuck _ hka
      rw [List.filter_cons, if_pos (by simp)] at hfla
      have : a ∈ List.filter (fun n => key n == key a) t :=
        List.mem_filter.mpr ⟨hmem, by simp⟩
      exact (List.nodup_cons.mp hfla).1 this
    · refine ih ks (fun n hn => hcov n (List.mem_cons_of_mem _ hn)) ?_
      intro b hb
      have := hbuck b hb
      rw [List.filter_cons] at this
      by_cases hab : (key a == b) = true
      · rw [if_pos hab] at this
        exact (List.nodup_cons.mp this).2
      · rw [if_neg hab] at this
        exact this

/-- Soundness of the pairwise order check. -/
theorem chainOrdOk_sound : ∀ l : List NamedCharRef,
    chainOrdOk l = true → List.Chain' entOrdRel l := by
  intro l
  induction l with
  | nil => intro _; exact List.chain'_nil
  | cons a t ih =>
    cases t with
    | nil => intro _; exact List.chain'_singleton _
    | cons b t2 =>
      intro h
      have h2 : ((lexLt a.name b.name || properPrefixOf b.name a.name) &&
          chainOrdOk (b :: t2)) = true := h
      rw [Bool.and_eq_true, Bool.or_eq_true] at h2
      exact List.chain'_cons.mpr ⟨h2.1, ih h2.2⟩
set_option maxHeartbeats 3000000 in
/-- Chain certificate for the whole entity table, glued chunk by chunk
via `List.chain'_append`: each chunk is verified by evaluating
`chainOrdOk`, and each chunk boundary is verified directly. -/
theorem kNamedEntities_chain : List.Chain' entOrdRel kNamedEntities := by
  have hc0 : List.Chain' entOrdRel kNamedEntities0 := chainOrdOk_sound _ (by rfl)
  have hc1 : List.Chain' entOrdRel kNamedEntities1 := chainOrdOk_sound _ (by rfl)
  have hc2 : List.Chain' entOrdRel kNamedEntities2 := chainOrdOk_sound _ (by rfl)
  have hc3 : List.Chain' entOrdRel kNamedEntities3 := chainOrdOk_sound _ (by rfl)
  have hc4 : List.Chain' entOrdRel kNamedEntities4 := chainOrdOk_sound _ (by rfl)
  have hc5 : List.Chain' entOrdRel kNamedEntities5 := chainOrdOk_sound _ (by rfl)
  have hc6 : List.Chain' entOrdRel kNamedEntities6 := chainOrdOk_sound _ (by rfl)
  have hc7 : List.Chain' entOrdRel kNamedEntities7 := chainOrdOk_sound _ (by rfl)
  have hc8 : List.Chain' entOrdRel kNamedEntities8 := chainOrdOk_sound _ (by rfl)
  have hc9 : List.Chain' entOrdRel kNamedEntities9 := chainOrdOk_sound _ (by rfl)
  have hs9 : List.Chain' entOrdRel (kNamedEntities9) := hc9
  have hs8 : List.Chain' entOrdRel (kNamedEntities8 ++ kNamedEntities9) := by
    refine List.chain'_append.mpr ⟨hc8, hs9, ?_⟩
    intro x hx y hy
    rw [show (kNamedEntities8).getLast? = some (mkRef1 [118, 111, 112, 102, 59] 120167) from rfl, Option.mem_def] at hx
    rw [show (kNamedEntities9).head? = some (mkRef1 [118, 112, 114, 111, 112, 59] 8733) from rfl, Option.mem_def] at hy
    obtain rfl := Option.some.inj hx
    obtain rfl := Option.some.inj hy
    exact Or.inl (by decide)
  have hs7 : List.Chain' entOrdRel (kNamedEntities7 ++ (kNamedEntities8 ++ kNamedEntities9)) := by
    refine List.chain'_append.mpr ⟨hc7, hs8, ?_⟩
    intro x hx y hy
    rw [show (kNamedEntities7).getLast? = some (mkRef [115, 109, 116, 101, 115, 59] 10924 65024) from rfl, Option.mem_def] at hx
    rw [show (kNamedEntities8 ++ kNamedEntities9).head? = some (mkRef1 [115, 111, 102, 116, 99, 121, 59] 1100) from rfl, Option.mem_def] at hy
    obtain rfl := Option.some.inj hx
    obtain rfl := Option.some.inj hy
    exact Or.inl (by decide)
  have hs6 : List.Chain' entOrdRel (kNamedEntities6 ++ (kNamedEntities7 ++ (kNamedEntities8 ++ kNamedEntities9))) := by
    refine List.chain'_append.mpr ⟨hc6, hs7, ?_⟩
    intro x hx y hy
    rw [show (kNamedEntities6).getLast? = some (mkRef1 [112, 97, 114, 115, 108, 59] 11005) from rfl, Option.mem_def] at hx
    rw [show (kNamedEntities7 ++ (kNamedEntities8 ++ kNamedEntities9)).head? = some (mkRef1 [112, 97, 114, 116, 59] 8706) from rfl, Option.mem_def] at hy
    obtain rfl := Option.some.inj hx
    obtain rfl := Option.some.inj hy
    exact Or.inl (by decide)
  have hs5 : List.Chain' entOrdRel (kNamedEntities5 ++ (kNamedEntities6 ++ (kNamedEntities7 ++ (kNamedEntities8 ++ kNamedEntities9)))) := by
    refine List.chain'_append.mpr ⟨hc5, hs6, ?_⟩
    intro x hx y hy
    rw [show (kNamedEntities5).getLast? = some (mkRef1 [109, 112, 59] 8723) from rfl, Option.mem_def] at hx
    rw [show (kNamedEntities6 ++ (kNamedEntities7 ++ (kNamedEntities8 ++ kNamedEntities9))).head? = some (mkRef1 [109, 115, 99, 114, 59] 120002) from rfl, Option.mem_def] at hy
    obtain rfl := Option.some.inj hx
    obtain rfl := Option.some.inj hy
    exact Or.inl (by decide)
  have hs4 : List.Chain' entOrdRel (kNamedEntities4 ++ (kNamedEntities5 ++ (kNamedEntities6 ++ (kNamedEntities7 ++ (kNamedEntities8 ++ kNamedEntities9))))) := by
    refine List.chain'_append.mpr ⟨hc4, hs5, ?_⟩
    intro x hx y hy
    rw [show (kNamedEntities4).getLast? = some (mkRef1 [105, 109, 97, 103, 112, 97, 114, 116, 59] 8465) from rfl, Option.mem_def] at hx
    rw [show (kNamedEntities5 ++ (kNamedEntities6 ++ (kNamedEntities7 ++ (kNamedEntities8 ++ kNamedEntities9)))).head? = some (mkRef1 [105, 109, 97, 116, 104, 59] 305) from rfl, Option.mem_def] at hy
    obtain rfl := Option.some.inj hx
    obtain rfl := Option.some.inj hy
    exact Or.inl (by decide)
  have hs3 : List.Chain' entOrdRel (kNamedEntities3 ++ (kNamedEntities4 ++ (kNamedEntities5 ++ (kNamedEntities6 ++ (kNamedEntities7 ++ (kNamedEntities8 ++ kNamedEntities9)))))) := by
    refine List.chain'_append.mpr ⟨hc3, hs4, ?_⟩
    intro x hx y hy
    rw [show (kNamedEntities3).getLast? = some (mkRef1 [100, 111, 116, 101, 113, 100, 111, 116, 59] 8785) from rfl, Option.mem_def] at hx
    rw [show (kNamedEntities4 ++ (kNamedEntities5 ++ (kNamedEntities6 ++ (kNamedEntities7 ++ (kNamedEntities8 ++ kNamedEntities9))))).head? = some (mkRef1 [100, 111, 116, 109, 105, 110, 117, 115, 59] 8760) from rfl, Option.mem_def] at hy
    obtain rfl := Option.some.inj hx
    obtain rfl := Option.some.inj hy
    exact Or.inl (by decide)
  have hs2 : List.Chain' entOrdRel (kNamedEntities2 ++ (kNamedEntities3 ++ (kNamedEntities4 ++ (kNamedEntities5 ++ (kNamedEntities6 ++ (kNamedEntities7 ++ (kNamedEntities8 ++ kNamedEntities9))))))) := by
    refine List.chain'_append.mpr ⟨hc2, hs3, ?_⟩
    intro x hx y hy
    rw [show (kNamedEntities2).getLast? = some (mkRef1 [98, 101, 112, 115, 105, 59] 1014) from rfl, Option.mem_def] at hx
    rw [show (kNamedEntities3 ++ (kNamedEntities4 ++ (kNamedEntities5 ++ (kNamedEntities6 ++ (kNamedEntities7 ++ (kNamedEntities8 ++ kNamedEntities9)))))).head? = some (mkRef1 [98, 101, 114, 110, 111, 117, 59] 8492) from rfl, Option.mem_def] at hy
    obtain rfl := Option.some.inj hx
    obtain rfl := Option.some.inj hy
    exact Or.inl (by decide)
  have hs1 : List.Chain' entOrdRel (kNamedEntities1 ++ (kNamedEntities2 ++ (kNamedEntities3 ++ (kNamedEntities4 ++ (kNamedEntities5 ++ (kNamedEntities6 ++ (kNamedEntities7 ++ (kNamedEntities8 ++ kNamedEntities9)))))))) := by
    refine List.chain'_append.mpr ⟨hc1, hs2, ?_⟩
    intro x hx y hy
    rw [show (kNamedEntities1).getLast? = some (mkRef1 [82, 114, 105, 103, 104, 116, 97, 114, 114, 111, 119, 59] 8667) from rfl, Option.mem_def] at hx
    rw [show (kNamedEntities2 ++ (kNamedEntities3 ++ (kNamedEntities4 ++ (kNamedEntities5 ++ (kNamedEntities6 ++ (kNamedEntities7 ++ (kNamedEntities8 ++ kNamedEntities9))))))).head? = some (mkRef1 [82, 115, 99, 114, 59] 8475) from rfl, Option.mem_def] at hy
    obtain rfl := Option.some.inj hx
    obtain rfl := Option.some.inj hy
    exact Or.inl (by decide)
  have hs0 : List.Chain' entOrdRel (kNamedEntities0 ++ (kNamedEntities1 ++ (kNamedEntities2 ++ (kNamedEntities3 ++ (kNamedEntities4 ++ (kNamedEntities5 ++ (kNamedEntities6 ++ (kNamedEntities7 ++ (kNamedEntities8 ++ kNamedEntities9))))))))) := by
    refine List.chain'_append.mpr ⟨hc0, hs1, ?_⟩
    intro x hx y hy
    rw [show (kNamedEntities0).getLast? = some (mkRef1 [75, 99, 101, 100, 105, 108, 59] 310) from rfl, Option.mem_def] at hx
    rw [show (kNamedEntities1 ++ (kNamedEntities2 ++ (kNamedEntities3 ++ (kNamedEntities4 ++ (kNamedEntities5 ++ (kNamedEntities6 ++ (kNamedEntities7 ++ (kNamedEntities8 ++ kNamedEntities9)))))))).head? = some (mkRef1 [75, 99, 121, 59] 1050) from rfl, Option.mem_def] at hy
    obtain rfl := Option.some.inj hx
    obtain rfl := Option.some.inj hy
    exact Or.inl (by decide)
  exact hs0


/-- The bucket filter for first byte 65 evaluates to its literal. -/
theorem entBucketEq65 : entNameBucket 65 = entBucket65 := rfl

/-- The names in bucket 65 are pairwise distinct. -/
theorem entBucketLit65 : nodupBL entBucket65 = true := rfl

/-- The bucket filter for first byte 66 evaluates to its literal. -/
theorem entBucketEq66 : entNameBucket 66 = entBucket66 := rfl

/-- The names in bucket 66 are pairwise distinct. -/
theorem entBucketLit66 : nodupBL entBucket66 = true := rfl

/-- The bucket filter for first byte 67 evaluates to its literal. -/
theorem entBucketEq67 : entNameBucket 67 = entBucket67 := rfl

/-- The names in bucket 67 are pairwise distinct. -/
theorem entBucketLit67 : nodupBL entBucket67 = true := rfl

/-- The bucket filter for first byte 68 evaluates to its literal. -/
theorem entBucketEq68 : entNameBucket 68 = entBucket68 := rfl

/-- The names in bucket 68 are pairwise distinct. -/
theorem entBucketLit68 : nodupBL entBucket68 = true := rfl

/-- The bucket filter for first byte 69 evaluates to its literal. -/
theorem entBucketEq69 : entNameBucket 69 = entBucket69 := rfl

/-- The names in bucket 69 are pairwise distinct. -/
theorem entBucketLit69 : nodupBL entBucket69 = true := rfl

/-- The bucket filter for first byte 70 evaluates to its literal. -/
theorem entBucketEq70 : entNameBucket 70 = entBucket70 := rfl

/-- The names in bucket 70 are pairwise distinct. -/
theorem entBucketLit70 : nodupBL entBucket70 = true := rfl

/-- The bucket filter for first byte 71 evaluates to its literal. -/
theorem entBucketEq71 : entNameBucket 71 = entBucket71 := rfl

/-- The names in bucket 71 are pairwise distinct. -/
theorem entBucketLit71 : nodupBL entBucket71 = true := rfl

/-- The bucket filter for first byte 72 evaluates to its literal. -/
theorem entBucketEq72 : entNameBucket 72 = entBucket72 := rfl

/-- The names in bucket 72 are pairwise distinct. -/
theorem entBucketLit72 : nodupBL entBucket72 = true := rfl

/-- The bucket filter for first byte 73 evaluates to its literal. -/
theorem entBucketEq73 : entNameBucket 73 = entBucket73 := rfl

/-- The names in bucket 73 are pairwise distinct. -/
theorem entBucketLit73 : nodupBL entBucket73 = true := rfl

/-- The bucket filter for first byte 74 evaluates to its literal. -/
theorem entBucketEq74 : entNameBucket 74 = entBucket74 := rfl

/-- The names in bucket 74 are pairwise distinct. -/
theorem entBucketLit74 : nodupBL entBucket74 = true := rfl

/-- The bucket filter for first byte 75 evaluates to its literal. -/
theorem entBucketEq75 : entNameBucket 75 = entBucket75 := rfl

/-- The names in bucket 75 are pairwise distinct. -/
theorem entBucketLit75 : nodupBL entBucket75 = true := rfl

/-- The bucket filter for first byte 76 evaluates to its literal. -/
theorem entBucketEq76 : entNameBucket 76 = entBucket76 := rfl

/-- The names in bucket 76 are pairwise distinct. -/
theorem entBucketLit76 : nodupBL entBucket76 = true := rfl

/-- The bucket filter for first byte 77 evaluates to its literal. -/
theorem entBucketEq77 : entNameBucket 77 = entBucket77 := rfl

/-- The names in bucket 77 are pairwise distinct. -/
theorem entBucketLit77 : nodupBL entBucket77 = true := rfl

/-- The bucket filter for first byte 78 evaluates to its literal. -/
theorem entBucketEq78 : entNameBucket 78 = entBucket78 := rfl

/-- The names in bucket 78 are pairwise distinct. -/
theorem entBucketLit78 : nodupBL entBucket78 = true := rfl

/-- The bucket filter for first byte 79 evaluates to its literal. -/
theorem entBucketEq79 : entNameBucket 79 = entBucket79 := rfl

/-- The names in bucket 79 are pairwise distinct. -/
theorem entBucketLit79 : nodupBL entBucket79 = true := rfl

/-- The bucket filter for first byte 80 evaluates to its literal. -/
theorem entBucketEq80 : entNameBucket 80 = entBucket80 := rfl

/-- The names in bucket 80 are pairwise distinct. -/
theorem entBucketLit80 : nodupBL entBucket80 = true := rfl

/-- The bucket filter for first byte 81 evaluates to its literal. -/
theorem entBucketEq81 : entNameBucket 81 = entBucket81 := rfl

/-- The names in bucket 81 are pairwise distinct. -/
theorem entBucketLit81 : nodupBL entBucket81 = true := rfl

/-- The bucket filter for first byte 82 evaluates to its literal. -/
theorem entBucketEq82 : entNameBucket 82 = entBucket82 := rfl

/-- The names in bucket 82 are pairwise distinct. -/
theorem entBucketLit82 : nodupBL entBucket82 = true := rfl

/-- The bucket filter for first byte 83 evaluates to its literal. -/
theorem entBucketEq83 : entNameBucket 83 = entBucket83 := rfl

/-- The names in bucket 83 are pairwise distinct. -/
theorem entBucketLit83 : nodupBL entBucket83 = true := rfl

/-- The bucket filter for first byte 84 evaluates to its literal. -/
theorem entBucketEq84 : entNameBucket 84 = entBucket84 := rfl

/-- The names in bucket 84 are pairwise distinct. -/
theorem entBucketLit84 : nodupBL entBucket84 = true := rfl

/-- The bucket filter for first byte 85 evaluates to its literal. -/
theorem entBucketEq85 : entNameBucket 85 = entBucket85 := rfl

/-- The names in bucket 85 are pairwise distinct. -/
theorem entBucketLit85 : nodupBL entBucket85 = true := rfl

/-- The bucket filter for first byte 86 evaluates to its literal. -/
theorem entBucketEq86 : entNameBucket 86 = entBucket86 := rfl

/-- The names in bucket 86 are pairwise distinct. -/
theorem entBucketLit86 : nodupBL entBucket86 = true := rfl

/-- The bucket filter for first byte 87 evaluates to its literal. -/
theorem entBucketEq87 : entNameBucket 87 = entBucket87 := rfl

/-- The names in bucket 87 are pairwise distinct. -/
theorem entBucketLit87 : nodupBL entBucket87 = true := rfl

/-- The bucket filter for first byte 88 evaluates to its literal. -/
theorem entBucketEq88 : entNameBucket 88 = entBucket88 := rfl

/-- The names in bucket 88 are pairwise distinct. -/
theorem entBucketLit88 : nodupBL entBucket88 = true := rfl

/-- The bucket filter for first byte 89 evaluates to its literal. -/
theorem entBucketEq89 : entNameBucket 89 = entBucket89 := rfl

/-- The names in bucket 89 are pairwise distinct. -/
theorem entBucketLit89 : nodupBL entBucket89 = true := rfl

/-- The bucket filter for first byte 90 evaluates to its literal. -/
theorem entBucketEq90 : entNameBucket 90 = entBucket90 := rfl

/-- The names in bucket 90 are pairwise distinct. -/
theorem entBucketLit90 : nodupBL entBucket90 = true := rfl

/-- The bucket filter for first byte 97 evaluates to its literal. -/
theorem entBucketEq97 : entNameBucket 97 = entBucket97 := rfl

/-- The names in bucket 97 are pairwise distinct. -/
theorem entBucketLit97 : nodupBL entBucket97 = true := rfl

/-- The bucket filter for first byte 98 evaluates to its literal. -/
theorem entBucketEq98 : entNameBucket 98 = entBucket98 := rfl

/-- The names in bucket 98 are pairwise distinct. -/
theorem entBucketLit98 : nodupBL entBucket98 = true := rfl

/-- The bucket filter for first byte 99 evaluates to its literal. -/
theorem entBucketEq99 : entNameBucket 99 = entBucket99 := rfl

/-- The names in bucket 99 are pairwise distinct. -/
theorem entBucketLit99 : nodupBL entBucket99 = true := rfl

/-- The bucket filter for first byte 100 evaluates to its literal. -/
theorem entBucketEq100 : entNameBucket 100 = entBucket100 := rfl

/-- The names in bucket 100 are pairwise distinct. -/
theorem entBucketLit100 : nodupBL entBucket100 = true := rfl

/-- The bucket filter for first byte 101 evaluates to its literal. -/
theorem entBucketEq101 : entNameBucket 101 = entBucket101 := rfl

/-- The names in bucket 101 are pairwise distinct. -/
theorem entBucketLit101 : nodupBL entBucket101 = true := rfl

/-- The bucket filter for first byte 102 evaluates to its literal. -/
theorem entBucketEq102 : entNameBucket 102 = entBucket102 := rfl

/-- The names in bucket 102 are pairwise distinct. -/
theorem entBucketLit102 : nodupBL entBucket102 = true := rfl

/-- The bucket filter for first byte 103 evaluates to its literal. -/
theorem entBucketEq103 : entNameBucket 103 = entBucket103 := rfl

/-- The names in bucket 103 are pairwise distinct. -/
theorem entBucketLit103 : nodupBL entBucket103 = true := rfl

/-- The bucket filter for first byte 104 evaluates to its literal. -/
theorem entBucketEq104 : entNameBucket 104 = entBucket104 := rfl

/-- The names in bucket 104 are pairwise distinct. -/
theorem entBucketLit104 : nodupBL entBucket104 = true := rfl

/-- The bucket filter for first byte 105 evaluates to its literal. -/
theorem entBucketEq105 : entNameBucket 105 = entBucket105 := rfl

/-- The names in bucket 105 are pairwise distinct. -/
theorem entBucketLit105 : nodupBL entBucket105 = true := rfl

/-- The bucket filter for first byte 106 evaluates to its literal. -/
theorem entBucketEq106 : entNameBucket 106 = entBucket106 := rfl

/-- The names in bucket 106 are pairwise distinct. -/
theorem entBucketLit106 : nodupBL entBucket106 = true := rfl

/-- The bucket filter for first byte 107 evaluates to its literal. -/
theorem entBucketEq107 : entNameBucket 107 = entBucket107 := rfl

/-- The names in bucket 107 are pairwise distinct. -/
theorem entBucketLit107 : nodupBL entBucket107 = true := rfl

/-- The bucket filter for first byte 108 evaluates to its literal. -/
theorem entBucketEq108 : entNameBucket 108 = entBucket108 := rfl

/-- The names in bucket 108 are pairwise distinct. -/
theorem entBucketLit108 : nodupBL entBucket108 = true := rfl

/-- The bucket filter for first byte 109 evaluates to its literal. -/
theorem entBucketEq109 : entNameBucket 109 = entBucket109 := rfl

/-- The names in bucket 109 are pairwise distinct. -/
theorem entBucketLit109 : nodupBL entBucket109 = true := rfl

/-- The bucket filter for first byte 110 evaluates to its literal. -/
theorem entBucketEq110 : entNameBucket 110 = entBucket110 := rfl

/-- The names in bucket 110 are pairwise distinct. -/
theorem entBucketLit110 : nodupBL entBucket110 = true := rfl

/-- The bucket filter for first byte 111 evaluates to its literal. -/
theorem entBucketEq111 : entNameBucket 111 = entBucket111 := rfl

/-- The names in bucket 111 are pairwise distinct. -/
theorem entBucketLit111 : nodupBL entBucket111 = true := rfl

/-- The bucket filter for first byte 112 evaluates to its literal. -/
theorem entBucketEq112 : entNameBucket 112 = entBucket112 := rfl

/-- The names in bucket 112 are pairwise distinct. -/
theorem entBucketLit112 : nodupBL entBucket112 = true := rfl

/-- The bucket filter for first byte 113 evaluates to its literal. -/
theorem entBucketEq113 : entNameBucket 113 = entBucket113 := rfl

/-- The names in bucket 113 are pairwise distinct. -/
theorem entBucketLit113 : nodupBL entBucket113 = true := rfl

/-- The bucket filter for first byte 114 evaluates to its literal. -/
theorem entBucketEq114 : entNameBucket 114 = entBucket114 := rfl

/-- The names in bucket 114 are pairwise distinct. -/
theorem entBucketLit114 : nodupBL entBucket114 = true := rfl

/-- The bucket filter for first byte 115 evaluates to its literal. -/
theorem entBucketEq115 : entNameBucket 115 = entBucket115 := rfl

/-- The names in bucket 115 are pairwise distinct. -/
theorem entBucketLit115 : nodupBL entBucket115 = true := rfl

/-- The bucket filter for first byte 116 evaluates to its literal. -/
theorem entBucketEq116 : entNameBucket 116 = entBucket116 := rfl

/-- The names in bucket 116 are pairwise distinct. -/
theorem entBucketLit116 : nodupBL entBucket116 = true := rfl

/-- The bucket filter for first byte 117 evaluates to its literal. -/
theorem entBucketEq117 : entNameBucket 117 = entBucket117 := rfl

/-- The names in bucket 117 are pairwise distinct. -/
theorem entBucketLit117 : nodupBL entBucket117 = true := rfl

/-- The bucket filter for first byte 118 evaluates to its literal. -/
theorem entBucketEq118 : entNameBucket 118 = entBucket118 := rfl

/-- The names in bucket 118 are pairwise distinct. -/
theorem entBucketLit118 : nodupBL entBucket118 = true := rfl

/-- The bucket filter for first byte 119 evaluates to its literal. -/
theorem entBucketEq119 : entNameBucket 119 = entBucket119 := rfl

/-- The names in bucket 119 are pairwise distinct. -/
theorem entBucketLit119 : nodupBL entBucket119 = true := rfl

/-- The bucket filter for first byte 120 evaluates to its literal. -/
theorem entBucketEq120 : entNameBucket 120 = entBucket120 := rfl

/-- The names in bucket 120 are pairwise distinct. -/
theorem entBucketLit120 : nodupBL entBucket120 = true := rfl

/-- The bucket filter for first byte 121 evaluates to its literal. -/
theorem entBucketEq121 : entNameBucket 121 = entBucket121 := rfl

/-- The names in bucket 121 are pairwise distinct. -/
theorem entBucketLit121 : nodupBL entBucket121 = true := rfl

/-- The bucket filter for first byte 122 evaluates to its literal. -/
theorem entBucketEq122 : entNameBucket 122 = entBucket122 := rfl

/-- The names in bucket 122 are pairwise distinct. -/
theorem entBucketLit122 : nodupBL entBucket122 = true := rfl

/-- Every first-byte bucket of entity names is pairwise distinct. -/
theorem entBucketNodupAll : ∀ b ∈ entFirstBytes, nodupBL (entNameBucket b) = true := by
  intro b hb
  have hb2 : b ∈ ([65, 66, 67, 68, 69, 70, 71, 72, 73, 74, 75, 76, 77, 78, 79, 80, 81, 82, 83, 84, 85, 86, 87, 88, 89, 90, 97, 98, 99, 100, 101, 102, 103, 104, 105, 106, 107, 108, 109, 110, 111, 112, 113, 114, 115, 116, 117, 118, 119, 120, 121, 122] : List Nat) := by
    rw [show entFirstBytes = [65, 66, 67, 68, 69, 70, 71, 72, 73, 74, 75, 76, 77, 78, 79, 80, 81, 82, 83, 84, 85, 86, 87, 88, 89, 90, 97, 98, 99, 100, 101, 102, 103, 104, 105, 106, 107, 108, 109, 110, 111, 112, 113, 114, 115, 116, 117, 118, 119, 120, 121, 122] from rfl] at hb
    exact hb
  fin_cases hb2
  · exact (congrArg nodupBL entBucketEq65).trans entBucketLit65
  · exact (congrArg nodupBL entBucketEq66).trans entBucketLit66
  · exact (congrArg nodupBL entBucketEq67).trans entBucketLit67
  · exact (congrArg nodupBL entBucketEq68).trans entBucketLit68
  · exact (congrArg nodupBL entBucketEq69).trans entBucketLit69
  · exact (congrArg nodupBL entBucketEq70).trans entBucketLit70
  · exact (congrArg nodupBL entBucketEq71).trans entBucketLit71
  · exact (congrArg nodupBL entBucketEq72).trans entBucketLit72
  · exact (congrArg nodupBL entBucketEq73).trans entBucketLit73
  · exact (congrArg nodupBL entBucketEq74).trans entBucketLit74
  · exact (congrArg nodupBL entBucketEq75).trans entBucketLit75
  · exact (congrArg nodupBL entBucketEq76).trans entBucketLit76
  · exact (congrArg nodupBL entBucketEq77).trans entBucketLit77
  · exact (congrArg nodupBL entBucketEq78).trans entBucketLit78
  · exact (congrArg nodupBL entBucketEq79).trans entBucketLit79
  · exact (congrArg nodupBL entBucketEq80).trans entBucketLit80
  · exact (congrArg nodupBL entBucketEq81).trans entBucketLit81
  · exact (congrArg nodupBL entBucketEq82).trans entBucketLit82
  · exact (congrArg nodupBL entBucketEq83).trans entBucketLit83
  · exact (congrArg nodupBL entBucketEq84).trans entBucketLit84
  · exact (congrArg nodupBL entBucketEq85).trans entBucketLit85
  · exact (congrArg nodupBL entBucketEq86).trans entBucketLit86
  · exact (congrArg nodupBL entBucketEq87).trans entBucketLit87
  · exact (congrArg nodupBL entBucketEq88).trans entBucketLit88
  · exact (congrArg nodupBL entBucketEq89).trans entBucketLit89
  · exact (congrArg nodupBL entBucketEq90).trans entBucketLit90
  · exact (congrArg nodupBL entBucketEq97).trans entBucketLit97
  · exact (congrArg nodupBL entBucketEq98).trans entBucketLit98
  · exact (congrArg nodupBL entBucketEq99).trans entBucketLit99
  · exact (congrArg nodupBL entBucketEq100).trans entBucketLit100
  · exact (congrArg nodupBL entBucketEq101).trans entBucketLit101
  · exact (congrArg nodupBL entBucketEq102).trans entBucketLit102
  · exact (congrArg nodupBL entBucketEq103).trans entBucketLit103
  · exact (congrArg nodupBL entBucketEq104).trans entBucketLit104
  · exact (congrArg nodupBL entBucketEq105).trans entBucketLit105
  · exact (congrArg nodupBL entBucketEq106).trans entBucketLit106
  · exact (congrArg nodupBL entBucketEq107).trans entBucketLit107
  · exact (congrArg nodupBL entBucketEq108).trans entBucketLit108
  · exact (congrArg nodupBL entBucketEq109).trans entBucketLit109
  · exact (congrArg nodupBL entBucketEq110).trans entBucketLit110
  · exact (congrArg nodupBL entBucketEq111).trans entBucketLit111
  · exact (congrArg nodupBL entBucketEq112).trans entBucketLit112
  · exact (congrArg nodupBL entBucketEq113).trans entBucketLit113
  · exact (congrArg nodupBL entBucketEq114).trans entBucketLit114
  · exact (congrArg nodupBL entBucketEq115).trans entBucketLit115
  · exact (congrArg nodupBL entBucketEq116).trans entBucketLit116
  · exact (congrArg nodupBL entBucketEq117).trans entBucketLit117
  · exact (congrArg nodupBL entBucketEq118).trans entBucketLit118
  · exact (congrArg nodupBL entBucketEq119).trans entBucketLit119
  · exact (congrArg nodupBL entBucketEq120).trans entBucketLit120
  · exact (congrArg nodupBL entBucketEq121).trans entBucketLit121
  · exact (congrArg nodupBL entBucketEq122).trans entBucketLit122

/-- Every chunk's names start with an ASCII letter. -/
theorem chunkCoverage_all :
    chunkCoverageOk kNamedEntities0 = true ∧ chunkCoverageOk kNamedEntities1 = true ∧
    chunkCoverageOk kNamedEntities2 = true ∧ chunkCoverageOk kNamedEntities3 = true ∧
    chunkCoverageOk kNamedEntities4 = true ∧ chunkCoverageOk kNamedEntities5 = true ∧
    chunkCoverageOk kNamedEntities6 = true ∧ chunkCoverageOk kNamedEntities7 = true ∧
    chunkCoverageOk kNamedEntities8 = true ∧ chunkCoverageOk kNamedEntities9 = true := by
  refine ⟨rfl, rfl, rfl, rfl, rfl, rfl, rfl, rfl, rfl, rfl⟩

/-- Membership in a covered chunk puts the name's first byte among the
letters. -/
theorem chunkCoverage_mem {l : List NamedCharRef} (hl : chunkCoverageOk l = true)
    {e : NamedCharRef} (he : e ∈ l) : e.name.headD 0 ∈ entFirstBytes := by
  have h := List.all_eq_true.mp hl e he
  rw [List.contains_eq_any_beq, List.any_eq_true] at h
  obtain ⟨b, hb, hbe⟩ := h
  rw [beq_iff_eq] at hbe
  rw [hbe]
  exact hb

/-- The entity names are pairwise distinct. -/
theorem entNames_nodup : (kNamedEntities.map (fun e => e.name)).Nodup := by
  refine nodup_of_bucket_nodup (fun n => n.headD 0) _ entFirstBytes ?_ ?_
  · intro n hn
    obtain ⟨e, he, rfl⟩ := List.mem_map.mp hn
    obtain ⟨hcv0, hcv1, hcv2, hcv3, hcv4, hcv5, hcv6, hcv7, hcv8, hcv9⟩ :=
      chunkCoverage_all
    rw [kNamedEntities] at he
    rcases List.mem_append.mp he with h | he
    · exact chunkCoverage_mem hcv0 h
    rcases List.mem_append.mp he with h | he
    · exact chunkCoverage_mem hcv1 h
    rcases List.mem_append.mp he with h | he
    · exact chunkCoverage_mem hcv2 h
    rcases List.mem_append.mp he with h | he
    · exact chunkCoverage_mem hcv3 h
    rcases List.mem_append.mp he with h | he
    · exact chunkCoverage_mem hcv4 h
    rcases List.mem_append.mp he with h | he
    · exact chunkCoverage_mem hcv5 h
    rcases List.mem_append.mp he with h | he
    · exact chunkCoverage_mem hcv6 h
    rcases List.mem_append.mp he with h | he
    · exact chunkCoverage_mem hcv7 h
    rcases List.mem_append.mp he with h | he
    · exact chunkCoverage_mem hcv8 h
    exact chunkCoverage_mem hcv9 he
  · intro b hb
    have hbuck := entBucketNodupAll b hb
    have hble : (kNamedEntities.map (fun e => e.name)).filter
        (fun n => n.headD 0 == b) = entNameBucket b := by
      rw [kNamedEntities, entNameBucket]
      simp only [List.map_append, List.filter_append]
    rw [hble]
    exact nodupBL_sound _ hbuck

/-- C8 (amended): the named-entity table is sorted except that each
semicolon-less legacy name is placed after the names extending it: every
consecutive pair of entries is either strictly increasing in byte-wise
lexicographic order or has the later name a proper prefix of the earlier
one (so the table is NOT strictly sorted: "AMP;" precedes "AMP").  And
every entry is resolvable by a longest-match lookup of its own name,
which returns exactly that entry and hence its one or two codepoints. -/
theorem kNamedEntities_order_and_resolvable :
    List.Chain' entOrdRel kNamedEntities ∧
    ∀ e ∈ kNamedEntities, matchNamedRef e.name = some e := by
  refine ⟨kNamedEntities_chain, ?_⟩
  intro e he
  have hpfx : e.name.isPrefixOf e.name = true :=
    List.isPrefixOf_iff_prefix.mpr (List.prefix_refl _)
  obtain ⟨r, hr, hlen⟩ := foldBest_ge e.name kNamedEntities Option.none e he hpfx
  rcases foldBest_mem e.name kNamedEntities Option.none r hr with ⟨hrmem, hrpfx⟩ | habs
  · have hrpfx2 : r.name <+: e.name := List.isPrefixOf_iff_prefix.mp hrpfx
    have hnameeq : r.name = e.name :=
      hrpfx2.eq_of_length (Nat.le_antisymm hrpfx2.length_le hlen)
    have hre : r = e := List.inj_on_of_nodup_map entNames_nodup hrmem he hnameeq
    rw [matchNamedRef, hr, hre]
  · cases habs

/-- C8 witness: resolving the first table entry ("AElig", U+00C6) by its
own name returns that entry. -/
theorem kNamedEntities_resolvable_witness :
    matchNamedRef (mkRef1 [65, 69, 108, 105, 103] 0xc6).name =
      some (mkRef1 [65, 69, 108, 105, 103] 0xc6) :=
  kNamedEntities_order_and_resolvable.2 _
    (by rw [kNamedEntities]; exact List.mem_append_left _ (List.mem_cons_self _ _))

/-- C8 counterexample: the table is not strictly sorted by entry name:
the consecutive entries at indices 1 and 2 are "AMP;" and then "AMP",
and "AMP;" is lexicographically greater than its prefix "AMP". -/
theorem kNamedEntities_not_strictly_sorted :
    (kNamedEntities.getD 1 (mkRef1 [] 0)).name = [65, 77, 80, 59] ∧
    (kNamedEntities.getD 2 (mkRef1 [] 0)).name = [65, 77, 80] ∧
    lexLt [65, 77, 80, 59] [65, 77, 80] = false := by
  refine ⟨rfl, rfl, by decide⟩

/-! ## Lemmas for the UTF-8 encode/decode round trip (C10) -/

/-- First component of a decoder step. -/
theorem decode_fst (state codep byte : Nat) :
    (decode state codep byte).1 =
      utf8d.getD (256 + state + utf8d.getD byte 0) 0 := rfl

/-- Second component of a decoder step from the ACCEPT state (0). -/
theorem decode_snd_accept (codep byte : Nat) :
    (decode 0 codep byte).2 =
      (0xff >>> utf8d.getD byte 0) &&& byte := rfl

/-- Second component of a decoder step from a non-ACCEPT state. -/
theorem decode_snd_cont (state codep byte : Nat) (h : ¬ state = UTF8_ACCEPT) :
    (decode state codep byte).2 = (byte &&& 0x3f) ||| (codep <<< 6) := by
  simp only [decode, if_pos h]

/-- Unfolding of the scanning loop on a cons cell. -/
theorem readLoop_cons (b : Nat) (rest : List Nat) (state codep idx : Nat) :
    readLoop (b :: rest) state codep idx =
      if (decode state codep b).1 = UTF8_ACCEPT then
        .accepted (decode state codep b).2 (idx + 1)
      else if (decode state codep b).1 = UTF8_REJECT then
        .rejected (idx + (if idx = 0 then 1 else 0))
      else readLoop rest (decode state codep b).1 (decode state codep b).2 (idx + 1) := by
  rw [readLoop]

/-- Masking with 0x3f is reduction mod 64. -/
theorem and63_eq_mod (x : Nat) : x &&& 63 = x % 64 := by
  have h := Nat.and_pow_two_sub_one_eq_mod x 6
  norm_num at h
  exact h

/-- Masking with 0x3f on the left, as the encoder writes it. -/
theorem and63_left_eq_mod (x : Nat) : 63 &&& x = x % 64 := by
  rw [Nat.and_comm]
  exact and63_eq_mod x

/-- Disjoint-bit composition used by the decoder's continuation step. -/
theorem or_low_shift (m p : Nat) (hm : m < 64) :
    m ||| (p <<< 6) = 64 * p + m := by
  rw [Nat.shiftLeft_eq, Nat.lor_comm, Nat.mul_comm p (2 ^ 6)]
  exact (Nat.mul_add_lt_is_or (by norm_num [hm]) p).symm

/-- Byte-class facts for ASCII bytes: class 0, one-step accept, and the
identity masking. -/
theorem utf8_ascii_step : ∀ x < 128,
    utf8d.getD (256 + 0 + utf8d.getD x 0) 0 = 0 ∧
    (0xff >>> utf8d.getD x 0) &&& x = x := by decide

/-- Continuation prefixes: 0x80 | m for m < 64. -/
theorem or128 : ∀ m < 64, 128 ||| m = 128 + m := by decide

/-- Two-byte lead prefixes: 0xc0 | z for z < 32. -/
theorem or192 : ∀ z < 32, 192 ||| z = 192 + z := by decide

/-- Three-byte lead prefixes: 0xe0 | z for z < 16. -/
theorem or224 : ∀ z < 16, 224 ||| z = 224 + z := by decide

/-- Four-byte lead prefixes: 0xf0 | z for z < 5. -/
theorem or240 : ∀ z < 5, 240 ||| z = 240 + z := by decide

/-- Low six bits of a continuation byte. -/
theorem cont_and63 : ∀ m < 64, (128 + m) &&& 63 = m := by decide

/-- Lead byte of a two-byte sequence: first decoder step (state and
codepoint), for the non-overlong range. -/
theorem lead2_step : ∀ z < 32, 2 ≤ z →
    utf8d.getD (256 + 0 + utf8d.getD (192 + z) 0) 0 = 24 ∧
    (0xff >>> utf8d.getD (192 + z) 0) &&& (192 + z) = z := by decide

/-- Lead byte of a three-byte sequence: first decoder step. -/
theorem lead3_step : ∀ z < 16,
    utf8d.getD (256 + 0 + utf8d.getD (224 + z) 0) 0 =
      (if z = 0 then 48 else if z = 13 then 60 else 36) ∧
    (0xff >>> utf8d.getD (224 + z) 0) &&& (224 + z) = z := by decide

/-- Lead byte of a four-byte sequence: first decoder step. -/
theorem lead4_step : ∀ z < 5,
    utf8d.getD (256 + 0 + utf8d.getD (240 + z) 0) 0 =
      (if z = 0 then 72 else if z ≤ 3 then 84 else 96) ∧
    (0xff >>> utf8d.getD (240 + z) 0) &&& (240 + z) = z := by decide

/-- Transitions out of state 24 on any continuation byte: accept. -/
theorem st24_cont : ∀ m < 64,
    utf8d.getD (256 + 24 + utf8d.getD (128 + m) 0) 0 = 0 := by decide

/-- Transitions out of state 36 on any continuation byte. -/
theorem st36_cont : ∀ m < 64,
    utf8d.getD (256 + 36 + utf8d.getD (128 + m) 0) 0 = 24 := by decide

/-- Transitions out of state 48 (after 0xE0) on the non-overlong
continuation range. -/
theorem st48_cont : ∀ m < 64, 32 ≤ m →
    utf8d.getD (256 + 48 + utf8d.getD (128 + m) 0) 0 = 24 := by decide

/-- Transitions out of state 60 (after 0xED) on the non-surrogate
continuation range. -/
theorem st60_cont : ∀ m < 32,
    utf8d.getD (256 + 60 + utf8d.getD (128 + m) 0) 0 = 24 := by decide

/-- Transitions out of state 72 (after 0xF0) on the non-overlong
continuation range. -/
theorem st72_cont : ∀ m < 64, 16 ≤ m →
    utf8d.getD (256 + 72 + utf8d.getD (128 + m) 0) 0 = 36 := by decide

/-- Transitions out of state 84 (after 0xF1-0xF3). -/
theorem st84_cont : ∀ m < 64,
    utf8d.getD (256 + 84 + utf8d.getD (128 + m) 0) 0 = 36 := by decide

/-- Transitions out of state 96 (after 0xF4) within the plane-16 range. -/
theorem st96_cont : ∀ m < 16,
    utf8d.getD (256 + 96 + utf8d.getD (128 + m) 0) 0 = 36 := by decide
theorem st3mid : ∀ z < 16, ∀ m < 64, (z = 0 → 32 ≤ m) → (z = 13 → m < 32) →
    utf8d.getD (256 + (if z = 0 then 48 else if z = 13 then 60 else 36) +
      utf8d.getD (128 + m) 0) 0 = 24 := by decide

theorem st4mid : ∀ z < 5, ∀ m < 64, (z = 0 → 16 ≤ m) → (z = 4 → m < 16) →
    utf8d.getD (256 + (if z = 0 then 72 else if z ≤ 3 then 84 else 96) +
      utf8d.getD (128 + m) 0) 0 = 36 := by decide

theorem rt_case1 (c : Nat) (h1 : c ≤ 0x7f) :
    append_codepoint_bytes c = [c] ∧
    readLoop (append_codepoint_bytes c) UTF8_ACCEPT 0 0 = .accepted c 1 := by
  have hbytes : append_codepoint_bytes c = [c] := by
    simp [append_codepoint_bytes, if_pos h1]
  refine ⟨hbytes, ?_⟩
  obtain ⟨hst, hcp⟩ := utf8_ascii_step c (by omega)
  rw [hbytes, readLoop_cons]
  simp only [UTF8_ACCEPT, UTF8_REJECT, decode_fst, decode_snd_accept]
  rw [hst, hcp]
  norm_num

theorem rt_case2 (c : Nat) (h1 : ¬ c ≤ 0x7f) (h2 : c ≤ 0x7ff) :
    append_codepoint_bytes c = [192 + c / 64, 128 + c % 64] ∧
    readLoop (append_codepoint_bytes c) UTF8_ACCEPT 0 0 = .accepted c 2 := by
  have hz : c >>> 6 = c / 64 := by rw [Nat.shiftRight_eq_div_pow]
  have hbytes : append_codepoint_bytes c = [192 + c / 64, 128 + c % 64] := by
    simp only [append_codepoint_bytes, if_neg h1, if_pos h2]
    norm_num [hz, and63_left_eq_mod, or192 _ (by omega : c / 64 < 32),
      or128 _ (Nat.mod_lt _ (by norm_num)), List.range_succ, Nat.shiftRight_zero]
  refine ⟨hbytes, ?_⟩
  obtain ⟨hst1, hcp1⟩ := lead2_step (c / 64) (by omega) (by omega)
  rw [hbytes, readLoop_cons]
  simp only [UTF8_ACCEPT, UTF8_REJECT, decode_fst, decode_snd_accept]
  rw [hst1, hcp1]
  norm_num
  rw [readLoop_cons]
  simp only [decode_fst]
  rw [st24_cont (c % 64) (Nat.mod_lt _ (by norm_num))]
  rw [decode_snd_cont _ _ _ (by norm_num [UTF8_ACCEPT])]
  rw [cont_and63 (c % 64) (Nat.mod_lt _ (by norm_num))]
  rw [or_low_shift _ _ (Nat.mod_lt _ (by norm_num))]
  norm_num [UTF8_ACCEPT, UTF8_REJECT]
  omega

theorem rt_case3 (c : Nat) (h1 : ¬ c ≤ 0x7ff) (h2 : c ≤ 0xffff)
    (h3 : ¬ (0xd800 ≤ c ∧ c ≤ 0xdfff)) :
    append_codepoint_bytes c = [224 + c / 4096, 128 + c / 64 % 64, 128 + c % 64] ∧
    readLoop (append_codepoint_bytes c) UTF8_ACCEPT 0 0 = .accepted c 3 := by
  have h1' : ¬ c ≤ 0x7f := by omega
  have hz12 : c >>> 12 = c / 4096 := by rw [Nat.shiftRight_eq_div_pow]
  have hz6 : c >>> 6 = c / 64 := by rw [Nat.shiftRight_eq_div_pow]
  have hbytes : append_codepoint_bytes c =
      [224 + c / 4096, 128 + c / 64 % 64, 128 + c % 64] := by
    simp only [append_codepoint_bytes, if_neg h1', if_neg h1, if_pos h2]
    norm_num [hz12, hz6, and63_left_eq_mod, or224 _ (by omega : c / 4096 < 16),
      or128 _ (Nat.mod_lt (c / 64) (by norm_num)),
      or128 _ (Nat.mod_lt c (by norm_num)),
      List.range_succ, Nat.shiftRight_zero]
  refine ⟨hbytes, ?_⟩
  obtain ⟨hst1, hcp1⟩ := lead3_step (c / 4096) (by omega)
  rw [hbytes, readLoop_cons]
  simp only [UTF8_ACCEPT, UTF8_REJECT, decode_fst, decode_snd_accept]
  rw [hst1, hcp1]
  rw [if_neg (by split_ifs <;> norm_num), if_neg (by split_ifs <;> norm_num)]
  rw [readLoop_cons]
  simp only [decode_fst]
  rw [st3mid (c / 4096) (by omega) (c / 64 % 64) (Nat.mod_lt _ (by norm_num))
    (fun h0 => by omega) (fun h13 => by omega)]
  rw [decode_snd_cont _ _ _ (by split_ifs <;> norm_num [UTF8_ACCEPT])]
  rw [cont_and63 (c / 64 % 64) (Nat.mod_lt _ (by norm_num))]
  rw [or_low_shift _ _ (Nat.mod_lt _ (by norm_num))]
  norm_num [UTF8_ACCEPT, UTF8_REJECT]
  rw [readLoop_cons]
  simp only [decode_fst]
  rw [st24_cont (c % 64) (Nat.mod_lt _ (by norm_num))]
  rw [decode_snd_cont _ _ _ (by norm_num [UTF8_ACCEPT])]
  rw [cont_and63 (c % 64) (Nat.mod_lt _ (by norm_num))]
  rw [or_low_shift _ _ (Nat.mod_lt _ (by norm_num))]
  norm_num [UTF8_ACCEPT, UTF8_REJECT]
  omega

theorem rt_case4 (c : Nat) (h1 : ¬ c ≤ 0xffff) (h2 : c ≤ 0x10ffff) :
    append_codepoint_bytes c =
      [240 + c / 262144, 128 + c / 4096 % 64, 128 + c / 64 % 64, 128 + c % 64] ∧
    readLoop (append_codepoint_bytes c) UTF8_ACCEPT 0 0 = .accepted c 4 := by
  have h1' : ¬ c ≤ 0x7f := by omega
  have h1'' : ¬ c ≤ 0x7ff := by omega
  have hz18 : c >>> 18 = c / 262144 := by rw [Nat.shiftRight_eq_div_pow]
  have hz12 : c >>> 12 = c / 4096 := by rw [Nat.shiftRight_eq_div_pow]
  have hz6 : c >>> 6 = c / 64 := by rw [Nat.shiftRight_eq_div_pow]
  have hbytes : append_codepoint_bytes c =
      [240 + c / 262144, 128 + c / 4096 % 64, 128 + c / 64 % 64, 128 + c % 64] := by
    simp only [append_codepoint_bytes, if_neg h1', if_neg h1'', if_neg h1]
    norm_num [hz18, hz12, hz6, and63_left_eq_mod,
      or240 _ (by omega : c / 262144 < 5),
      or128 _ (Nat.mod_lt (c / 4096) (by norm_num)),
      or128 _ (Nat.mod_lt (c / 64) (by norm_num)),
      or128 _ (Nat.mod_lt c (by norm_num)),
      List.range_succ, Nat.shiftRight_zero]
  refine ⟨hbytes, ?_⟩
  obtain ⟨hst1, hcp1⟩ := lead4_step (c / 262144) (by omega)
  rw [hbytes, readLoop_cons]
  simp only [UTF8_ACCEPT, UTF8_REJECT, decode_fst, decode_snd_accept]
  rw [hst1, hcp1]
  rw [if_neg (by split_ifs <;> norm_num), if_neg (by split_ifs <;> norm_num)]
  rw [readLoop_cons]
  simp only [decode_fst]
  rw [st4mid (c / 262144) (by omega) (c / 4096 % 64) (Nat.mod_lt _ (by norm_num))
    (fun h0 => by omega) (fun h4 => by omega)]
  rw [decode_snd_cont _ _ _ (by split_ifs <;> norm_num [UTF8_ACCEPT])]
  rw [cont_and63 (c / 4096 % 64) (Nat.mod_lt _ (by norm_num))]
  rw [or_low_shift _ _ (Nat.mod_lt _ (by norm_num))]
  norm_num [UTF8_ACCEPT, UTF8_REJECT]
  rw [readLoop_cons]
  simp only [decode_fst]
  rw [st36_cont (c / 64 % 64) (Nat.mod_lt _ (by norm_num))]
  rw [decode_snd_cont _ _ _ (by norm_num [UTF8_ACCEPT])]
  rw [cont_and63 (c / 64 % 64) (Nat.mod_lt _ (by norm_num))]
  rw [or_low_shift _ _ (Nat.mod_lt _ (by norm_num))]
  norm_num [UTF8_ACCEPT, UTF8_REJECT]
  rw [readLoop_cons]
  simp only [decode_fst]
  rw [st24_cont (c % 64) (Nat.mod_lt _ (by norm_num))]
  rw [decode_snd_cont _ _ _ (by norm_num [UTF8_ACCEPT])]
  rw [cont_and63 (c % 64) (Nat.mod_lt _ (by norm_num))]
  rw [or_low_shift _ _ (Nat.mod_lt _ (by norm_num))]
  norm_num [UTF8_ACCEPT, UTF8_REJECT]
  omega
/-- C10: for every non-surrogate scalar value c ≤ 0x10FFFF,
`gumbo_string_buffer_append_codepoint` appends between one and four bytes
to the buffer, and running the UTF-8 DFA decoder loop on exactly those
bytes accepts, consumes all of them, and decodes back to c. -/
theorem append_codepoint_roundtrip (c : Nat) (buffer : List Nat)
    (hmax : c ≤ 0x10ffff) (hsur : ¬ (0xd800 ≤ c ∧ c ≤ 0xdfff)) :
    gumbo_string_buffer_append_codepoint c buffer =
      buffer ++ append_codepoint_bytes c ∧
    1 ≤ (append_codepoint_bytes c).length ∧
    (append_codepoint_bytes c).length ≤ 4 ∧
    readLoop (append_codepoint_bytes c) UTF8_ACCEPT 0 0 =
      .accepted c (append_codepoint_bytes c).length := by
  refine ⟨rfl, ?_⟩
  by_cases h1 : c ≤ 0x7f
  · obtain ⟨hb, hr⟩ := rt_case1 c h1
    rw [hb] at hr ⊢
    exact ⟨by norm_num, by norm_num, hr⟩
  · by_cases h2 : c ≤ 0x7ff
    · obtain ⟨hb, hr⟩ := rt_case2 c h1 h2
      rw [hb] at hr ⊢
      exact ⟨by norm_num, by norm_num, hr⟩
    · by_cases h3 : c ≤ 0xffff
      · obtain ⟨hb, hr⟩ := rt_case3 c h2 h3 hsur
        rw [hb] at hr ⊢
        exact ⟨by norm_num, by norm_num, hr⟩
      · obtain ⟨hb, hr⟩ := rt_case4 c h3 hmax
        rw [hb] at hr ⊢
        exact ⟨by norm_num, by norm_num, hr⟩

/-- Witness for the round trip at c = U+10348 with a nonempty buffer. -/
theorem append_codepoint_roundtrip_witness :
    0x10348 ≤ 0x10ffff ∧ ¬ (0xd800 ≤ 0x10348 ∧ 0x10348 ≤ 0xdfff) ∧
    (gumbo_string_buffer_append_codepoint 0x10348 [65] =
      [65] ++ append_codepoint_bytes 0x10348 ∧
    1 ≤ (append_codepoint_bytes 0x10348).length ∧
    (append_codepoint_bytes 0x10348).length ≤ 4 ∧
    readLoop (append_codepoint_bytes 0x10348) UTF8_ACCEPT 0 0 =
      .accepted 0x10348 (append_codepoint_bytes 0x10348).length) :=
  ⟨by norm_num, by decide,
    append_codepoint_roundtrip 0x10348 [65] (by norm_num) (by decide)⟩
